import Mathlib

/-!
# OutputProcessor: output variables and meters

Shallow embedding of parts of `src/EnergyPlus/OutputProcessor.cc`:

* `SetMinMax` and the meter update path (`UpdateMeterValues`, `UpdateMeters`,
  `ReportTSMeters` ... `ReportSMMeters`);
* what `UpdateDataandReport` does to one real output variable
  (sub-step record keeping, TimeStep block, Hour block, Day / Month / Environment blocks
  through `WriteRealVariableOutput`);
* the report-request resolver (`CheckReportVariable`, `BuildKeyVarList`, `AddBlankKeys`).

Real64 values are exact rationals. Fortran-style arrays indexed from 1 are functions on the
natural numbers together with their element count; growable index lists are lists.
-/

namespace OutputProcessor

/-! ## Module parameters (OutputProcessor.cc, lines 77-108) -/

def ReportEach : Int := -1
def ReportTimeStep : Int := 0
def ReportHourly : Int := 1
def ReportDaily : Int := 2
def ReportMonthly : Int := 3
def ReportSim : Int := 4

def MinSetValue : ℚ := 99999999999999
def MaxSetValue : ℚ := -99999999999999

def ZoneVar : Nat := 1
def HVACVar : Nat := 2

def AveragedVar : Nat := 1
def SummedVar : Nat := 2

def MeterType_Normal : Nat := 0
def MeterType_Custom : Nat := 1
def MeterType_CustomDec : Nat := 2
def MeterType_CustomDiff : Nat := 3

/-- Modelled from the spec: the value DataGlobals gives the reporting key of the zone
timestep, which UpdateDataandReport compares with ZoneVar. -/
def ZoneTSReporting : Nat := 1

/-- Modelled from the spec: the value DataGlobals gives the reporting key of the system
timestep, which UpdateDataandReport compares with HVACVar. -/
def HVACTSReporting : Nat := 2

/-! ## SetMinMax (lines 3207-3261) -/

/-- The four reference arguments of SetMinMax: a running maximum and minimum, each with its
date stamp. -/
structure MinMaxStore where
  CurMaxValue : ℚ
  CurMaxValDate : Int
  CurMinValue : ℚ
  CurMinValDate : Int
deriving DecidableEq

/-- SetMinMax: the candidate replaces the maximum when strictly greater and the minimum when
strictly smaller, taking the time stamp along. -/
def SetMinMax (TestValue : ℚ) (TimeStamp : Int) (s : MinMaxStore) : MinMaxStore :=
  let s1 : MinMaxStore :=
    if TestValue > s.CurMaxValue then
      { s with CurMaxValue := TestValue, CurMaxValDate := TimeStamp }
    else s
  if TestValue < s1.CurMinValue then
    { s1 with CurMinValue := TestValue, CurMinValDate := TimeStamp }
  else s1

/-- SetMinMax applied to a sequence of (value, time stamp) pairs, first pair first. -/
def SetMinMaxAll (xs : List (ℚ × Int)) (s : MinMaxStore) : MinMaxStore :=
  xs.foldl (fun acc p => SetMinMax p.1 p.2 acc) s

/-- The values 3, -1, 7, 7, 2 with time stamps 1 to 5. -/
def sampleReadings : List (ℚ × Int) := [(3, 1), (-1, 2), (7, 3), (7, 4), (2, 5)]

/-! ## Meters -/

/-- The fields of MeterType that the update and report routines read or write. The report
numbers, the names and the flags that only select the output file are left out. -/
structure MeterType where
  TypeOfMeter : Nat
  SourceMeter : Nat
  TSValue : ℚ
  CurTSValue : ℚ
  RptTS : Bool
  RptAccTS : Bool
  HRValue : ℚ
  HRMaxVal : ℚ
  HRMaxValDate : Int
  HRMinVal : ℚ
  HRMinValDate : Int
  RptHR : Bool
  RptAccHR : Bool
  DYValue : ℚ
  DYMaxVal : ℚ
  DYMaxValDate : Int
  DYMinVal : ℚ
  DYMinValDate : Int
  RptDY : Bool
  RptAccDY : Bool
  MNValue : ℚ
  MNMaxVal : ℚ
  MNMaxValDate : Int
  MNMinVal : ℚ
  MNMinValDate : Int
  RptMN : Bool
  RptAccMN : Bool
  SMValue : ℚ
  SMMaxVal : ℚ
  SMMaxValDate : Int
  SMMinVal : ℚ
  SMMinValDate : Int
  RptSM : Bool
  RptAccSM : Bool
  LastSMValue : ℚ
  LastSMMaxVal : ℚ
  LastSMMaxValDate : Int
  LastSMMinVal : ℚ
  LastSMMinValDate : Int
deriving DecidableEq

/-- The module variables NumEnergyMeters, EnergyMeters(1..NumEnergyMeters) and
MeterValue(1..NumEnergyMeters). -/
structure MeterState where
  NumEnergyMeters : Nat
  EnergyMeters : Nat → MeterType
  MeterValue : Nat → ℚ

/-- Body of the loops of UpdateMeterValues: MeterValue(Which) += TimeStepValue. -/
def addToMeterValue (TimeStepValue : ℚ) (MeterValue : Nat → ℚ) (Which : Nat) : Nat → ℚ :=
  Function.update MeterValue Which (MeterValue Which + TimeStepValue)

/-- UpdateMeterValues (lines 3071-3138): the variable's timestep value is added to the
MeterValue entry of every meter in OnMeters and, when the optional arguments are present, of
every meter in OnCustomMeters. -/
def UpdateMeterValues (TimeStepValue : ℚ) (OnMeters : List Nat)
    (OnCustomMeters : Option (List Nat)) (MeterValue : Nat → ℚ) : Nat → ℚ :=
  let mv := OnMeters.foldl (addToMeterValue TimeStepValue) MeterValue
  match OnCustomMeters with
  | none => mv
  | some custom => custom.foldl (addToMeterValue TimeStepValue) mv

/-- The part the two branches of UpdateMeters share (lines 3182-3189 and 3192-3199): `add` is
added to the hourly, daily, monthly and run-period totals, and after each addition SetMinMax
is called with the meter's TSValue on the minimum and maximum of that resolution. -/
def accumulateMeter (TimeStamp : Int) (add : ℚ) (m : MeterType) : MeterType :=
  let m : MeterType := { m with HRValue := m.HRValue + add }
  let hr := SetMinMax m.TSValue TimeStamp ⟨m.HRMaxVal, m.HRMaxValDate, m.HRMinVal, m.HRMinValDate⟩
  let m : MeterType := { m with HRMaxVal := hr.CurMaxValue, HRMaxValDate := hr.CurMaxValDate,
                                HRMinVal := hr.CurMinValue, HRMinValDate := hr.CurMinValDate }
  let m : MeterType := { m with DYValue := m.DYValue + add }
  let dy := SetMinMax m.TSValue TimeStamp ⟨m.DYMaxVal, m.DYMaxValDate, m.DYMinVal, m.DYMinValDate⟩
  let m : MeterType := { m with DYMaxVal := dy.CurMaxValue, DYMaxValDate := dy.CurMaxValDate,
                                DYMinVal := dy.CurMinValue, DYMinValDate := dy.CurMinValDate }
  let m : MeterType := { m with MNValue := m.MNValue + add }
  let mn := SetMinMax m.TSValue TimeStamp ⟨m.MNMaxVal, m.MNMaxValDate, m.MNMinVal, m.MNMinValDate⟩
  let m : MeterType := { m with MNMaxVal := mn.CurMaxValue, MNMaxValDate := mn.CurMaxValDate,
                                MNMinVal := mn.CurMinValue, MNMinValDate := mn.CurMinValDate }
  let m : MeterType := { m with SMValue := m.SMValue + add }
  let sm := SetMinMax m.TSValue TimeStamp ⟨m.SMMaxVal, m.SMMaxValDate, m.SMMinVal, m.SMMinValDate⟩
  { m with SMMaxVal := sm.CurMaxValue, SMMaxValDate := sm.CurMaxValDate,
           SMMinVal := sm.CurMinValue, SMMinValDate := sm.CurMinValDate }

/-- One iteration of the loop of UpdateMeters (lines 3180-3200). A meter that is neither a
decrement nor a difference meter adds MeterValue(Meter) to its TSValue and to its totals; a
decrement or difference meter takes the current TSValue of its source meter minus
MeterValue(Meter) as its TSValue and adds that to its totals. -/
def UpdateMeters_Meter (TimeStamp : Int) (MeterValue : Nat → ℚ) (EnergyMeters : Nat → MeterType)
    (Meter : Nat) : Nat → MeterType :=
  let m := EnergyMeters Meter
  if m.TypeOfMeter ≠ MeterType_CustomDec ∧ m.TypeOfMeter ≠ MeterType_CustomDiff then
    Function.update EnergyMeters Meter
      (accumulateMeter TimeStamp (MeterValue Meter)
        { m with TSValue := m.TSValue + MeterValue Meter })
  else
    let m1 : MeterType :=
      { m with TSValue := (EnergyMeters m.SourceMeter).TSValue - MeterValue Meter }
    Function.update EnergyMeters Meter (accumulateMeter TimeStamp m1.TSValue m1)

/-- The loop `for Meter = 1 .. n` of UpdateMeters, in index order. -/
def UpdateMetersLoop (TimeStamp : Int) (MeterValue : Nat → ℚ) (EnergyMeters : Nat → MeterType)
    (n : Nat) : Nat → MeterType :=
  (List.range' 1 n).foldl (UpdateMeters_Meter TimeStamp MeterValue) EnergyMeters

/-- UpdateMeters (lines 3140-3205): the loop over all meters, then `MeterValue = 0.0`. -/
def UpdateMeters (TimeStamp : Int) (st : MeterState) : MeterState :=
  { st with
    EnergyMeters := UpdateMetersLoop TimeStamp st.MeterValue st.EnergyMeters st.NumEnergyMeters
    MeterValue := fun _ => 0 }

/-- A loop `for Loop = 1 .. NumEnergyMeters` whose body touches only EnergyMeters(Loop). -/
def forEachMeter (NumEnergyMeters : Nat) (body : MeterType → MeterType)
    (EnergyMeters : Nat → MeterType) : Nat → MeterType :=
  fun Loop => if 1 ≤ Loop ∧ Loop ≤ NumEnergyMeters then body (EnergyMeters Loop)
    else EnergyMeters Loop

/-- ReportTSMeters (lines 3314-3349), state part: every meter copies TSValue to CurTSValue,
and when there is at least one meter all TSValue are set to 0. -/
def ReportTSMeters (st : MeterState) : MeterState :=
  let E1 := forEachMeter st.NumEnergyMeters
    (fun m => { m with CurTSValue := m.TSValue }) st.EnergyMeters
  { st with
    EnergyMeters :=
      if st.NumEnergyMeters > 0 then
        forEachMeter st.NumEnergyMeters (fun m => { m with TSValue := 0 }) E1
      else E1 }

/-- Body of the loop of ReportHRMeters (lines 3402-3425), state part: a meter with neither
RptHR nor RptAccHR is skipped; the reset of HRValue, HRMinVal and HRMaxVal stands inside
`if RptHR`. -/
def ReportHRMeters_Meter (m : MeterType) : MeterType :=
  if !m.RptHR && !m.RptAccHR then m
  else if m.RptHR then
    { m with HRValue := 0, HRMinVal := MinSetValue, HRMaxVal := MaxSetValue }
  else m

def ReportHRMeters (st : MeterState) : MeterState :=
  { st with EnergyMeters := forEachMeter st.NumEnergyMeters ReportHRMeters_Meter st.EnergyMeters }

/-- Body of the loop of ReportDYMeters (lines 3474-3497), state part. -/
def ReportDYMeters_Meter (m : MeterType) : MeterType :=
  if !m.RptDY && !m.RptAccDY then m
  else if m.RptDY then
    { m with DYValue := 0, DYMinVal := MinSetValue, DYMaxVal := MaxSetValue }
  else m

def ReportDYMeters (st : MeterState) : MeterState :=
  { st with EnergyMeters := forEachMeter st.NumEnergyMeters ReportDYMeters_Meter st.EnergyMeters }

/-- Body of the loop of ReportMNMeters (lines 3545-3564), state part. -/
def ReportMNMeters_Meter (m : MeterType) : MeterType :=
  if !m.RptMN && !m.RptAccMN then m
  else if m.RptMN then
    { m with MNValue := 0, MNMinVal := MinSetValue, MNMaxVal := MaxSetValue }
  else m

def ReportMNMeters (st : MeterState) : MeterState :=
  { st with EnergyMeters := forEachMeter st.NumEnergyMeters ReportMNMeters_Meter st.EnergyMeters }

/-- ReportSMMeters (lines 3613-3641), state part: every meter saves its run-period values in
the LastSM fields; when there is at least one meter all SMValue, SMMinVal and SMMaxVal are
reset. -/
def ReportSMMeters (st : MeterState) : MeterState :=
  let E1 := forEachMeter st.NumEnergyMeters
    (fun m => { m with LastSMValue := m.SMValue, LastSMMinVal := m.SMMinVal,
                       LastSMMinValDate := m.SMMinValDate, LastSMMaxVal := m.SMMaxVal,
                       LastSMMaxValDate := m.SMMaxValDate }) st.EnergyMeters
  { st with
    EnergyMeters :=
      if st.NumEnergyMeters > 0 then
        forEachMeter st.NumEnergyMeters
          (fun m => { m with SMValue := 0, SMMinVal := MinSetValue, SMMaxVal := MaxSetValue }) E1
      else E1 }

/-- The arguments of one call of UpdateMeterValues. -/
structure UpdateMeterValuesCall where
  TimeStepValue : ℚ
  OnMeters : List Nat
  OnCustomMeters : Option (List Nat)

/-- All meters the call lists: the meters of the variable's attachment record. -/
def UpdateMeterValuesCall.listed (c : UpdateMeterValuesCall) : List Nat :=
  c.OnMeters ++ c.OnCustomMeters.getD []

/-- What one zone-timestep call of UpdateDataandReport hands to the meters: the
UpdateMeterValues calls of its TimeStep block (one per metered variable), the time stamp MDHM
and the boundary flags. -/
structure MeterReportingStep where
  calls : List UpdateMeterValuesCall
  TimeStamp : Int
  EndHourFlag : Bool
  EndDayFlag : Bool
  EndMonthFlag : Bool
  EndEnvrnFlag : Bool

def applyUpdateMeterValues (calls : List UpdateMeterValuesCall) (st : MeterState) : MeterState :=
  { st with MeterValue :=
      (calls.foldl (fun mv c => UpdateMeterValues c.TimeStepValue c.OnMeters c.OnCustomMeters mv)
        st.MeterValue) }

/-- The meter calls of one zone-timestep call of UpdateDataandReport, in the order of the
source: UpdateMeterValues for each metered variable, UpdateMeters and ReportTSMeters (lines
6001-6089), ReportHRMeters at the end of an hour (6157), ReportDYMeters at the end of a day
(6189), ReportMNMeters at the end of a month or environment (6219), ReportSMMeters at the end
of the environment (6245). -/
def UpdateDataandReport_Meters (e : MeterReportingStep) (st : MeterState) : MeterState :=
  let st1 := ReportTSMeters (UpdateMeters e.TimeStamp (applyUpdateMeterValues e.calls st))
  if !e.EndHourFlag then st1 else
  let st2 := ReportHRMeters st1
  if !e.EndDayFlag then st2 else
  let st3 := ReportDYMeters st2
  let st4 := if e.EndMonthFlag || e.EndEnvrnFlag then ReportMNMeters st3 else st3
  if e.EndEnvrnFlag then ReportSMMeters st4 else st4

def runMeterSteps (steps : List MeterReportingStep) (st : MeterState) : MeterState :=
  steps.foldl (fun s e => UpdateDataandReport_Meters e s) st

/-- Sum of the timestep values of the calls whose attachment record lists the meter. -/
def attachedSum (calls : List UpdateMeterValuesCall) (Meter : Nat) : ℚ :=
  ((calls.filter (fun c => decide (Meter ∈ c.listed))).map (fun c => c.TimeStepValue)).sum

/-- Sum of the timestep values of the calls, each counted once for every position of its
attachment record that holds the meter: a record that lists the meter twice counts twice. -/
def attachedContribution (calls : List UpdateMeterValuesCall) (Meter : Nat) : ℚ :=
  (calls.map (fun c => c.TimeStepValue * (c.listed.count Meter : ℚ))).sum

/-- The step runs ReportHRMeters. -/
def closesHour (e : MeterReportingStep) : Bool := e.EndHourFlag

/-- The step runs ReportDYMeters. -/
def closesDay (e : MeterReportingStep) : Bool := e.EndHourFlag && e.EndDayFlag

/-- The step runs ReportMNMeters. -/
def closesMonth (e : MeterReportingStep) : Bool :=
  e.EndHourFlag && e.EndDayFlag && (e.EndMonthFlag || e.EndEnvrnFlag)

/-- The step runs ReportSMMeters. -/
def closesRunPeriod (e : MeterReportingStep) : Bool :=
  e.EndHourFlag && e.EndDayFlag && e.EndEnvrnFlag

/-- Values AddMeter gives the accumulators of a newly registered meter (all totals 0, minima and
maxima at the sentinels, no reporting requested). -/
def freshMeter : MeterType :=
  { TypeOfMeter := MeterType_Normal, SourceMeter := 0, TSValue := 0, CurTSValue := 0,
    RptTS := false, RptAccTS := false,
    HRValue := 0, HRMaxVal := MaxSetValue, HRMaxValDate := 0, HRMinVal := MinSetValue,
    HRMinValDate := 0, RptHR := false, RptAccHR := false,
    DYValue := 0, DYMaxVal := MaxSetValue, DYMaxValDate := 0, DYMinVal := MinSetValue,
    DYMinValDate := 0, RptDY := false, RptAccDY := false,
    MNValue := 0, MNMaxVal := MaxSetValue, MNMaxValDate := 0, MNMinVal := MinSetValue,
    MNMinValDate := 0, RptMN := false, RptAccMN := false,
    SMValue := 0, SMMaxVal := MaxSetValue, SMMaxValDate := 0, SMMinVal := MinSetValue,
    SMMinValDate := 0, RptSM := false, RptAccSM := false,
    LastSMValue := 0, LastSMMaxVal := 0, LastSMMaxValDate := 0, LastSMMinVal := 0,
    LastSMMinValDate := 0 }

/-- Two meters: meter 1 is a Normal meter M, meter 2 a CustomDecrement meter D whose source is
M; `rptM` and `rptD` are their hourly, daily and monthly report flags. -/
def sampleMeters (rptM rptD : Bool) : MeterState :=
  { NumEnergyMeters := 2
    EnergyMeters := fun i =>
      if i = 2 then
        { freshMeter with TypeOfMeter := MeterType_CustomDec, SourceMeter := 1,
                          RptHR := rptD, RptDY := rptD, RptMN := rptD }
      else { freshMeter with RptHR := rptM, RptDY := rptM, RptMN := rptM }
    MeterValue := fun _ => 0 }

/-- The calls of one timestep: A = 10 and B = 5 on M, C = 3 on D. -/
def sampleCalls : List UpdateMeterValuesCall :=
  [⟨10, [1], none⟩, ⟨5, [1], none⟩, ⟨3, [], some [2]⟩]

/-- One timestep that also closes the hour. -/
def sampleHourStep : MeterReportingStep :=
  { calls := sampleCalls, TimeStamp := 1010100, EndHourFlag := true, EndDayFlag := false,
    EndMonthFlag := false, EndEnvrnFlag := false }

/-- Five Normal meters with zeroed accumulators, as AddMeter registers them. -/
def fiveMeters : MeterState :=
  { NumEnergyMeters := 5, EnergyMeters := fun _ => freshMeter, MeterValue := fun _ => 0 }

/-- The call of UpdateMeterValues for one variable with the timestep value 7 whose attachment
record lists the meters 1, 2, 3, 4, 5 and then meter 3 again. -/
def twiceListedCalls : List UpdateMeterValuesCall :=
  [⟨7, [1, 2, 3, 4, 5, 3], none⟩]

/-! ## One real output variable under UpdateDataandReport (lines 5835-6250) -/

/-- The fields of RealVariables that UpdateDataandReport and WriteRealVariableOutput read or
write. The storage cell `Which` points into the caller's data and is passed separately at
every call. -/
structure RealVariables where
  Value : ℚ
  TSValue : ℚ
  EITSValue : ℚ
  StoreValue : ℚ
  NumStored : ℚ
  StoreType : Nat
  Stored : Bool
  Report : Bool
  tsStored : Bool
  thisTSStored : Bool
  thisTSCount : Nat
  ReportFreq : Int
  MaxValue : ℚ
  maxValueDate : Int
  MinValue : ℚ
  minValueDate : Int
  ReportID : Nat
  SchedPtr : Int
  MeterArrayPtr : Nat
  ZoneMult : Int
  ZoneListMult : Int
deriving DecidableEq

/-- The data records written for a real variable: `RealData` by WriteRealData (report id and
value), `ReportRealData` by WriteReportRealData (report id, value after averaging, reporting
interval, minimum and maximum with their dates). -/
inductive OutputRecord where
  | RealData (reportID : Nat) (repValue : ℚ)
  | ReportRealData (reportID : Nat) (repVal : ℚ) (reportingInterval : Int)
      (minValue : ℚ) (minValueDate : Int) (MaxValue : ℚ) (maxValueDate : Int)
deriving DecidableEq

/-- What one call of UpdateDataandReport reads from outside the variable: the key
IndexTypeKey, the clock TimeValue(IndexTypeKey) (CurMinute on entry and the timestep length
in hours that TimeStep points to), MinutesPerTimeStep, the encoded date MDHM, the schedule
values and the boundary flags. -/
structure ReportingCall where
  IndexTypeKey : Nat
  CurMinute : ℚ
  TimeStep : ℚ
  MinutesPerTimeStep : Int
  MDHM : Int
  GetCurrentScheduleValue : Int → ℚ
  EndHourFlag : Bool
  EndDayFlag : Bool
  EndMonthFlag : Bool
  EndEnvrnFlag : Bool

/-- Lines 5846-5860: StartMinute is the clock on entry, MinuteNow the clock advanced by
TimeStep * 60, and rxTime = (MinuteNow - StartMinute) / MinutesPerTimeStep. -/
def rxTime (env : ReportingCall) : ℚ :=
  let StartMinute := env.CurMinute
  let MinuteNow := env.CurMinute + env.TimeStep * 60
  (MinuteNow - StartMinute) / (env.MinutesPerTimeStep : ℚ)

/-- The local ReportNow: true unless the variable has a schedule whose current value is 0. -/
def ReportNow (env : ReportingCall) (v : RealVariables) : Bool :=
  if v.SchedPtr > 0 then decide (env.GetCurrentScheduleValue v.SchedPtr ≠ 0) else true

/-- Record keeping for one variable of the calling domain (lines 5866-5925). TSValue grows by
Which * rxTime for an Averaged variable and by Which otherwise; the minimum and maximum follow
Which; then, for a variable that is reported now (`counted`), tsStored is set, the timestep is
counted once in thisTSCount, and an EachCall variable writes Which. -/
def RecordKeeping_RVar (env : ReportingCall) (Which : ℚ) (v : RealVariables) :
    RealVariables × List OutputRecord :=
  let CurVal : ℚ := if v.StoreType = AveragedVar then Which * rxTime env else Which
  let TSValue : ℚ := v.TSValue + CurVal
  let counted : Bool := v.Report && ReportNow env v
  ({ v with
      Stored := true
      MaxValue := if Which > v.MaxValue then Which else v.MaxValue
      maxValueDate := if Which > v.MaxValue then env.MDHM else v.maxValueDate
      MinValue := if Which < v.MinValue then Which else v.MinValue
      minValueDate := if Which < v.MinValue then env.MDHM else v.minValueDate
      TSValue := TSValue
      EITSValue := TSValue
      tsStored := if counted then true else v.tsStored
      thisTSCount := if counted && !v.thisTSStored then v.thisTSCount + 1 else v.thisTSCount
      thisTSStored := if counted then true else v.thisTSStored },
   if counted && decide (v.ReportFreq = ReportEach) then
     [OutputRecord.RealData v.ReportID Which]
   else [])

/-- TimeStep block for one variable (lines 6013-6045; the meter update of lines 6006-6012 is
part of the meter state). A variable that is not reported now drops its TSValue (`skipped`),
otherwise TSValue is added to Value, written by a TimeStep variable, and then reset together
with thisTSStored. -/
def TimeStepBlock_RVar (env : ReportingCall) (v : RealVariables) :
    RealVariables × List OutputRecord :=
  let skipped : Bool := !ReportNow env v || !v.Report
  let TSValue : ℚ := if skipped then 0 else v.TSValue
  ({ v with
      Value := v.Value + TSValue
      TSValue := 0
      thisTSStored := if skipped then v.thisTSStored else false },
   if !skipped && decide (v.ReportFreq = ReportTimeStep) then
     [OutputRecord.RealData v.ReportID TSValue]
   else [])

/-- The value the hour block holds in Value after line 6115: Value divided by thisTSCount for
an Averaged variable, Value itself otherwise. -/
def HourBlock_value (v : RealVariables) : ℚ :=
  if v.StoreType = AveragedVar then v.Value / (v.thisTSCount : ℚ) else v.Value

/-- Hour block for one variable (lines 6113-6128). When tsStored is set the hourly value is
written by an Hourly variable that has Stored set (`written`), added to StoreValue and counted
in NumStored; in every case tsStored, thisTSStored, thisTSCount and Value are reset. -/
def HourBlock_RVar (v : RealVariables) : RealVariables × List OutputRecord :=
  let written : Bool :=
    v.tsStored && (v.Report && decide (v.ReportFreq = ReportHourly) && v.Stored)
  ({ v with
      Stored := if written then false else v.Stored
      StoreValue := if v.tsStored then v.StoreValue + HourBlock_value v else v.StoreValue
      NumStored := if v.tsStored then v.NumStored + 1 else v.NumStored
      tsStored := false
      thisTSStored := false
      thisTSCount := 0
      Value := 0 },
   if written then [OutputRecord.RealData v.ReportID (HourBlock_value v)] else [])

/-- WriteReportRealData (lines 4502-4544), reduced to the record it writes: the value is
divided by numOfItemsStored for an Averaged variable (lines 4502-4503). -/
def WriteReportRealData (reportID : Nat) (repValue : ℚ) (storeType : Nat)
    (numOfItemsStored : ℚ) (reportingInterval : Int) (minValue : ℚ) (minValueDate : Int)
    (MaxValue : ℚ) (maxValueDate : Int) : OutputRecord :=
  let repVal : ℚ := if storeType = AveragedVar then repValue / numOfItemsStored else repValue
  OutputRecord.ReportRealData reportID repVal reportingInterval minValue minValueDate
    MaxValue maxValueDate

/-- WriteRealVariableOutput (lines 4426-4438): a reported variable of the given frequency with
Stored set passes StoreValue on to WriteReportRealData if NumStored > 0, and then resets
StoreValue, NumStored, MinValue, MaxValue and Stored. -/
def WriteRealVariableOutput (reportType : Int) (v : RealVariables) :
    RealVariables × List OutputRecord :=
  if v.Report && decide (v.ReportFreq = reportType) && v.Stored then
    let out : List OutputRecord :=
      if v.NumStored > 0 then
        [WriteReportRealData v.ReportID v.StoreValue v.StoreType v.NumStored v.ReportFreq
          v.MinValue v.minValueDate v.MaxValue v.maxValueDate]
      else []
    ({ v with StoreValue := 0, NumStored := 0, MinValue := MinSetValue,
              MaxValue := MaxSetValue, Stored := false }, out)
  else (v, [])

/-- The loops `for IndexType = 1 .. 2` of the TimeStep, Hour, Day, Month and Environment
blocks reach the variables whose IndexType is 1 or 2. -/
def inLoops (varIndexType : Nat) : Bool := varIndexType == 1 || varIndexType == 2

/-- A zone-timestep call up to the point where control reaches the Hour block: record keeping
if the variable belongs to the calling domain (lines 5842-5926), then the TimeStep block
(EndTimeStepFlag is set on every zone call, lines 5850-5851 and 5999-6046). Returns the
variable and the records written so far. -/
def AtHourBlock_RVar (env : ReportingCall) (varIndexType : Nat) (Which : ℚ)
    (v : RealVariables) : RealVariables × List OutputRecord :=
  let r1 : RealVariables × List OutputRecord :=
    if env.IndexTypeKey ≥ ZoneVar ∧ env.IndexTypeKey ≤ HVACVar ∧
        varIndexType = env.IndexTypeKey then
      RecordKeeping_RVar env Which v
    else (v, [])
  if inLoops varIndexType then
    let r2 := TimeStepBlock_RVar env r1.1
    (r2.1, r1.2 ++ r2.2)
  else r1

/-- The rest of a zone-timestep call with EndHourFlag set: the Hour block (lines 6103-6129),
then, only if EndDayFlag is set, WriteRealVariableOutput for ReportDaily (6177), for
ReportMonthly if EndMonthFlag or EndEnvrnFlag (6207), and for ReportSim if EndEnvrnFlag
(6233). -/
def AfterHourBlock_RVar (env : ReportingCall) (varIndexType : Nat)
    (r : RealVariables × List OutputRecord) : RealVariables × List OutputRecord :=
  if !inLoops varIndexType then r else
  let r3 := HourBlock_RVar r.1
  if !env.EndDayFlag then (r3.1, r.2 ++ r3.2) else
  let r4 := WriteRealVariableOutput ReportDaily r3.1
  let r5 : RealVariables × List OutputRecord :=
    if env.EndMonthFlag || env.EndEnvrnFlag then WriteRealVariableOutput ReportMonthly r4.1
    else (r4.1, [])
  let r6 : RealVariables × List OutputRecord :=
    if env.EndEnvrnFlag then WriteRealVariableOutput ReportSim r5.1 else (r5.1, [])
  (r6.1, r.2 ++ r3.2 ++ r4.2 ++ r5.2 ++ r6.2)

/-- What one call of UpdateDataandReport with a valid key does to the real variable
RVariableTypes(Loop), whose IndexType is `varIndexType` and whose storage cell holds `Which`:
a system-timestep call stops after the record keeping (line 5995); a zone-timestep call goes
on through the TimeStep block and, when EndHourFlag is set, the Hour block and the blocks
after it. Returns the variable and the data records written for it. -/
def UpdateDataandReport_RVar (env : ReportingCall) (varIndexType : Nat) (Which : ℚ)
    (v : RealVariables) : RealVariables × List OutputRecord :=
  if env.IndexTypeKey = HVACVar then
    (if varIndexType = env.IndexTypeKey then RecordKeeping_RVar env Which v else (v, []))
  else
    let r := AtHourBlock_RVar env varIndexType Which v
    if env.EndHourFlag then AfterHourBlock_RVar env varIndexType r else r

/-- UpdateDataandReport with its entry check (lines 5835-5838): a key that is neither
ZoneTSReporting nor HVACTSReporting ends the run with a fatal error (no result). -/
def UpdateDataandReport_checked (env : ReportingCall) (varIndexType : Nat) (Which : ℚ)
    (v : RealVariables) : Option (RealVariables × List OutputRecord) :=
  if env.IndexTypeKey ≠ ZoneTSReporting ∧ env.IndexTypeKey ≠ HVACTSReporting then none
  else some (UpdateDataandReport_RVar env varIndexType Which v)

/-- One call of UpdateDataandReport together with the value the variable's storage cell holds
at that call. -/
structure SubStep where
  env : ReportingCall
  Which : ℚ

/-- The calls of one zone timestep: the system-timestep calls, then the zone-timestep call. -/
structure ZoneTimeStep where
  hvac : List SubStep
  zone : SubStep

def ZoneTimeStep.calls (t : ZoneTimeStep) : List SubStep := t.hvac ++ [t.zone]

/-- The variable after a sequence of calls. -/
def runCalls (varIndexType : Nat) (calls : List SubStep) (v : RealVariables) : RealVariables :=
  calls.foldl (fun v c => (UpdateDataandReport_RVar c.env varIndexType c.Which v).1) v

/-- The variable after a sequence of zone timesteps. -/
def runTimeSteps (varIndexType : Nat) (steps : List ZoneTimeStep) (v : RealVariables) :
    RealVariables :=
  steps.foldl (fun v t => runCalls varIndexType t.calls v) v

/-- The calls of a zone timestep at which the variable is recorded: the system calls for a
system variable, the zone call for a zone variable. -/
def ZoneTimeStep.subSteps (varIndexType : Nat) (t : ZoneTimeStep) : List SubStep :=
  if varIndexType = HVACVar then t.hvac else [t.zone]

/-- The calls of one zone timestep are system-timestep calls followed by one zone-timestep
call, all under the same MinutesPerTimeStep. -/
def ZoneTimeStep.wellFormed (M : Int) (t : ZoneTimeStep) : Prop :=
  (∀ c ∈ t.hvac, c.env.IndexTypeKey = HVACVar ∧ c.env.MinutesPerTimeStep = M) ∧
  t.zone.env.IndexTypeKey = ZoneVar ∧ t.zone.env.MinutesPerTimeStep = M

/-- The variable has k sub-steps in the timestep, each lasting MinutesPerTimeStep / k
minutes. -/
def ZoneTimeStep.uniform (varIndexType k : Nat) (M : Int) (t : ZoneTimeStep) : Prop :=
  (t.subSteps varIndexType).length = k ∧
  ∀ c ∈ t.subSteps varIndexType, c.env.TimeStep * 60 * (k : ℚ) = (M : ℚ)

/-- State of the variable when the zone call of a timestep reaches the Hour block. -/
def hourBlockEntry (varIndexType : Nat) (t : ZoneTimeStep) (v : RealVariables) : RealVariables :=
  (AtHourBlock_RVar t.zone.env varIndexType t.zone.Which (runCalls varIndexType t.hvac v)).1

/-- The values the variable takes at its sub-steps, in order. -/
def hourValues (varIndexType : Nat) (steps : List ZoneTimeStep) : List ℚ :=
  (steps.map (fun t => (t.subSteps varIndexType).map (fun c => c.Which))).flatten

/-- The amount the record keeping of a call adds to TSValue. -/
def curValue (storeType : Nat) (c : SubStep) : ℚ :=
  if storeType = AveragedVar then c.Which * rxTime c.env else c.Which

/-- Fields of a descriptor that no phase of UpdateDataandReport changes. -/
def sameConfig (v v' : RealVariables) : Prop :=
  v'.Report = v.Report ∧ v'.SchedPtr = v.SchedPtr ∧ v'.StoreType = v.StoreType ∧
  v'.ReportFreq = v.ReportFreq ∧ v'.ReportID = v.ReportID

/-- Sum over the timesteps of the amounts the record keeping adds to TSValue. -/
def accumulated (storeType varIndexType : Nat) (steps : List ZoneTimeStep) : ℚ :=
  (steps.map (fun t => ((t.subSteps varIndexType).map (curValue storeType)).sum)).sum

/-- Descriptor as SetupOutputVariable creates it, then marked for reporting at the given
frequency without a schedule. -/
def reportedVariable (storeType : Nat) (reportFreq : Int) : RealVariables :=
  { Value := 0, TSValue := 0, EITSValue := 0, StoreValue := 0, NumStored := 0,
    StoreType := storeType, Stored := false, Report := true, tsStored := false,
    thisTSStored := false, thisTSCount := 0, ReportFreq := reportFreq,
    MaxValue := MaxSetValue, maxValueDate := 0, MinValue := MinSetValue, minValueDate := 0,
    ReportID := 7, SchedPtr := 0, MeterArrayPtr := 0, ZoneMult := 1, ZoneListMult := 1 }

/-- A system-timestep call of the given length in hours, with 15-minute zone timesteps. -/
def sampleSystemCall (hours Which : ℚ) : SubStep :=
  { env := { IndexTypeKey := HVACVar, CurMinute := 0, TimeStep := hours,
             MinutesPerTimeStep := 15, MDHM := 1010100,
             GetCurrentScheduleValue := fun _ => 1, EndHourFlag := false, EndDayFlag := false,
             EndMonthFlag := false, EndEnvrnFlag := false },
    Which := Which }

/-- A zone-timestep call of 15 minutes; `endHour` and `endDay` are the boundary flags. -/
def sampleZoneCall (endHour endDay : Bool) (Which : ℚ) : SubStep :=
  { env := { IndexTypeKey := ZoneVar, CurMinute := 0, TimeStep := 1 / 4,
             MinutesPerTimeStep := 15, MDHM := 1010100,
             GetCurrentScheduleValue := fun _ => 1, EndHourFlag := endHour,
             EndDayFlag := endDay, EndMonthFlag := false, EndEnvrnFlag := false },
    Which := Which }

structure HourOfCalls where
  inner : List ZoneTimeStep
  closing : ZoneTimeStep

def HourOfCalls.steps (h : HourOfCalls) : List ZoneTimeStep := h.inner ++ [h.closing]

/-- The hour is a sequence of zone timesteps of which exactly the last one closes the hour,
and the variable has at least one sub-step in each of them. -/
def HourOfCalls.wellFormed (M : Int) (varIndexType : Nat) (h : HourOfCalls) : Prop :=
  (∀ t ∈ h.inner, t.wellFormed M ∧ t.zone.env.EndHourFlag = false ∧
    t.subSteps varIndexType ≠ []) ∧
  h.closing.wellFormed M ∧ h.closing.zone.env.EndHourFlag = true ∧
  h.closing.subSteps varIndexType ≠ []

/-- Two sub-steps of 7.5 minutes followed by the zone call. -/
def sampleTimeStep (endHour endDay : Bool) (a b : ℚ) : ZoneTimeStep :=
  { hvac := [sampleSystemCall (1 / 8) a, sampleSystemCall (1 / 8) b],
    zone := sampleZoneCall endHour endDay 0 }

/-- Modelled from the spec: the character data of an Fstring without its blank padding
(Fstring values are fixed-length and padded with blanks; comparisons ignore the padding). -/
def trimBlanks (s : String) : List Char :=
  (s.data.reverse.dropWhile (fun c => c == ' ')).reverse

/-- Modelled from the spec: InputProcessor::MakeUPPERCase, the upper-case form of a string. -/
def MakeUPPERCase (s : String) : List Char := (trimBlanks s).map Char.toUpper

/-- Modelled from the spec: InputProcessor::SameString, equality of two strings ignoring
case. -/
def SameString (TestString1 TestString2 : String) : Bool :=
  MakeUPPERCase TestString1 == MakeUPPERCase TestString2

/-- Modelled from the spec: the comparison of an Fstring with the empty BlankString of line
116, true exactly when the string holds only blanks ("a blank key"). -/
def isBlankString (s : String) : Bool := trimBlanks s == []

/-- Scan of `n` items starting at position `Item` for the first one equal to `s` ignoring
case. -/
def FindItemFrom (s : String) (ListOfItems : Nat → String) : Nat → Nat → Nat
  | 0, _ => 0
  | n + 1, Item =>
    if SameString s (ListOfItems Item) then Item else FindItemFrom s ListOfItems n (Item + 1)

/-- Modelled from the spec: InputProcessor::FindItem, which looks a string up in a list of
items ignoring case and returns the position (from 1) of the first item that matches, or 0
when none does. -/
def FindItem (s : String) (ListOfItems : Nat → String) (NumItems : Nat) : Nat :=
  FindItemFrom s ListOfItems NumItems 1

/-- One entry of ReqRepVars, as GetReportVariableInput fills it (lines 775-800). -/
structure ReqReportVariables where
  Key : String
  VarName : String
  ReportFreq : Int
  SchedPtr : Int
  SchedName : String
  Used : Bool
deriving DecidableEq

/-- The module variables NumOfReqVariables, ReqRepVars(1..NumOfReqVariables) and the used part
ReportList(1..NumExtraVars) of ReportList; NumExtraVars is the length of the list. The
reallocation of ReportList when it is full (lines 579-588) only changes its capacity. -/
structure ReportRequests where
  NumOfReqVariables : Nat
  ReqRepVars : Nat → ReqReportVariables
  ReportList : List Int

def ReportRequests.NumExtraVars (st : ReportRequests) : Nat := st.ReportList.length

/-- The assignment ReqRepVars(Loop).Used = true. -/
def markUsed (ReqRepVars : Nat → ReqReportVariables) (Loop : Nat) : Nat → ReqReportVariables :=
  Function.update ReqRepVars Loop { ReqRepVars Loop with Used := true }

/-- The while loop of CheckReportVariable (lines 489-504), one iteration per unit of fuel: a
request with a blank key at position Loop is marked Used, then FindItem looks for the next
request of that name after Loop and MinLook / MaxLook are widened to its position. The result
is `none` only if the fuel runs out while the loop condition still holds. -/
def CheckReportVariable_loop (VarName : String) (NumOfReqVariables : Nat) :
    Nat → (Nat → ReqReportVariables) → Nat → Nat → Int → Int →
    Option ((Nat → ReqReportVariables) × Int × Int)
  | fuel, ReqRepVars, Loop, Pos, MinLook, MaxLook =>
    if Loop ≤ NumOfReqVariables ∧ Pos ≠ 0 then
      match fuel with
      | 0 => none
      | fuel + 1 =>
        let ReqRepVars :=
          if isBlankString (ReqRepVars Loop).Key then markUsed ReqRepVars Loop else ReqRepVars
        if Loop < NumOfReqVariables then
          let Pos := FindItem VarName (fun j => (ReqRepVars (Loop + j)).VarName)
            (NumOfReqVariables - Loop)
          let MinLook := if Pos ≠ 0 then min MinLook ((Loop + Pos : Nat) : Int) else MinLook
          let MaxLook := if Pos ≠ 0 then max MaxLook ((Loop + Pos : Nat) : Int) else MaxLook
          CheckReportVariable_loop VarName NumOfReqVariables fuel ReqRepVars (Loop + Pos) Pos
            MinLook MaxLook
        else
          CheckReportVariable_loop VarName NumOfReqVariables fuel ReqRepVars (Loop + 1) 1
            MinLook MaxLook
    else some (ReqRepVars, MinLook, MaxLook)

/-- The duplicate test of BuildKeyVarList and AddBlankKeys (lines 566-575 and 649-659): Dup
starts false; every list entry with the same ReportFreq sets it to true and, if its SchedPtr
differs, back to false; entries with another ReportFreq leave it alone. -/
def isDuplicate (ReqRepVars : Nat → ReqReportVariables) (ReportList : List Int) (Loop : Nat) :
    Bool :=
  ReportList.foldl
    (fun Dup entry =>
      if (ReqRepVars entry.toNat).ReportFreq = (ReqRepVars Loop).ReportFreq then
        (if (ReqRepVars entry.toNat).SchedPtr ≠ (ReqRepVars Loop).SchedPtr then false else true)
      else Dup)
    false

/-- The values of Loop in `for Loop = MinIndx .. MaxIndx`. -/
def forRange (MinIndx MaxIndx : Int) : List Nat :=
  List.range' MinIndx.toNat (MaxIndx + 1 - MinIndx).toNat

/-- Body of the loop of BuildKeyVarList (lines 560-590): a request with the variable's name
and key is marked Used and, unless the duplicate test holds, appended to ReportList. -/
def BuildKeyVarList_body (KeyedValue VariableName : String) (st : ReportRequests) (Loop : Nat) :
    ReportRequests :=
  if !SameString (st.ReqRepVars Loop).VarName VariableName then st
  else if !SameString (st.ReqRepVars Loop).Key KeyedValue then st
  else
    let reqs := markUsed st.ReqRepVars Loop
    if isDuplicate reqs st.ReportList Loop then { st with ReqRepVars := reqs }
    else { st with ReqRepVars := reqs, ReportList := st.ReportList ++ [(Loop : Int)] }

def BuildKeyVarList (KeyedValue VariableName : String) (MinIndx MaxIndx : Int)
    (st : ReportRequests) : ReportRequests :=
  (forRange MinIndx MaxIndx).foldl (BuildKeyVarList_body KeyedValue VariableName) st

/-- Body of the loop of AddBlankKeys (lines 644-674): a request with a blank key and the
variable's name is appended to ReportList unless the duplicate test holds. -/
def AddBlankKeys_body (VariableName : String) (st : ReportRequests) (Loop : Nat) :
    ReportRequests :=
  if !isBlankString (st.ReqRepVars Loop).Key then st
  else if !SameString (st.ReqRepVars Loop).VarName VariableName then st
  else if isDuplicate st.ReqRepVars st.ReportList Loop then st
  else { st with ReportList := st.ReportList ++ [(Loop : Int)] }

def AddBlankKeys (VariableName : String) (MinIndx MaxIndx : Int) (st : ReportRequests) :
    ReportRequests :=
  (forRange MinIndx MaxIndx).foldl (AddBlankKeys_body VariableName) st

/-- CheckReportVariable (lines 475-508), with the requests already read from the input. With
no request at all nothing is touched; otherwise NumExtraVars and ReportList are cleared and,
if FindItem finds the name, the while loop, BuildKeyVarList and AddBlankKeys run. The while
loop gets NumOfReqVariables units of fuel. -/
def CheckReportVariable (KeyedValue VarName : String) (st : ReportRequests) :
    Option ReportRequests :=
  if st.NumOfReqVariables > 0 then
    let Item := FindItem VarName (fun i => (st.ReqRepVars i).VarName) st.NumOfReqVariables
    let st : ReportRequests := { st with ReportList := [] }
    let MinLook : Int := 999999999
    let MaxLook : Int := -999999999
    if Item ≠ 0 then
      let MinLook := min MinLook (Item : Int)
      let MaxLook := max MaxLook (Item : Int)
      match CheckReportVariable_loop VarName st.NumOfReqVariables st.NumOfReqVariables
          st.ReqRepVars Item Item MinLook MaxLook with
      | none => none
      | some (reqs, MinLook, MaxLook) =>
        some (AddBlankKeys VarName MinLook MaxLook
          (BuildKeyVarList KeyedValue VarName MinLook MaxLook { st with ReqRepVars := reqs }))
    else some st
  else some st

/-- Content of the positions outside 1..NumOfReqVariables. -/
def noRequest : ReqReportVariables :=
  { Key := "", VarName := "", ReportFreq := 0, SchedPtr := 0, SchedName := "", Used := false }

/-- Requests held in a list, as GetReportVariableInput stores them at positions 1, 2, ...,
together with the used part of ReportList. -/
def requestsOfList (l : List ReqReportVariables) (ReportList : List Int) : ReportRequests :=
  { NumOfReqVariables := l.length
    ReqRepVars := fun i => if i = 0 then noRequest else l.getD (i - 1) noRequest
    ReportList := ReportList }

/-- An unused request at Hourly frequency. -/
def hourlyRequest (Key VarName : String) (SchedPtr : Int) : ReqReportVariables :=
  { Key := Key, VarName := VarName, ReportFreq := ReportHourly, SchedPtr := SchedPtr,
    SchedName := "", Used := false }

/-- Three Hourly requests for the same key and name, under schedules 1, 2 and 1. -/
def threeScheduledRequests : ReportRequests :=
  requestsOfList
    [hourlyRequest "ZONE ONE" "ZONE MEAN AIR TEMPERATURE" 1,
     hourlyRequest "ZONE ONE" "ZONE MEAN AIR TEMPERATURE" 2,
     hourlyRequest "ZONE ONE" "ZONE MEAN AIR TEMPERATURE" 1] []

/-- Two Hourly requests for the same variable without schedule, one with the key and one
with a blank key. -/
def twoHourlyRequests : ReportRequests :=
  requestsOfList
    [hourlyRequest "ZONE ONE" "ZONE MEAN AIR TEMPERATURE" 0,
     hourlyRequest "" "ZONE MEAN AIR TEMPERATURE" 0] []

/-- The same key and name requested at Hourly twice. -/
def twiceHourlyRequest : ReportRequests :=
  requestsOfList
    [hourlyRequest "ZONE ONE" "ZONE MEAN AIR TEMPERATURE" 0,
     hourlyRequest "ZONE ONE" "ZONE MEAN AIR TEMPERATURE" 0] []

/-- No request at all, with ReportList as SetupOutputVariable leaves it after a call that
found nothing to report (NumExtraVars = 1, ReportList = -1, lines 5349-5352). -/
def noRequestsStaleList : ReportRequests := requestsOfList [] [-1]

/-- The request names the variable (ignoring case) and its key is blank or equals the
variable's key (ignoring case). -/
def requestMatches (KeyedValue VarName : String) (r : ReqReportVariables) : Bool :=
  SameString r.VarName VarName && (isBlankString r.Key || SameString r.Key KeyedValue)

/-- Two requests ask for the same reporting frequency under the same schedule. -/
def samePair (r1 r2 : ReqReportVariables) : Prop :=
  r1.ReportFreq = r2.ReportFreq ∧ r1.SchedPtr = r2.SchedPtr

/-- Two request tables that differ at most in the Used flags. -/
def sameRequests (reqs0 reqs : Nat → ReqReportVariables) : Prop :=
  ∀ i, (reqs i).Key = (reqs0 i).Key ∧ (reqs i).VarName = (reqs0 i).VarName ∧
    (reqs i).ReportFreq = (reqs0 i).ReportFreq ∧ (reqs i).SchedPtr = (reqs0 i).SchedPtr ∧
    (reqs i).SchedName = (reqs0 i).SchedName

/-- What one pass of a request loop (BuildKeyVarList or AddBlankKeys) over the positions
`idxs`, selecting the requests that satisfy `sel`, does to the state: `marks` tells whether
the selected requests are marked Used. -/
def LoopEffect (reqs0 : Nat → ReqReportVariables) (sel : ReqReportVariables → Bool)
    (marks : Bool) (idxs : List Nat) (st st1 : ReportRequests) : Prop :=
  st1.NumOfReqVariables = st.NumOfReqVariables ∧
  sameRequests reqs0 st1.ReqRepVars ∧
  (∀ i, (st1.ReqRepVars i).Used = true ↔
    ((st.ReqRepVars i).Used = true ∨ (marks = true ∧ i ∈ idxs ∧ sel (reqs0 i) = true))) ∧
  (∀ e ∈ st1.ReportList, e ∈ st.ReportList ∨ ∃ i ∈ idxs, e = (i : Int) ∧ sel (reqs0 i) = true) ∧
  (∀ e ∈ st.ReportList, e ∈ st1.ReportList) ∧
  (∀ i ∈ idxs, sel (reqs0 i) = true →
    ∃ e ∈ st1.ReportList, samePair (reqs0 e.toNat) (reqs0 i))

/-! ## DetermineFrequency (lines 810-886) -/

/-- The parallel arrays PossibleFreq, ExactFreqString and FreqValues of DetermineFrequency, in
index order -1..6: the four-letter key, the exact key string and the frequency value. -/
def FrequencyTable : List (String × String × Int) :=
  [("deta", "Detailed   ", -1), ("time", "Timestep   ", 0), ("hour", "Hourly     ", 1),
   ("dail", "Daily      ", 2), ("mont", "Monthly    ", 3), ("runp", "RunPeriod  ", 4),
   ("envi", "Environment", 4), ("annu", "Annual     ", 4)]

/-- The substring `s(1, n)` of an Fstring. -/
def substringTo (s : String) (n : Nat) : String := ⟨s.data.take n⟩

/-- The test of the loop of DetermineFrequency: the first LenString = min(len, 4) characters
of FreqString are the four-letter key, ignoring case. -/
def frequencyKeyMatches (FreqString : String) (e : String × String × Int) : Bool :=
  SameString (substringTo FreqString (min FreqString.length 4)) (substringTo e.1 4)

/-- DetermineFrequency with the module variable MinReportFrequency as an argument: ReportFreq
starts as ReportHourly; the first table entry whose key matches sets it to the larger of the
entry's value and MinReportFrequency and ends the loop. The warning for a string that is not
an exact key string does not touch ReportFreq and is left out. -/
def DetermineFrequency (FreqString : String) (MinReportFrequency : Int) : Int :=
  match FrequencyTable.find? (frequencyKeyMatches FreqString) with
  | some e => max e.2.2 MinReportFrequency
  | none => ReportHourly

/-! ## The meter table with names: AddMeter (lines 2348-2490) -/

/-- An element of EnergyMeters: the name and classification strings that AddMeter sets,
together with the accumulator fields of `MeterType`. The report numbers and their character
forms (AssignReportNumber) and the IP-units field are left out. -/
structure NamedMeter where
  Name : String
  ResourceType : String
  EndUse : String
  EndUseSub : String
  Group : String
  Units : String
  Meter : MeterType
deriving DecidableEq

/-- The module variables NumEnergyMeters and EnergyMeters(1..NumEnergyMeters). -/
structure MeterRegistry where
  NumEnergyMeters : Nat
  EnergyMeters : Nat → NamedMeter

/-- The array expression EnergyMeters.Name(). -/
def MeterRegistry.Names (reg : MeterRegistry) : Nat → String :=
  fun i => (reg.EnergyMeters i).Name

/-- Equality of two Fstrings: the character data are equal up to trailing blanks. -/
def sameFstring (a b : String) : Bool := trimBlanks a == trimBlanks b

/-- Scan of `n` items starting at position `Item` for the first one equal to `s`. -/
def FindItemInListFrom (s : String) (ListOfItems : Nat → String) : Nat → Nat → Nat
  | 0, _ => 0
  | n + 1, Item =>
    if sameFstring s (ListOfItems Item) then Item
    else FindItemInListFrom s ListOfItems n (Item + 1)

/-- Modelled from the spec: InputProcessor::FindItemInList, the exact-name lookup: the position
(from 1) of the first item equal to the string, or 0 when there is none. -/
def FindItemInList (s : String) (ListOfItems : Nat → String) (NumItems : Nat) : Nat :=
  FindItemInListFrom s ListOfItems NumItems 1

/-- The element AddMeter writes at the new position: the strings from the arguments, every
running total 0, every maximum at MaxSetValue and minimum at MinSetValue, every date 0 and
every report flag false (lines 2413-2461; `freshMeter` holds the accumulator part). -/
def newMeter (Name MtrUnits ResourceType EndUse EndUseSub Group : String) : NamedMeter :=
  { Name := Name, ResourceType := ResourceType, EndUse := EndUse, EndUseSub := EndUseSub,
    Group := Group, Units := MtrUnits, Meter := freshMeter }

/-- AddMeter: when FindItemInList does not find the name, EnergyMeters is reallocated with one
more element (the old elements copied back to their positions) and the new meter is written at
NumEnergyMeters + 1; when it finds the name, ShowFatalError ends the program, which is the
`error` result. -/
def AddMeter (Name MtrUnits ResourceType EndUse EndUseSub Group : String)
    (reg : MeterRegistry) : Except String MeterRegistry :=
  let Found :=
    if reg.NumEnergyMeters > 0 then FindItemInList Name reg.Names reg.NumEnergyMeters else 0
  if Found = 0 then
    Except.ok
      { NumEnergyMeters := reg.NumEnergyMeters + 1
        EnergyMeters := Function.update reg.EnergyMeters (reg.NumEnergyMeters + 1)
          (newMeter Name MtrUnits ResourceType EndUse EndUseSub Group) }
  else
    Except.error ("Requested to Add Meter which was already present=" ++ Name)

/-! ## ValidateNStandardizeMeterTitles (lines 2711-2988) -/

/-- The Fstring `trim(s)`. -/
def trim (s : String) : String := ⟨trimBlanks s⟩

/-- The Fstring that MakeUPPERCase returns. -/
def UPPERCase (s : String) : String := ⟨MakeUPPERCase s⟩

/-- One arm of a SELECT CASE chain: `SELECT_CASE_var == k` for one of the listed literals. -/
def caseMatches (SELECT_CASE_var : String) (keys : List String) : Bool :=
  keys.any (fun k => sameFstring SELECT_CASE_var k)

/-- A SELECT CASE chain over literals: the value of the first arm that matches. -/
def selectCase (table : List (List String × String)) (SELECT_CASE_var : String) :
    Option String :=
  (table.find? (fun arm => caseMatches SELECT_CASE_var arm.1)).map (fun arm => arm.2)

/-- The arms of the SELECT CASE of GetStandardMeterResourceType (lines 2184-2340), in order:
the literals of each arm and the standard resource type it assigns. -/
def ResourceTypeTable : List (List String × String) :=
  [(["ELECTRICITY", "ELECTRIC", "ELEC"], "Electricity"),
   (["GAS", "NATURALGAS", "NATURAL GAS"], "Gas"), (["GASOLINE"], "Gasoline"),
   (["DIESEL"], "Diesel"), (["COAL"], "Coal"),
   (["FUEL OIL #1", "FUELOIL#1", "FUEL OIL", "DISTILLATE OIL"], "FuelOil#1"),
   (["FUEL OIL #2", "FUELOIL#2", "RESIDUAL OIL"], "FuelOil#2"),
   (["PROPANE", "LPG", "PROPANEGAS", "PROPANE GAS"], "Propane"),
   (["WATER", "H2O"], "Water"),
   (["ONSITEWATER", "WATERPRODUCED", "ONSITE WATER"], "OnSiteWater"),
   (["MAINSWATER", "WATERSUPPLY"], "MainsWater"),
   (["RAINWATER", "PRECIPITATION"], "RainWater"),
   (["WELLWATER", "GROUNDWATER"], "WellWater"), (["CONDENSATE"], "Condensate"),
   (["ENERGYTRANSFER", "ENERGYXFER", "XFER"], "EnergyTransfer"), (["STEAM"], "Steam"),
   (["DISTRICTCOOLING"], "DistrictCooling"), (["DISTRICTHEATING"], "DistrictHeating"),
   (["ELECTRICITYPRODUCED"], "ElectricityProduced"),
   (["ELECTRICITYPURCHASED"], "ElectricityPurchased"),
   (["ELECTRICITYSURPLUSSOLD"], "ElectricitySurplusSold"),
   (["ELECTRICITYNET"], "ElectricityNet"), (["SOLARWATER"], "SolarWater"),
   (["SOLARAIR"], "SolarAir"), (["SO2"], "SO2"), (["NOX"], "NOx"), (["N2O"], "N2O"),
   (["PM"], "PM"), (["PM2.5"], "PM2.5"), (["PM10"], "PM10"), (["CO"], "CO"),
   (["CO2"], "CO2"), (["CH4"], "CH4"), (["NH3"], "NH3"), (["NMVOC"], "NMVOC"),
   (["HG"], "Hg"), (["PB"], "Pb"), (["NUCLEAR HIGH"], "Nuclear High"),
   (["NUCLEAR LOW"], "Nuclear Low"),
   (["WATERENVIRONMENTALFACTORS"], "WaterEnvironmentalFactors"),
   (["CARBON EQUIVALENT"], "Carbon Equivalent"), (["SOURCE"], "Source"),
   (["PLANTLOOPHEATINGDEMAND"], "PlantLoopHeatingDemand"),
   (["PLANTLOOPCOOLINGDEMAND"], "PlantLoopCoolingDemand"), (["GENERIC"], "Generic"),
   (["OTHERFUEL1"], "OtherFuel1"), (["OTHERFUEL2"], "OtherFuel2")]

/-- The arms of the group SELECT CASE of ValidateNStandardizeMeterTitles (lines 2772-2788),
without the blank arm. -/
def GroupTable : List (List String × String) :=
  [(["BUILDING"], "Building"), (["HVAC", "SYSTEM"], "HVAC"), (["PLANT"], "Plant")]

/-- The arms of the end-use SELECT CASE of ValidateNStandardizeMeterTitles (lines 2800-2961),
without the blank arm, each literal as the source spells it. -/
def EndUseTable : List (List String × String) :=
  [(["INTERIOR LIGHTS", "INTERIORLIGHTS"], "InteriorLights"),
   (["EXTERIOR LIGHTS", "EXTERIORLIGHTS"], "ExteriorLights"),
   (["HEATING", "HTG"], "Heating"), (["HEATPRODUCED"], "HeatProduced"),
   (["COOLING", "CLG"], "Cooling"),
   (["DOMESTICHOTWATER", "DHW", "DOMESTIC HOT WATER"], "WaterSystems"),
   (["COGEN", "COGENERATION"], "Cogeneration"),
   (["INTERIOREQUIPMENT", "INTERIOR EQUIPMENT"], "InteriorEquipment"),
   (["EXTERIOREQUIPMENT", "EXTERIOR EQUIPMENT", "EXT EQ", "EXTERIOREQ"], "ExteriorEquipment"),
   (["EXTERIOR:WATEREQUIPMENT"], "ExteriorEquipment"),
   (["PURCHASEDHOTWATER", "DISTRICTHOTWATER", "PURCHASED HEATING"], "DistrictHotWater"),
   (["PURCHASEDCOLDWATER", "DISTRICTCHILLEDWATER", "PURCHASEDCHILLEDWATER",
     "PURCHASED COLD WATER", "PURCHASED COOLING"], "DistrictChilledWater"),
   (["FANS", "FAN"], "Fans"),
   (["HEATINGCOILS", "HEATINGCOIL", "HEATING COILS", "HEATING COIL"], "HeatingCoils"),
   (["COOLINGCOILS", "COOLINGCOIL", "COOLING COILS", "COOLING COIL"], "CoolingCoils"),
   (["PUMPS", "PUMP"], "Pumps"), (["FREECOOLING", "FREE COOLING"], "Freecooling"),
   (["LOOPTOLOOP"], "LoopToLoop"), (["CHILLERS", "CHILLER"], "Chillers"),
   (["BOILERS", "BOILER"], "Boilers"), (["BASEBOARD", "BASEBOARDS"], "Baseboard"),
   (["HEATREJECTION", "HEAT REJECTION"], "HeatRejection"),
   (["HUMIDIFIER", "HUMIDIFIERS"], "Humidifier"),
   (["HEATRECOVERY", "HEAT RECOVERY"], "HeatRecovery"),
   (["PHOTOVOLTAICS", "PV", "PHOTOVOLTAIC"], "Photovoltaic"),
   (["WINDTURBINES", "WT", "WINDTURBINE"], "WindTurbine"),
   (["HEAT RECOVERY FOR COOLING", "HEATRECOVERYFORCOOLING", "HEATRECOVERYCOOLING"],
    "HeatRecoveryForCooling"),
   (["HEAT RECOVERY FOR HEATING", "HEATRECOVERYFORHEATING", "HEATRECOVERYHEATING"],
    "HeatRecoveryForHeating"),
   (["ELECTRICEMISSIONS"], "ElectricEmissions"),
   (["PURCHASEDELECTRICEMISSIONS"], "PurchasedElectricEmissions"),
   (["SOLDELECTRICEMISSIONS"], "SoldElectricEmissions"),
   (["NATURALGASEMISSIONS"], "NaturalGasEmissions"),
   (["FUELOIL#1EMISSIONS"], "FuelOil#1Emissions"),
   (["FUELOIL#2EMISSIONS"], "FuelOil#2Emissions"), (["COALEMISSIONS"], "CoalEmissions"),
   (["GASOLINEEMISSIONS"], "GasolineEmissions"), (["PROPANEEMISSIONS"], "PropaneEmissions"),
   (["DIESELEMISSIONS"], "DieselEmissions"),
   (["OTHERFUEL1EMISSIONS"], "OtherFuel1Emissions"),
   (["OTHERFUEL2EMISSIONS"], "OtherFuel2Emissions"),
   (["CARBONEQUIVALENTEMISSIONS"], "CarbonEquivalentEmissions"),
   (["REFRIGERATION"], "Refrigeration"), (["COLDSTORAGECHARGE"], "ColdStorageCharge"),
   (["COLDSTORAGEDISCHARGE"], "ColdStorageDischarge"),
   (["WATERSYSTEMS", "WATERSYSTEM", "Water System"], "WaterSystems"),
   (["RAINWATER"], "Rainwater"), (["CONDENSATE"], "Condensate"),
   (["WELLWATER"], "Wellwater"), (["MAINSWATER", "PURCHASEDWATER"], "MainsWater")]

/-- GetStandardMeterResourceType (lines 2152-2346): the results OutResourceType and
ErrorsFound. The SELECT CASE is on MakeUPPERCase(UserInputResourceType); an arm that matches
assigns the standard resource type, and no arm leaves OutResourceType alone and sets
ErrorsFound. -/
def GetStandardMeterResourceType (OutResourceType UserInputResourceType : String) :
    String × Bool :=
  match selectCase ResourceTypeTable (UPPERCase UserInputResourceType) with
  | some standard => (standard, false)
  | none => (OutResourceType, true)

/-- The group SELECT CASE of ValidateNStandardizeMeterTitles: the new value of Group and
whether the arm "Illegal Group" was taken. -/
def standardGroup (Group : String) : String × Bool :=
  if isBlankString (UPPERCase Group) then (Group, false)
  else
    match selectCase GroupTable (UPPERCase Group) with
    | some standard => (standard, false)
    | none => (Group, true)

/-- The end-use SELECT CASE of ValidateNStandardizeMeterTitles: the new value of EndUse and
whether the arm "Illegal EndUse" was taken. -/
def standardEndUse (EndUse : String) : String × Bool :=
  if isBlankString (UPPERCase EndUse) then (EndUse, false)
  else
    match selectCase EndUseTable (UPPERCase EndUse) with
    | some standard => (standard, false)
    | none => (EndUse, true)

/-- The statement pair `Found = FindItem(Name, EnergyMeters.Name(), NumEnergyMeters);
if (Found == 0) AddMeter(Name, ...)`. -/
def addMeterIfNotFound (Name MtrUnits ResourceType EndUse EndUseSub Group : String)
    (reg : MeterRegistry) : Except String MeterRegistry :=
  if FindItem Name reg.Names reg.NumEnergyMeters = 0 then
    AddMeter Name MtrUnits ResourceType EndUse EndUseSub Group reg
  else Except.ok reg

/-- The resource-type block (lines 2764-2771): FindItem is called only when there is a
meter. -/
def facilityMeter (MtrUnits ResourceType : String) (reg : MeterRegistry) :
    Except String MeterRegistry :=
  let Found :=
    if reg.NumEnergyMeters > 0 then
      FindItem (trim ResourceType ++ ":Facility") reg.Names reg.NumEnergyMeters
    else 0
  if Found = 0 then AddMeter (trim ResourceType ++ ":Facility") MtrUnits ResourceType " " " " " " reg
  else Except.ok reg

/-- The group block (lines 2791-2800), entered when there is no local error and Group is not
blank. -/
def groupMeters (MtrUnits ResourceType Group ZoneName : String) (reg : MeterRegistry) :
    Except String MeterRegistry :=
  match addMeterIfNotFound (trim ResourceType ++ ":" ++ trim Group) MtrUnits ResourceType
      " " " " Group reg with
  | Except.error e => Except.error e
  | Except.ok reg1 =>
    if sameFstring Group "Building" then
      addMeterIfNotFound (trim ResourceType ++ ":Zone:" ++ trim ZoneName) MtrUnits ResourceType
        " " " " "Zone" reg1
    else Except.ok reg1

/-- The end-use block (lines 2965-2974), entered when there is no local error and EndUse is not
blank. -/
def endUseMeters (MtrUnits ResourceType EndUse Group ZoneName : String) (reg : MeterRegistry) :
    Except String MeterRegistry :=
  match addMeterIfNotFound (trim EndUse ++ ":" ++ trim ResourceType) MtrUnits ResourceType
      EndUse " " " " reg with
  | Except.error e => Except.error e
  | Except.ok reg1 =>
    if sameFstring Group "Building" then
      addMeterIfNotFound (trim EndUse ++ ":" ++ trim ResourceType ++ ":Zone:" ++ trim ZoneName)
        MtrUnits ResourceType EndUse " " "Zone" reg1
    else Except.ok reg1

/-- The end-use subcategory block (lines 2980-2983). -/
def endUseSubMeter (MtrUnits ResourceType EndUse EndUseSub : String) (reg : MeterRegistry) :
    Except String MeterRegistry :=
  addMeterIfNotFound (trim EndUseSub ++ ":" ++ trim EndUse ++ ":" ++ trim ResourceType)
    MtrUnits ResourceType EndUse EndUseSub " " reg

/-- The four meter blocks of ValidateNStandardizeMeterTitles in the order of the source, given
the standard strings and the value LocalErrorsFound has when each block is reached (the
resource-type block after the first SELECT CASE, the group block after the second, the end-use
and subcategory blocks after the third). -/
def addStandardMeters (MtrUnits ResourceType EndUse EndUseSub Group ZoneName : String)
    (Local1 Local2 Local3 : Bool) (reg : MeterRegistry) : Except String MeterRegistry :=
  match (if !Local1 then facilityMeter MtrUnits ResourceType reg else Except.ok reg) with
  | Except.error e => Except.error e
  | Except.ok reg1 =>
    match (if !Local2 && !isBlankString Group then
             groupMeters MtrUnits ResourceType Group ZoneName reg1
           else Except.ok reg1) with
    | Except.error e => Except.error e
    | Except.ok reg2 =>
      match (if !Local3 && !isBlankString EndUse then
               endUseMeters MtrUnits ResourceType EndUse Group ZoneName reg2
             else Except.ok reg2) with
      | Except.error e => Except.error e
      | Except.ok reg3 =>
        if !Local3 && !isBlankString EndUseSub then
          endUseSubMeter MtrUnits ResourceType EndUse EndUseSub reg3
        else Except.ok reg3

/-- What ValidateNStandardizeMeterTitles leaves behind: its four in-out strings, ErrorsFound,
the final value of its local LocalErrorsFound, and the meter table. -/
structure StandardMeterTitles where
  ResourceType : String
  EndUse : String
  EndUseSub : String
  Group : String
  ErrorsFound : Bool
  LocalErrorsFound : Bool
  reg : MeterRegistry

/-- ValidateNStandardizeMeterTitles, with ZoneName given. The three SELECT CASE chains run
whatever the earlier ones found; the meters of a block are added only while LocalErrorsFound
is still false; ErrorsFound is set by the two branches `else if (LocalErrorsFound)` at the
end. The result is `error` when a call of AddMeter ends in its fatal error. -/
def ValidateNStandardizeMeterTitles (MtrUnits ResourceType EndUse EndUseSub Group : String)
    (ErrorsFound : Bool) (ZoneName : String) (reg : MeterRegistry) :
    Except String StandardMeterTitles :=
  let rt := GetStandardMeterResourceType ResourceType (UPPERCase ResourceType)
  let gr := standardGroup Group
  let eu := standardEndUse EndUse
  let Local1 := rt.2
  let Local2 := Local1 || gr.2
  let Local3 := Local2 || eu.2
  match addStandardMeters MtrUnits rt.1 eu.1 EndUseSub gr.1 ZoneName Local1 Local2 Local3
      reg with
  | Except.error e => Except.error e
  | Except.ok reg4 =>
    Except.ok
      { ResourceType := rt.1, EndUse := eu.1, EndUseSub := EndUseSub, Group := gr.1,
        ErrorsFound := ErrorsFound || Local3, LocalErrorsFound := Local3, reg := reg4 }

/-- The names the four meter blocks look up, block by block: a block that is not entered
looks up nothing. -/
def standardMeterNames (ResourceType EndUse EndUseSub Group ZoneName : String)
    (Local1 Local2 Local3 : Bool) : List String :=
  (if !Local1 then [trim ResourceType ++ ":Facility"] else []) ++
  ((if !Local2 && !isBlankString Group then
      [trim ResourceType ++ ":" ++ trim Group] ++
        (if sameFstring Group "Building" then
          [trim ResourceType ++ ":Zone:" ++ trim ZoneName] else [])
    else []) ++
   ((if !Local3 && !isBlankString EndUse then
       [trim EndUse ++ ":" ++ trim ResourceType] ++
         (if sameFstring Group "Building" then
           [trim EndUse ++ ":" ++ trim ResourceType ++ ":Zone:" ++ trim ZoneName]
          else [])
     else []) ++
    (if !Local3 && !isBlankString EndUseSub then
       [trim EndUseSub ++ ":" ++ trim EndUse ++ ":" ++ trim ResourceType]
     else [])))

/-- A meter table without meters. -/
def noMeters : MeterRegistry :=
  { NumEnergyMeters := 0
    EnergyMeters := fun _ => newMeter "" "" "" "" "" "" }

/-- The names of the meters 1..NumEnergyMeters. -/
def MeterRegistry.nameList (reg : MeterRegistry) : List String :=
  (List.range' 1 reg.NumEnergyMeters).map reg.Names

/-- The strings and the error flag of a result, and the names of the meters. -/
def StandardMeterTitles.summary (r : StandardMeterTitles) :
    List String × Bool × List String :=
  ([r.ResourceType, r.EndUse, r.EndUseSub, r.Group], r.ErrorsFound, r.reg.nameList)

/-- A meter of that name is registered, by the lookup the module itself uses (FindItem, which
ignores case). -/
def MeterRegistry.hasMeter (reg : MeterRegistry) (Name : String) : Bool :=
  FindItem Name reg.Names reg.NumEnergyMeters != 0

/-- A step on the meter table that never ends in the fatal error, after which all the listed
names are registered, which loses no registered name, and which leaves the table alone when
the listed names are registered already. -/
def EnsuresMeters (f : MeterRegistry → Except String MeterRegistry) (names : List String) :
    Prop :=
  ∀ reg, ∃ reg1, f reg = Except.ok reg1 ∧
    (∀ n ∈ names, reg1.hasMeter n = true) ∧
    (∀ n, reg.hasMeter n = true → reg1.hasMeter n = true) ∧
    ((∀ n ∈ names, reg.hasMeter n = true) → reg1 = reg)

/-! ## Custom meters: AttachCustomMeters (lines 2623-2709) and GetCustomMeterInput
(lines 1595-2150) -/

def VarType_NotFound : Nat := 0
def VarType_Integer : Nat := 1
def VarType_Real : Nat := 2
def VarType_Meter : Nat := 3
def VarType_Schedule : Nat := 4

/-- The module constant BlankString. -/
def BlankString : String := ""

/-- Modelled from the spec: the dimension of the array OnMeters of MeterArrayType, one
position for each standard meter a variable can feed; the declaration of the type is not in
the source at hand, and AttachMeters (lines 2565-2616) fills the positions from 1 on. -/
def MaxOnMeters : Nat := 6

/-- An element of VarMeterArrays, the attachment record of a variable: OnMeters holds all
positions of the array (unused ones are 0), OnCustomMeters is allocated with exactly
NumOnCustomMeters positions. -/
structure MeterArrayType where
  NumOnMeters : Nat
  RepVariable : Nat
  OnMeters : List Nat
  NumOnCustomMeters : Nat
  OnCustomMeters : List Nat
deriving DecidableEq

/-- The array test any_eq(a, v): some element of the array equals v. -/
def any_eq (a : List Nat) (v : Nat) : Bool := a.any (fun x => x == v)

/-- An integer work array of GetCustomMeterInput (VarsOnCustomMeter, VarsOnSourceMeter) with
its counters: positions 1..MaxVars are allocated, positions 1..NumVars are in use. -/
structure VarList where
  Vars : Nat → Nat
  MaxVars : Nat
  NumVars : Nat

/-- The statements `allocate(1000); Vars = 0; MaxVars = 1000; NumVars = 0`. -/
def VarList.allocate : VarList :=
  { Vars := fun _ => 0, MaxVars := 1000, NumVars := 0 }

/-- The statements that put one more index on the array: NumVars is incremented; when it
exceeds MaxVars the array is reallocated with 100 more positions, the old ones copied and the
new ones 0; then Vars(NumVars) is assigned. -/
def VarList.add (a : VarList) (v : Nat) : VarList :=
  if a.NumVars + 1 > a.MaxVars then
    { Vars := Function.update (fun i => if i ≤ a.MaxVars then a.Vars i else 0) (a.NumVars + 1) v
      MaxVars := a.MaxVars + 100
      NumVars := a.NumVars + 1 }
  else
    { Vars := Function.update a.Vars (a.NumVars + 1) v
      MaxVars := a.MaxVars
      NumVars := a.NumVars + 1 }

/-- The test any_eq(Vars, v) over all allocated positions, the unused ones included. -/
def VarList.any_eq (a : VarList) (v : Nat) : Bool :=
  (List.range' 1 a.MaxVars).any (fun i => a.Vars i == v)

/-- The module tables GetCustomMeterInput works on (the meter table, VarMeterArrays, and for
each report variable number the MeterArrayPtr of the variable it points to), its argument
ErrorsFound, and those of its locals that live across loop iterations. -/
structure CustomMeterState where
  reg : MeterRegistry
  NumVarMeterArrays : Nat
  VarMeterArrays : Nat → MeterArrayType
  MeterArrayPtr : Nat → Nat
  ErrorsFound : Bool
  BigErrorsFound : Bool
  MeterCreated : Bool
  MeterUnits : String
  VarsOnCustomMeter : VarList
  WhichMeter : Nat

/-- AttachCustomMeters: a variable without attachment record (MeterArrayPtr = 0) gets a new
record at the end of VarMeterArrays, with no standard meter and the custom meter MeterIndex;
a variable with a record gets MeterIndex appended to the OnCustomMeters of that record. The
arguments MtrUnits and ErrorsFound are not used by the routine. -/
def AttachCustomMeters (RepVarNum MeterIndex : Nat) (st : CustomMeterState) :
    CustomMeterState :=
  if st.MeterArrayPtr RepVarNum = 0 then
    { st with
      NumVarMeterArrays := st.NumVarMeterArrays + 1
      MeterArrayPtr := Function.update st.MeterArrayPtr RepVarNum (st.NumVarMeterArrays + 1)
      VarMeterArrays := Function.update st.VarMeterArrays (st.NumVarMeterArrays + 1)
        { NumOnMeters := 0, RepVariable := RepVarNum, OnMeters := List.replicate MaxOnMeters 0,
          NumOnCustomMeters := 1, OnCustomMeters := [MeterIndex] } }
  else
    let rec0 := st.VarMeterArrays (st.MeterArrayPtr RepVarNum)
    { st with
      VarMeterArrays := Function.update st.VarMeterArrays (st.MeterArrayPtr RepVarNum)
        (if rec0.NumOnCustomMeters > 0 then
          { rec0 with NumOnCustomMeters := rec0.NumOnCustomMeters + 1
                      OnCustomMeters := rec0.OnCustomMeters ++ [MeterIndex] }
         else
          { rec0 with NumOnCustomMeters := 1, OnCustomMeters := [MeterIndex] }) }

/-- The Fortran intrinsic index(s, c) for a single character: the position (from 1) of its
first occurrence in s, or 0. -/
def index (s : String) (c : Char) : Nat :=
  if c ∈ s.data then (s.data.takeWhile (fun x => x != c)).length + 1 else 0

/-- The statements `lbrackPos = index(s, "["); if (lbrackPos != 0) s = s(1..lbrackPos-1)` that
remove a units designation. -/
def stripUnits (s : String) : String :=
  if index s '[' ≠ 0 then substringTo s (index s '[' - 1) else s

/-- A pair of alpha fields of a custom meter object: the key field cAlphaArgs(fldIndex) and the
variable-or-meter name field cAlphaArgs(fldIndex + 1), each with its flag lAlphaFieldBlanks as
GetObjectItem returns it. -/
structure CustomMeterEntry where
  Key : String
  KeyBlank : Bool
  VarName : String
  VarNameBlank : Bool
deriving DecidableEq

/-- A Meter:Custom or Meter:CustomDecrement object as GetObjectItem returns it: the name, the
fuel type, for a decrement meter the source meter name, and the pairs of fields that follow. -/
structure CustomMeterObject where
  Name : String
  ResourceType : String
  SourceMeterName : String
  entries : List CustomMeterEntry
deriving DecidableEq

/-- The results of GetVariableKeyCountandType for a name. -/
structure VariableKeyCountandType where
  TypeVar : Nat
  AvgSumVar : Nat
  UnitsVar : String
deriving DecidableEq

/-- The routines GetCustomMeterInput calls to look things up, as functions of what they read:
VerifyName of InputProcessor (its result IsNotOK for a name and the meter table), and
GetVariableKeyCountandType and GetVariableKeys (lines 7574-7930), which search the variable
tables, the meters and the schedules for a name; GetVariableKeys gives the pairs
(NamesOfKeys(i), IndexesForKeyVar(i)) for i = 1..KeyCount. -/
structure CustomMeterLookup where
  VerifyName : String → MeterRegistry → Bool
  GetVariableKeyCountandType : CustomMeterState → String → VariableKeyCountandType
  GetVariableKeys : CustomMeterState → String → Nat → List (String × Nat)

/-- A loop over a list whose body may end the program: the first fatal error is the result. -/
def forEachOrFatal {α σ : Type} (body : α → σ → Except String σ) : List α → σ → Except String σ
  | [], st => Except.ok st
  | a :: rest, st =>
    match body a st with
    | Except.error e => Except.error e
    | Except.ok st1 => forEachOrFatal body rest st1

/-- The block `if (!MeterCreated)` of the field loop (lines 1772-1789 and 1996-2015): the
meter units become the units of the entry at hand, AddMeter registers the meter under the name
of the object with these units, the new meter gets its type (and for a decrement meter its
source meter), GetStandardMeterResourceType gives it its resource type and sets
BigErrorsFound when the fuel type is not a legal one. DetermineMeterIPUnits only concerns the
IP-units field and messages. -/
def createCustomMeter (Decrement : Bool) (Name ResourceType UnitsVar : String)
    (st : CustomMeterState) : Except String CustomMeterState :=
  if st.MeterCreated then Except.ok st
  else
    match AddMeter Name UnitsVar BlankString BlankString BlankString BlankString st.reg with
    | Except.error e => Except.error e
    | Except.ok reg1 =>
      let m := reg1.EnergyMeters reg1.NumEnergyMeters
      let rt := GetStandardMeterResourceType m.ResourceType (UPPERCase ResourceType)
      Except.ok
        { st with
          MeterUnits := UnitsVar
          reg :=
            { reg1 with
              EnergyMeters := Function.update reg1.EnergyMeters reg1.NumEnergyMeters
                { m with
                  ResourceType := rt.1
                  Meter :=
                    (if Decrement then
                      { m.Meter with TypeOfMeter := MeterType_CustomDec
                                     SourceMeter := st.WhichMeter }
                     else { m.Meter with TypeOfMeter := MeterType_Custom }) } }
          BigErrorsFound := st.BigErrorsFound || rt.2
          MeterCreated := true }

/-- The branch of the field loop for a Summed real or integer variable (lines 1795-1845 and
2021-2071): with a star key every key of the variable is put on VarsOnCustomMeter, otherwise
the keys equal to the key field; when none is put on, ErrorsFound is set. -/
def addKeyedVariables (KeyIsStar : Bool) (Key : String) (keys : List (String × Nat))
    (st : CustomMeterState) : CustomMeterState :=
  let chosen := if KeyIsStar then keys else keys.filter (fun k => sameFstring k.1 Key)
  { st with
    VarsOnCustomMeter := chosen.foldl (fun a k => a.add k.2) st.VarsOnCustomMeter
    ErrorsFound := st.ErrorsFound || chosen.isEmpty }

/-- The branch of the field loop for a meter (lines 1846-1870 and 2072-2100): WhichMeter
becomes IndexesForKeyVar(1), and the variable of every attachment record that lists this meter
is put on VarsOnCustomMeter. A Meter:Custom object looks in OnMeters only, a
Meter:CustomDecrement object also in OnCustomMeters when the record has custom meters. -/
def addMeterVariables (Decrement : Bool) (keys : List (String × Nat))
    (st : CustomMeterState) : CustomMeterState :=
  let WhichMeter := (keys.map (fun k => k.2)).headD 0
  { st with
    WhichMeter := WhichMeter
    VarsOnCustomMeter :=
      (List.range' 1 st.NumVarMeterArrays).foldl
        (fun a iOnMeter =>
          let testa := any_eq (st.VarMeterArrays iOnMeter).OnMeters WhichMeter
          let testb := Decrement && decide ((st.VarMeterArrays iOnMeter).NumOnCustomMeters > 0)
            && any_eq (st.VarMeterArrays iOnMeter).OnCustomMeters WhichMeter
          if !(testa || testb) then a else a.add (st.VarMeterArrays iOnMeter).RepVariable)
        st.VarsOnCustomMeter }

/-- One pass of the field loop of GetCustomMeterInput over a pair of fields (lines 1736-1877
for Meter:Custom, 1975-2107 for Meter:CustomDecrement). `Name` and `ResourceType` are
cAlphaArgs(1) and cAlphaArgs(2) of the object. Warnings are not modelled. -/
def processEntry (env : CustomMeterLookup) (Decrement : Bool) (Name ResourceType : String)
    (e : CustomMeterEntry) (st : CustomMeterState) : Except String CustomMeterState :=
  let KeyIsStar := sameFstring e.Key "*" || e.KeyBlank
  if e.VarNameBlank then Except.ok { st with BigErrorsFound := true }
  else if st.BigErrorsFound then Except.ok st
  else
    let VarName := stripUnits e.VarName
    let kt := env.GetVariableKeyCountandType st VarName
    if kt.TypeVar = VarType_NotFound then Except.ok st
    else
      match createCustomMeter Decrement Name ResourceType kt.UnitsVar st with
      | Except.error msg => Except.error msg
      | Except.ok st1 =>
        if !sameFstring kt.UnitsVar st1.MeterUnits then Except.ok st1
        else
          let st2 :=
            if (kt.TypeVar = VarType_Real ∨ kt.TypeVar = VarType_Integer) ∧
                kt.AvgSumVar = SummedVar then
              addKeyedVariables KeyIsStar e.Key (env.GetVariableKeys st1 VarName kt.TypeVar) st1
            else st1
          let st3 :=
            if kt.TypeVar = VarType_Meter ∧ kt.AvgSumVar = SummedVar then
              addMeterVariables Decrement (env.GetVariableKeys st2 VarName kt.TypeVar) st2
            else st2
          Except.ok st3

/-- The field loop over the pairs of fields of one object. -/
def fieldLoop (env : CustomMeterLookup) (Decrement : Bool) (Name ResourceType : String)
    (entries : List CustomMeterEntry) (st : CustomMeterState) :
    Except String CustomMeterState :=
  forEachOrFatal (processEntry env Decrement Name ResourceType) entries st

/-- The inner loop of the duplicate check for one iKey (lines 1882-1888): every later position
of VarsOnCustomMeter that holds the same index as position iKey is set to 0. -/
def removeDuplicatesOf (iKey NumVars : Nat) (Vars : Nat → Nat) : Nat → Nat :=
  (List.range' (iKey + 1) (NumVars - iKey)).foldl
    (fun V iKey1 => if V iKey ≠ V iKey1 then V else Function.update V iKey1 0) Vars

/-- The duplicate check (lines 1878-1889 and 2109-2120): for iKey = 1..NumVars, positions
that hold 0 are skipped and the others clear their later duplicates. -/
def checkForDuplicates (NumVars : Nat) (Vars : Nat → Nat) : Nat → Nat :=
  (List.range' 1 NumVars).foldl
    (fun V iKey => if V iKey = 0 then V else removeDuplicatesOf iKey NumVars V) Vars

/-- The loop that follows the duplicate check (lines 1890-1894 and 2121-2125): AttachCustomMeters
is called for every position of VarsOnCustomMeter that does not hold 0, with the number of the
last registered meter as MeterIndex. -/
def attachVariables (NumVars : Nat) (Vars : Nat → Nat) (st : CustomMeterState) :
    CustomMeterState :=
  (List.range' 1 NumVars).foldl
    (fun s iKey =>
      if Vars iKey = 0 then s else AttachCustomMeters (Vars iKey) st.reg.NumEnergyMeters s) st

/-- The variable numbers with which attachVariables calls AttachCustomMeters, in order. -/
def attachedVariables (NumVars : Nat) (Vars : Nat → Nat) : List Nat :=
  ((List.range' 1 NumVars).map Vars).filter (fun v => v != 0)

/-- The duplicate check and the attach loop at the end of an object. -/
def finishCustomMeter (st : CustomMeterState) : CustomMeterState :=
  let Vars := checkForDuplicates st.VarsOnCustomMeter.NumVars st.VarsOnCustomMeter.Vars
  attachVariables st.VarsOnCustomMeter.NumVars Vars
    { st with VarsOnCustomMeter := { st.VarsOnCustomMeter with Vars := Vars } }

/-- The loop that collects VarsOnSourceMeter (lines 1930-1972): the variable of every
attachment record that lists the source meter among its standard or its custom meters. -/
def sourceMeterVariables (WhichMeter : Nat) (st : CustomMeterState) : VarList :=
  (List.range' 1 st.NumVarMeterArrays).foldl
    (fun a iKey =>
      let r := st.VarMeterArrays iKey
      if r.NumOnMeters = 0 ∧ r.NumOnCustomMeters = 0 then a
      else if any_eq r.OnMeters WhichMeter then a.add r.RepVariable
      else if r.NumOnCustomMeters = 0 then a
      else if any_eq r.OnCustomMeters WhichMeter then a.add r.RepVariable
      else a)
    VarList.allocate

/-- The inner loop of the source-meter check for one iKey (lines 2129-2137): its body ends
the loop in its first pass, either because the variable is on VarsOnSourceMeter or after
setting ErrorsFound; with NumVarsOnSourceMeter = 0 the body is not entered. -/
def sourceMeterCheckOf (VarsOnSourceMeter : VarList) (v : Nat) (ErrorsFound : Bool) : Bool :=
  match List.range' 1 VarsOnSourceMeter.NumVars with
  | [] => ErrorsFound
  | _ :: _ => if VarsOnSourceMeter.any_eq v then ErrorsFound else true

/-- The source-meter check of a Meter:CustomDecrement object (lines 2127-2138): the new value
of ErrorsFound. -/
def sourceMeterCheck (VarsOnSourceMeter VarsOnCustomMeter : VarList) (ErrorsFound : Bool) :
    Bool :=
  (List.range' 1 VarsOnCustomMeter.NumVars).foldl
    (fun ef iKey => sourceMeterCheckOf VarsOnSourceMeter (VarsOnCustomMeter.Vars iKey) ef)
    ErrorsFound

/-- The state in which the field loop of a Meter:Custom object starts (lines 1730-1741):
MeterCreated is false and VarsOnCustomMeter is newly allocated. -/
def customStart (st : CustomMeterState) : CustomMeterState :=
  { st with MeterCreated := false, VarsOnCustomMeter := VarList.allocate }

/-- The body of the loop over the Meter:Custom objects (lines 1727-1900): an object whose name
VerifyName rejects sets ErrorsFound and is left; otherwise the field loop runs, then the
duplicate check and the attach loop. -/
def processCustomMeter (env : CustomMeterLookup) (obj : CustomMeterObject)
    (st : CustomMeterState) : Except String CustomMeterState :=
  if env.VerifyName (stripUnits obj.Name) st.reg then
    Except.ok { st with MeterCreated := false, ErrorsFound := true }
  else
    match fieldLoop env false (stripUnits obj.Name) obj.ResourceType obj.entries
        (customStart st) with
    | Except.error msg => Except.error msg
    | Except.ok st1 => Except.ok (finishCustomMeter st1)

/-- The value of cAlphaArgs(1) when the field loop of a Meter:CustomDecrement object starts:
when the source meter field holds a bracket, the statement of line 1923 has assigned the part
of that field before the bracket to cAlphaArgs(1). -/
def decrementMeterName (obj : CustomMeterObject) : String :=
  if index obj.SourceMeterName '[' ≠ 0 then
    substringTo obj.SourceMeterName (index obj.SourceMeterName '[' - 1)
  else stripUnits obj.Name

/-- The state in which the field loop of a Meter:CustomDecrement object starts (lines
1908-1929): as for Meter:Custom, with WhichMeter the position FindItem gives for the source
meter field. -/
def decrementStart (obj : CustomMeterObject) (st : CustomMeterState) : CustomMeterState :=
  { st with MeterCreated := false, VarsOnCustomMeter := VarList.allocate
            WhichMeter := FindItem obj.SourceMeterName st.reg.Names st.reg.NumEnergyMeters }

/-- The body of the loop over the Meter:CustomDecrement objects (lines 1905-2146): an object
whose name VerifyName rejects, or whose source meter FindItem does not find, sets ErrorsFound
and is left; otherwise VarsOnSourceMeter is collected, the field loop runs, then the duplicate
check, the attach loop and the source-meter check. -/
def processCustomDecrementMeter (env : CustomMeterLookup) (obj : CustomMeterObject)
    (st : CustomMeterState) : Except String CustomMeterState :=
  if env.VerifyName (stripUnits obj.Name) st.reg then
    Except.ok { st with MeterCreated := false, ErrorsFound := true }
  else if (decrementStart obj st).WhichMeter = 0 then
    Except.ok { decrementStart obj st with ErrorsFound := true }
  else
    match fieldLoop env true (decrementMeterName obj) obj.ResourceType obj.entries
        (decrementStart obj st) with
    | Except.error msg => Except.error msg
    | Except.ok st2 =>
      Except.ok
        { finishCustomMeter st2 with
          ErrorsFound :=
            sourceMeterCheck
              (sourceMeterVariables (decrementStart obj st).WhichMeter (decrementStart obj st))
              (finishCustomMeter st2).VarsOnCustomMeter (finishCustomMeter st2).ErrorsFound }

/-- GetCustomMeterInput: BigErrorsFound starts false, the Meter:Custom objects are processed,
then the Meter:CustomDecrement objects, and at the end BigErrorsFound sets ErrorsFound. The
result is `error` when a call of AddMeter ends in its fatal error. -/
def GetCustomMeterInput (env : CustomMeterLookup) (customMeters decrementMeters :
    List CustomMeterObject) (st : CustomMeterState) : Except String CustomMeterState :=
  match forEachOrFatal (processCustomMeter env) customMeters
      { st with BigErrorsFound := false } with
  | Except.error msg => Except.error msg
  | Except.ok st1 =>
    match forEachOrFatal (processCustomDecrementMeter env) decrementMeters st1 with
    | Except.error msg => Except.error msg
    | Except.ok st2 =>
      Except.ok { st2 with ErrorsFound := st2.ErrorsFound || st2.BigErrorsFound }

/-- Whether a step returns, that is, does not end in the fatal error. -/
def returns {σ : Type} (x : Except String σ) : Bool :=
  match x with
  | Except.ok _ => true
  | Except.error _ => false

/-- What a step of the field loop leaves alone once the meter exists. -/
def SameMeters (st st1 : CustomMeterState) : Prop :=
  st1.reg = st.reg ∧ st1.MeterCreated = st.MeterCreated ∧ st1.MeterUnits = st.MeterUnits ∧
  st1.NumVarMeterArrays = st.NumVarMeterArrays ∧ st1.VarMeterArrays = st.VarMeterArrays ∧
  st1.MeterArrayPtr = st.MeterArrayPtr ∧ st1.BigErrorsFound = st.BigErrorsFound


/-- The registered meters keep their positions and all their fields. -/
def KeepsMeters (st st1 : CustomMeterState) : Prop :=
  st.reg.NumEnergyMeters ≤ st1.reg.NumEnergyMeters ∧
  ∀ i, 1 ≤ i → i ≤ st.reg.NumEnergyMeters → st1.reg.EnergyMeters i = st.reg.EnergyMeters i

/-- Sample lookups: VerifyName rejects a blank name and a name FindItem finds among the meters;
the variable "Zone Air Temperature" is an Averaged real variable in C with the key ZONE ONE
(report variable 1), "Heating Energy" and "Lights Energy" are Summed real variables in J with
the key ZONE ONE (report variables 2 and 3); no other name is known. -/
def sampleLookup : CustomMeterLookup :=
  { VerifyName := fun Name reg =>
      isBlankString Name || FindItem Name reg.Names reg.NumEnergyMeters != 0
    GetVariableKeyCountandType := fun _ Name =>
      if SameString Name "Zone Air Temperature" then ⟨VarType_Real, AveragedVar, "C"⟩
      else if SameString Name "Heating Energy" then ⟨VarType_Real, SummedVar, "J"⟩
      else if SameString Name "Lights Energy" then ⟨VarType_Real, SummedVar, "J"⟩
      else ⟨VarType_NotFound, 0, ""⟩
    GetVariableKeys := fun _ Name _ =>
      if SameString Name "Zone Air Temperature" then [("ZONE ONE", 1)]
      else if SameString Name "Heating Energy" then [("ZONE ONE", 2)]
      else if SameString Name "Lights Energy" then [("ZONE ONE", 3)]
      else [] }

/-- The tables before any meter and any attachment record exists. -/
def noTables : CustomMeterState :=
  { reg := noMeters
    NumVarMeterArrays := 0
    VarMeterArrays := fun _ => ⟨0, 0, [], 0, []⟩
    MeterArrayPtr := fun _ => 0
    ErrorsFound := false
    BigErrorsFound := false
    MeterCreated := false
    MeterUnits := ""
    VarsOnCustomMeter := VarList.allocate
    WhichMeter := 0 }

/-- The state a step returns (noTables for a step that ends in the fatal error). -/
def stateOf (x : Except String CustomMeterState) : CustomMeterState :=
  match x with
  | Except.ok st => st
  | Except.error _ => noTables

/-- An entry with a star key for the given name. -/
def entryFor (VarName : String) : CustomMeterEntry :=
  { Key := "*", KeyBlank := false, VarName := VarName, VarNameBlank := false }

/-- An entry whose name field is blank. -/
def blankEntry : CustomMeterEntry :=
  { Key := "*", KeyBlank := false, VarName := "", VarNameBlank := true }

/-- A Meter:Custom object that lists only an Averaged variable: its meter is registered, with
no variable on it. -/
def emptyCustomMeter : CustomMeterObject :=
  { Name := "Empty", ResourceType := "Generic", SourceMeterName := "",
    entries := [entryFor "Zone Air Temperature"] }

/-- A Meter:Custom object with the variable Lights Energy. -/
def lightsCustomMeter : CustomMeterObject :=
  { Name := "Lights", ResourceType := "Electricity", SourceMeterName := "",
    entries := [entryFor "Lights Energy"] }

/-- A Meter:CustomDecrement object that takes Heating Energy off the given source meter. -/
def heatingDecrementMeter (SourceMeterName : String) : CustomMeterObject :=
  { Name := "Less Heating", ResourceType := "Generic", SourceMeterName := SourceMeterName,
    entries := [entryFor "Heating Energy"] }

/-- A Meter:Custom object whose first entry is an Averaged variable in C and whose second
entry is a Summed variable in J. -/
def mixedCustomMeter : CustomMeterObject :=
  { Name := "Mixed", ResourceType := "Generic", SourceMeterName := "",
    entries := [entryFor "Zone Air Temperature", entryFor "Heating Energy"] }

/-- What is read off a state in the examples: ErrorsFound, the name and units of every meter,
and for the report variables 1 to 3 the custom meters of their attachment records (no record:
the empty list). -/
def CustomMeterState.summary (st : CustomMeterState) :
    Bool × List (String × String) × List (List Nat) :=
  (st.ErrorsFound,
   (List.range' 1 st.reg.NumEnergyMeters).map
     (fun i => ((st.reg.EnergyMeters i).Name, (st.reg.EnergyMeters i).Units)),
   [1, 2, 3].map (fun v =>
     if st.MeterArrayPtr v = 0 then [] else (st.VarMeterArrays (st.MeterArrayPtr v)).OnCustomMeters))

/-- The object mixedCustomMeter without its first entry. -/
def summedCustomMeter : CustomMeterObject :=
  { mixedCustomMeter with entries := [entryFor "Heating Energy"] }

/-- The state of the field loop of mixedCustomMeter after its first entry: the meter Mixed
exists, with the units C of the Averaged variable. -/
def mixedAfterFirstEntry : CustomMeterState :=
  stateOf (fieldLoop sampleLookup false "Mixed" "Generic" [entryFor "Zone Air Temperature"]
    (customStart noTables))

/-- The body of the object loop for either kind of object: `true` marks an object of the
Meter:CustomDecrement loop, `false` one of the Meter:Custom loop. -/
def processObject (env : CustomMeterLookup) (obj : Bool × CustomMeterObject)
    (st : CustomMeterState) : Except String CustomMeterState :=
  if obj.1 then processCustomDecrementMeter env obj.2 st else processCustomMeter env obj.2 st

/-- The objects in the order GetCustomMeterInput processes them: the Meter:Custom objects, then
the Meter:CustomDecrement objects. -/
def objectsInOrder (customMeters decrementMeters : List CustomMeterObject) :
    List (Bool × CustomMeterObject) :=
  customMeters.map (fun obj => (false, obj)) ++ decrementMeters.map (fun obj => (true, obj))

/-- Whether the field loop of an object is entered: VerifyName accepts the name and, for a
decrement meter, FindItem finds the source meter. -/
def objectVisited (env : CustomMeterLookup) (obj : Bool × CustomMeterObject)
    (st : CustomMeterState) : Bool :=
  !env.VerifyName (stripUnits obj.2.Name) st.reg &&
    (!obj.1 || (decrementStart obj.2 st).WhichMeter != 0)

/-- The state in which the field loop of an object starts. -/
def objectStart (obj : Bool × CustomMeterObject) (st : CustomMeterState) : CustomMeterState :=
  if obj.1 then decrementStart obj.2 st else customStart st

/-- The value of cAlphaArgs(1) in the field loop of an object. -/
def objectName (obj : Bool × CustomMeterObject) : String :=
  if obj.1 then decrementMeterName obj.2 else stripUnits obj.2.Name

/-! ## UpdateMeterReporting (lines 6361-6640) -/

/-- The two alpha fields of an Output:Meter object (of any of the four kinds): the meter name,
which may end in a star, and the reporting frequency. -/
structure MeterRequest where
  Name : String
  Frequency : String
deriving DecidableEq

/-- The four lists of meter requests, in the order UpdateMeterReporting reads them. -/
structure MeterRequests where
  Meter : List MeterRequest
  MeterFileOnly : List MeterRequest
  Cumulative : List MeterRequest
  CumulativeMeterFileOnly : List MeterRequest

/-- What UpdateMeterReporting does after GetCustomMeterInput, as the sequence of its calls:
SetInitialMeterReportingAndOutputNames with its four arguments (the body of that routine is
not modelled), the warning for a request that matches no meter, ReportMeterDetails, and the
fatal error. -/
inductive MeterReportingEvent where
  | SetInitialMeterReportingAndOutputNames (WhichMeter : Nat) (MeterFileOnlyIndicator : Bool)
      (FrequencyIndicator : Int) (CumulativeIndicator : Bool)
  | ShowWarningError (Name : String)
  | ReportMeterDetails
  | ShowFatalError (message : String)
deriving DecidableEq

/-- The body of each of the four request loops (lines 6467-6500 and its three copies): the
units designation is removed from the name, the frequency is determined, and either FindItem
looks the name up or, when the name holds a star, every meter whose name starts with the part
before the star is taken. -/
def processMeterRequest (MinReportFrequency : Int) (reg : MeterRegistry)
    (MeterFileOnlyIndicator CumulativeIndicator : Bool) (r : MeterRequest) :
    List MeterReportingEvent :=
  let Name := stripUnits r.Name
  let WildCard := index Name '*'
  let TestLen := WildCard - 1
  let ReportFreq := DetermineFrequency r.Frequency MinReportFrequency
  if WildCard = 0 then
    let Meter := FindItem Name reg.Names reg.NumEnergyMeters
    if Meter = 0 then [MeterReportingEvent.ShowWarningError Name]
    else [MeterReportingEvent.SetInitialMeterReportingAndOutputNames Meter
            MeterFileOnlyIndicator ReportFreq CumulativeIndicator]
  else
    let found := (List.range' 1 reg.NumEnergyMeters).filter
      (fun Meter => SameString (substringTo (reg.Names Meter) TestLen) (substringTo Name TestLen))
    if found.isEmpty then [MeterReportingEvent.ShowWarningError Name]
    else found.map (fun Meter =>
      MeterReportingEvent.SetInitialMeterReportingAndOutputNames Meter
        MeterFileOnlyIndicator ReportFreq CumulativeIndicator)

/-- The four request loops one after the other. -/
def requestEvents (MinReportFrequency : Int) (reg : MeterRegistry) (requests : MeterRequests) :
    List MeterReportingEvent :=
  (requests.Meter.map (processMeterRequest MinReportFrequency reg false false)).flatten ++
  (requests.MeterFileOnly.map (processMeterRequest MinReportFrequency reg true false)).flatten ++
  (requests.Cumulative.map (processMeterRequest MinReportFrequency reg false true)).flatten ++
  (requests.CumulativeMeterFileOnly.map
    (processMeterRequest MinReportFrequency reg true true)).flatten

/-- The message of the fatal error of UpdateMeterReporting. -/
def meterSpecificationFatal : String :=
  "UpdateMeterReporting: Previous Meter Specification errors cause program termination."

/-- UpdateMeterReporting as the sequence of its calls: GetCustomMeterInput (whose own fatal
error ends everything), `if (ErrorsFound) ErrorsLogged = true`, the four request loops,
ReportMeterDetails, and then the fatal error when ErrorsLogged is set. `st.ErrorsFound` is
the static ErrorsFound of the routine and `ErrorsLogged` the module variable. -/
def UpdateMeterReporting (env : CustomMeterLookup)
    (customMeters decrementMeters : List CustomMeterObject) (requests : MeterRequests)
    (MinReportFrequency : Int) (ErrorsLogged : Bool) (st : CustomMeterState) :
    List MeterReportingEvent :=
  match GetCustomMeterInput env customMeters decrementMeters st with
  | Except.error msg => [MeterReportingEvent.ShowFatalError msg]
  | Except.ok st1 =>
    requestEvents MinReportFrequency st1.reg requests ++
      [MeterReportingEvent.ReportMeterDetails] ++
      (if ErrorsLogged || st1.ErrorsFound then
        [MeterReportingEvent.ShowFatalError meterSpecificationFatal]
       else [])

/-- A Meter:Custom object with a blank name field between two entries. -/
def brokenCustomMeter : CustomMeterObject :=
  { Name := "Broken", ResourceType := "Generic", SourceMeterName := "",
    entries := [entryFor "Heating Energy", blankEntry, entryFor "Lights Energy"] }

/-- Two requests for meters by name and one with a star. -/
def sampleRequests : MeterRequests :=
  { Meter := [⟨"Lights", "Hourly"⟩, ⟨"No Such Meter", "Daily"⟩]
    MeterFileOnly := []
    Cumulative := [⟨"*", "Monthly"⟩]
    CumulativeMeterFileOnly := [] }

/-! ## AttachMeters (lines 2492-2621) -/

/-- The module tables AttachMeters works on: the meter table and VarMeterArrays. -/
structure MeterTables where
  reg : MeterRegistry
  NumVarMeterArrays : Nat
  VarMeterArrays : Nat → MeterArrayType

/-- The statements `Found = FindItem(Name, EnergyMeters.Name(), NumEnergyMeters);
if (Found != 0) { ++NumOnMeters; OnMeters(NumOnMeters) = Found; }` on the attachment record
that is being filled. OnMeters holds the positions 1..MaxOnMeters of the array; an assignment
to a position beyond them is outside the array and leaves it as it is. -/
def putOnMeter (reg : MeterRegistry) (Name : String) (a : MeterArrayType) : MeterArrayType :=
  let Found := FindItem Name reg.Names reg.NumEnergyMeters
  if Found ≠ 0 then
    { a with NumOnMeters := a.NumOnMeters + 1, OnMeters := a.OnMeters.set a.NumOnMeters Found }
  else a

/-- What AttachMeters leaves behind: its four in-out strings, the tables, and its outputs
MeterArrayPtr and ErrorsFound. -/
structure AttachedMeters where
  ResourceType : String
  EndUse : String
  EndUseSub : String
  Group : String
  tables : MeterTables
  MeterArrayPtr : Nat
  ErrorsFound : Bool

/-- The lines 2566-2619 of AttachMeters on the record that is being filled, with the strings
as ValidateNStandardizeMeterTitles left them. The call of AddEndUseSubcategory, which works on
the end-use category table only, is left out. -/
def fillOnMeters (reg : MeterRegistry) (ResourceType EndUse EndUseSub Group ZoneName : String)
    (a : MeterArrayType) : MeterArrayType :=
  let a := putOnMeter reg (trim ResourceType ++ ":Facility") a
  let a :=
    if !isBlankString Group then
      let a := putOnMeter reg (trim ResourceType ++ ":" ++ trim Group) a
      if SameString Group "Building" then
        putOnMeter reg (trim ResourceType ++ ":Zone:" ++ trim ZoneName) a
      else a
    else a
  if !isBlankString EndUse then
    let a := putOnMeter reg (trim EndUse ++ ":" ++ trim ResourceType) a
    let a :=
      if SameString Group "Building" then
        putOnMeter reg (trim EndUse ++ ":" ++ trim ResourceType ++ ":Zone:" ++ trim ZoneName) a
      else a
    if !isBlankString EndUseSub then
      let a :=
        putOnMeter reg (trim EndUseSub ++ ":" ++ trim EndUse ++ ":" ++ trim ResourceType) a
      if SameString Group "Building" then
        putOnMeter reg
          (trim EndUseSub ++ ":" ++ trim EndUse ++ ":" ++ trim ResourceType ++ ":Zone:" ++
            trim ZoneName) a
      else a
    else a
  else a

/-- AttachMeters. ValidateNStandardizeMeterTitles is called with ZoneName for the group
Building and without it otherwise (it reads ZoneName only for the group Building); then
VarMeterArrays gets one more record, for the variable RepVarNum, and every standard meter name
that FindItem finds is put on it. The result is `error` when ValidateNStandardizeMeterTitles
ends in the fatal error of AddMeter. -/
def AttachMeters (MtrUnits ResourceType EndUse EndUseSub Group ZoneName : String)
    (RepVarNum : Nat) (ErrorsFound : Bool) (t : MeterTables) : Except String AttachedMeters :=
  match ValidateNStandardizeMeterTitles MtrUnits ResourceType EndUse EndUseSub Group ErrorsFound
      (if SameString Group "Building" then ZoneName else BlankString) t.reg with
  | Except.error e => Except.error e
  | Except.ok r =>
    Except.ok
      { ResourceType := r.ResourceType, EndUse := r.EndUse, EndUseSub := r.EndUseSub,
        Group := r.Group
        tables :=
          { reg := r.reg
            NumVarMeterArrays := t.NumVarMeterArrays + 1
            VarMeterArrays := Function.update t.VarMeterArrays (t.NumVarMeterArrays + 1)
              (fillOnMeters r.reg r.ResourceType r.EndUse r.EndUseSub r.Group ZoneName
                { NumOnMeters := 0, RepVariable := RepVarNum,
                  OnMeters := List.replicate MaxOnMeters 0,
                  NumOnCustomMeters := 0, OnCustomMeters := [] }) }
        MeterArrayPtr := t.NumVarMeterArrays + 1
        ErrorsFound := r.ErrorsFound }

/-- The standard meter names lines 2566-2606 look up, in order, for given strings: the
facility meter, the group meter and for the group Building the zone meter, the end-use meter
and for the group Building the end-use meter of the zone, and the subcategory meter. -/
def onMeterNames (ResourceType EndUse EndUseSub Group ZoneName : String) : List String :=
  [trim ResourceType ++ ":Facility"] ++
  ((if !isBlankString Group then
      [trim ResourceType ++ ":" ++ trim Group] ++
        (if SameString Group "Building" then
          [trim ResourceType ++ ":Zone:" ++ trim ZoneName] else [])
    else []) ++
   (if !isBlankString EndUse then
      [trim EndUse ++ ":" ++ trim ResourceType] ++
        ((if SameString Group "Building" then
            [trim EndUse ++ ":" ++ trim ResourceType ++ ":Zone:" ++ trim ZoneName]
          else []) ++
         (if !isBlankString EndUseSub then
            [trim EndUseSub ++ ":" ++ trim EndUse ++ ":" ++ trim ResourceType]
          else []))
    else []))

/-- The name lines 2610-2615 look up: the subcategory meter of the zone, which
ValidateNStandardizeMeterTitles does not add. -/
def zoneSubMeterName (ResourceType EndUse EndUseSub ZoneName : String) : String :=
  trim EndUseSub ++ ":" ++ trim EndUse ++ ":" ++ trim ResourceType ++ ":Zone:" ++ trim ZoneName

/-- The lookup of lines 2610-2615 takes place: there is an end use and a subcategory, and the
group is Building. -/
def looksUpZoneSubMeter (EndUse EndUseSub Group : String) : Bool :=
  !isBlankString EndUse && !isBlankString EndUseSub && SameString Group "Building"

/-- The entries OnMeters(1..NumOnMeters) of an attachment record, as far as the array has
those positions. -/
def MeterArrayType.listed (a : MeterArrayType) : List Nat := a.OnMeters.take a.NumOnMeters

/-- No two names of the list are the same ignoring case. -/
def distinctNames : List String → Bool
  | [] => true
  | n :: l => l.all (fun m => !SameString n m) && distinctNames l

/-- Meter tables without meters and without attachment records. -/
def noMeterTables : MeterTables :=
  { reg := noMeters, NumVarMeterArrays := 0,
    VarMeterArrays := fun _ =>
      { NumOnMeters := 0, RepVariable := 0, OnMeters := [], NumOnCustomMeters := 0,
        OnCustomMeters := [] } }

/-- The record AttachMeters made, its outputs, and the meter names. -/
def AttachedMeters.summary (r : AttachedMeters) :
    Nat × Bool × MeterArrayType × List String :=
  (r.MeterArrayPtr, r.ErrorsFound, r.tables.VarMeterArrays r.MeterArrayPtr,
    r.tables.reg.nameList)

/-- The three SELECT CASE chains of ValidateNStandardizeMeterTitles all find their tag: the
resource type is one of the table, the group is blank or one of the table, and so is the end
use. -/
def recognisedTags (ResourceType EndUse Group : String) : Bool :=
  !(GetStandardMeterResourceType ResourceType (UPPERCase ResourceType)).2 &&
    !(standardGroup Group).2 && !(standardEndUse EndUse).2

/-! ## SetupOutputVariable (lines 5231-5708) with ValidateIndexType, ValidateVariableType,
GetVariableUnitsString (lines 1211-1540) and AddToOutputVariableList (lines 8376-8477) -/

/-- The module constant UnitsStringLength. -/
def UnitsStringLength : Nat := 16

/-- The Fortran intrinsic index(s, c, back = true) for a single character: the position (from
1) of its last occurrence in s, or 0. -/
def indexBack (s : String) (c : Char) : Nat :=
  if c ∈ s.data then s.data.length - (s.data.reverse.takeWhile (fun x => x != c)).length else 0

/-- The Fortran intrinsic adjustl on an Fstring without its padding: the leading blanks are
removed. -/
def adjustl (s : String) : String := ⟨s.data.dropWhile (fun c => c == ' ')⟩

/-- The Fortran intrinsic len_trim: the length without the trailing blanks. -/
def len_trim (s : String) : Nat := (trimBlanks s).length

/-- The substring `s(i, j)` of an Fstring, positions counted from 1 and both ends included. -/
def substring (s : String) (i j : Nat) : String := ⟨(s.data.drop (i - 1)).take (j + 1 - i)⟩

/-- The positions 1..n of an array of Fstring given by its elements. -/
def itemsOf (l : List String) : Nat → String := fun i => l.getD (i - 1) ""

/-- The local arrays ZoneIndexTypes and SystemIndexTypes of ValidateIndexType. -/
def ZoneIndexTypes : List String := ["ZONE", "HEATBALANCE", "HEAT BALANCE"]

def SystemIndexTypes : List String := ["HVAC", "SYSTEM", "PLANT"]

/-- ValidateIndexType: 1 for a key of ZoneIndexTypes, 2 for a key of SystemIndexTypes, and for
any other key the fatal error. The argument CalledFrom only goes into the messages. -/
def ValidateIndexType (IndexTypeKey : String) : Except String Nat :=
  if FindItemInList (UPPERCase IndexTypeKey) (itemsOf ZoneIndexTypes) 3 ≠ 0 then Except.ok 1
  else if FindItemInList (UPPERCase IndexTypeKey) (itemsOf SystemIndexTypes) 3 ≠ 0 then
    Except.ok 2
  else Except.error "Preceding condition causes termination."

/-- The local arrays StateVariables and NonStateVariables of ValidateVariableType. -/
def StateVariables : List String := ["STATE", "AVERAGE", "AVERAGED"]

def NonStateVariables : List String := ["NON STATE", "NONSTATE", "SUM", "SUMMED"]

/-- ValidateVariableType: 1 for a key of StateVariables, 2 for a key of NonStateVariables;
for any other key a severe error is shown and 0 is returned. -/
def ValidateVariableType (VariableTypeKey : String) : Nat :=
  if FindItemInList (UPPERCase VariableTypeKey) (itemsOf StateVariables) 3 ≠ 0 then 1
  else if FindItemInList (UPPERCase VariableTypeKey) (itemsOf NonStateVariables) 4 ≠ 0 then 2
  else 0

/-- GetVariableUnitsString: the characters between the last "[" and the last "]" of the name,
blank when there is no "[" or nothing between the brackets; the result is `error` with the
message of ShowFatalError when there is no "]" after the last "[" and when more than
UnitsStringLength characters stand between the brackets. -/
def GetVariableUnitsString (VariableName : String) : Except String String :=
  let lbpos : Int := indexBack VariableName '['
  if lbpos > 0 then
    let rbpos : Int := indexBack VariableName ']'
    if rbpos = 0 ∨ rbpos < lbpos then
      Except.error
        ("Ill formed Variable Name Units String, VariableName=" ++ trim VariableName)
    else if (rbpos - 1) - (lbpos + 1) + 1 > (UnitsStringLength : Int) then
      Except.error
        ("Units String too long for VariableName=" ++ trim VariableName ++
          "; will be truncated to 16 characters.")
    else if lbpos + 1 ≤ rbpos - 1 then
      Except.ok (substring VariableName (lbpos + 1).toNat (rbpos - 1).toNat)
    else Except.ok BlankString
  else Except.ok BlankString

/-- The first block of SetupOutputVariable (lines 5313-5344 and 5575-5606, the same in the
real and the integer routine), with MaxNameLength of DataGlobals as an argument: VarName and
UnitsString for a name that passes, `error` with the message of ShowFatalError otherwise. A
name with "[" fails when its length without leading and trailing blanks exceeds MaxNameLength
and when its units start with "-" or are "dimensionless"; a name without "[" always fails. -/
def SetupOutputVariable_names (MaxNameLength : Nat) (VariableName : String) :
    Except String (String × String) :=
  let Item := index VariableName '['
  if Item ≠ 0 then
    match GetVariableUnitsString VariableName with
    | Except.error e => Except.error e
    | Except.ok u =>
      let UnitsString := adjustl u
      let VarName := adjustl (substringTo VariableName (Item - 1))
      let invalidUnits :=
        sameFstring (substring UnitsString 1 1) "-" || SameString UnitsString "dimensionless"
      if len_trim (adjustl VariableName) > MaxNameLength then
        Except.error "Program terminates."
      else if invalidUnits then Except.error "Program terminates."
      else Except.ok (VarName, UnitsString)
  else
    if len_trim (adjustl VariableName) > MaxNameLength then Except.error "Program terminates."
    else Except.error "Program terminates."

/-- An element of DDVariableTypes, the catalog of output variables. -/
structure VariableTypeForDDOutput where
  IndexType : Nat
  StoreType : Nat
  VariableType : Nat
  Next : Nat
  VarNameOnly : String
  UnitsString : String
deriving DecidableEq

/-- The module variables NumVariablesForOutput and DDVariableTypes. -/
structure OutputVariableList where
  NumVariablesForOutput : Nat
  DDVariableTypes : Nat → VariableTypeForDDOutput

/-- The while loop of AddToOutputVariableList (lines 8449-8456), one iteration per unit of
fuel: the chain of Next pointers is followed from `dup` to the first entry with the units;
the result is the last entry visited and that entry (0 if the chain ends first), and `none`
only if the fuel runs out. -/
def findUnitsInChain (UnitsString : String) (DD : Nat → VariableTypeForDDOutput) :
    Nat → Nat → Option (Nat × Nat)
  | fuel, dup =>
    if (DD dup).Next ≠ 0 then
      match fuel with
      | 0 => none
      | fuel + 1 =>
        if !sameFstring UnitsString (DD (DD dup).Next).UnitsString then
          findUnitsInChain UnitsString DD fuel (DD dup).Next
        else some (dup, (DD dup).Next)
    else some (dup, 0)

/-- The statements that add an entry at the end of DDVariableTypes. -/
def OutputVariableList.add (cat : OutputVariableList) (VarName : String)
    (IndexType StateType VariableType : Nat) (UnitsString : String) : OutputVariableList :=
  { NumVariablesForOutput := cat.NumVariablesForOutput + 1
    DDVariableTypes := Function.update cat.DDVariableTypes (cat.NumVariablesForOutput + 1)
      { IndexType := IndexType, StoreType := StateType, VariableType := VariableType,
        Next := 0, VarNameOnly := VarName, UnitsString := UnitsString } }

/-- AddToOutputVariableList: a name that is not in the catalog is added; a name that is there
with other units is looked for along the chain of Next pointers and, when no entry of the
chain has the units, added and linked to the end of the chain. The while loop gets
NumVariablesForOutput units of fuel. -/
def AddToOutputVariableList (VarName : String) (IndexType StateType VariableType : Nat)
    (UnitsString : String) (cat : OutputVariableList) : Option OutputVariableList :=
  let dup :=
    if cat.NumVariablesForOutput > 0 then
      FindItemInList VarName (fun i => (cat.DDVariableTypes i).VarNameOnly)
        cat.NumVariablesForOutput
    else 0
  if dup = 0 then some (cat.add VarName IndexType StateType VariableType UnitsString)
  else if !sameFstring UnitsString (cat.DDVariableTypes dup).UnitsString then
    match findUnitsInChain UnitsString cat.DDVariableTypes cat.NumVariablesForOutput dup with
    | none => none
    | some (dup, dup2) =>
      if dup2 = 0 then
        let cat1 := cat.add VarName IndexType StateType VariableType UnitsString
        some { cat1 with
          DDVariableTypes := Function.update cat1.DDVariableTypes dup
            { cat1.DDVariableTypes dup with Next := cat1.NumVariablesForOutput } }
      else some cat
  else some cat

/-- The fields of IntegerVariables that SetupOutputVariable and UpdateDataandReport read or
write. The storage cell `Which` points into the caller's data. -/
structure IntegerVariables where
  Value : ℚ
  TSValue : ℚ
  EITSValue : ℚ
  StoreValue : ℚ
  NumStored : ℚ
  StoreType : Nat
  Stored : Bool
  Report : Bool
  tsStored : Bool
  thisTSStored : Bool
  thisTSCount : Nat
  ReportFreq : Int
  MaxValue : Int
  maxValueDate : Int
  MinValue : Int
  minValueDate : Int
  ReportID : Nat
  SchedPtr : Int
deriving DecidableEq

/-- The module constants IMinSetValue and IMaxSetValue. -/
def IMinSetValue : Int := 999999

def IMaxSetValue : Int := -999999

/-- An element of RVariableTypes, with the variable VarPtr points to. -/
structure RealVariableType where
  IndexType : Nat
  StoreType : Nat
  ReportID : Nat
  VarName : String
  VarNameUC : String
  VarNameOnly : String
  VarNameOnlyUC : String
  KeyNameOnlyUC : String
  UnitsString : String
  VarPtr : RealVariables
deriving DecidableEq

/-- An element of IVariableTypes, with the variable VarPtr points to. -/
structure IntegerVariableType where
  IndexType : Nat
  StoreType : Nat
  ReportID : Nat
  VarName : String
  VarNameUC : String
  VarNameOnly : String
  UnitsString : String
  VarPtr : IntegerVariables
deriving DecidableEq

/-- The module state SetupOutputVariable works on: the flag OutputInitialized, the report
requests with ReportList, the counter of AssignReportNumber, the counters and tables of the
real and the integer variables, the catalog of output variables, the meter tables and the
flag ErrorsLogged. The output files and the SQL database are left out. -/
structure OutputVariableTables where
  OutputInitialized : Bool
  requests : ReportRequests
  ReportNumberCounter : Nat
  NumOfRVariable_Setup : Nat
  NumTotalRVariable : Nat
  NumOfRVariable : Nat
  NumOfRVariable_Sum : Nat
  NumOfRVariable_Meter : Nat
  RVariableTypes : Nat → RealVariableType
  NumOfIVariable_Setup : Nat
  NumTotalIVariable : Nat
  NumOfIVariable : Nat
  NumOfIVariable_Sum : Nat
  IVariableTypes : Nat → IntegerVariableType
  catalog : OutputVariableList
  meters : MeterTables
  ErrorsLogged : Bool

/-- How a routine that can call ShowFatalError ends: it returns, or the program terminates
with the message of ShowFatalError; `st` is the module state at that moment. -/
inductive Ending (σ : Type) where
  | returns (st : σ)
  | fatal (msg : String) (st : σ)

/-- The module state at the end. -/
def Ending.state {σ : Type} : Ending σ → σ
  | Ending.returns st => st
  | Ending.fatal _ st => st

/-- The message of the fatal error, if the program terminated. -/
def Ending.message {σ : Type} : Ending σ → Option String
  | Ending.returns _ => none
  | Ending.fatal msg _ => some msg

/-- A loop whose body may terminate the program, or have no result (`none`). -/
def forEachEnding {α σ : Type} (body : α → σ → Option (Ending σ)) :
    List α → σ → Option (Ending σ)
  | [], st => some (Ending.returns st)
  | a :: l, st =>
    match body a st with
    | some (Ending.returns st1) => forEachEnding body l st1
    | r => r

/-- InitializeOutput (lines 242-345), state part: ReportList is set to 0 with NumExtraVars = 0
and OutputInitialized is set. The allocations, the tables FreqNotice and EndUseCategory and
the file that InitializeMeters opens are left out. -/
def InitializeOutput (st : OutputVariableTables) : OutputVariableTables :=
  { st with OutputInitialized := true, requests := { st.requests with ReportList := [] } }

/-- The arguments of the real SetupOutputVariable; an optional argument that is not present
is `none`. The argument indexGroupKey, which only goes to the output files, is left out, and
the storage cell ActualVariable is not read. -/
structure SetupOutputVariableCall where
  VariableName : String
  IndexTypeKey : String
  VariableTypeKey : String
  KeyedValue : String
  ReportFreq : Option String
  ResourceTypeKey : Option String
  EndUseKey : Option String
  EndUseSubKey : Option String
  GroupKey : Option String
  ZoneKey : Option String
  ZoneMult : Option Int
  ZoneListMult : Option Int

/-- What SetupOutputVariable reads from outside the module state: MaxNameLength of DataGlobals,
MinReportFrequency of DataSystemVariables, FindItemInVariableList of DataOutputs, and the
value that the local RepFreq of the real SetupOutputVariable holds while it is unassigned (the
local is declared without initial value at line 5294, and only a call with ReportFreq assigns
it). -/
structure SetupEnvironment where
  MaxNameLength : Nat
  MinReportFrequency : Int
  FindItemInVariableList : String → String → Bool
  RepFreqUnassigned : Int

/-- Lines 5346-5359 and 5608-5623: CheckReportVariable; an empty ReportList becomes the one
entry -1; a call with ReportFreq gets the one entry 0. -/
def reportListFor (KeyedValue VarName : String) (ReportFreq : Option String)
    (requests : ReportRequests) : Option ReportRequests :=
  match CheckReportVariable KeyedValue VarName requests with
  | none => none
  | some r =>
    let r : ReportRequests := if r.NumExtraVars = 0 then { r with ReportList := [-1] } else r
    match ReportFreq with
    | some _ => some { r with ReportList := [0] }
    | none => some r

/-- The statements of lines 5479-5489 and 5675-5685 on the new variable: an entry -1 of
ReportList leaves it unreported; an entry 0 reports it at RepFreq without schedule; any other
entry reports it at the frequency and with the schedule of that request. -/
def reportSetting (requests : ReportRequests) (RepFreq : Int) (entry : Int) :
    Bool × Int × Int :=
  if entry = -1 then (false, ReportHourly, 0)
  else if entry = 0 then (true, RepFreq, 0)
  else (true, (requests.ReqRepVars entry.toNat).ReportFreq,
    (requests.ReqRepVars entry.toNat).SchedPtr)

/-- The Fstring an optional key argument is copied to: a blank when it is not present. -/
def keyOrBlank (k : Option String) : String := k.getD " "

/-- The local OnMeter: one of the five meter keys is present. -/
def SetupOutputVariableCall.OnMeter (c : SetupOutputVariableCall) : Bool :=
  c.ResourceTypeKey.isSome || c.EndUseKey.isSome || c.EndUseSubKey.isSome ||
    c.GroupKey.isSome || c.ZoneKey.isSome

/-- Lines 5461-5477 for the variable CV: in the first pass of the loop a variable with meter
keys is attached to its meters, unless it is an Averaged variable; ErrorsLogged is set when
AttachMeters sets ErrorsFound. Every meter that AddMeter adds on the way takes ten report
numbers from AssignReportNumber (lines 2427-2474). The result is the MeterArrayPtr of the
variable and the state; `error` is the fatal error of AddMeter. -/
def attachOnFirstPass (c : SetupOutputVariableCall) (Loop CV VariableType : Nat)
    (UnitsString : String) (st : OutputVariableTables) :
    Except String (Nat × OutputVariableTables) :=
  if Loop = 1 ∧ c.OnMeter = true then
    if VariableType = AveragedVar then Except.ok (0, st)
    else
      match AttachMeters UnitsString (keyOrBlank c.ResourceTypeKey) (keyOrBlank c.EndUseKey)
          (keyOrBlank c.EndUseSubKey) (keyOrBlank c.GroupKey) (keyOrBlank c.ZoneKey) CV false
          st.meters with
      | Except.error e => Except.error e
      | Except.ok r =>
        Except.ok (r.MeterArrayPtr,
          { st with
            meters := r.tables
            ErrorsLogged := st.ErrorsLogged || r.ErrorsFound
            ReportNumberCounter := st.ReportNumberCounter +
              10 * (r.tables.reg.NumEnergyMeters - st.meters.reg.NumEnergyMeters) })
  else Except.ok (0, st)

/-- One pass of the loop of the real SetupOutputVariable (lines 5364-5507), for the entry
ReportList(Loop). The index type and the variable type are validated and the variable goes
into the catalog; a variable that is neither on a meter nor on the list of DataOutputs is left
at that; otherwise it becomes the next element of RVariableTypes, with a new report number.
When ValidateIndexType or AddMeter ends in its fatal error the pass ends `fatal`, with the
state the pass started from as far as the meter tables go. -/
def SetupOutputVariable_pass (c : SetupOutputVariableCall)
    (VarName UnitsString : String) (RepFreq : Int) (ThisOneOnTheList : Bool)
    (pass : Nat × Int) (st : OutputVariableTables) : Option (Ending OutputVariableTables) :=
  let Loop := pass.1
  let st : OutputVariableTables :=
    if Loop = 1 then { st with NumOfRVariable_Setup := st.NumOfRVariable_Setup + 1 } else st
  match ValidateIndexType c.IndexTypeKey with
  | Except.error e => some (Ending.fatal e st)
  | Except.ok IndexType =>
    let VariableType := ValidateVariableType c.VariableTypeKey
    match AddToOutputVariableList VarName IndexType VariableType VarType_Real UnitsString
        st.catalog with
    | none => none
    | some cat =>
      let st : OutputVariableTables :=
        { st with catalog := cat, NumTotalRVariable := st.NumTotalRVariable + 1 }
      if !c.OnMeter && !ThisOneOnTheList then some (Ending.returns st)
      else
        let CV := st.NumOfRVariable + 1
        let Sum := decide (Loop = 1) && decide (VariableType = SummedVar)
        let Meter := Sum &&
          (match c.ResourceTypeKey with
           | some k => !isBlankString k
           | none => false)
        let st : OutputVariableTables :=
          { st with
            NumOfRVariable := CV
            NumOfRVariable_Sum := if Sum then st.NumOfRVariable_Sum + 1 else st.NumOfRVariable_Sum
            NumOfRVariable_Meter :=
              if Meter then st.NumOfRVariable_Meter + 1 else st.NumOfRVariable_Meter
            ReportNumberCounter := st.ReportNumberCounter + 1 }
        let CurrentReportNumber := st.ReportNumberCounter
        match attachOnFirstPass c Loop CV VariableType UnitsString st with
        | Except.error e => some (Ending.fatal e st)
        | Except.ok (MeterArrayPtr, st) =>
          let setting := reportSetting st.requests RepFreq pass.2
          let both := c.ZoneMult.isSome && c.ZoneListMult.isSome
          some (Ending.returns
            { st with
              RVariableTypes := Function.update st.RVariableTypes CV
                { IndexType := IndexType
                  StoreType := VariableType
                  ReportID := CurrentReportNumber
                  VarName := trim c.KeyedValue ++ ":" ++ trim VarName
                  VarNameUC := UPPERCase (trim c.KeyedValue ++ ":" ++ trim VarName)
                  VarNameOnly := trim VarName
                  VarNameOnlyUC := UPPERCase VarName
                  KeyNameOnlyUC := UPPERCase c.KeyedValue
                  UnitsString := UnitsString
                  VarPtr :=
                    { Value := 0, TSValue := 0, EITSValue := 0, StoreValue := 0, NumStored := 0,
                      StoreType := VariableType, Stored := false, Report := setting.1,
                      tsStored := false, thisTSStored := false, thisTSCount := 0,
                      ReportFreq := setting.2.1, MaxValue := MaxSetValue, maxValueDate := 0,
                      MinValue := MinSetValue, minValueDate := 0,
                      ReportID := CurrentReportNumber, SchedPtr := setting.2.2,
                      MeterArrayPtr := MeterArrayPtr,
                      ZoneMult := if both then c.ZoneMult.getD 1 else 1,
                      ZoneListMult := if both then c.ZoneListMult.getD 1 else 1 } } })

/-- The passes of the loop `for Loop = 1 .. NumExtraVars`: Loop with ReportList(Loop). -/
def passesOf (ReportList : List Int) : List (Nat × Int) :=
  (List.range' 1 ReportList.length).zip ReportList

/-- The real SetupOutputVariable. InitializeOutput runs if it has not yet; the name is
checked, and a name that fails ends the program there; then the report requests are checked
and the loop over ReportList sets up one variable per entry. The local RepFreq is assigned
only in a call with ReportFreq (line 5356) and read for an entry 0 of ReportList (line 5484);
a call without ReportFreq that finds an entry 0 reads the local unassigned. The result is
`none` only when a loop runs out of fuel. -/
def SetupOutputVariable (env : SetupEnvironment) (c : SetupOutputVariableCall)
    (st : OutputVariableTables) : Option (Ending OutputVariableTables) :=
  let st := if !st.OutputInitialized then InitializeOutput st else st
  match SetupOutputVariable_names env.MaxNameLength c.VariableName with
  | Except.error e => some (Ending.fatal e st)
  | Except.ok (VarName, UnitsString) =>
    match reportListFor c.KeyedValue VarName c.ReportFreq st.requests with
    | none => none
    | some requests =>
      let RepFreq :=
        match c.ReportFreq with
        | some f => DetermineFrequency f env.MinReportFrequency
        | none => env.RepFreqUnassigned
      let ThisOneOnTheList := env.FindItemInVariableList c.KeyedValue VarName
      forEachEnding
        (SetupOutputVariable_pass c VarName UnitsString RepFreq ThisOneOnTheList)
        (passesOf requests.ReportList) { st with requests := requests }

/-- One pass of the loop of the integer SetupOutputVariable (lines 5627-5698): as for a real
variable, without meters; a variable that is not on the list of DataOutputs goes into the
catalog only. -/
def SetupOutputVariable_Integer_pass (c : SetupOutputVariableCall)
    (VarName UnitsString : String) (RepFreq : Int) (ThisOneOnTheList : Bool)
    (pass : Nat × Int) (st : OutputVariableTables) : Option (Ending OutputVariableTables) :=
  let Loop := pass.1
  let st : OutputVariableTables :=
    if Loop = 1 then { st with NumOfIVariable_Setup := st.NumOfIVariable_Setup + 1 } else st
  match ValidateIndexType c.IndexTypeKey with
  | Except.error e => some (Ending.fatal e st)
  | Except.ok IndexType =>
    let VariableType := ValidateVariableType c.VariableTypeKey
    match AddToOutputVariableList VarName IndexType VariableType VarType_Integer UnitsString
        st.catalog with
    | none => none
    | some cat =>
      let st : OutputVariableTables :=
        { st with catalog := cat, NumTotalIVariable := st.NumTotalIVariable + 1 }
      if !ThisOneOnTheList then some (Ending.returns st)
      else
        let CV := st.NumOfIVariable + 1
        let Sum := decide (Loop = 1) && decide (VariableType = SummedVar)
        let setting := reportSetting st.requests RepFreq pass.2
        some (Ending.returns
          { st with
            NumOfIVariable := CV
            NumOfIVariable_Sum := if Sum then st.NumOfIVariable_Sum + 1 else st.NumOfIVariable_Sum
            ReportNumberCounter := st.ReportNumberCounter + 1
            IVariableTypes := Function.update st.IVariableTypes CV
              { IndexType := IndexType
                StoreType := VariableType
                ReportID := st.ReportNumberCounter + 1
                VarName := trim c.KeyedValue ++ ":" ++ trim VarName
                VarNameUC := UPPERCase (trim c.KeyedValue ++ ":" ++ trim VarName)
                VarNameOnly := trim VarName
                UnitsString := UnitsString
                VarPtr :=
                  { Value := 0, TSValue := 0, EITSValue := 0, StoreValue := 0, NumStored := 0,
                    StoreType := VariableType, Stored := false, Report := setting.1,
                    tsStored := false, thisTSStored := false, thisTSCount := 0,
                    ReportFreq := setting.2.1, MaxValue := IMaxSetValue, maxValueDate := 0,
                    MinValue := IMinSetValue, minValueDate := 0,
                    ReportID := st.ReportNumberCounter + 1, SchedPtr := setting.2.2 } } })

/-- The integer SetupOutputVariable (lines 5509-5708); of the arguments of a call only
VariableName, IndexTypeKey, VariableTypeKey, KeyedValue and ReportFreq are read. A call without
ReportFreq assigns ReportHourly to the local RepFreq (lines 5621-5623). -/
def SetupOutputVariable_Integer (env : SetupEnvironment) (c : SetupOutputVariableCall)
    (st : OutputVariableTables) : Option (Ending OutputVariableTables) :=
  let st := if !st.OutputInitialized then InitializeOutput st else st
  match SetupOutputVariable_names env.MaxNameLength c.VariableName with
  | Except.error e => some (Ending.fatal e st)
  | Except.ok (VarName, UnitsString) =>
    match reportListFor c.KeyedValue VarName c.ReportFreq st.requests with
    | none => none
    | some requests =>
      let RepFreq :=
        match c.ReportFreq with
        | some f => DetermineFrequency f env.MinReportFrequency
        | none => ReportHourly
      let ThisOneOnTheList := env.FindItemInVariableList c.KeyedValue VarName
      forEachEnding
        (SetupOutputVariable_Integer_pass c VarName UnitsString RepFreq ThisOneOnTheList)
        (passesOf requests.ReportList) { st with requests := requests }

/-- The request flags, the variable tables and the catalog of two states are the same. -/
def sameOutputVariables (st st1 : OutputVariableTables) : Prop :=
  st1.requests.NumOfReqVariables = st.requests.NumOfReqVariables ∧
  st1.requests.ReqRepVars = st.requests.ReqRepVars ∧
  st1.NumOfRVariable = st.NumOfRVariable ∧
  st1.RVariableTypes = st.RVariableTypes ∧
  st1.NumOfIVariable = st.NumOfIVariable ∧
  st1.IVariableTypes = st.IVariableTypes ∧
  st1.catalog = st.catalog ∧
  st1.meters = st.meters

/-- A key is one of the tokens of a list, ignoring case. -/
def isToken (tokens : List String) (key : String) : Bool :=
  tokens.any (fun t => SameString key t)

/-- A state without requests, variables, catalog entries and meters, not yet initialised. -/
def noOutputVariables : OutputVariableTables :=
  { OutputInitialized := false
    requests := requestsOfList [] []
    ReportNumberCounter := 0
    NumOfRVariable_Setup := 0, NumTotalRVariable := 0, NumOfRVariable := 0
    NumOfRVariable_Sum := 0, NumOfRVariable_Meter := 0
    RVariableTypes := fun _ =>
      { IndexType := 0, StoreType := 0, ReportID := 0, VarName := "", VarNameUC := "",
        VarNameOnly := "", VarNameOnlyUC := "", KeyNameOnlyUC := "", UnitsString := "",
        VarPtr := reportedVariable 0 0 }
    NumOfIVariable_Setup := 0, NumTotalIVariable := 0, NumOfIVariable := 0
    NumOfIVariable_Sum := 0
    IVariableTypes := fun _ =>
      { IndexType := 0, StoreType := 0, ReportID := 0, VarName := "", VarNameUC := "",
        VarNameOnly := "", UnitsString := "",
        VarPtr :=
          { Value := 0, TSValue := 0, EITSValue := 0, StoreValue := 0, NumStored := 0,
            StoreType := 0, Stored := false, Report := false, tsStored := false,
            thisTSStored := false, thisTSCount := 0, ReportFreq := 0, MaxValue := 0,
            maxValueDate := 0, MinValue := 0, minValueDate := 0, ReportID := 0,
            SchedPtr := 0 } }
    catalog :=
      { NumVariablesForOutput := 0
        DDVariableTypes := fun _ =>
          { IndexType := 0, StoreType := 0, VariableType := 0, Next := 0, VarNameOnly := "",
            UnitsString := "" } }
    meters := noMeterTables
    ErrorsLogged := false }

/-- A sample environment: names of up to 100 characters, no minimum frequency, and every
variable on the list of DataOutputs. -/
def sampleSetup : SetupEnvironment :=
  { MaxNameLength := 100, MinReportFrequency := -1, FindItemInVariableList := fun _ _ => true,
    RepFreqUnassigned := ReportHourly }

/-- A call of SetupOutputVariable without optional arguments. -/
def plainCall (VariableName IndexTypeKey VariableTypeKey KeyedValue : String) :
    SetupOutputVariableCall :=
  { VariableName := VariableName, IndexTypeKey := IndexTypeKey,
    VariableTypeKey := VariableTypeKey, KeyedValue := KeyedValue, ReportFreq := none,
    ResourceTypeKey := none, EndUseKey := none, EndUseSubKey := none, GroupKey := none,
    ZoneKey := none, ZoneMult := none, ZoneListMult := none }

/-- How a call ended: the message of the fatal error, if any. -/
def endingOf (x : Option (Ending OutputVariableTables)) : Option (Option String) :=
  x.map (fun e => e.message)

/-- The catalog entries at the end of a call, as (name, units, index type, store type). -/
def catalogOf (x : Option (Ending OutputVariableTables)) :
    Option (List (String × String × Nat × Nat)) :=
  x.map (fun e =>
    (List.range' 1 e.state.catalog.NumVariablesForOutput).map (fun i =>
      ((e.state.catalog.DDVariableTypes i).VarNameOnly,
       (e.state.catalog.DDVariableTypes i).UnitsString,
       (e.state.catalog.DDVariableTypes i).IndexType,
       (e.state.catalog.DDVariableTypes i).StoreType)))

/-- The real variables at the end of a call, as (name, units, index type, store type). -/
def realVariablesOf (x : Option (Ending OutputVariableTables)) :
    Option (List (String × String × Nat × Nat)) :=
  x.map (fun e =>
    (List.range' 1 e.state.NumOfRVariable).map (fun i =>
      ((e.state.RVariableTypes i).VarName, (e.state.RVariableTypes i).UnitsString,
       (e.state.RVariableTypes i).IndexType, (e.state.RVariableTypes i).StoreType)))

/-- The integer variables at the end of a call, as (name, units, index type, store type). -/
def integerVariablesOf (x : Option (Ending OutputVariableTables)) :
    Option (List (String × String × Nat × Nat)) :=
  x.map (fun e =>
    (List.range' 1 e.state.NumOfIVariable).map (fun i =>
      ((e.state.IVariableTypes i).VarName, (e.state.IVariableTypes i).UnitsString,
       (e.state.IVariableTypes i).IndexType, (e.state.IVariableTypes i).StoreType)))

/-! ## GetInternalVariableValue (lines 7218-7308) and GetCurrentMeterValue (lines 6971-7020) -/

/-- What GetInternalVariableValue reads: the numbers of integer and real variables, for each
variable the value of the storage cell its Which points to, the meters, and the current
schedule values of ScheduleManager. -/
structure InternalVariables where
  NumOfIVariable : Nat
  IVarWhich : Nat → Int
  NumOfRVariable : Nat
  RVarWhich : Nat → ℚ
  meters : MeterState
  GetCurrentScheduleValue : Int → ℚ

/-- GetCurrentMeterValue (lines 7012-7016): CurTSValue of the meter for a positive meter
number, otherwise 0. The number is not compared with NumEnergyMeters; the element of
EnergyMeters is read at that position. -/
def GetCurrentMeterValue (meters : MeterState) (MeterNumber : Int) : ℚ :=
  if MeterNumber > 0 then (meters.EnergyMeters MeterNumber.toNat).CurTSValue else 0

/-- GetInternalVariableValue: for an integer or a real variable the index is checked against
the number of variables, and the fatal error is the result `error`; a meter goes to
GetCurrentMeterValue and a schedule to GetCurrentScheduleValue without a check. -/
def GetInternalVariableValue (st : InternalVariables) (varType : Int) (keyVarIndex : Int) :
    Except String ℚ :=
  if varType = 0 then Except.ok 0
  else if varType = 1 then
    if keyVarIndex > st.NumOfIVariable then
      Except.error "GetInternalVariableValue: passed index beyond range of array."
    else if keyVarIndex < 1 then
      Except.error "GetInternalVariableValue: passed index beyond range of array."
    else Except.ok ((st.IVarWhich keyVarIndex.toNat : Int) : ℚ)
  else if varType = 2 then
    if keyVarIndex > st.NumOfRVariable then
      Except.error "GetInternalVariableValue: passed index beyond range of array."
    else if keyVarIndex < 1 then
      Except.error "GetInternalVariableValue: passed index beyond range of array."
    else Except.ok (st.RVarWhich keyVarIndex.toNat)
  else if varType = 3 then Except.ok (GetCurrentMeterValue st.meters keyVarIndex)
  else if varType = 4 then Except.ok (st.GetCurrentScheduleValue keyVarIndex)
  else Except.ok 0

/-- Two variables of each kind and the two sample meters with current values 3 and 4. -/
def sampleInternalVariables : InternalVariables :=
  { NumOfIVariable := 2
    IVarWhich := fun i => if i = 1 then 5 else if i = 2 then 6 else 0
    NumOfRVariable := 2
    RVarWhich := fun i => if i = 1 then 7 else if i = 2 then 8 else 0
    meters :=
      { NumEnergyMeters := 2
        EnergyMeters := fun i =>
          if i = 1 then { freshMeter with CurTSValue := 3 }
          else if i = 2 then { freshMeter with CurTSValue := 4 }
          else freshMeter
        MeterValue := fun _ => 0 }
    GetCurrentScheduleValue := fun _ => 0 }

/-! ## GenOutputVariablesAuditReport (lines 6295-6358) -/

/-- A line that goes to the error file, by the routine that writes it. -/
inductive ErrorFileLine where
  | ShowWarningError (s : String)
  | ShowContinueError (s : String)
  | ShowMessage (s : String)
deriving DecidableEq

/-- The local array ReportFrequency of GenOutputVariablesAuditReport, indexed -1..4; an index
outside these bounds is outside the array and gives a blank here. -/
def ReportFrequency (ReportFreq : Int) : String :=
  if ReportFreq = -1 then "Detailed"
  else if ReportFreq = 0 then "Timestep"
  else if ReportFreq = 1 then "Hourly  "
  else if ReportFreq = 2 then "Daily   "
  else if ReportFreq = 3 then "Monthly "
  else if ReportFreq = 4 then "Annual  "
  else ""

/-- The test `index(s, t) > 0` of the Fortran intrinsic index for a string t: t occurs in
s. -/
def occursIn (t s : String) : Bool := decide (t.data <:+: s.data)

/-- The requests and the two static flags of GenOutputVariablesAuditReport. -/
structure AuditReport where
  requests : ReportRequests
  Rept : Bool
  OpaqSurfWarned : Bool

/-- The message GenOutputVariablesAuditReport shows for a request. -/
def auditMessage (r : ReqReportVariables) : String :=
  "Key=" ++ trim r.Key ++ ", VarName=" ++ trim r.VarName ++ ", Frequency=" ++
    trim (ReportFrequency r.ReportFreq)

/-- Body of the loop of GenOutputVariablesAuditReport (lines 6342-6355), with the lines
written so far: a request that is Used is skipped; a blank key is replaced by "*"; the notice
on advanced variables and the heading are written once; then the message of the request. -/
def GenOutputVariablesAuditReport_body (DisplayAdvancedReportVariables : Bool)
    (acc : AuditReport × List ErrorFileLine) (Loop : Nat) : AuditReport × List ErrorFileLine :=
  let st := acc.1
  if (st.requests.ReqRepVars Loop).Used then acc
  else
    let reqs : Nat → ReqReportVariables :=
      if isBlankString (st.requests.ReqRepVars Loop).Key then
        Function.update st.requests.ReqRepVars Loop
          { st.requests.ReqRepVars Loop with Key := "*" }
      else st.requests.ReqRepVars
    let advanced :=
      occursIn "OPAQUE SURFACE INSIDE FACE CONDUCTION" (reqs Loop).VarName &&
        !DisplayAdvancedReportVariables && !st.OpaqSurfWarned
    let notice : List ErrorFileLine :=
      if advanced then
        [ErrorFileLine.ShowWarningError
           "Variables containing \"Opaque Surface Inside Face Conduction\" are now \"advanced\" variables.",
         ErrorFileLine.ShowContinueError
           "You must enter the \"Output:Diagnostics,DisplayAdvancedReportVariables;\" statement to view.",
         ErrorFileLine.ShowContinueError
           "First, though, read cautionary statements in the \"InputOutputReference\" document."]
      else []
    let heading : List ErrorFileLine :=
      if !st.Rept then
        [ErrorFileLine.ShowWarningError
           "The following Report Variables were requested but not generated",
         ErrorFileLine.ShowContinueError
           "because IDF did not contain these elements or misspelled variable name -- check .rdd file"]
      else []
    ({ requests := { st.requests with ReqRepVars := reqs }
       Rept := true
       OpaqSurfWarned := st.OpaqSurfWarned || advanced },
     acc.2 ++ notice ++ heading ++ [ErrorFileLine.ShowMessage (auditMessage (reqs Loop))])

/-- GenOutputVariablesAuditReport, with DisplayAdvancedReportVariables of DataGlobals as an
argument: the state it leaves and the lines it writes to the error file, in order. -/
def GenOutputVariablesAuditReport (DisplayAdvancedReportVariables : Bool) (st : AuditReport) :
    AuditReport × List ErrorFileLine :=
  (List.range' 1 st.requests.NumOfReqVariables).foldl
    (GenOutputVariablesAuditReport_body DisplayAdvancedReportVariables) (st, [])

/-- The messages (lines of ShowMessage) among the lines written. -/
def shownMessages (lines : List ErrorFileLine) : List String :=
  lines.filterMap (fun l =>
    match l with
    | ErrorFileLine.ShowMessage s => some s
    | _ => none)

/-- The message the audit report has for a request as it stands before the report: the key,
"*" for a blank key, the name and the frequency. -/
def unmatchedRequestMessage (r : ReqReportVariables) : String :=
  "Key=" ++ (if isBlankString r.Key then "*" else trim r.Key) ++ ", VarName=" ++
    trim r.VarName ++ ", Frequency=" ++ trim (ReportFrequency r.ReportFreq)

/-- Three requests: a used one, an unused one with a blank key and an unused one with a
key. -/
def sampleAudit : AuditReport :=
  { requests := requestsOfList
      [{ hourlyRequest "Zone One" "Zone Mean Air Temperature" 0 with Used := true },
       hourlyRequest "    " "No Such Variable" 0,
       hourlyRequest "Zone Two" "Zone Air Temperatur" 0] []
    Rept := false
    OpaqSurfWarned := false }

/-! ## One integer output variable under UpdateDataandReport (lines 5928-5988) -/

/-- The Fortran intrinsic nint: the nearest integer, halves rounded away from zero. -/
def nint (x : ℚ) : Int := if 0 ≤ x then ⌊x + 1 / 2⌋ else ⌈x - 1 / 2⌉

/-- Record keeping for one integer variable of the calling domain (lines 5931-5987); `Which`
is the value of its storage cell. For an Averaged variable ICurVal = Which * rxTime is added
to TSValue and the minimum and maximum follow nint(ICurVal); otherwise Which is added and the
minimum and maximum follow Which. Then, for a variable that is reported now, tsStored is set,
the timestep is counted once, and an EachCall variable writes Which (report number and
value). -/
def RecordKeeping_IVar (env : ReportingCall) (Which : Int) (v : IntegerVariables) :
    IntegerVariables × List (Nat × Int) :=
  let ICurVal : ℚ := (Which : ℚ) * rxTime env
  let Test : Int := if v.StoreType = AveragedVar then nint ICurVal else Which
  let TSValue : ℚ := v.TSValue + (if v.StoreType = AveragedVar then ICurVal else (Which : ℚ))
  let ReportNow : Bool :=
    if v.SchedPtr > 0 then decide (env.GetCurrentScheduleValue v.SchedPtr ≠ 0) else true
  let counted : Bool := v.Report && ReportNow
  ({ v with
      Stored := true
      MaxValue := if Test > v.MaxValue then Test else v.MaxValue
      maxValueDate := if Test > v.MaxValue then env.MDHM else v.maxValueDate
      MinValue := if Test < v.MinValue then Test else v.MinValue
      minValueDate := if Test < v.MinValue then env.MDHM else v.minValueDate
      TSValue := TSValue
      EITSValue := TSValue
      tsStored := if counted then true else v.tsStored
      thisTSCount := if counted && !v.thisTSStored then v.thisTSCount + 1 else v.thisTSCount
      thisTSStored := if counted then true else v.thisTSStored },
   if counted && decide (v.ReportFreq = ReportEach) then [(v.ReportID, Which)] else [])

/-- The variable after the record keeping of a sequence of calls of its domain, each with the
value its storage cell holds at that call; the minimum and maximum are not reset in
between. -/
def recordKeepingCalls (calls : List (ReportingCall × Int)) (v : IntegerVariables) :
    IntegerVariables :=
  calls.foldl (fun v c => (RecordKeeping_IVar c.1 c.2 v).1) v

/-- An integer variable as SetupOutputVariable creates it, reported without a schedule. -/
def reportedIntegerVariable (storeType : Nat) (reportFreq : Int) : IntegerVariables :=
  { Value := 0, TSValue := 0, EITSValue := 0, StoreValue := 0, NumStored := 0,
    StoreType := storeType, Stored := false, Report := true, tsStored := false,
    thisTSStored := false, thisTSCount := 0, ReportFreq := reportFreq,
    MaxValue := IMaxSetValue, maxValueDate := 0, MinValue := IMinSetValue, minValueDate := 0,
    ReportID := 7, SchedPtr := 0 }

/-! ## The minimum and maximum of a meter over a day (UpdateMeters, ReportDYMeters) -/

/-- The hourly, daily, monthly and run-period maximum and minimum of a meter, each as the four
arguments UpdateMeters hands to SetMinMax. -/
def hourExtremes (m : MeterType) : MinMaxStore :=
  ⟨m.HRMaxVal, m.HRMaxValDate, m.HRMinVal, m.HRMinValDate⟩

def dayExtremes (m : MeterType) : MinMaxStore :=
  ⟨m.DYMaxVal, m.DYMaxValDate, m.DYMinVal, m.DYMinValDate⟩

def monthExtremes (m : MeterType) : MinMaxStore :=
  ⟨m.MNMaxVal, m.MNMaxValDate, m.MNMinVal, m.MNMinValDate⟩

def runPeriodExtremes (m : MeterType) : MinMaxStore :=
  ⟨m.SMMaxVal, m.SMMaxValDate, m.SMMinVal, m.SMMinValDate⟩

/-- The meters as UpdateMeters leaves them in a step, with the timestep totals TSValue that
ReportTSMeters writes (lines 6001-6089 of UpdateDataandReport). -/
def atReportTSMeters (e : MeterReportingStep) (st : MeterState) : MeterState :=
  UpdateMeters e.TimeStamp (applyUpdateMeterValues e.calls st)

/-- The meters when a step that closes the hour calls ReportHRMeters (line 6157). -/
def atReportHRMeters (e : MeterReportingStep) (st : MeterState) : MeterState :=
  ReportTSMeters (atReportTSMeters e st)

/-- The meters when a step that closes the day calls ReportDYMeters (line 6189). -/
def atReportDYMeters (e : MeterReportingStep) (st : MeterState) : MeterState :=
  ReportHRMeters (atReportHRMeters e st)

/-- The values ReportDYMeters hands to WriteReportMeterData for a meter with RptDY (lines
3487-3488): DYValue, DYMinVal, DYMinValDate, DYMaxVal, DYMaxValDate. -/
def ReportDYMeters_written (m : MeterType) : Option (ℚ × ℚ × Int × ℚ × Int) :=
  if m.RptDY then some (m.DYValue, m.DYMinVal, m.DYMinValDate, m.DYMaxVal, m.DYMaxValDate)
  else none

/-- The timestep totals of a meter over a sequence of steps: for each step the TSValue that
UpdateMeters gives the meter, with the time stamp of the step. -/
def timestepTotals (Meter : Nat) : List MeterReportingStep → MeterState → List (ℚ × Int)
  | [], _ => []
  | e :: rest, st =>
    (((atReportTSMeters e st).EnergyMeters Meter).TSValue, e.TimeStamp) ::
      timestepTotals Meter rest (UpdateDataandReport_Meters e st)

/-- The hourly totals of a meter over a sequence of steps: for each step that closes an hour
the HRValue the meter has when ReportHRMeters is called. -/
def hourlyTotals (Meter : Nat) : List MeterReportingStep → MeterState → List ℚ
  | [], _ => []
  | e :: rest, st =>
    (if closesHour e then [((atReportHRMeters e st).EnergyMeters Meter).HRValue] else []) ++
      hourlyTotals Meter rest (UpdateDataandReport_Meters e st)

/-- One meter with the daily and hourly reports requested. -/
def dailyMeter : MeterState :=
  { NumEnergyMeters := 1
    EnergyMeters := fun _ => { freshMeter with RptHR := true, RptDY := true }
    MeterValue := fun _ => 0 }

/-- A step in which one variable puts the value on meter 1. -/
def meterStep (value : ℚ) (TimeStamp : Int) (EndHourFlag EndDayFlag : Bool) :
    MeterReportingStep :=
  { calls := [⟨value, [1], none⟩], TimeStamp := TimeStamp, EndHourFlag := EndHourFlag,
    EndDayFlag := EndDayFlag, EndMonthFlag := false, EndEnvrnFlag := false }

/-! ## The lines of the output file: ProduceMinMaxString (lines 888-959),
WriteReportVariableDictionaryItem (lines 4155-4242) and WriteReportRealData (lines
4442-4546) -/

/-- The assignment of a string to an Fstring of length n: the first n characters are kept. -/
def toFstring (n : Nat) (s : String) : String := ⟨s.data.take n⟩

/-- The edit descriptor I2 of the formats of ProduceMinMaxString: two positions, the number
right-justified, and "**" for a number that does not fit. -/
def formatI2 (n : Int) : String :=
  if 0 ≤ n ∧ n < 10 then ⟨[' ', Nat.digitChar n.toNat]⟩
  else if 10 ≤ n ∧ n < 100 then
    ⟨[Nat.digitChar (n.toNat / 10), Nat.digitChar (n.toNat % 10)]⟩
  else if -10 < n ∧ n < 0 then ⟨['-', Nat.digitChar (-n).toNat]⟩
  else "**"

/-- What the output routines take from gio and General: formatReal is the string that
`gio::write(s, "*") << x`, adjustl and RemoveTrailingZeros make of a number, and
DecodeMonDayHrMin gives month, day, hour and minute of an encoded date. -/
structure OutputFormat where
  formatReal : ℚ → String
  DecodeMonDayHrMin : Int → Int × Int × Int × Int

/-- ProduceMinMaxString: the value string followed by hour and minute (Daily), day, hour and
minute (Monthly) or month, day, hour and minute (RunPeriod) of the date, each after a comma;
blank for the other frequencies. TempString and StrOut are Fstrings of length 40. -/
def ProduceMinMaxString (fmt : OutputFormat) (Value : String) (DateValue : Int)
    (ReportFreq : Int) : String :=
  let TempString := toFstring 40 (adjustl Value)
  let d := fmt.DecodeMonDayHrMin DateValue
  let Mon := d.1
  let Day := d.2.1
  let Hour := d.2.2.1
  let Minute := d.2.2.2
  if ReportFreq = 2 then
    toFstring 40 (trim TempString ++ "," ++ formatI2 Hour ++ "," ++ formatI2 Minute)
  else if ReportFreq = 3 then
    toFstring 40
      (trim TempString ++ "," ++ formatI2 Day ++ "," ++ formatI2 Hour ++ "," ++ formatI2 Minute)
  else if ReportFreq = 4 then
    toFstring 40
      (trim TempString ++ "," ++ formatI2 Mon ++ "," ++ formatI2 Day ++ "," ++ formatI2 Hour ++
        "," ++ formatI2 Minute)
  else BlankString

/-- The statements that turn a number into NumberOut, MaxOut or MinOut, an Fstring of length
n: "0.0" for zero, otherwise the formatted number. -/
def numberOut (fmt : OutputFormat) (n : Nat) (x : ℚ) : String :=
  if x = 0 then "0.0" else toFstring n (fmt.formatReal x)

/-- The line WriteReportRealData writes to the output file (lines 4502-4544): the report
number and the value, and for the Daily, Monthly and RunPeriod intervals the minimum and the
maximum with their dates; no line for any other interval. -/
def WriteReportRealData_line (fmt : OutputFormat) (creportID : String) (repValue : ℚ)
    (storeType : Nat) (numOfItemsStored : ℚ) (reportingInterval : Int) (minValue : ℚ)
    (minValueDate : Int) (MaxValue : ℚ) (maxValueDate : Int) : Option String :=
  let repVal : ℚ := if storeType = AveragedVar then repValue / numOfItemsStored else repValue
  let NumberOut := numberOut fmt 32 repVal
  let MaxOut := numberOut fmt 55 MaxValue
  let MinOut := numberOut fmt 55 minValue
  let MinOut := toFstring 55 (ProduceMinMaxString fmt MinOut minValueDate reportingInterval)
  let MaxOut := toFstring 55 (ProduceMinMaxString fmt MaxOut maxValueDate reportingInterval)
  if reportingInterval = ReportEach ∨ reportingInterval = ReportTimeStep ∨
      reportingInterval = ReportHourly then
    some (trim creportID ++ "," ++ trim NumberOut)
  else if reportingInterval = ReportDaily ∨ reportingInterval = ReportMonthly ∨
      reportingInterval = ReportSim then
    some (trim creportID ++ "," ++ trim NumberOut ++ "," ++ trim MinOut ++ "," ++ trim MaxOut)
  else none

/-- The table FreqNotice as InitializeOutput fills it (lines 288-299), blank elsewhere. -/
def FreqNotice (reportingInterval : Int) (storeType : Nat) : String :=
  if storeType = 1 then
    if reportingInterval = -1 then " !Each Call"
    else if reportingInterval = 0 then " !TimeStep"
    else if reportingInterval = 1 then " !Hourly"
    else if reportingInterval = 2 then " !Daily [Value,Min,Hour,Minute,Max,Hour,Minute]"
    else if reportingInterval = 3 then
      " !Monthly [Value,Min,Day,Hour,Minute,Max,Day,Hour,Minute]"
    else if reportingInterval = 4 then
      " !RunPeriod [Value,Min,Month,Day,Hour,Minute,Max,Month,Day,Hour,Minute]"
    else ""
  else if storeType = 2 then
    if reportingInterval = -1 then " !Each Call"
    else if reportingInterval = 0 then " !TimeStep"
    else if reportingInterval = 1 then " !Hourly"
    else if reportingInterval = 2 then " !Daily  [Value,Min,Hour,Minute,Max,Hour,Minute]"
    else if reportingInterval = 3 then
      " !Monthly  [Value,Min,Day,Hour,Minute,Max,Day,Hour,Minute]"
    else if reportingInterval = 4 then
      " !RunPeriod [Value,Min,Month,Day,Hour,Minute,Max,Month,Day,Hour,Minute]"
    else ""
  else ""

/-- WriteReportVariableDictionaryItem: the line it writes to the output file, none for an
interval that is none of the six. The flags TrackingHourlyVariables etc. and the record for
the SQL database are left out. -/
def WriteReportVariableDictionaryItem (reportingInterval : Int) (storeType : Nat)
    (reportIDChr keyedValue variableName UnitsString : String) (ScheduleName : Option String) :
    Option String :=
  let FreqString := toFstring 120 (FreqNotice reportingInterval storeType)
  let FreqString :=
    match ScheduleName with
    | some name => toFstring 120 (trim FreqString ++ "," ++ trim name)
    | none => FreqString
  let item := fun (count : String) =>
    trim reportIDChr ++ count ++ trim keyedValue ++ "," ++ trim variableName ++ " [" ++
      trim UnitsString ++ "]" ++ trim FreqString
  if reportingInterval = ReportEach ∨ reportingInterval = ReportTimeStep then some (item ",1,")
  else if reportingInterval = ReportHourly then some (item ",1,")
  else if reportingInterval = ReportDaily then some (item ",7,")
  else if reportingInterval = ReportMonthly then some (item ",9,")
  else if reportingInterval = ReportSim then some (item ",11,")
  else none

/-- The comma-separated fields of a line. -/
def fieldsOf : List Char → List (List Char)
  | [] => [[]]
  | c :: cs =>
    if c = ',' then [] :: fieldsOf cs
    else
      match fieldsOf cs with
      | [] => [[c]]
      | f :: fs => (c :: f) :: fs

/-- The number of fields that follow the first field of a line. -/
def fieldsAfterFirst (line : String) : Nat := (fieldsOf line.data).length - 1

/-- The second field of a line. -/
def secondField (line : String) : String := ⟨(fieldsOf line.data).getD 1 []⟩

/-- A formatted number has no comma and at most 28 characters. -/
def plainNumber (s : String) : Prop := ',' ∉ s.data ∧ s.data.length ≤ 28

/-- A sample format: every number is written as "1.5", and every date is the 21st of July,
14:30. -/
def sampleFormat : OutputFormat :=
  { formatReal := fun _ => "1.5", DecodeMonDayHrMin := fun _ => (7, 21, 14, 30) }

/-! ## The keys of a variable: GetVariableKeyCountandType (lines 7573-7793) -/

/-- The Fortran intrinsic index(s, sub, back = true): the position (from 1) where the last
occurrence of `sub` in `s` starts, or 0. -/
def indexOfBack (sub : List Char) : List Char → Nat
  | [] => if sub = [] then 1 else 0
  | c :: cs =>
    if indexOfBack sub cs ≠ 0 then indexOfBack sub cs + 1
    else if sub.isPrefixOf (c :: cs) then 1
    else 0

/-- What GetVariableKeyCountandType takes from lookups by sorted name: FindItemInSortedList on
its list varNames (the names of the catalog in upper case, sorted by SetupAndSort) with the
pointers ivarNames into the catalog, GetMeterIndex (lines 6840-6919, a lookup by sorted name as
well), and GetScheduleIndex and GetScheduleType of ScheduleManager. A lookup returns 0 for a
name it does not find. -/
structure KeyLookups where
  FindItemInSortedList : String → Nat
  ivarNames : Nat → Nat
  GetMeterIndex : String → Nat
  GetScheduleIndex : String → Nat
  GetScheduleType : Nat → String

/-- The results of GetVariableKeyCountandType with its locals Found and keyVarIndexes. -/
structure KeyCountandType where
  Found : Bool
  numKeys : Nat
  keyVarIndexes : Nat → Nat
  varType : Nat
  varAvgSum : Nat
  varStepType : Nat
  varUnits : String

/-- The test of the loop over the integer variables (lines 7710-7712): the last occurrence of
":" + trim(varNameUpper) in trim(VarKeyPlusName) exists, and what follows its colon is
varNameUpper. -/
def integerKeyMatches (VarKeyPlusName varNameUpper : String) : Bool :=
  let Position := indexOfBack (':' :: trimBlanks varNameUpper) (trimBlanks VarKeyPlusName)
  decide (Position > 0) && sameFstring ⟨VarKeyPlusName.data.drop Position⟩ varNameUpper

/-- The test of a search loop on descriptor Loop: for the real variables
`RVariableTypes(Loop).VarNameOnlyUC == varNameUpper` (line 7738), for the integer variables the
test on VarNameUC of lines 7710-7712. -/
def carriesName (st : OutputVariableTables) (varType : Nat) (varNameUpper : String)
    (Loop : Nat) : Bool :=
  if varType = VarType_Integer then
    integerKeyMatches (st.IVariableTypes Loop).VarNameUC varNameUpper
  else sameFstring (st.RVariableTypes Loop).VarNameOnlyUC varNameUpper

/-- The key-plus-name string VarNameUC of descriptor Loop of the integer or real variables. -/
def keyPlusName (st : OutputVariableTables) (varType : Nat) (Loop : Nat) : String :=
  if varType = VarType_Integer then (st.IVariableTypes Loop).VarNameUC
  else (st.RVariableTypes Loop).VarNameUC

/-- The number of descriptors NumOfIVariable or NumOfRVariable. -/
def numberOfDescriptors (st : OutputVariableTables) (varType : Nat) : Nat :=
  if varType = VarType_Integer then st.NumOfIVariable else st.NumOfRVariable

/-- The loop over Loop2 that sets Duplicate (lines 7719-7721 and 7746-7748). -/
def isDuplicateKey (st : OutputVariableTables) (varType : Nat) (VarKeyPlusName : String)
    (r : KeyCountandType) : Bool :=
  (List.range' 1 r.numKeys).any
    (fun Loop2 => sameFstring VarKeyPlusName (keyPlusName st varType (r.keyVarIndexes Loop2)))

/-- The body of a search loop (lines 7709-7733 and 7738-7759): a descriptor that passes the
test sets Found, and unless its VarNameUC is that of a descriptor kept before, its index
becomes the next element of keyVarIndexes and the attributes are taken from the catalog
entry. -/
def searchKeysStep (st : OutputVariableTables) (varType : Nat) (varNameUpper : String)
    (dd : VariableTypeForDDOutput) (r : KeyCountandType) (Loop : Nat) : KeyCountandType :=
  if carriesName st varType varNameUpper Loop then
    let r : KeyCountandType := { r with Found := true, varType := varType }
    if isDuplicateKey st varType (keyPlusName st varType Loop) r then r
    else
      { r with
        numKeys := r.numKeys + 1
        keyVarIndexes := Function.update r.keyVarIndexes (r.numKeys + 1) Loop
        varAvgSum := dd.StoreType
        varStepType := dd.IndexType
        varUnits := dd.UnitsString }
  else r

/-- The first part of GetVariableKeyCountandType (lines 7690-7761): the initial values, the
type of the name from the catalog, and the search of the integer or of the real descriptors.
The static array keyVarIndexes is as long as needed. -/
def searchDescriptors (look : KeyLookups) (st : OutputVariableTables) (varName : String) :
    KeyCountandType :=
  let varNameUpper := varName
  let VFound := look.FindItemInSortedList varNameUpper
  let dd := st.catalog.DDVariableTypes (look.ivarNames VFound)
  let r : KeyCountandType :=
    { Found := false, numKeys := 0, keyVarIndexes := fun _ => 0
      varType := if VFound ≠ 0 then dd.VariableType else VarType_NotFound
      varAvgSum := 0, varStepType := 0, varUnits := " " }
  if r.varType = VarType_Integer then
    (List.range' 1 st.NumOfIVariable).foldl (searchKeysStep st VarType_Integer varNameUpper dd) r
  else if r.varType = VarType_Real then
    (List.range' 1 st.NumOfRVariable).foldl (searchKeysStep st VarType_Real varNameUpper dd) r
  else r

/-- The block "Search Meters if not found in integers or reals" (lines 7763-7776). -/
def searchMeters (look : KeyLookups) (st : OutputVariableTables) (varName : String)
    (r : KeyCountandType) : KeyCountandType :=
  if !r.Found then
    if look.GetMeterIndex varName > 0 then
      { r with
        keyVarIndexes := Function.update r.keyVarIndexes 1 (look.GetMeterIndex varName)
        Found := true, numKeys := 1, varType := VarType_Meter
        varUnits := (st.meters.reg.EnergyMeters (look.GetMeterIndex varName)).Units
        varAvgSum := SummedVar, varStepType := ZoneVar }
    else
      { r with keyVarIndexes := Function.update r.keyVarIndexes 1 (look.GetMeterIndex varName) }
  else r

/-- The block "Search schedules if not found in integers, reals, or meters" (lines
7778-7791). -/
def searchSchedules (look : KeyLookups) (varName : String) (r : KeyCountandType) :
    KeyCountandType :=
  if !r.Found then
    if look.GetScheduleIndex varName > 0 then
      { r with
        keyVarIndexes := Function.update r.keyVarIndexes 1 (look.GetScheduleIndex varName)
        Found := true, numKeys := 1, varType := VarType_Schedule
        varUnits := look.GetScheduleType (look.GetScheduleIndex varName)
        varAvgSum := AveragedVar, varStepType := ZoneVar }
    else
      { r with
        keyVarIndexes := Function.update r.keyVarIndexes 1 (look.GetScheduleIndex varName) }
  else r

/-- GetVariableKeyCountandType: the catalog gives the type of the name; the integer or the
real descriptors are searched for it; a name no descriptor carries is looked up among the
meters, and then among the schedules. -/
def GetVariableKeyCountandType (look : KeyLookups) (st : OutputVariableTables)
    (varName : String) : KeyCountandType :=
  searchSchedules look varName (searchMeters look st varName (searchDescriptors look st varName))

/-- The key-plus-name string of a descriptor without its trailing blanks. -/
def keyOf (st : OutputVariableTables) (varType : Nat) (Loop : Nat) : List Char :=
  trimBlanks (keyPlusName st varType Loop)

/-- The descriptors of a type that carry a name, by index. -/
def carriers (st : OutputVariableTables) (varType : Nat) (varName : String) : List Nat :=
  (List.range' 1 (numberOfDescriptors st varType)).filter (carriesName st varType varName)

/-- The number of distinct key-plus-name strings among the descriptors that carry a name. -/
def distinctKeys (st : OutputVariableTables) (varType : Nat) (varName : String) : Nat :=
  ((carriers st varType varName).map (keyOf st varType)).dedup.length

/-- The elements 1..numKeys of keyVarIndexes. -/
def KeyCountandType.keys (r : KeyCountandType) : List Nat :=
  (List.range' 1 r.numKeys).map r.keyVarIndexes

/-- Lookups for a run with the one name ZONE THING in the catalog, no meter, and schedules
that `schedules` gives. -/
def sampleLookups (schedules : String → Nat) : KeyLookups :=
  { FindItemInSortedList := fun s => if sameFstring s "ZONE THING" then 1 else 0
    ivarNames := fun i => i
    GetMeterIndex := fun _ => 0
    GetScheduleIndex := schedules
    GetScheduleType := fun _ => "Temperature" }

/-- A run that asks for no variable and has none on its list of DataOutputs. -/
def quietSetup : SetupEnvironment :=
  { MaxNameLength := 100, MinReportFrequency := -1, FindItemInVariableList := fun _ _ => false,
    RepFreqUnassigned := ReportHourly }

/-- What holds of a search loop after the descriptors 1..N, for the count n, the array
keyVarIndexes and the flag Found: each index kept is that of a descriptor with the name which
no earlier descriptor with the name shares its key-plus-name string with; each descriptor with
the name has its string among those kept; the indexes kept increase; Found says whether a
descriptor has the name. -/
structure KeysFound (st : OutputVariableTables) (varType : Nat) (varName : String) (N n : Nat)
    (keyVarIndexes : Nat → Nat) (Found : Bool) : Prop where
  kept : ∀ k, 1 ≤ k → k ≤ n →
    1 ≤ keyVarIndexes k ∧ keyVarIndexes k ≤ N ∧
      carriesName st varType varName (keyVarIndexes k) = true ∧
      ∀ j, 1 ≤ j → j < keyVarIndexes k → carriesName st varType varName j = true →
        keyOf st varType j ≠ keyOf st varType (keyVarIndexes k)
  covered : ∀ j, 1 ≤ j → j ≤ N → carriesName st varType varName j = true →
    ∃ k, 1 ≤ k ∧ k ≤ n ∧ keyOf st varType j = keyOf st varType (keyVarIndexes k)
  increasing : ∀ k k2, 1 ≤ k → k < k2 → k2 ≤ n → keyVarIndexes k < keyVarIndexes k2
  found : Found = true ↔ ∃ j, 1 ≤ j ∧ j ≤ N ∧ carriesName st varType varName j = true

/-- The module state after a sequence of calls of SetupOutputVariable that all return. -/
def stateAfter (env : SetupEnvironment) (calls : List SetupOutputVariableCall)
    (st : OutputVariableTables) : OutputVariableTables :=
  calls.foldl
    (fun st c =>
      match SetupOutputVariable env c st with
      | some e => e.state
      | none => st)
    st

/-- Requests for ZONE THING of ZONE ONE at the Hourly and at the Daily frequency, and of ZONE
TWO at the Hourly frequency. -/
def requestedTwice : OutputVariableTables :=
  { noOutputVariables with
    requests := requestsOfList
      [hourlyRequest "ZONE ONE" "ZONE THING" 0,
       { hourlyRequest "ZONE ONE" "ZONE THING" 0 with ReportFreq := ReportDaily },
       hourlyRequest "ZONE TWO" "ZONE THING" 0] [] }

/-- The state after Zone Thing is set up for Zone One and for Zone Two under the requests of
`requestedTwice`: three descriptors, two of them for Zone One. -/
def threeDescriptors : OutputVariableTables :=
  stateAfter sampleSetup
    [plainCall "Zone Thing [C]" "Zone" "Average" "Zone One",
     plainCall "Zone Thing [C]" "Zone" "Average" "Zone Two"] requestedTwice

/-- The state after Zone Thing is set up for Zone One in a run that does not ask for it: the
catalog has the name, and there is no descriptor. -/
def catalogOnly : OutputVariableTables :=
  stateAfter quietSetup [plainCall "Zone Thing [C]" "Zone" "Average" "Zone One"]
    noOutputVariables

/-- A schedule named ZONE THING, at index 3. -/
def scheduleZoneThing (s : String) : Nat := if sameFstring s "ZONE THING" then 3 else 0

/-! ## A real variable, its schedule and its meters in the TimeStep block (lines 5863-6046) -/

/-- The meters of an attachment record that UpdateMeterValues is called with (lines
6007-6011): OnMeters(1..NumOnMeters) and, when NumOnCustomMeters is positive,
OnCustomMeters(1..NumOnCustomMeters). -/
def MeterArrayType.attached (a : MeterArrayType) : List Nat :=
  a.OnMeters.take a.NumOnMeters ++
    (if a.NumOnCustomMeters ≤ 0 then [] else a.OnCustomMeters.take a.NumOnCustomMeters)

/-- The meter update of the TimeStep block for one real variable (lines 6006-6012): a
variable with an attachment record hands TSValue * ZoneMult * ZoneListMult to
UpdateMeterValues, with the custom meters of the record when it has any. -/
def TimeStepBlock_RVar_meters (VarMeterArrays : Nat → MeterArrayType) (v : RealVariables)
    (MeterValue : Nat → ℚ) : Nat → ℚ :=
  if v.MeterArrayPtr ≠ 0 then
    let a := VarMeterArrays v.MeterArrayPtr
    let TimeStepValue : ℚ := v.TSValue * (v.ZoneMult : ℚ) * (v.ZoneListMult : ℚ)
    if a.NumOnCustomMeters ≤ 0 then
      UpdateMeterValues TimeStepValue (a.OnMeters.take a.NumOnMeters) none MeterValue
    else
      UpdateMeterValues TimeStepValue (a.OnMeters.take a.NumOnMeters)
        (some (a.OnCustomMeters.take a.NumOnCustomMeters)) MeterValue
  else MeterValue

/-- The variable when the TimeStep block of a zone-timestep call reaches it: after the record
keeping if the variable belongs to the calling domain (lines 5842-5926). -/
def timeStepBlockEntry (env : ReportingCall) (varIndexType : Nat) (Which : ℚ)
    (v : RealVariables) : RealVariables × List OutputRecord :=
  if env.IndexTypeKey ≥ ZoneVar ∧ env.IndexTypeKey ≤ HVACVar ∧
      varIndexType = env.IndexTypeKey then
    RecordKeeping_RVar env Which v
  else (v, [])

/-- MeterValue after the TimeStep block of a zone-timestep call has passed the variable. -/
def AtHourBlock_MeterValue (env : ReportingCall) (varIndexType : Nat) (Which : ℚ)
    (VarMeterArrays : Nat → MeterArrayType) (v : RealVariables) (MeterValue : Nat → ℚ) :
    Nat → ℚ :=
  if inLoops varIndexType then
    TimeStepBlock_RVar_meters VarMeterArrays (timeStepBlockEntry env varIndexType Which v).1
      MeterValue
  else MeterValue

/-- The records a sequence of calls writes for the variable. -/
def runCallsOutput (varIndexType : Nat) (calls : List SubStep) (v : RealVariables) :
    List OutputRecord :=
  match calls with
  | [] => []
  | c :: rest =>
    (UpdateDataandReport_RVar c.env varIndexType c.Which v).2 ++
      runCallsOutput varIndexType rest (UpdateDataandReport_RVar c.env varIndexType c.Which v).1

/-- The maximum after the comparisons of lines 5872-5875 with each value of a list. -/
def maxOver (l : List ℚ) (m : ℚ) : ℚ := l.foldl (fun m w => if w > m then w else m) m

/-- The minimum after the comparisons of lines 5876-5879 with each value of a list. -/
def minOver (l : List ℚ) (m : ℚ) : ℚ := l.foldl (fun m w => if w < m then w else m) m

/-- The fields of a variable that decide whether it is reported and what goes to its
meters. -/
def sameGating (v v1 : RealVariables) : Prop :=
  v1.Report = v.Report ∧ v1.SchedPtr = v.SchedPtr ∧ v1.StoreType = v.StoreType ∧
  v1.MeterArrayPtr = v.MeterArrayPtr ∧ v1.ZoneMult = v.ZoneMult ∧
  v1.ZoneListMult = v.ZoneListMult

/-- A variable reported Hourly under schedule 1, attached through record 1. -/
def scheduledVariable : RealVariables :=
  { reportedVariable SummedVar ReportTimeStep with
    SchedPtr := 1, MeterArrayPtr := 1, ZoneMult := 2, ZoneListMult := 3 }

/-- A call during which every schedule has the value 0. -/
def SubStep.scheduleOff (c : SubStep) : SubStep :=
  { c with env := { c.env with GetCurrentScheduleValue := fun _ => 0 } }

/-- A zone timestep of two system calls and the zone call during which every schedule is 0. -/
def offTimeStep (a b : ℚ) : ZoneTimeStep :=
  { hvac := [(sampleSystemCall (1 / 8) a).scheduleOff, (sampleSystemCall (1 / 8) b).scheduleOff],
    zone := (sampleZoneCall false false 0).scheduleOff }

/-- Attachment records: record 1 lists the meters 1 and 2 and the custom meter 5. -/
def sampleAttachment : Nat → MeterArrayType := fun _ =>
  { NumOnMeters := 2, RepVariable := 1, OnMeters := [1, 2, 0, 0, 0, 0], NumOnCustomMeters := 1,
    OnCustomMeters := [5] }

/-! ## One integer output variable under UpdateDataandReport (lines 5928-6250) -/

/-- The data records written for an integer variable: `IntegerData` by WriteIntegerData with
IntegerValue (line 5985), `IntegerDataReal` by WriteIntegerData with RealValue (lines 6079 and
6143), `ReportIntegerData` by WriteReportIntegerData. -/
inductive IntegerOutputRecord where
  | IntegerData (reportID : Nat) (IntegerValue : Int)
  | IntegerDataReal (reportID : Nat) (RealValue : ℚ)
  | ReportIntegerData (reportID : Nat) (repVal : ℚ) (reportingInterval : Int)
      (minValue : Int) (minValueDate : Int) (MaxValue : Int) (maxValueDate : Int)
deriving DecidableEq

/-- The local ReportNow for an integer variable (lines 6051-6052). -/
def ReportNow_IVar (env : ReportingCall) (v : IntegerVariables) : Bool :=
  if v.SchedPtr > 0 then decide (env.GetCurrentScheduleValue v.SchedPtr ≠ 0) else true

/-- TimeStep block for one integer variable (lines 6051-6083). TSValue is dropped only when
the schedule is zero (line 6053), then added to Value; a variable that is reported now writes
it if its frequency is TimeStep and resets TSValue and thisTSStored. -/
def TimeStepBlock_IVar (env : ReportingCall) (v : IntegerVariables) :
    IntegerVariables × List IntegerOutputRecord :=
  let TSValue : ℚ := if !ReportNow_IVar env v then 0 else v.TSValue
  let skipped : Bool := !ReportNow_IVar env v || !v.Report
  ({ v with
      Value := v.Value + TSValue
      TSValue := if skipped then TSValue else 0
      thisTSStored := if skipped then v.thisTSStored else false },
   if !skipped && decide (v.ReportFreq = ReportTimeStep) then
     [IntegerOutputRecord.IntegerDataReal v.ReportID TSValue]
   else [])

/-- The value the hour block holds in Value after line 6140. -/
def HourBlock_IVar_value (v : IntegerVariables) : ℚ :=
  if v.StoreType = AveragedVar then v.Value / (v.thisTSCount : ℚ) else v.Value

/-- Hour block for one integer variable (lines 6138-6153). -/
def HourBlock_IVar (v : IntegerVariables) : IntegerVariables × List IntegerOutputRecord :=
  let written : Bool :=
    v.tsStored && (v.Report && decide (v.ReportFreq = ReportHourly) && v.Stored)
  ({ v with
      Stored := if written then false else v.Stored
      StoreValue := if v.tsStored then v.StoreValue + HourBlock_IVar_value v else v.StoreValue
      NumStored := if v.tsStored then v.NumStored + 1 else v.NumStored
      tsStored := false
      thisTSStored := false
      thisTSCount := 0
      Value := 0 },
   if written then [IntegerOutputRecord.IntegerDataReal v.ReportID (HourBlock_IVar_value v)]
   else [])

/-- WriteReportIntegerData (lines 4938-4968), reduced to the record it writes: the value is
divided by numOfItemsStored for an Averaged variable (line 4939). -/
def WriteReportIntegerData (reportID : Nat) (repValue : ℚ) (storeType : Nat)
    (numOfItemsStored : ℚ) (reportingInterval : Int) (minValue : Int) (minValueDate : Int)
    (MaxValue : Int) (maxValueDate : Int) : IntegerOutputRecord :=
  let repVal : ℚ := if storeType = AveragedVar then repValue / numOfItemsStored else repValue
  IntegerOutputRecord.ReportIntegerData reportID repVal reportingInterval minValue minValueDate
    MaxValue maxValueDate

/-- WriteIntegerVariableOutput (lines 4858-4872); `warmup` is the value of
`UpdateDataDuringWarmupExternalInterface && !ReportDuringWarmup`, with which the routine
returns at once (line 4858). -/
def WriteIntegerVariableOutput (warmup : Bool) (reportType : Int) (v : IntegerVariables) :
    IntegerVariables × List IntegerOutputRecord :=
  if warmup then (v, [])
  else if v.Report && decide (v.ReportFreq = reportType) && v.Stored then
    let out : List IntegerOutputRecord :=
      if v.NumStored > 0 then
        [WriteReportIntegerData v.ReportID v.StoreValue v.StoreType v.NumStored v.ReportFreq
          v.MinValue v.minValueDate v.MaxValue v.maxValueDate]
      else []
    ({ v with StoreValue := 0, NumStored := 0, MinValue := IMinSetValue,
              MaxValue := IMaxSetValue, Stored := false }, out)
  else (v, [])

/-- A zone-timestep call up to the Hour block, for an integer variable: record keeping if the
variable belongs to the calling domain, then the TimeStep block. -/
def AtHourBlock_IVar (env : ReportingCall) (varIndexType : Nat) (Which : Int)
    (v : IntegerVariables) : IntegerVariables × List IntegerOutputRecord :=
  let r1 : IntegerVariables × List IntegerOutputRecord :=
    if env.IndexTypeKey ≥ ZoneVar ∧ env.IndexTypeKey ≤ HVACVar ∧
        varIndexType = env.IndexTypeKey then
      ((RecordKeeping_IVar env Which v).1,
        (RecordKeeping_IVar env Which v).2.map
          (fun p => IntegerOutputRecord.IntegerData p.1 p.2))
    else (v, [])
  if inLoops varIndexType then
    let r2 := TimeStepBlock_IVar env r1.1
    (r2.1, r1.2 ++ r2.2)
  else r1

/-- The rest of a zone-timestep call with EndHourFlag set, for an integer variable: the Hour
block, then WriteIntegerVariableOutput for ReportDaily (line 6184) if EndDayFlag is set, for
ReportMonthly (6214) if also EndMonthFlag or EndEnvrnFlag, and for ReportSim (6240) if
EndEnvrnFlag. -/
def AfterHourBlock_IVar (env : ReportingCall) (warmup : Bool) (varIndexType : Nat)
    (r : IntegerVariables × List IntegerOutputRecord) :
    IntegerVariables × List IntegerOutputRecord :=
  if !inLoops varIndexType then r else
  let r3 := HourBlock_IVar r.1
  if !env.EndDayFlag then (r3.1, r.2 ++ r3.2) else
  let r4 := WriteIntegerVariableOutput warmup ReportDaily r3.1
  let r5 : IntegerVariables × List IntegerOutputRecord :=
    if env.EndMonthFlag || env.EndEnvrnFlag then
      WriteIntegerVariableOutput warmup ReportMonthly r4.1
    else (r4.1, [])
  let r6 : IntegerVariables × List IntegerOutputRecord :=
    if env.EndEnvrnFlag then WriteIntegerVariableOutput warmup ReportSim r5.1 else (r5.1, [])
  (r6.1, r.2 ++ r3.2 ++ r4.2 ++ r5.2 ++ r6.2)

/-- What one call of UpdateDataandReport with a valid key does to the integer variable
IVariableTypes(Loop), whose IndexType is `varIndexType` and whose storage cell holds
`Which`. -/
def UpdateDataandReport_IVar (env : ReportingCall) (warmup : Bool) (varIndexType : Nat)
    (Which : Int) (v : IntegerVariables) : IntegerVariables × List IntegerOutputRecord :=
  if env.IndexTypeKey = HVACVar then
    (if varIndexType = env.IndexTypeKey then
      ((RecordKeeping_IVar env Which v).1,
        (RecordKeeping_IVar env Which v).2.map
          (fun p => IntegerOutputRecord.IntegerData p.1 p.2))
     else (v, []))
  else
    let r := AtHourBlock_IVar env varIndexType Which v
    if env.EndHourFlag then AfterHourBlock_IVar env warmup varIndexType r else r

/-- One call of UpdateDataandReport together with the warm-up return of
WriteIntegerVariableOutput and the value the integer variable's storage cell holds. -/
structure IntegerSubStep where
  env : ReportingCall
  warmup : Bool
  Which : Int

/-- The integer variable after a sequence of calls. -/
def runCalls_IVar (varIndexType : Nat) (calls : List IntegerSubStep) (v : IntegerVariables) :
    IntegerVariables :=
  calls.foldl (fun v c => (UpdateDataandReport_IVar c.env c.warmup varIndexType c.Which v).1) v

/-- The timestep is counted whenever one of the flags tsStored and thisTSStored is set. -/
def countedWhenStored (tsStored thisTSStored : Bool) (thisTSCount : Nat) : Prop :=
  (tsStored = true ∨ thisTSStored = true) → 1 ≤ thisTSCount

/-! ## The catalog after any sequence of AddToOutputVariableList calls (lines 8376-8477) -/

/-- The array expressions DDVariableTypes.VarNameOnly() and DDVariableTypes.UnitsString(). -/
def OutputVariableList.names (cat : OutputVariableList) : Nat → String :=
  fun i => (cat.DDVariableTypes i).VarNameOnly

def OutputVariableList.units (cat : OutputVariableList) : Nat → String :=
  fun i => (cat.DDVariableTypes i).UnitsString

/-- Entry i of the catalog points to entry k through Next. -/
def OutputVariableList.linkedTo (cat : OutputVariableList) (i k : Nat) : Prop :=
  1 ≤ i ∧ i ≤ cat.NumVariablesForOutput ∧ (cat.DDVariableTypes i).Next = k ∧ k ≠ 0

/-- Entry k is reached from entry i by following Next zero or more times. -/
def OutputVariableList.reaches (cat : OutputVariableList) : Nat → Nat → Prop :=
  Relation.ReflTransGen cat.linkedTo

/-- The shape of the catalog: every Next pointer is 0 or leads to a later entry with the same
name; no two entries agree in name and units; every entry is reached through Next from the
first entry with its name. -/
structure OutputVariableList.wellLinked (cat : OutputVariableList) : Prop where
  next : ∀ i, 1 ≤ i → i ≤ cat.NumVariablesForOutput →
    (cat.DDVariableTypes i).Next = 0 ∨
      (i < (cat.DDVariableTypes i).Next ∧
        (cat.DDVariableTypes i).Next ≤ cat.NumVariablesForOutput ∧
        sameFstring (cat.names (cat.DDVariableTypes i).Next) (cat.names i) = true)
  unique : ∀ i j, 1 ≤ i → i < j → j ≤ cat.NumVariablesForOutput →
    ¬ (sameFstring (cat.names i) (cat.names j) = true ∧
        sameFstring (cat.units i) (cat.units j) = true)
  chained : ∀ j, 1 ≤ j → j ≤ cat.NumVariablesForOutput →
    cat.reaches (FindItemInList (cat.names j) cat.names cat.NumVariablesForOutput) j

/-- The arguments of one call of AddToOutputVariableList. -/
structure CatalogCall where
  VarName : String
  IndexType : Nat
  StateType : Nat
  VariableType : Nat
  UnitsString : String

/-- A sequence of calls of AddToOutputVariableList, in order. -/
def AddToOutputVariableList_calls : List CatalogCall → OutputVariableList →
    Option OutputVariableList
  | [], cat => some cat
  | c :: rest, cat =>
    match AddToOutputVariableList c.VarName c.IndexType c.StateType c.VariableType c.UnitsString
        cat with
    | none => none
    | some cat1 => AddToOutputVariableList_calls rest cat1

/-- Three calls: a name, the same name with other units, and the first call again. -/
def sampleCatalogCalls : List CatalogCall :=
  [{ VarName := "Zone Thing", IndexType := 1, StateType := 1, VariableType := 2,
     UnitsString := "W" },
   { VarName := "Zone Thing", IndexType := 1, StateType := 2, VariableType := 2,
     UnitsString := "J" },
   { VarName := "Zone Thing", IndexType := 1, StateType := 1, VariableType := 2,
     UnitsString := "W" }]

/-- The catalog after lines 8458-8473: the entry is added at the end and entry `dup`, the end
of the chain, points to it. -/
def OutputVariableList.addLinked (cat : OutputVariableList) (dup : Nat) (VarName : String)
    (IndexType StateType VariableType : Nat) (UnitsString : String) : OutputVariableList :=
  let cat1 := cat.add VarName IndexType StateType VariableType UnitsString
  { cat1 with
    DDVariableTypes := Function.update cat1.DDVariableTypes dup
      { cat1.DDVariableTypes dup with Next := cat1.NumVariablesForOutput } }

/-! ## Calls of SetupOutputVariable with and without ReportFreq -/

/-- An environment in which every variable is on the list of DataOutputs and the unassigned
local RepFreq of the real SetupOutputVariable holds `u`. -/
def setupWithUnassigned (u : Int) : SetupEnvironment :=
  { MaxNameLength := 100, MinReportFrequency := -1, FindItemInVariableList := fun _ _ => true,
    RepFreqUnassigned := u }

/-- A call with the optional argument ReportFreq. -/
def debugCall : SetupOutputVariableCall :=
  { plainCall "Zone Thing [W]" "Zone" "Average" "ZONE ONE" with ReportFreq := some "Daily" }

/-- A later call without ReportFreq, for another variable. -/
def laterCall : SetupOutputVariableCall :=
  plainCall "Other Thing [W]" "Zone" "Average" "ZONE ONE"

/-- A call for a summed variable with the meter keys Electricity and Heating. -/
def meteredCall : SetupOutputVariableCall :=
  { plainCall "Zone Thing [J]" "Zone" "Sum" "Zone One" with
    ResourceTypeKey := some "Electricity", EndUseKey := some "Heating" }

/-- The same variable set up without meter keys. -/
def unmeteredCall : SetupOutputVariableCall :=
  plainCall "Zone Thing [J]" "Zone" "Sum" "Zone One"

/-! ## AssignReportNumber (lines 6252-6293) and its callers -/

/-- The results for a name without keys are the initial ones of lines 7693-7696. -/
def KeyCountandType.blankWithoutKeys (r : KeyCountandType) : Prop :=
  r.numKeys = 0 → r.varAvgSum = 0 ∧ r.varStepType = 0 ∧ r.varUnits = " " ∧ r.Found = false

/-! ## The source meter of a Meter:CustomDecrement meter -/

/-- The accumulator part of the meter table together with the array MeterValue, which is what
UpdateMeters works on. -/
def MeterRegistry.toMeterState (reg : MeterRegistry) (MeterValue : Nat → ℚ) : MeterState :=
  { NumEnergyMeters := reg.NumEnergyMeters
    EnergyMeters := fun i => (reg.EnergyMeters i).Meter
    MeterValue := MeterValue }

/-- Every CustomDecrement meter after the first N0 meters has as SourceMeter an earlier meter,
the one FindItem finds for one of the given source meter names. -/
def decrementSources (N0 : Nat) (names : List String) (st : CustomMeterState) : Prop :=
  ∀ i, N0 < i → i ≤ st.reg.NumEnergyMeters →
    (st.reg.EnergyMeters i).Meter.TypeOfMeter = MeterType_CustomDec →
    1 ≤ (st.reg.EnergyMeters i).Meter.SourceMeter ∧
    (st.reg.EnergyMeters i).Meter.SourceMeter < i ∧
    ∃ n ∈ names, (st.reg.EnergyMeters i).Meter.SourceMeter
      = FindItem n st.reg.Names st.reg.NumEnergyMeters

/-- What holds during the field loop of an object that started in state s0: the meters of s0
are kept; until the meter of the object is created the table and WhichMeter are those of s0;
at most one meter is added, and it has the type of the object and, for a decrement meter, the
WhichMeter of s0 as SourceMeter. -/
structure FieldLoopState (Decrement : Bool) (s0 st : CustomMeterState) : Prop where
  keeps : KeepsMeters s0 st
  before : st.MeterCreated = false → st.reg = s0.reg ∧ st.WhichMeter = s0.WhichMeter
  atMostOne : st.reg.NumEnergyMeters ≤ s0.reg.NumEnergyMeters + 1
  created : s0.reg.NumEnergyMeters < st.reg.NumEnergyMeters →
    (Decrement = true →
      (st.reg.EnergyMeters (s0.reg.NumEnergyMeters + 1)).Meter.TypeOfMeter
        = MeterType_CustomDec ∧
      (st.reg.EnergyMeters (s0.reg.NumEnergyMeters + 1)).Meter.SourceMeter = s0.WhichMeter) ∧
    (Decrement = false →
      (st.reg.EnergyMeters (s0.reg.NumEnergyMeters + 1)).Meter.TypeOfMeter = MeterType_Custom)

/-! # Theorems -/

/-! ## SetMinMax -/

theorem SetMinMax_max (t : ℚ) (ts : Int) (s : MinMaxStore) :
    (SetMinMax t ts s).CurMaxValue = (if t > s.CurMaxValue then t else s.CurMaxValue) ∧
    (SetMinMax t ts s).CurMaxValDate = (if t > s.CurMaxValue then ts else s.CurMaxValDate) := by
  unfold SetMinMax
  by_cases h : t > s.CurMaxValue <;> simp only [h, if_true, if_false] <;> split <;> simp

theorem SetMinMax_min (t : ℚ) (ts : Int) (s : MinMaxStore) :
    (SetMinMax t ts s).CurMinValue = (if t < s.CurMinValue then t else s.CurMinValue) ∧
    (SetMinMax t ts s).CurMinValDate = (if t < s.CurMinValue then ts else s.CurMinValDate) := by
  unfold SetMinMax
  by_cases h : t > s.CurMaxValue <;> simp only [h, if_true, if_false] <;> split <;> simp_all

theorem SetMinMaxAll_max (xs : List (ℚ × Int)) : ∀ s : MinMaxStore,
    (∀ p ∈ xs, p.1 ≤ (SetMinMaxAll xs s).CurMaxValue) ∧
    ((SetMinMaxAll xs s).CurMaxValue = s.CurMaxValue ∧
        (SetMinMaxAll xs s).CurMaxValDate = s.CurMaxValDate ∨
      s.CurMaxValue < (SetMinMaxAll xs s).CurMaxValue ∧
        xs.find? (fun p => decide (p.1 = (SetMinMaxAll xs s).CurMaxValue)) =
          some ((SetMinMaxAll xs s).CurMaxValue, (SetMinMaxAll xs s).CurMaxValDate)) := by
  induction xs with
  | nil => intro s; simp [SetMinMaxAll]
  | cons p rest ih =>
    intro s
    have hstep : SetMinMaxAll (p :: rest) s = SetMinMaxAll rest (SetMinMax p.1 p.2 s) := rfl
    rw [hstep]
    obtain ⟨hle, hcase⟩ := ih (SetMinMax p.1 p.2 s)
    obtain ⟨hv, hd⟩ := SetMinMax_max p.1 p.2 s
    set F := SetMinMaxAll rest (SetMinMax p.1 p.2 s) with hF
    by_cases hgt : p.1 > s.CurMaxValue
    · rw [if_pos hgt] at hv hd
      rcases hcase with ⟨h1, h2⟩ | ⟨h1, h2⟩
      · refine ⟨?_, Or.inr ⟨?_, ?_⟩⟩
        · intro q hq
          rcases List.mem_cons.1 hq with rfl | hq
          · rw [h1, hv]
          · exact hle q hq
        · rw [h1, hv]; exact hgt
        · have : p.1 = F.CurMaxValue := by rw [h1, hv]
          rw [List.find?_cons_of_pos _ (by simpa using this)]
          rw [h1, h2, hv, hd]
      · rw [hv] at h1
        refine ⟨?_, Or.inr ⟨lt_trans hgt h1, ?_⟩⟩
        · intro q hq
          rcases List.mem_cons.1 hq with rfl | hq
          · exact le_of_lt h1
          · exact hle q hq
        · rw [List.find?_cons_of_neg _ (by simpa using ne_of_lt h1)]
          exact h2
    · rw [if_neg hgt] at hv hd
      have hple : p.1 ≤ s.CurMaxValue := not_lt.1 hgt
      rcases hcase with ⟨h1, h2⟩ | ⟨h1, h2⟩
      · refine ⟨?_, Or.inl ⟨by rw [h1, hv], by rw [h2, hd]⟩⟩
        intro q hq
        rcases List.mem_cons.1 hq with rfl | hq
        · rw [h1, hv]; exact hple
        · exact hle q hq
      · rw [hv] at h1
        refine ⟨?_, Or.inr ⟨h1, ?_⟩⟩
        · intro q hq
          rcases List.mem_cons.1 hq with rfl | hq
          · exact le_of_lt (lt_of_le_of_lt hple h1)
          · exact hle q hq
        · rw [List.find?_cons_of_neg _ (by simpa using ne_of_lt (lt_of_le_of_lt hple h1))]
          exact h2

theorem SetMinMaxAll_min (xs : List (ℚ × Int)) : ∀ s : MinMaxStore,
    (∀ p ∈ xs, (SetMinMaxAll xs s).CurMinValue ≤ p.1) ∧
    ((SetMinMaxAll xs s).CurMinValue = s.CurMinValue ∧
        (SetMinMaxAll xs s).CurMinValDate = s.CurMinValDate ∨
      (SetMinMaxAll xs s).CurMinValue < s.CurMinValue ∧
        xs.find? (fun p => decide (p.1 = (SetMinMaxAll xs s).CurMinValue)) =
          some ((SetMinMaxAll xs s).CurMinValue, (SetMinMaxAll xs s).CurMinValDate)) := by
  induction xs with
  | nil => intro s; simp [SetMinMaxAll]
  | cons p rest ih =>
    intro s
    have hstep : SetMinMaxAll (p :: rest) s = SetMinMaxAll rest (SetMinMax p.1 p.2 s) := rfl
    rw [hstep]
    obtain ⟨hle, hcase⟩ := ih (SetMinMax p.1 p.2 s)
    obtain ⟨hv, hd⟩ := SetMinMax_min p.1 p.2 s
    set F := SetMinMaxAll rest (SetMinMax p.1 p.2 s) with hF
    by_cases hlt : p.1 < s.CurMinValue
    · rw [if_pos hlt] at hv hd
      rcases hcase with ⟨h1, h2⟩ | ⟨h1, h2⟩
      · refine ⟨?_, Or.inr ⟨?_, ?_⟩⟩
        · intro q hq
          rcases List.mem_cons.1 hq with rfl | hq
          · rw [h1, hv]
          · exact hle q hq
        · rw [h1, hv]; exact hlt
        · have : p.1 = F.CurMinValue := by rw [h1, hv]
          rw [List.find?_cons_of_pos _ (by simpa using this)]
          rw [h1, h2, hv, hd]
      · rw [hv] at h1
        refine ⟨?_, Or.inr ⟨lt_trans h1 hlt, ?_⟩⟩
        · intro q hq
          rcases List.mem_cons.1 hq with rfl | hq
          · exact le_of_lt h1
          · exact hle q hq
        · rw [List.find?_cons_of_neg _ (by simpa using ne_of_gt h1)]
          exact h2
    · rw [if_neg hlt] at hv hd
      have hple : s.CurMinValue ≤ p.1 := not_lt.1 hlt
      rcases hcase with ⟨h1, h2⟩ | ⟨h1, h2⟩
      · refine ⟨?_, Or.inl ⟨by rw [h1, hv], by rw [h2, hd]⟩⟩
        intro q hq
        rcases List.mem_cons.1 hq with rfl | hq
        · rw [h1, hv]; exact hple
        · exact hle q hq
      · rw [hv] at h1
        refine ⟨?_, Or.inr ⟨h1, ?_⟩⟩
        · intro q hq
          rcases List.mem_cons.1 hq with rfl | hq
          · exact le_of_lt (lt_of_lt_of_le h1 hple)
          · exact hle q hq
        · rw [List.find?_cons_of_neg _ (by simpa using ne_of_gt (lt_of_lt_of_le h1 hple))]
          exact h2

/-- C3. Starting from the sentinels, applying SetMinMax along a non-empty sequence of
(value, timestamp) pairs whose values lie strictly between the sentinels leaves the largest
value as maximum and the smallest as minimum, each stamped with the timestamp of the first
pair that carries it. -/
theorem SetMinMax_keeps_first_extremes (xs : List (ℚ × Int)) (d0 d1 : Int) (hne : xs ≠ [])
    (hrange : ∀ p ∈ xs, MaxSetValue < p.1 ∧ p.1 < MinSetValue) :
    (∀ p ∈ xs, p.1 ≤ (SetMinMaxAll xs ⟨MaxSetValue, d0, MinSetValue, d1⟩).CurMaxValue) ∧
    xs.find? (fun p =>
        decide (p.1 = (SetMinMaxAll xs ⟨MaxSetValue, d0, MinSetValue, d1⟩).CurMaxValue))
      = some ((SetMinMaxAll xs ⟨MaxSetValue, d0, MinSetValue, d1⟩).CurMaxValue,
              (SetMinMaxAll xs ⟨MaxSetValue, d0, MinSetValue, d1⟩).CurMaxValDate) ∧
    (∀ p ∈ xs, (SetMinMaxAll xs ⟨MaxSetValue, d0, MinSetValue, d1⟩).CurMinValue ≤ p.1) ∧
    xs.find? (fun p =>
        decide (p.1 = (SetMinMaxAll xs ⟨MaxSetValue, d0, MinSetValue, d1⟩).CurMinValue))
      = some ((SetMinMaxAll xs ⟨MaxSetValue, d0, MinSetValue, d1⟩).CurMinValue,
              (SetMinMaxAll xs ⟨MaxSetValue, d0, MinSetValue, d1⟩).CurMinValDate) := by
  obtain ⟨p, hp⟩ := List.exists_mem_of_ne_nil xs hne
  obtain ⟨hmaxle, hmaxcase⟩ := SetMinMaxAll_max xs ⟨MaxSetValue, d0, MinSetValue, d1⟩
  obtain ⟨hminle, hmincase⟩ := SetMinMaxAll_min xs ⟨MaxSetValue, d0, MinSetValue, d1⟩
  refine ⟨hmaxle, ?_, hminle, ?_⟩
  · rcases hmaxcase with ⟨h1, _⟩ | ⟨_, h2⟩
    · exfalso
      have := hmaxle p hp
      rw [h1] at this
      exact absurd (hrange p hp).1 (not_lt.2 this)
    · exact h2
  · rcases hmincase with ⟨h1, _⟩ | ⟨_, h2⟩
    · exfalso
      have := hminle p hp
      rw [h1] at this
      exact absurd (hrange p hp).2 (not_lt.2 this)
    · exact h2

/-- C3 at the sample input: the values 3, -1, 7, 7, 2 stamped 1 to 5 give maximum 7 stamped 3
(the first 7) and minimum -1 stamped 2. -/
theorem SetMinMax_sample :
    ((∀ p ∈ sampleReadings, p.1 ≤ (SetMinMaxAll sampleReadings
        ⟨MaxSetValue, 0, MinSetValue, 0⟩).CurMaxValue) ∧
     sampleReadings.find? (fun p => decide (p.1 = (SetMinMaxAll sampleReadings
        ⟨MaxSetValue, 0, MinSetValue, 0⟩).CurMaxValue))
      = some ((SetMinMaxAll sampleReadings ⟨MaxSetValue, 0, MinSetValue, 0⟩).CurMaxValue,
              (SetMinMaxAll sampleReadings ⟨MaxSetValue, 0, MinSetValue, 0⟩).CurMaxValDate) ∧
     (∀ p ∈ sampleReadings, (SetMinMaxAll sampleReadings
        ⟨MaxSetValue, 0, MinSetValue, 0⟩).CurMinValue ≤ p.1) ∧
     sampleReadings.find? (fun p => decide (p.1 = (SetMinMaxAll sampleReadings
        ⟨MaxSetValue, 0, MinSetValue, 0⟩).CurMinValue))
      = some ((SetMinMaxAll sampleReadings ⟨MaxSetValue, 0, MinSetValue, 0⟩).CurMinValue,
              (SetMinMaxAll sampleReadings ⟨MaxSetValue, 0, MinSetValue, 0⟩).CurMinValDate)) ∧
    SetMinMaxAll sampleReadings ⟨MaxSetValue, 0, MinSetValue, 0⟩ = ⟨7, 3, -1, 2⟩ := by
  refine ⟨SetMinMax_keeps_first_extremes sampleReadings 0 0 (by simp [sampleReadings]) ?_, ?_⟩
  · intro p hp
    simp only [sampleReadings, List.mem_cons, List.mem_singleton, List.not_mem_nil,
      or_false] at hp
    rcases hp with rfl | rfl | rfl | rfl | rfl <;>
      constructor <;> norm_num [MaxSetValue, MinSetValue]
  · norm_num [sampleReadings, SetMinMaxAll, SetMinMax, MaxSetValue, MinSetValue]

/-! ## Meters -/
theorem addToMeterValue_foldl (v : ℚ) (l : List Nat) : ∀ (mv : Nat → ℚ) (m : Nat),
    (l.foldl (addToMeterValue v) mv) m = mv m + v * (l.count m : ℚ) := by
  induction l with
  | nil => intro mv m; simp
  | cons a rest ih =>
    intro mv m
    rw [List.foldl_cons, ih]
    by_cases h : a = m
    · subst h
      simp [addToMeterValue, List.count_cons_self]
      ring
    · have h' : m ≠ a := fun e => h e.symm
      rw [List.count_cons_of_ne h']
      simp [addToMeterValue, Function.update_noteq h']

theorem UpdateMeterValues_apply (v : ℚ) (onM : List Nat) (custom : Option (List Nat))
    (mv : Nat → ℚ) (m : Nat) :
    UpdateMeterValues v onM custom mv m
      = mv m + v * ((onM ++ custom.getD []).count m : ℚ) := by
  cases custom with
  | none => simp [UpdateMeterValues, addToMeterValue_foldl]
  | some c =>
    simp [UpdateMeterValues, addToMeterValue_foldl, List.count_append]
    ring

theorem UpdateMeters_Meter_other (ts : Int) (mv : Nat → ℚ) (E : Nat → MeterType) (j i : Nat)
    (h : i ≠ j) : UpdateMeters_Meter ts mv E j i = E i := by
  unfold UpdateMeters_Meter
  simp only []
  split <;> exact Function.update_noteq h _ _

theorem UpdateMetersLoop_succ (ts : Int) (mv : Nat → ℚ) (E : Nat → MeterType) (n : Nat) :
    UpdateMetersLoop ts mv E (n + 1)
      = UpdateMeters_Meter ts mv (UpdateMetersLoop ts mv E n) (n + 1) := by
  unfold UpdateMetersLoop
  rw [List.range'_concat, List.foldl_append]
  simp [Nat.add_comm]

theorem UpdateMetersLoop_above (ts : Int) (mv : Nat → ℚ) (E : Nat → MeterType) (n i : Nat)
    (h : n < i) : UpdateMetersLoop ts mv E n i = E i := by
  induction n with
  | zero => simp [UpdateMetersLoop]
  | succ k ih =>
    rw [UpdateMetersLoop_succ, UpdateMeters_Meter_other _ _ _ _ _ (by omega)]
    exact ih (by omega)

theorem UpdateMetersLoop_zero_index (ts : Int) (mv : Nat → ℚ) (E : Nat → MeterType) (n : Nat) :
    UpdateMetersLoop ts mv E n 0 = E 0 := by
  induction n with
  | zero => simp [UpdateMetersLoop]
  | succ k ih =>
    rw [UpdateMetersLoop_succ, UpdateMeters_Meter_other _ _ _ _ _ (by omega)]
    exact ih

theorem UpdateMetersLoop_stable (ts : Int) (mv : Nat → ℚ) (E : Nat → MeterType) (k i : Nat)
    (hik : i ≤ k) : ∀ n, k ≤ n → UpdateMetersLoop ts mv E n i = UpdateMetersLoop ts mv E k i := by
  intro n hn
  induction n with
  | zero =>
    have : k = 0 := by omega
    subst this; rfl
  | succ m ih =>
    by_cases hk : k = m + 1
    · subst hk; rfl
    · rw [UpdateMetersLoop_succ, UpdateMeters_Meter_other _ _ _ _ _ (by omega)]
      exact ih (by omega)

theorem UpdateMetersLoop_at (ts : Int) (mv : Nat → ℚ) (E : Nat → MeterType) (n i : Nat)
    (h1 : 1 ≤ i) (hn : i ≤ n) :
    UpdateMetersLoop ts mv E n i
      = UpdateMeters_Meter ts mv (UpdateMetersLoop ts mv E (i - 1)) i i := by
  rw [UpdateMetersLoop_stable ts mv E i i (le_refl _) n hn]
  obtain ⟨j, rfl⟩ : ∃ j, i = j + 1 := ⟨i - 1, by omega⟩
  rw [UpdateMetersLoop_succ]
  simp


theorem applyUpdateMeterValues_apply (calls : List UpdateMeterValuesCall) :
    ∀ (mv : Nat → ℚ) (m : Nat),
    (calls.foldl (fun mv c => UpdateMeterValues c.TimeStepValue c.OnMeters c.OnCustomMeters mv)
        mv) m = mv m + attachedContribution calls m := by
  induction calls with
  | nil => intro mv m; simp [attachedContribution]
  | cons c rest ih =>
    intro mv m
    rw [List.foldl_cons, ih, UpdateMeterValues_apply]
    simp only [attachedContribution, List.map_cons, List.sum_cons, UpdateMeterValuesCall.listed]
    ring

/-- When no attachment record lists the meter more than once, the contributions to the meter
are the plain sum of the values of the variables whose record lists it. -/
theorem attachedContribution_eq_attachedSum (calls : List UpdateMeterValuesCall) (m : Nat)
    (h : ∀ c ∈ calls, c.listed.count m ≤ 1) :
    attachedContribution calls m = attachedSum calls m := by
  induction calls with
  | nil => simp [attachedContribution, attachedSum]
  | cons c rest ih =>
    have ih2 := ih (fun c' hc' => h c' (List.mem_cons_of_mem _ hc'))
    have hc := h c (List.mem_cons_self _ _)
    unfold attachedContribution attachedSum at ih2 ⊢
    rw [List.map_cons, List.sum_cons, ih2]
    by_cases hm : m ∈ c.listed
    · have h1 : c.listed.count m = 1 := by
        have := List.count_pos_iff.2 hm
        omega
      rw [List.filter_cons_of_pos (by simpa using hm), h1]
      simp
    · rw [List.filter_cons_of_neg (by simpa using hm), List.count_eq_zero_of_not_mem hm]
      simp

theorem accumulateMeter_frame (ts : Int) (add : ℚ) (m : MeterType) :
    (accumulateMeter ts add m).TSValue = m.TSValue ∧
    (accumulateMeter ts add m).TypeOfMeter = m.TypeOfMeter ∧
    (accumulateMeter ts add m).SourceMeter = m.SourceMeter ∧
    (accumulateMeter ts add m).RptHR = m.RptHR ∧
    (accumulateMeter ts add m).RptDY = m.RptDY ∧
    (accumulateMeter ts add m).RptMN = m.RptMN := by
  simp [accumulateMeter]

theorem accumulateMeter_values (ts : Int) (add : ℚ) (m : MeterType) :
    (accumulateMeter ts add m).HRValue = m.HRValue + add ∧
    (accumulateMeter ts add m).DYValue = m.DYValue + add ∧
    (accumulateMeter ts add m).MNValue = m.MNValue + add ∧
    (accumulateMeter ts add m).SMValue = m.SMValue + add := by
  simp [accumulateMeter]

theorem UpdateMeters_at (ts : Int) (st : MeterState) (i : Nat)
    (h1 : 1 ≤ i) (hN : i ≤ st.NumEnergyMeters) :
    (UpdateMeters ts st).EnergyMeters i
      = UpdateMeters_Meter ts st.MeterValue
          (UpdateMetersLoop ts st.MeterValue st.EnergyMeters (i - 1)) i i := by
  simp only [UpdateMeters]
  exact UpdateMetersLoop_at ts _ _ _ i h1 hN

theorem UpdateMeters_normal (ts : Int) (st : MeterState) (i : Nat)
    (h1 : 1 ≤ i) (hN : i ≤ st.NumEnergyMeters)
    (hty : (st.EnergyMeters i).TypeOfMeter ≠ MeterType_CustomDec ∧
      (st.EnergyMeters i).TypeOfMeter ≠ MeterType_CustomDiff) :
    (UpdateMeters ts st).EnergyMeters i
      = accumulateMeter ts (st.MeterValue i)
          { st.EnergyMeters i with
            TSValue := (st.EnergyMeters i).TSValue + st.MeterValue i } := by
  rw [UpdateMeters_at ts st i h1 hN]
  have hpre : UpdateMetersLoop ts st.MeterValue st.EnergyMeters (i - 1) i = st.EnergyMeters i :=
    UpdateMetersLoop_above _ _ _ _ _ (by omega)
  unfold UpdateMeters_Meter
  simp only [hpre, hty, and_self, if_true, Function.update_same, ne_eq, not_false_eq_true]

theorem UpdateMeters_decrement (ts : Int) (st : MeterState) (i : Nat)
    (h1 : 1 ≤ i) (hN : i ≤ st.NumEnergyMeters)
    (hty : ¬ ((st.EnergyMeters i).TypeOfMeter ≠ MeterType_CustomDec ∧
      (st.EnergyMeters i).TypeOfMeter ≠ MeterType_CustomDiff))
    (hs : (st.EnergyMeters i).SourceMeter < i) :
    (UpdateMeters ts st).EnergyMeters i
      = accumulateMeter ts
          (((UpdateMeters ts st).EnergyMeters (st.EnergyMeters i).SourceMeter).TSValue
            - st.MeterValue i)
          { st.EnergyMeters i with
            TSValue := ((UpdateMeters ts st).EnergyMeters (st.EnergyMeters i).SourceMeter).TSValue
              - st.MeterValue i } := by
  rw [UpdateMeters_at ts st i h1 hN]
  have hpre : UpdateMetersLoop ts st.MeterValue st.EnergyMeters (i - 1) i = st.EnergyMeters i :=
    UpdateMetersLoop_above _ _ _ _ _ (by omega)
  have hsrc : (UpdateMeters ts st).EnergyMeters (st.EnergyMeters i).SourceMeter
      = UpdateMetersLoop ts st.MeterValue st.EnergyMeters (i - 1) (st.EnergyMeters i).SourceMeter := by
    simp only [UpdateMeters]
    exact UpdateMetersLoop_stable _ _ _ (i - 1) _ (by omega) _ (by omega)
  rw [hsrc]
  unfold UpdateMeters_Meter
  simp only [hpre, hty, if_false, Function.update_same]

/-- Timestep values after one round of UpdateMeterValues calls and UpdateMeters, from zeroed
TSValue and MeterValue entries: every listing of a meter in a record counts. -/
theorem UpdateMeters_TSValue_core (st : MeterState)
    (calls : List UpdateMeterValuesCall) (TimeStamp : Int) (Meter : Nat)
    (hTS : ∀ i, 1 ≤ i → i ≤ st.NumEnergyMeters → (st.EnergyMeters i).TSValue = 0)
    (hMV : ∀ i, 1 ≤ i → i ≤ st.NumEnergyMeters → st.MeterValue i = 0)
    (h1 : 1 ≤ Meter) (hN : Meter ≤ st.NumEnergyMeters)
    (hsrc : (st.EnergyMeters Meter).TypeOfMeter = MeterType_CustomDec →
      (st.EnergyMeters Meter).SourceMeter < Meter) :
    ((st.EnergyMeters Meter).TypeOfMeter ≠ MeterType_CustomDec ∧
      (st.EnergyMeters Meter).TypeOfMeter ≠ MeterType_CustomDiff →
        ((UpdateMeters TimeStamp (applyUpdateMeterValues calls st)).EnergyMeters Meter).TSValue
          = attachedContribution calls Meter) ∧
    ((st.EnergyMeters Meter).TypeOfMeter = MeterType_CustomDec →
        ((UpdateMeters TimeStamp (applyUpdateMeterValues calls st)).EnergyMeters Meter).TSValue
          = ((UpdateMeters TimeStamp (applyUpdateMeterValues calls st)).EnergyMeters
              (st.EnergyMeters Meter).SourceMeter).TSValue - attachedContribution calls Meter) := by
  have hmv : (applyUpdateMeterValues calls st).MeterValue Meter = attachedContribution calls Meter := by
    simp only [applyUpdateMeterValues]
    rw [applyUpdateMeterValues_apply calls _ _, hMV Meter h1 hN, zero_add]
  constructor
  · intro hty
    rw [UpdateMeters_normal TimeStamp (applyUpdateMeterValues calls st) Meter h1 hN hty]
    rw [(accumulateMeter_frame _ _ _).1, hmv]
    show (st.EnergyMeters Meter).TSValue + attachedContribution calls Meter = attachedContribution calls Meter
    rw [hTS Meter h1 hN, zero_add]
  · intro hty
    have hty' : ¬ (((applyUpdateMeterValues calls st).EnergyMeters Meter).TypeOfMeter
          ≠ MeterType_CustomDec ∧
        ((applyUpdateMeterValues calls st).EnergyMeters Meter).TypeOfMeter
          ≠ MeterType_CustomDiff) := by
      intro h; exact h.1 hty
    rw [UpdateMeters_decrement TimeStamp (applyUpdateMeterValues calls st) Meter h1 hN hty'
      (hsrc hty)]
    rw [(accumulateMeter_frame _ _ _).1, hmv]
    rfl

theorem UpdateMeters_fields (ts : Int) (st : MeterState) (i : Nat)
    (h1 : 1 ≤ i) (hN : i ≤ st.NumEnergyMeters)
    (hTS : (st.EnergyMeters i).TSValue = 0) :
    ((UpdateMeters ts st).EnergyMeters i).HRValue
        = (st.EnergyMeters i).HRValue + ((UpdateMeters ts st).EnergyMeters i).TSValue ∧
    ((UpdateMeters ts st).EnergyMeters i).DYValue
        = (st.EnergyMeters i).DYValue + ((UpdateMeters ts st).EnergyMeters i).TSValue ∧
    ((UpdateMeters ts st).EnergyMeters i).MNValue
        = (st.EnergyMeters i).MNValue + ((UpdateMeters ts st).EnergyMeters i).TSValue ∧
    ((UpdateMeters ts st).EnergyMeters i).SMValue
        = (st.EnergyMeters i).SMValue + ((UpdateMeters ts st).EnergyMeters i).TSValue ∧
    ((UpdateMeters ts st).EnergyMeters i).TypeOfMeter = (st.EnergyMeters i).TypeOfMeter ∧
    ((UpdateMeters ts st).EnergyMeters i).SourceMeter = (st.EnergyMeters i).SourceMeter ∧
    ((UpdateMeters ts st).EnergyMeters i).RptHR = (st.EnergyMeters i).RptHR ∧
    ((UpdateMeters ts st).EnergyMeters i).RptDY = (st.EnergyMeters i).RptDY ∧
    ((UpdateMeters ts st).EnergyMeters i).RptMN = (st.EnergyMeters i).RptMN := by
  rw [UpdateMeters_at ts st i h1 hN]
  have hpre : UpdateMetersLoop ts st.MeterValue st.EnergyMeters (i - 1) i = st.EnergyMeters i :=
    UpdateMetersLoop_above _ _ _ _ _ (by omega)
  unfold UpdateMeters_Meter
  simp only [hpre]
  split
  · simp [accumulateMeter, hTS]
  · simp [accumulateMeter]

theorem UpdateMeters_decrement_TSValue (ts : Int) (st : MeterState) (i : Nat)
    (h1 : 1 ≤ i) (hN : i ≤ st.NumEnergyMeters)
    (hty : (st.EnergyMeters i).TypeOfMeter = MeterType_CustomDec)
    (hs : (st.EnergyMeters i).SourceMeter < i) :
    ((UpdateMeters ts st).EnergyMeters i).TSValue
      = ((UpdateMeters ts st).EnergyMeters (st.EnergyMeters i).SourceMeter).TSValue
          - st.MeterValue i := by
  have hty' : ¬ ((st.EnergyMeters i).TypeOfMeter ≠ MeterType_CustomDec ∧
      (st.EnergyMeters i).TypeOfMeter ≠ MeterType_CustomDiff) := fun h => h.1 hty
  rw [UpdateMeters_decrement ts st i h1 hN hty' hs, (accumulateMeter_frame _ _ _).1]

/-- The four running totals, the timestep value and the configuration of one registered meter
after one timestep of meter reporting, in terms of the timestep value `x` that UpdateMeters
computed for it. -/
theorem UpdateDataandReport_Meters_fields (e : MeterReportingStep) (st : MeterState) (i : Nat)
    (h1 : 1 ≤ i) (hN : i ≤ st.NumEnergyMeters)
    (hTS : (st.EnergyMeters i).TSValue = 0) :
    let x := ((UpdateMeters e.TimeStamp (applyUpdateMeterValues e.calls st)).EnergyMeters i).TSValue
    let m := st.EnergyMeters i
    let m' := (UpdateDataandReport_Meters e st).EnergyMeters i
    m'.HRValue = (if closesHour e = true ∧ m.RptHR = true then 0 else m.HRValue + x) ∧
    m'.DYValue = (if closesDay e = true ∧ m.RptDY = true then 0 else m.DYValue + x) ∧
    m'.MNValue = (if closesMonth e = true ∧ m.RptMN = true then 0 else m.MNValue + x) ∧
    m'.SMValue = (if closesRunPeriod e = true then 0 else m.SMValue + x) ∧
    m'.TSValue = 0 ∧
    m'.TypeOfMeter = m.TypeOfMeter ∧ m'.SourceMeter = m.SourceMeter ∧
    m'.RptHR = m.RptHR ∧ m'.RptDY = m.RptDY ∧ m'.RptMN = m.RptMN := by
  intro x m m'
  have hN' : i ≤ (applyUpdateMeterValues e.calls st).NumEnergyMeters := hN
  obtain ⟨hHR, hDY, hMN, hSM, hT, hS, hrH, hrD, hrM⟩ :=
    UpdateMeters_fields e.TimeStamp (applyUpdateMeterValues e.calls st) i h1 hN' hTS
  have hpos : st.NumEnergyMeters > 0 := by omega
  have hnum : (UpdateMeters e.TimeStamp (applyUpdateMeterValues e.calls st)).NumEnergyMeters
      = st.NumEnergyMeters := rfl
  have hE : (applyUpdateMeterValues e.calls st).EnergyMeters i = st.EnergyMeters i := rfl
  rw [hE] at hHR hDY hMN hSM hT hS hrH hrD hrM
  simp only [m', m, x, UpdateDataandReport_Meters, closesHour, closesDay, closesMonth,
    closesRunPeriod]
  cases hh : e.EndHourFlag <;> cases hd : e.EndDayFlag <;> cases hm : e.EndMonthFlag <;>
    cases hv : e.EndEnvrnFlag <;>
    cases hfH : (st.EnergyMeters i).RptHR <;> cases hfD : (st.EnergyMeters i).RptDY <;>
    cases hfM : (st.EnergyMeters i).RptMN <;>
    simp [ReportTSMeters, ReportHRMeters, ReportDYMeters, ReportMNMeters, ReportSMMeters,
      ReportHRMeters_Meter, ReportDYMeters_Meter, ReportMNMeters_Meter,
      forEachMeter, h1, hN, hnum, hpos, hHR, hDY, hMN, hSM, hT, hS, hrH, hrD, hrM,
      hfH, hfD, hfM]

theorem UpdateDataandReport_Meters_MeterValue (e : MeterReportingStep) (st : MeterState)
    (i : Nat) : (UpdateDataandReport_Meters e st).MeterValue i = 0 ∧
      (UpdateDataandReport_Meters e st).NumEnergyMeters = st.NumEnergyMeters := by
  simp only [UpdateDataandReport_Meters]
  cases e.EndHourFlag <;> cases e.EndDayFlag <;> cases e.EndMonthFlag <;>
    cases e.EndEnvrnFlag <;>
    simp [ReportTSMeters, ReportHRMeters, ReportDYMeters, ReportMNMeters, ReportSMMeters,
      UpdateMeters, applyUpdateMeterValues]

/-- C2 (as amended). Starting from zeroed TSValue and MeterValue entries, one round of
UpdateMeterValues calls followed by UpdateMeters leaves, in every meter that is not a decrement
or difference meter (Normal and Custom meters), the sum of the values of the variables
attached to it, each value counted once for every position of the attachment record that holds
the meter, and in every CustomDecrement meter whose source has a smaller index the updated
TSValue of its source meter minus the sum, counted the same way, of the values of the variables
attached to it. When no record lists the meter more than once this is the plain sum of the
values of the variables whose record lists the meter. -/
theorem UpdateMeters_TSValue_counts_each_listing (st : MeterState)
    (calls : List UpdateMeterValuesCall) (TimeStamp : Int) (Meter : Nat)
    (hTS : ∀ i, 1 ≤ i → i ≤ st.NumEnergyMeters → (st.EnergyMeters i).TSValue = 0)
    (hMV : ∀ i, 1 ≤ i → i ≤ st.NumEnergyMeters → st.MeterValue i = 0)
    (h1 : 1 ≤ Meter) (hN : Meter ≤ st.NumEnergyMeters)
    (hsrc : (st.EnergyMeters Meter).TypeOfMeter = MeterType_CustomDec →
      (st.EnergyMeters Meter).SourceMeter < Meter) :
    ((st.EnergyMeters Meter).TypeOfMeter ≠ MeterType_CustomDec ∧
      (st.EnergyMeters Meter).TypeOfMeter ≠ MeterType_CustomDiff →
        ((UpdateMeters TimeStamp (applyUpdateMeterValues calls st)).EnergyMeters Meter).TSValue
          = attachedContribution calls Meter) ∧
    ((st.EnergyMeters Meter).TypeOfMeter = MeterType_CustomDec →
        ((UpdateMeters TimeStamp (applyUpdateMeterValues calls st)).EnergyMeters Meter).TSValue
          = ((UpdateMeters TimeStamp (applyUpdateMeterValues calls st)).EnergyMeters
              (st.EnergyMeters Meter).SourceMeter).TSValue - attachedContribution calls Meter) ∧
    ((∀ c ∈ calls, c.listed.count Meter ≤ 1) →
      attachedContribution calls Meter = attachedSum calls Meter) :=
  ⟨(UpdateMeters_TSValue_core st calls TimeStamp Meter hTS hMV h1 hN hsrc).1,
    (UpdateMeters_TSValue_core st calls TimeStamp Meter hTS hMV h1 hN hsrc).2,
    attachedContribution_eq_attachedSum calls Meter⟩

/-- C2 (as amended) at the sample input: A = 10 and B = 5 on M, C = 3 on D sourced from M give
M = 15 and D = 12. -/
theorem UpdateMeters_TSValue_sample :
    ((UpdateMeters 1010100 (applyUpdateMeterValues sampleCalls
        (sampleMeters false false))).EnergyMeters 1).TSValue = 15 ∧
    ((UpdateMeters 1010100 (applyUpdateMeterValues sampleCalls
        (sampleMeters false false))).EnergyMeters 2).TSValue = 12 := by
  have hTS : ∀ i, 1 ≤ i → i ≤ (sampleMeters false false).NumEnergyMeters →
      ((sampleMeters false false).EnergyMeters i).TSValue = 0 := by
    intro i _ _
    by_cases h : i = 2 <;> simp [sampleMeters, freshMeter, h]
  have hMV : ∀ i, 1 ≤ i → i ≤ (sampleMeters false false).NumEnergyMeters →
      (sampleMeters false false).MeterValue i = 0 := fun _ _ _ => rfl
  have hM := (UpdateMeters_TSValue_counts_each_listing (sampleMeters false false) sampleCalls
    1010100 1 hTS hMV (by decide) (by decide)
    (by simp [sampleMeters, freshMeter, MeterType_Normal, MeterType_CustomDec])).1
    (by simp [sampleMeters, freshMeter, MeterType_Normal, MeterType_CustomDec, MeterType_CustomDiff])
  have hD := (UpdateMeters_TSValue_counts_each_listing (sampleMeters false false) sampleCalls
    1010100 2 hTS hMV (by decide) (by decide)
    (by simp [sampleMeters])).2.1
    (by simp [sampleMeters])
  have hsrc : ((sampleMeters false false).EnergyMeters 2).SourceMeter = 1 := by
    simp [sampleMeters]
  rw [hsrc, hM] at hD
  constructor
  · rw [hM]; simp [attachedContribution, sampleCalls, UpdateMeterValuesCall.listed]; norm_num
  · rw [hD]; simp [attachedContribution, sampleCalls, UpdateMeterValuesCall.listed]; norm_num

theorem fiveMeters_twice_listed :
    ((UpdateMeters 1010100 (applyUpdateMeterValues twiceListedCalls fiveMeters)).EnergyMeters
        3).TSValue = 14 ∧
    attachedSum twiceListedCalls 3 = 7 := by
  have h := (UpdateMeters_TSValue_core fiveMeters twiceListedCalls 1010100 3
    (fun _ _ _ => rfl) (fun _ _ _ => rfl) (by decide) (by decide)
    (by simp [fiveMeters, freshMeter, MeterType_Normal, MeterType_CustomDec])).1
    (by simp [fiveMeters, freshMeter, MeterType_Normal, MeterType_CustomDec,
      MeterType_CustomDiff])
  constructor
  · rw [h]
    simp [attachedContribution, twiceListedCalls, UpdateMeterValuesCall.listed]
    norm_num
  · simp [attachedSum, twiceListedCalls, UpdateMeterValuesCall.listed]

/-- C2 fails as stated: for a variable with the legal tags Electricity, Cooling, Building, the
subcategory "Electricity:Zone:X" and the zone "X:Cooling:Electricity", AttachMeters builds a
record with which UpdateMeterValues is called on the meters 1, 2, 3, 4, 5, 3. With five zeroed
Normal meters and the value 7 for that variable, meter 3 ends with TSValue 14, while the sum
of the values of the variables whose record lists meter 3 is 7. -/
theorem UpdateMeters_TSValue_listed_twice_counterexample :
    (AttachMeters "J" "Electricity" "Cooling" "Electricity:Zone:X" "Building"
        "X:Cooling:Electricity" 7 false noMeterTables).toOption.map
          (fun r => ((r.tables.VarMeterArrays r.MeterArrayPtr).attached,
            r.tables.reg.NumEnergyMeters))
      = some ([1, 2, 3, 4, 5, 3], 5) ∧
    twiceListedCalls.map (fun c => c.listed) = [[1, 2, 3, 4, 5, 3]] ∧
    (∀ i, 1 ≤ i → i ≤ fiveMeters.NumEnergyMeters →
      (fiveMeters.EnergyMeters i).TSValue = 0 ∧ fiveMeters.MeterValue i = 0 ∧
      (fiveMeters.EnergyMeters i).TypeOfMeter = MeterType_Normal) ∧
    ((UpdateMeters 1010100 (applyUpdateMeterValues twiceListedCalls fiveMeters)).EnergyMeters
        3).TSValue = 14 ∧
    attachedSum twiceListedCalls 3 = 7 ∧
    ¬ (((UpdateMeters 1010100 (applyUpdateMeterValues twiceListedCalls
          fiveMeters)).EnergyMeters 3).TSValue = attachedSum twiceListedCalls 3) := by
  refine ⟨by decide, by decide, fun _ _ _ => ⟨rfl, rfl, rfl⟩, fiveMeters_twice_listed.1,
    fiveMeters_twice_listed.2, ?_⟩
  rw [fiveMeters_twice_listed.1, fiveMeters_twice_listed.2]
  norm_num

theorem sampleMeters_init (a b : Bool) : ∀ i, 1 ≤ i → i ≤ (sampleMeters a b).NumEnergyMeters →
    ((sampleMeters a b).EnergyMeters i).TSValue = 0 ∧ (sampleMeters a b).MeterValue i = 0 ∧
    ((sampleMeters a b).EnergyMeters i).HRValue = 0 ∧
    ((sampleMeters a b).EnergyMeters i).DYValue = 0 ∧
    ((sampleMeters a b).EnergyMeters i).MNValue = 0 ∧
    ((sampleMeters a b).EnergyMeters i).SMValue = 0 := by
  intro i _ _
  by_cases h : i = 2 <;> simp [sampleMeters, freshMeter, h]

theorem sampleHourStep_values (a b : Bool) :
    ((UpdateDataandReport_Meters sampleHourStep (sampleMeters a b)).EnergyMeters 1).HRValue
      = (if a = true then 0 else 15) ∧
    ((UpdateDataandReport_Meters sampleHourStep (sampleMeters a b)).EnergyMeters 2).HRValue
      = (if b = true then 0 else 12) := by
  have h1 := UpdateDataandReport_Meters_fields sampleHourStep (sampleMeters a b) 1
    (by decide) (by simp [sampleMeters]) (by simp [sampleMeters, freshMeter])
  have h2 := UpdateDataandReport_Meters_fields sampleHourStep (sampleMeters a b) 2
    (by decide) (by simp [sampleMeters]) (by simp [sampleMeters, freshMeter])
  have hx := UpdateMeters_TSValue_core (sampleMeters a b) sampleCalls 1010100
  have hTS : ∀ i, 1 ≤ i → i ≤ (sampleMeters a b).NumEnergyMeters →
      ((sampleMeters a b).EnergyMeters i).TSValue = 0 :=
    fun i p q => (sampleMeters_init a b i p q).1
  have hMV : ∀ i, 1 ≤ i → i ≤ (sampleMeters a b).NumEnergyMeters →
      (sampleMeters a b).MeterValue i = 0 := fun _ _ _ => rfl
  have hM := (hx 1 hTS hMV (by decide) (by simp [sampleMeters])
    (by simp [sampleMeters, freshMeter, MeterType_Normal, MeterType_CustomDec])).1
    (by simp [sampleMeters, freshMeter, MeterType_Normal, MeterType_CustomDec,
      MeterType_CustomDiff])
  have hD := (hx 2 hTS hMV (by decide) (by simp [sampleMeters])
    (by simp [sampleMeters])).2 (by simp [sampleMeters])
  have hsrc : ((sampleMeters a b).EnergyMeters 2).SourceMeter = 1 := by simp [sampleMeters]
  rw [hsrc, hM] at hD
  have e1 : attachedContribution sampleCalls 1 = 15 := by
    simp [attachedContribution, sampleCalls, UpdateMeterValuesCall.listed]; norm_num
  have e2 : attachedContribution sampleCalls 2 = 3 := by
    simp [attachedContribution, sampleCalls, UpdateMeterValuesCall.listed]
  rw [e1] at hM
  rw [e1, e2] at hD
  simp only at h1 h2
  have hts : sampleHourStep.TimeStamp = 1010100 := rfl
  have hcalls : sampleHourStep.calls = sampleCalls := rfl
  rw [hts, hcalls] at h1 h2
  rw [hM] at h1
  rw [hD] at h2
  constructor
  · rw [h1.1]; cases a <;> simp [closesHour, sampleHourStep, sampleMeters, freshMeter]
  · rw [h2.1]; cases b <;> simp [closesHour, sampleHourStep, sampleMeters, freshMeter]
    norm_num

/-- C6 (as amended). After ReportHRMeters a registered meter flagged RptHR has HRValue = 0 and
HRMinVal / HRMaxVal at the sentinels, and a meter not flagged RptHR is left exactly as it was;
likewise ReportDYMeters with RptDY and the daily fields, and ReportMNMeters with RptMN and the
monthly fields. -/
theorem report_meters_reset_only_flagged (st : MeterState) (Loop : Nat)
    (h1 : 1 ≤ Loop) (hN : Loop ≤ st.NumEnergyMeters) :
    ((st.EnergyMeters Loop).RptHR = true →
      ((ReportHRMeters st).EnergyMeters Loop).HRValue = 0 ∧
      ((ReportHRMeters st).EnergyMeters Loop).HRMinVal = MinSetValue ∧
      ((ReportHRMeters st).EnergyMeters Loop).HRMaxVal = MaxSetValue) ∧
    ((st.EnergyMeters Loop).RptHR = false →
      (ReportHRMeters st).EnergyMeters Loop = st.EnergyMeters Loop) ∧
    ((st.EnergyMeters Loop).RptDY = true →
      ((ReportDYMeters st).EnergyMeters Loop).DYValue = 0 ∧
      ((ReportDYMeters st).EnergyMeters Loop).DYMinVal = MinSetValue ∧
      ((ReportDYMeters st).EnergyMeters Loop).DYMaxVal = MaxSetValue) ∧
    ((st.EnergyMeters Loop).RptDY = false →
      (ReportDYMeters st).EnergyMeters Loop = st.EnergyMeters Loop) ∧
    ((st.EnergyMeters Loop).RptMN = true →
      ((ReportMNMeters st).EnergyMeters Loop).MNValue = 0 ∧
      ((ReportMNMeters st).EnergyMeters Loop).MNMinVal = MinSetValue ∧
      ((ReportMNMeters st).EnergyMeters Loop).MNMaxVal = MaxSetValue) ∧
    ((st.EnergyMeters Loop).RptMN = false →
      (ReportMNMeters st).EnergyMeters Loop = st.EnergyMeters Loop) := by
  refine ⟨?_, ?_, ?_, ?_, ?_, ?_⟩ <;> intro h <;>
    simp [ReportHRMeters, ReportDYMeters, ReportMNMeters, forEachMeter, h1, hN,
      ReportHRMeters_Meter, ReportDYMeters_Meter, ReportMNMeters_Meter, h]

/-- C6 (as amended) at the sample input: after the sample timestep, ReportHRMeters resets the
flagged meter M and leaves the unflagged decrement meter D untouched. -/
theorem report_meters_reset_only_flagged_sample :
    ((ReportHRMeters (sampleMeters true false)).EnergyMeters 1).HRValue = 0 ∧
    (ReportHRMeters (sampleMeters true false)).EnergyMeters 2
      = (sampleMeters true false).EnergyMeters 2 :=
  ⟨((report_meters_reset_only_flagged (sampleMeters true false) 1 (by decide)
      (by decide)).1 (by simp [sampleMeters, freshMeter])).1,
   (report_meters_reset_only_flagged (sampleMeters true false) 2 (by decide)
      (by decide)).2.1 (by simp [sampleMeters])⟩

/-- C6 fails as stated: meter M is not flagged for hourly reporting; after a timestep that
added 15 to it, ReportHRMeters returns with its HRValue still 15, not 0. -/
theorem report_meters_unflagged_counterexample :
    ¬ (((ReportHRMeters (ReportTSMeters (UpdateMeters 1010100
        (applyUpdateMeterValues sampleCalls (sampleMeters false false))))).EnergyMeters 1).HRValue
          = 0) := by
  have h := (sampleHourStep_values false false).1
  have hr : UpdateDataandReport_Meters sampleHourStep (sampleMeters false false)
      = ReportHRMeters (ReportTSMeters (UpdateMeters 1010100
          (applyUpdateMeterValues sampleCalls (sampleMeters false false)))) := rfl
  rw [hr] at h
  rw [h]
  norm_num

/-! ## Real output variables -/

theorem ReportNow_of_no_schedule (env : ReportingCall) (v : RealVariables)
    (hS : v.SchedPtr ≤ 0) : ReportNow env v = true := by
  unfold ReportNow
  rw [if_neg (by omega)]

theorem RecordKeeping_RVar_TSValue (env : ReportingCall) (w : ℚ) (v : RealVariables) :
    (RecordKeeping_RVar env w v).1.TSValue
      = v.TSValue + (if v.StoreType = AveragedVar then w * rxTime env else w) ∧
    (RecordKeeping_RVar env w v).1.StoreType = v.StoreType := by
  simp [RecordKeeping_RVar]

theorem RecordKeeping_RVar_reported (env : ReportingCall) (w : ℚ) (v : RealVariables)
    (hR : v.Report = true) (hS : v.SchedPtr ≤ 0) :
    (RecordKeeping_RVar env w v).1.Value = v.Value ∧
    (RecordKeeping_RVar env w v).1.thisTSCount
      = (if v.thisTSStored = true then v.thisTSCount else v.thisTSCount + 1) ∧
    (RecordKeeping_RVar env w v).1.thisTSStored = true ∧
    (RecordKeeping_RVar env w v).1.tsStored = true ∧
    (RecordKeeping_RVar env w v).1.Stored = true ∧
    (RecordKeeping_RVar env w v).1.StoreValue = v.StoreValue ∧
    (RecordKeeping_RVar env w v).1.NumStored = v.NumStored ∧
    sameConfig v (RecordKeeping_RVar env w v).1 := by
  have hS' : ¬ v.SchedPtr > 0 := by omega
  simp only [RecordKeeping_RVar, sameConfig, ReportNow]
  by_cases h3 : v.thisTSStored = true <;> simp [h3, hR, hS']


theorem TimeStepBlock_RVar_reported (env : ReportingCall) (v : RealVariables)
    (hR : v.Report = true) (hS : v.SchedPtr ≤ 0) :
    (TimeStepBlock_RVar env v).1.Value = v.Value + v.TSValue ∧
    (TimeStepBlock_RVar env v).1.TSValue = 0 ∧
    (TimeStepBlock_RVar env v).1.thisTSStored = false ∧
    (TimeStepBlock_RVar env v).1.thisTSCount = v.thisTSCount ∧
    (TimeStepBlock_RVar env v).1.tsStored = v.tsStored ∧
    (TimeStepBlock_RVar env v).1.Stored = v.Stored ∧
    (TimeStepBlock_RVar env v).1.StoreValue = v.StoreValue ∧
    (TimeStepBlock_RVar env v).1.NumStored = v.NumStored ∧
    sameConfig v (TimeStepBlock_RVar env v).1 := by
  have hS' : ¬ v.SchedPtr > 0 := by omega
  simp [TimeStepBlock_RVar, sameConfig, ReportNow, hR, hS']

theorem runCalls_cons (vt : Nat) (c : SubStep) (cs : List SubStep) (v : RealVariables) :
    runCalls vt (c :: cs) v
      = runCalls vt cs (UpdateDataandReport_RVar c.env vt c.Which v).1 := rfl

theorem runCalls_append (vt : Nat) (cs ds : List SubStep) (v : RealVariables) :
    runCalls vt (cs ++ ds) v = runCalls vt ds (runCalls vt cs v) := by
  simp [runCalls, List.foldl_append]

theorem runCalls_other_domain (cs : List SubStep) (v : RealVariables)
    (hk : ∀ c ∈ cs, c.env.IndexTypeKey = HVACVar) : runCalls ZoneVar cs v = v := by
  induction cs with
  | nil => rfl
  | cons c rest ih =>
    rw [runCalls_cons]
    have hc := hk c (List.mem_cons_self _ _)
    have : (UpdateDataandReport_RVar c.env ZoneVar c.Which v).1 = v := by
      simp [UpdateDataandReport_RVar, hc, ZoneVar, HVACVar]
    rw [this]
    exact ih (fun c' hc' => hk c' (List.mem_cons_of_mem _ hc'))

theorem runCalls_own_domain (cs : List SubStep) : ∀ (v : RealVariables),
    (∀ c ∈ cs, c.env.IndexTypeKey = HVACVar) → v.Report = true → v.SchedPtr ≤ 0 →
    (runCalls HVACVar cs v).TSValue
        = v.TSValue + (cs.map (curValue v.StoreType)).sum ∧
    (runCalls HVACVar cs v).Value = v.Value ∧
    (runCalls HVACVar cs v).StoreValue = v.StoreValue ∧
    (runCalls HVACVar cs v).NumStored = v.NumStored ∧
    sameConfig v (runCalls HVACVar cs v) ∧
    (cs ≠ [] →
      (runCalls HVACVar cs v).thisTSStored = true ∧
      (runCalls HVACVar cs v).tsStored = true ∧
      (runCalls HVACVar cs v).Stored = true ∧
      (runCalls HVACVar cs v).thisTSCount
        = (if v.thisTSStored = true then v.thisTSCount else v.thisTSCount + 1)) := by
  induction cs with
  | nil => intro v _ _ _; simp [runCalls, sameConfig]
  | cons c rest ih =>
    intro v hk hR hS
    rw [runCalls_cons]
    have hc := hk c (List.mem_cons_self _ _)
    have hstep : (UpdateDataandReport_RVar c.env HVACVar c.Which v).1
        = (RecordKeeping_RVar c.env c.Which v).1 := by
      simp [UpdateDataandReport_RVar, hc]
    rw [hstep]
    obtain ⟨hTS, hTy⟩ := RecordKeeping_RVar_TSValue c.env c.Which v
    obtain ⟨hV, hC, hTh, hts, hSt, hSV, hNS, hcfg⟩ :=
      RecordKeeping_RVar_reported c.env c.Which v hR hS
    obtain ⟨cR, cS, cT, cF, cI⟩ := hcfg
    obtain ⟨iTS, iV, iSV, iNS, icfg, irest⟩ :=
      ih (RecordKeeping_RVar c.env c.Which v).1
        (fun c' hc' => hk c' (List.mem_cons_of_mem _ hc')) (by rw [cR, hR]) (by rw [cS]; exact hS)
    obtain ⟨jR, jS, jT, jF, jI⟩ := icfg
    refine ⟨?_, by rw [iV, hV], by rw [iSV, hSV], by rw [iNS, hNS],
      ⟨by rw [jR, cR], by rw [jS, cS], by rw [jT, cT], by rw [jF, cF], by rw [jI, cI]⟩, ?_⟩
    · rw [iTS, hTS, hTy, List.map_cons, List.sum_cons]
      simp only [curValue]
      ring
    · intro _
      by_cases hrest : rest = []
      · subst hrest
        exact ⟨hTh, hts, hSt, hC⟩
      · obtain ⟨a, b, c', d⟩ := irest hrest
        refine ⟨a, b, c', ?_⟩
        rw [d, hTh, if_pos rfl, hC]


theorem hourBlockEntry_fields (vt : Nat) (M : Int) (t : ZoneTimeStep) (v : RealVariables)
    (hvt : vt = ZoneVar ∨ vt = HVACVar) (hwf : t.wellFormed M)
    (hR : v.Report = true) (hS : v.SchedPtr ≤ 0) (hTS : v.TSValue = 0)
    (hth : v.thisTSStored = false) (hne : t.subSteps vt ≠ []) :
    (hourBlockEntry vt t v).Value
        = v.Value + ((t.subSteps vt).map (curValue v.StoreType)).sum ∧
    (hourBlockEntry vt t v).TSValue = 0 ∧
    (hourBlockEntry vt t v).thisTSStored = false ∧
    (hourBlockEntry vt t v).thisTSCount = v.thisTSCount + 1 ∧
    (hourBlockEntry vt t v).tsStored = true ∧
    (hourBlockEntry vt t v).Stored = true ∧
    (hourBlockEntry vt t v).StoreValue = v.StoreValue ∧
    (hourBlockEntry vt t v).NumStored = v.NumStored ∧
    sameConfig v (hourBlockEntry vt t v) := by
  obtain ⟨hh, hz, _⟩ := hwf
  rcases hvt with rfl | rfl
  · -- a zone variable: the system calls leave it alone, the zone call records and closes
    have hpre : runCalls ZoneVar t.hvac v = v :=
      runCalls_other_domain t.hvac v (fun c hc => (hh c hc).1)
    have hsub : t.subSteps ZoneVar = [t.zone] := by
      simp [ZoneTimeStep.subSteps, ZoneVar, HVACVar]
    have hentry : hourBlockEntry ZoneVar t v
        = (TimeStepBlock_RVar t.zone.env (RecordKeeping_RVar t.zone.env t.zone.Which v).1).1 := by
      rw [hourBlockEntry, hpre]
      simp [AtHourBlock_RVar, hz, inLoops, ZoneVar, HVACVar]
    obtain ⟨hT, hTy⟩ := RecordKeeping_RVar_TSValue t.zone.env t.zone.Which v
    obtain ⟨hV, hC, hTh, hts, hSt, hSV, hNS, cR, cS, cT, cF, cI⟩ :=
      RecordKeeping_RVar_reported t.zone.env t.zone.Which v hR hS
    obtain ⟨bV, bT, bTh, bC, bts, bSt, bSV, bNS, dR, dS, dT, dF, dI⟩ :=
      TimeStepBlock_RVar_reported t.zone.env (RecordKeeping_RVar t.zone.env t.zone.Which v).1
        (by rw [cR, hR]) (by rw [cS]; exact hS)
    rw [hentry, hsub]
    refine ⟨?_, bT, bTh, ?_, by rw [bts, hts], by rw [bSt, hSt], by rw [bSV, hSV],
      by rw [bNS, hNS],
      ⟨by rw [dR, cR], by rw [dS, cS], by rw [dT, cT], by rw [dF, cF], by rw [dI, cI]⟩⟩
    · rw [bV, hV, hT, hTS]
      simp [curValue]
    · rw [bC, hC, hth]
      simp
  · -- a system variable: the system calls record, the zone call closes the timestep
    have hsub : t.subSteps HVACVar = t.hvac := by simp [ZoneTimeStep.subSteps]
    rw [hsub] at hne ⊢
    obtain ⟨iTS, iV, iSV, iNS, ⟨jR, jS, jT, jF, jI⟩, irest⟩ :=
      runCalls_own_domain t.hvac v (fun c hc => (hh c hc).1) hR hS
    obtain ⟨a, b, c, d⟩ := irest hne
    have hentry : hourBlockEntry HVACVar t v
        = (TimeStepBlock_RVar t.zone.env (runCalls HVACVar t.hvac v)).1 := by
      simp [hourBlockEntry, AtHourBlock_RVar, hz, inLoops, ZoneVar, HVACVar]
    obtain ⟨bV, bT, bTh, bC, bts, bSt, bSV, bNS, dR, dS, dT, dF, dI⟩ :=
      TimeStepBlock_RVar_reported t.zone.env (runCalls HVACVar t.hvac v)
        (by rw [jR, hR]) (by rw [jS]; exact hS)
    rw [hentry]
    refine ⟨?_, bT, bTh, ?_, by rw [bts, b], by rw [bSt, c], by rw [bSV, iSV],
      by rw [bNS, iNS],
      ⟨by rw [dR, jR], by rw [dS, jS], by rw [dT, jT], by rw [dF, jF], by rw [dI, jI]⟩⟩
    · rw [bV, iV, iTS, hTS]
      ring
    · rw [bC, d, hth]
      simp

theorem runCalls_timestep_eq_entry (vt : Nat) (M : Int) (t : ZoneTimeStep) (v : RealVariables)
    (hwf : t.wellFormed M) (hEnd : t.zone.env.EndHourFlag = false) :
    runCalls vt t.calls v = hourBlockEntry vt t v := by
  obtain ⟨_, hz, _⟩ := hwf
  simp [ZoneTimeStep.calls, runCalls_append, runCalls, hourBlockEntry,
    UpdateDataandReport_RVar, hz, hEnd, ZoneVar, HVACVar]

theorem uniform_curValue_sum (vt k : Nat) (M : Int) (t : ZoneTimeStep)
    (hM : (M : ℚ) ≠ 0) (hk : k ≠ 0)
    (hMin : ∀ c ∈ t.subSteps vt, c.env.MinutesPerTimeStep = M)
    (hu : t.uniform vt k M) :
    ((t.subSteps vt).map (curValue AveragedVar)).sum
      = ((t.subSteps vt).map (fun c => c.Which)).sum / (k : ℚ) := by
  obtain ⟨_, hd⟩ := hu
  have hkq : (k : ℚ) ≠ 0 := by exact_mod_cast hk
  have key : ∀ l : List SubStep, (∀ c ∈ l, c.env.MinutesPerTimeStep = M ∧
      c.env.TimeStep * 60 * (k : ℚ) = (M : ℚ)) →
      (l.map (curValue AveragedVar)).sum = (l.map (fun c => c.Which)).sum / (k : ℚ) := by
    intro l
    induction l with
    | nil => intro _; simp
    | cons c rest ih =>
      intro h
      obtain ⟨hcM, hcd⟩ := h c (List.mem_cons_self _ _)
      rw [List.map_cons, List.sum_cons, List.map_cons, List.sum_cons,
        ih (fun c' hc' => h c' (List.mem_cons_of_mem _ hc'))]
      have hrx : rxTime c.env = 1 / (k : ℚ) := by
        simp only [rxTime, hcM]
        rw [← hcd]
        have hts : c.env.TimeStep * 60 ≠ 0 := by
          intro h0
          rw [h0, zero_mul] at hcd
          exact hM hcd.symm
        field_simp
      simp only [curValue, if_true, hrx]
      field_simp
  exact key _ (fun c hc => ⟨hMin c hc, hd c hc⟩)

theorem runTimeSteps_cons (vt : Nat) (t : ZoneTimeStep) (ts : List ZoneTimeStep)
    (v : RealVariables) :
    runTimeSteps vt (t :: ts) v = runTimeSteps vt ts (runCalls vt t.calls v) := rfl

theorem runTimeSteps_fields (vt : Nat) (M : Int) (hvt : vt = ZoneVar ∨ vt = HVACVar)
    (steps : List ZoneTimeStep) : ∀ (v : RealVariables),
    (∀ t ∈ steps, t.wellFormed M ∧ t.zone.env.EndHourFlag = false ∧ t.subSteps vt ≠ []) →
    v.Report = true → v.SchedPtr ≤ 0 → v.TSValue = 0 → v.thisTSStored = false →
    (runTimeSteps vt steps v).Value = v.Value + accumulated v.StoreType vt steps ∧
    (runTimeSteps vt steps v).TSValue = 0 ∧
    (runTimeSteps vt steps v).thisTSStored = false ∧
    (runTimeSteps vt steps v).thisTSCount = v.thisTSCount + steps.length ∧
    (runTimeSteps vt steps v).StoreValue = v.StoreValue ∧
    (runTimeSteps vt steps v).NumStored = v.NumStored ∧
    sameConfig v (runTimeSteps vt steps v) := by
  induction steps with
  | nil => intro v _ _ _ hTS hth; simp [runTimeSteps, accumulated, sameConfig, hTS, hth]
  | cons t rest ih =>
    intro v hall hR hS hTS hth
    obtain ⟨hwf, hEnd, hne⟩ := hall t (List.mem_cons_self _ _)
    rw [runTimeSteps_cons, runCalls_timestep_eq_entry vt M t v hwf hEnd]
    obtain ⟨eV, eT, eTh, eC, _, _, eSV, eNS, cR, cS, cT, cF, cI⟩ :=
      hourBlockEntry_fields vt M t v hvt hwf hR hS hTS hth hne
    obtain ⟨iV, iT, iTh, iC, iSV, iNS, jR, jS, jT, jF, jI⟩ :=
      ih (hourBlockEntry vt t v) (fun t' ht' => hall t' (List.mem_cons_of_mem _ ht'))
        (by rw [cR, hR]) (by rw [cS]; exact hS) eT eTh
    refine ⟨?_, iT, iTh, ?_, by rw [iSV, eSV], by rw [iNS, eNS],
      ⟨by rw [jR, cR], by rw [jS, cS], by rw [jT, cT], by rw [jF, cF], by rw [jI, cI]⟩⟩
    · rw [iV, eV, cT]
      simp only [accumulated, List.map_cons, List.sum_cons]
      ring
    · rw [iC, eC, List.length_cons]
      omega

theorem accumulated_summed (vt : Nat) (steps : List ZoneTimeStep) :
    accumulated SummedVar vt steps = (hourValues vt steps).sum := by
  induction steps with
  | nil => simp [accumulated, hourValues]
  | cons t rest ih =>
    simp only [accumulated, hourValues, List.map_cons, List.sum_cons, List.flatten_cons,
      List.sum_append] at ih ⊢
    rw [ih]
    congr 1

theorem accumulated_averaged (vt k : Nat) (M : Int) (hM : (M : ℚ) ≠ 0) (hk : k ≠ 0)
    (steps : List ZoneTimeStep)
    (hall : ∀ t ∈ steps, t.wellFormed M ∧ t.uniform vt k M)
    (hvt : vt = ZoneVar ∨ vt = HVACVar) :
    accumulated AveragedVar vt steps = (hourValues vt steps).sum / (k : ℚ) ∧
    (hourValues vt steps).length = k * steps.length := by
  induction steps with
  | nil => simp [accumulated, hourValues]
  | cons t rest ih =>
    obtain ⟨hwf, hu⟩ := hall t (List.mem_cons_self _ _)
    obtain ⟨i1, i2⟩ := ih (fun t' ht' => hall t' (List.mem_cons_of_mem _ ht'))
    have hMin : ∀ c ∈ t.subSteps vt, c.env.MinutesPerTimeStep = M := by
      intro c hc
      obtain ⟨hh, _, hz⟩ := hwf
      rcases hvt with rfl | rfl
      · simp [ZoneTimeStep.subSteps, ZoneVar, HVACVar] at hc
        rw [hc]; exact hz
      · simp [ZoneTimeStep.subSteps] at hc
        exact (hh c hc).2
    have h1 := uniform_curValue_sum vt k M t hM hk hMin hu
    simp only [accumulated, hourValues, List.map_cons, List.sum_cons, List.flatten_cons,
      List.sum_append, List.length_append, List.length_map] at i1 i2 ⊢
    rw [i1, h1, i2, hu.1, List.length_cons]
    constructor
    · ring
    · ring

theorem HourBlock_RVar_fields (v : RealVariables) (hts : v.tsStored = true) :
    (HourBlock_RVar v).1.StoreValue = v.StoreValue + HourBlock_value v ∧
    (HourBlock_RVar v).1.NumStored = v.NumStored + 1 ∧
    (HourBlock_RVar v).1.Value = 0 ∧ (HourBlock_RVar v).1.TSValue = v.TSValue ∧
    (HourBlock_RVar v).1.thisTSCount = 0 ∧ (HourBlock_RVar v).1.thisTSStored = false ∧
    (HourBlock_RVar v).1.tsStored = false ∧
    (v.ReportFreq ≠ ReportHourly → (HourBlock_RVar v).1.Stored = v.Stored ∧
      (HourBlock_RVar v).2 = []) ∧
    sameConfig v (HourBlock_RVar v).1 := by
  simp only [HourBlock_RVar, sameConfig, hts]
  simp
  intro h
  simp [h]

theorem recordKeeping_foldl_TSValue (subs : List SubStep) : ∀ (v : RealVariables),
    (subs.foldl (fun v c => (RecordKeeping_RVar c.env c.Which v).1) v).TSValue
      = v.TSValue + (subs.map (curValue v.StoreType)).sum ∧
    (subs.foldl (fun v c => (RecordKeeping_RVar c.env c.Which v).1) v).StoreType
      = v.StoreType := by
  induction subs with
  | nil => intro v; simp
  | cons c rest ih =>
    intro v
    obtain ⟨h1, h2⟩ := RecordKeeping_RVar_TSValue c.env c.Which v
    obtain ⟨i1, i2⟩ := ih (RecordKeeping_RVar c.env c.Which v).1
    rw [List.foldl_cons]
    refine ⟨?_, by rw [i2, h2]⟩
    rw [i1, h1, h2, List.map_cons, List.sum_cons]
    simp only [curValue]
    ring

/-- C7. From TSValue = 0, the record keeping of UpdateDataandReport over the sub-steps of one
zone timestep (values Which, durations TimeStep * 60 minutes) leaves in TSValue, for an
Averaged variable, the sum of value times duration divided by MinutesPerTimeStep, and for a
Summed variable the plain sum of the values. -/
theorem TSValue_weighted_by_duration (M : Int) (subs : List SubStep) (v : RealVariables)
    (hM : ∀ c ∈ subs, c.env.MinutesPerTimeStep = M) (h0 : v.TSValue = 0) :
    (v.StoreType = AveragedVar →
      (subs.foldl (fun v c => (RecordKeeping_RVar c.env c.Which v).1) v).TSValue
        = (subs.map (fun c => c.Which * (c.env.TimeStep * 60))).sum / (M : ℚ)) ∧
    (v.StoreType = SummedVar →
      (subs.foldl (fun v c => (RecordKeeping_RVar c.env c.Which v).1) v).TSValue
        = (subs.map (fun c => c.Which)).sum) := by
  rw [(recordKeeping_foldl_TSValue subs v).1, h0, zero_add]
  constructor
  · intro hA
    rw [hA]
    clear h0
    induction subs with
    | nil => simp
    | cons c rest ih =>
      rw [List.map_cons, List.sum_cons, List.map_cons, List.sum_cons,
        ih (fun c' hc' => hM c' (List.mem_cons_of_mem _ hc'))]
      have hc := hM c (List.mem_cons_self _ _)
      simp only [curValue, if_true, rxTime, hc]
      ring
  · intro hSum
    rw [hSum]
    congr 1

/-- C7 at a sample input: a 15-minute zone timestep split into sub-steps of 10 and 5 minutes
with values 6 and 3 gives (6*10 + 3*5)/15 = 5 for an Averaged variable. -/
theorem TSValue_weighted_by_duration_sample :
    ([sampleSystemCall (1 / 6) 6, sampleSystemCall (1 / 12) 3].foldl
        (fun v c => (RecordKeeping_RVar c.env c.Which v).1)
        (reportedVariable AveragedVar ReportHourly)).TSValue = 5 := by
  have h := (TSValue_weighted_by_duration 15
    [sampleSystemCall (1 / 6) 6, sampleSystemCall (1 / 12) 3]
    (reportedVariable AveragedVar ReportHourly)
    (by intro c hc; simp [sampleSystemCall] at hc; rcases hc with rfl | rfl <;> rfl)
    rfl).1 rfl
  rw [h]
  simp [sampleSystemCall]
  norm_num

/-- C1. For a reported variable without schedule whose accumulators are fresh at the start of
the hour, and an hour made of zone timesteps in each of which the variable has k sub-steps of
MinutesPerTimeStep / k minutes, the value the hour block of UpdateDataandReport computes
(Value after the division by thisTSCount) is the arithmetic mean of all sub-step values for an
Averaged variable and their sum for a Summed variable; the hour block adds exactly this value
to StoreValue. -/
theorem hourly_value_is_mean_or_sum (vt k : Nat) (M : Int) (pre : List ZoneTimeStep)
    (last : ZoneTimeStep) (v0 : RealVariables)
    (hvt : vt = ZoneVar ∨ vt = HVACVar) (hM : M ≠ 0) (hk : 1 ≤ k)
    (hR : v0.Report = true) (hS : v0.SchedPtr = 0)
    (hfresh : v0.Value = 0 ∧ v0.TSValue = 0 ∧ v0.thisTSCount = 0 ∧ v0.thisTSStored = false)
    (hpre : ∀ t ∈ pre, t.wellFormed M ∧ t.zone.env.EndHourFlag = false ∧ t.uniform vt k M)
    (hlast : last.wellFormed M ∧ last.uniform vt k M) :
    (v0.StoreType = AveragedVar →
      HourBlock_value (hourBlockEntry vt last (runTimeSteps vt pre v0))
        = (hourValues vt (pre ++ [last])).sum / ((hourValues vt (pre ++ [last])).length : ℚ)) ∧
    (v0.StoreType = SummedVar →
      HourBlock_value (hourBlockEntry vt last (runTimeSteps vt pre v0))
        = (hourValues vt (pre ++ [last])).sum) ∧
    (HourBlock_RVar (hourBlockEntry vt last (runTimeSteps vt pre v0))).1.StoreValue
      = v0.StoreValue + HourBlock_value (hourBlockEntry vt last (runTimeSteps vt pre v0)) := by
  obtain ⟨hV0, hT0, hC0, hTh0⟩ := hfresh
  have hS' : v0.SchedPtr ≤ 0 := by omega
  have hMq : (M : ℚ) ≠ 0 := by exact_mod_cast hM
  have hk0 : k ≠ 0 := by omega
  have hkq : (k : ℚ) ≠ 0 := by exact_mod_cast hk0
  have hne : ∀ t : ZoneTimeStep, t.uniform vt k M → t.subSteps vt ≠ [] := by
    intro t hu hnil
    have := hu.1
    rw [hnil] at this
    simp at this
    omega
  obtain ⟨pV, pT, pTh, pC, pSV, pNS, pR, pS, pTy, pF, pI⟩ :=
    runTimeSteps_fields vt M hvt pre v0
      (fun t ht => ⟨(hpre t ht).1, (hpre t ht).2.1, hne t (hpre t ht).2.2⟩) hR hS' hT0 hTh0
  obtain ⟨eV, eT, eTh, eC, ets, _, eSV, eNS, cR, cS, cTy, cF, cI⟩ :=
    hourBlockEntry_fields vt M last (runTimeSteps vt pre v0) hvt hlast.1
      (by rw [pR, hR]) (by rw [pS]; exact hS') pT pTh (hne last hlast.2)
  have hacc : (hourBlockEntry vt last (runTimeSteps vt pre v0)).Value
      = accumulated v0.StoreType vt (pre ++ [last]) := by
    rw [eV, pV, hV0, pTy]
    simp [accumulated]
  have hcount : (hourBlockEntry vt last (runTimeSteps vt pre v0)).thisTSCount
      = pre.length + 1 := by
    rw [eC, pC, hC0]; omega
  have hall : ∀ t ∈ pre ++ [last], t.wellFormed M ∧ t.uniform vt k M := by
    intro t ht
    rcases List.mem_append.1 ht with h | h
    · exact ⟨(hpre t h).1, (hpre t h).2.2⟩
    · rw [List.mem_singleton.1 h]; exact hlast
  refine ⟨?_, ?_, ?_⟩
  · intro hA
    obtain ⟨a1, a2⟩ := accumulated_averaged vt k M hMq hk0 (pre ++ [last]) hall hvt
    simp only [HourBlock_value, cTy, pTy, hA, if_true]
    rw [hacc, hA, a1, hcount, a2]
    simp only [List.length_append, List.length_singleton]
    push_cast
    field_simp
  · intro hSum
    have hne12 : ¬ SummedVar = AveragedVar := by decide
    simp only [HourBlock_value, cTy, pTy, hSum, hne12, if_false]
    rw [hacc, hSum, accumulated_summed]
  · rw [(HourBlock_RVar_fields _ ets).1, eSV, pSV]

theorem sampleTimeStep_wellFormed (e d : Bool) (a b : ℚ) :
    (sampleTimeStep e d a b).wellFormed 15 := by
  refine ⟨?_, rfl, rfl⟩
  intro c hc
  simp [sampleTimeStep] at hc
  rcases hc with rfl | rfl <;> exact ⟨rfl, rfl⟩

theorem sampleTimeStep_uniform (e d : Bool) (a b : ℚ) :
    (sampleTimeStep e d a b).uniform HVACVar 2 15 := by
  refine ⟨by simp [ZoneTimeStep.subSteps, sampleTimeStep], ?_⟩
  intro c hc
  simp [ZoneTimeStep.subSteps, sampleTimeStep] at hc
  rcases hc with rfl | rfl <;> simp [sampleSystemCall] <;> norm_num

/-- C1 at a sample input: an Averaged system variable, two 15-minute zone timesteps of two
7.5-minute sub-steps each, values 2, 4, 6, 8: the hourly value is 5. -/
theorem hourly_value_is_mean_sample :
    HourBlock_value (hourBlockEntry HVACVar (sampleTimeStep true false 6 8)
      (runTimeSteps HVACVar [sampleTimeStep false false 2 4]
        (reportedVariable AveragedVar ReportHourly))) = 5 := by
  have h := (hourly_value_is_mean_or_sum HVACVar 2 15 [sampleTimeStep false false 2 4]
    (sampleTimeStep true false 6 8) (reportedVariable AveragedVar ReportHourly)
    (Or.inr rfl) (by decide) (by decide) rfl rfl ⟨rfl, rfl, rfl, rfl⟩
    (by
      intro t ht
      rw [List.mem_singleton.1 ht]
      exact ⟨sampleTimeStep_wellFormed _ _ _ _, rfl, sampleTimeStep_uniform _ _ _ _⟩)
    ⟨sampleTimeStep_wellFormed _ _ _ _, sampleTimeStep_uniform _ _ _ _⟩).1 rfl
  rw [h]
  simp [hourValues, ZoneTimeStep.subSteps, sampleTimeStep, sampleSystemCall]
  norm_num

theorem curValue_summed (c : SubStep) : curValue SummedVar c = c.Which := by
  simp [curValue, SummedVar, AveragedVar]

theorem FindItemFrom_spec (s : String) (items : Nat → String) :
    ∀ (n i : Nat), 1 ≤ i →
      (FindItemFrom s items n i = 0 ∧ ∀ j, i ≤ j → j < i + n → SameString s (items j) = false) ∨
      (i ≤ FindItemFrom s items n i ∧ FindItemFrom s items n i < i + n ∧
        SameString s (items (FindItemFrom s items n i)) = true ∧
        ∀ j, i ≤ j → j < FindItemFrom s items n i → SameString s (items j) = false) := by
  intro n
  induction n with
  | zero =>
    intro i _
    left
    refine ⟨rfl, ?_⟩
    intro j h1 h2
    omega
  | succ n ih =>
    intro i hi
    by_cases hm : SameString s (items i) = true
    · right
      have : FindItemFrom s items (n + 1) i = i := by simp [FindItemFrom, hm]
      rw [this]
      refine ⟨le_refl _, by omega, hm, ?_⟩
      intro j h1 h2
      omega
    · have hm' : SameString s (items i) = false := by simpa using hm
      have : FindItemFrom s items (n + 1) i = FindItemFrom s items n (i + 1) := by
        simp [FindItemFrom, hm']
      rw [this]
      rcases ih (i + 1) (by omega) with ⟨h0, hnone⟩ | ⟨h1, h2, h3, h4⟩
      · left
        refine ⟨h0, ?_⟩
        intro j hj1 hj2
        by_cases hji : j = i
        · rw [hji]; exact hm'
        · exact hnone j (by omega) (by omega)
      · right
        refine ⟨by omega, by omega, h3, ?_⟩
        intro j hj1 hj2
        by_cases hji : j = i
        · rw [hji]; exact hm'
        · exact h4 j (by omega) hj2

theorem FindItem_spec (s : String) (items : Nat → String) (n : Nat) :
    (FindItem s items n = 0 ∧ ∀ j, 1 ≤ j → j ≤ n → SameString s (items j) = false) ∨
    (1 ≤ FindItem s items n ∧ FindItem s items n ≤ n ∧
      SameString s (items (FindItem s items n)) = true ∧
      ∀ j, 1 ≤ j → j < FindItem s items n → SameString s (items j) = false) := by
  rcases FindItemFrom_spec s items n 1 (le_refl _) with ⟨h0, h⟩ | ⟨h1, h2, h3, h4⟩
  · left
    exact ⟨h0, fun j a b => h j a (by omega)⟩
  · right
    exact ⟨h1, by unfold FindItem; omega, h3, h4⟩

theorem markUsed_fields (reqs : Nat → ReqReportVariables) (Loop i : Nat) :
    (markUsed reqs Loop i).Key = (reqs i).Key ∧
    (markUsed reqs Loop i).VarName = (reqs i).VarName ∧
    (markUsed reqs Loop i).ReportFreq = (reqs i).ReportFreq ∧
    (markUsed reqs Loop i).SchedPtr = (reqs i).SchedPtr ∧
    (markUsed reqs Loop i).SchedName = (reqs i).SchedName ∧
    (markUsed reqs Loop i).Used = ((reqs i).Used || decide (i = Loop)) := by
  by_cases h : i = Loop
  · subst h
    simp [markUsed]
  · simp [markUsed, Function.update_noteq h, h]

theorem CheckReportVariable_loop_unfold (VarName : String) (N fuel : Nat)
    (reqs : Nat → ReqReportVariables) (Loop Pos : Nat) (MinLook MaxLook : Int)
    (hLN : Loop ≤ N) (hPos : Pos ≠ 0) :
    CheckReportVariable_loop VarName N (fuel + 1) reqs Loop Pos MinLook MaxLook
      = (if Loop < N then
          CheckReportVariable_loop VarName N fuel
            (if isBlankString (reqs Loop).Key then markUsed reqs Loop else reqs)
            (Loop + FindItem VarName
              (fun j => ((if isBlankString (reqs Loop).Key then markUsed reqs Loop else reqs)
                (Loop + j)).VarName) (N - Loop))
            (FindItem VarName
              (fun j => ((if isBlankString (reqs Loop).Key then markUsed reqs Loop else reqs)
                (Loop + j)).VarName) (N - Loop))
            (if FindItem VarName
              (fun j => ((if isBlankString (reqs Loop).Key then markUsed reqs Loop else reqs)
                (Loop + j)).VarName) (N - Loop) ≠ 0 then
              min MinLook ((Loop + FindItem VarName
              (fun j => ((if isBlankString (reqs Loop).Key then markUsed reqs Loop else reqs)
                (Loop + j)).VarName) (N - Loop) : Nat) : Int) else MinLook)
            (if FindItem VarName
              (fun j => ((if isBlankString (reqs Loop).Key then markUsed reqs Loop else reqs)
                (Loop + j)).VarName) (N - Loop) ≠ 0 then
              max MaxLook ((Loop + FindItem VarName
              (fun j => ((if isBlankString (reqs Loop).Key then markUsed reqs Loop else reqs)
                (Loop + j)).VarName) (N - Loop) : Nat) : Int) else MaxLook)
        else
          CheckReportVariable_loop VarName N fuel
            (if isBlankString (reqs Loop).Key then markUsed reqs Loop else reqs)
            (Loop + 1) 1 MinLook MaxLook) := by
  rw [CheckReportVariable_loop]
  simp only [hLN, hPos, ne_eq, not_false_eq_true, and_self, if_true]

theorem markIfBlank_spec (reqs : Nat → ReqReportVariables) (Loop : Nat) :
    sameRequests reqs (if isBlankString (reqs Loop).Key then markUsed reqs Loop else reqs) ∧
    ∀ i, ((if isBlankString (reqs Loop).Key then markUsed reqs Loop else reqs) i).Used
      = ((reqs i).Used || (decide (i = Loop) && isBlankString (reqs Loop).Key)) := by
  by_cases hb : isBlankString (reqs Loop).Key = true
  · simp only [hb, if_true, Bool.and_true]
    refine ⟨fun i => ?_, fun i => (markUsed_fields reqs Loop i).2.2.2.2.2⟩
    obtain ⟨a, b, c, d, e, _⟩ := markUsed_fields reqs Loop i
    exact ⟨a, b, c, d, e⟩
  · have hb' : isBlankString (reqs Loop).Key = false := by simpa using hb
    simp only [hb', Bool.false_eq_true, if_false, Bool.and_false, Bool.or_false]
    exact ⟨fun i => ⟨rfl, rfl, rfl, rfl, rfl⟩, fun i => trivial⟩

theorem CheckReportVariable_loop_step (VarName : String) (N fuel : Nat)
    (ih : ∀ (reqs : Nat → ReqReportVariables) (Loop Pos : Nat) (MinLook MaxLook : Int),
      (Pos ≠ 0 → N + 1 ≤ fuel + Loop) → 1 ≤ Loop →
      (Pos ≠ 0 → Loop ≤ N → SameString VarName (reqs Loop).VarName = true) →
      ∃ reqs1 mn mx,
        CheckReportVariable_loop VarName N fuel reqs Loop Pos MinLook MaxLook
          = some (reqs1, mn, mx) ∧
        mn ≤ MinLook ∧ MaxLook ≤ mx ∧ (1 ≤ MinLook → 1 ≤ mn) ∧
        (MaxLook ≤ (N : Int) → mx ≤ (N : Int)) ∧
        (Pos ≠ 0 → ∀ i, Loop < i → i ≤ N → SameString VarName (reqs i).VarName = true →
          mn ≤ (i : Int) ∧ (i : Int) ≤ mx) ∧
        sameRequests reqs reqs1 ∧
        (∀ i, (reqs1 i).Used = ((reqs i).Used ||
          (decide (Pos ≠ 0) && decide (Loop ≤ i) && decide (i ≤ N) &&
            SameString VarName (reqs i).VarName && isBlankString (reqs i).Key))))
    (reqs : Nat → ReqReportVariables) (Loop Pos : Nat) (MinLook MaxLook : Int)
    (hfuel : Pos ≠ 0 → N + 1 ≤ fuel + 1 + Loop) (hL : 1 ≤ Loop)
    (hLN : Loop ≤ N) (hPos : Pos ≠ 0)
    (hmatch : SameString VarName (reqs Loop).VarName = true) :
    ∃ reqs1 mn mx,
      CheckReportVariable_loop VarName N (fuel + 1) reqs Loop Pos MinLook MaxLook
        = some (reqs1, mn, mx) ∧
      mn ≤ MinLook ∧ MaxLook ≤ mx ∧ (1 ≤ MinLook → 1 ≤ mn) ∧
      (MaxLook ≤ (N : Int) → mx ≤ (N : Int)) ∧
      (Pos ≠ 0 → ∀ i, Loop < i → i ≤ N → SameString VarName (reqs i).VarName = true →
        mn ≤ (i : Int) ∧ (i : Int) ≤ mx) ∧
      sameRequests reqs reqs1 ∧
      (∀ i, (reqs1 i).Used = ((reqs i).Used ||
        (decide (Pos ≠ 0) && decide (Loop ≤ i) && decide (i ≤ N) &&
          SameString VarName (reqs i).VarName && isBlankString (reqs i).Key))) := by
  rw [CheckReportVariable_loop_unfold VarName N fuel reqs Loop Pos MinLook MaxLook hLN hPos]
  obtain ⟨hAsame, hAused⟩ := markIfBlank_spec reqs Loop
  generalize (if isBlankString (reqs Loop).Key then markUsed reqs Loop else reqs) = reqsA
    at hAsame hAused ⊢
  have hname : ∀ i, (reqsA i).VarName = (reqs i).VarName := fun i => (hAsame i).2.1
  have hkey : ∀ i, (reqsA i).Key = (reqs i).Key := fun i => (hAsame i).1
  by_cases hlt : Loop < N
  · rw [if_pos hlt]
    have hspec := FindItem_spec VarName (fun j => (reqsA (Loop + j)).VarName) (N - Loop)
    generalize FindItem VarName (fun j => (reqsA (Loop + j)).VarName) (N - Loop) = Pos1
      at hspec ⊢
    have hgap : ∀ i, Loop < i → i ≤ N → (Pos1 = 0 ∨ i < Loop + Pos1) →
        SameString VarName (reqs i).VarName = false := by
      intro i h1 h2 h3
      have hi : i = Loop + (i - Loop) := by omega
      rcases hspec with ⟨h0, hnone⟩ | ⟨_, _, _, hbefore⟩
      · have := hnone (i - Loop) (by omega) (by omega)
        simp only at this
        rw [← hi, hname] at this
        exact this
      · rcases h3 with h3 | h3
        · omega
        · have := hbefore (i - Loop) (by omega) (by omega)
          simp only at this
          rw [← hi, hname] at this
          exact this
    have hnext : Pos1 ≠ 0 → Loop + Pos1 ≤ N ∧
        SameString VarName (reqs (Loop + Pos1)).VarName = true := by
      intro hp
      rcases hspec with ⟨h0, _⟩ | ⟨h1, h2, h3, _⟩
      · exact absurd h0 hp
      · rw [hname] at h3
        exact ⟨by omega, h3⟩
    obtain ⟨reqs1, mn, mx, heq, hmn, hmx, h1mn, hNmx, hcover, hsame, hused⟩ :=
      ih reqsA (Loop + Pos1) Pos1
        (if Pos1 ≠ 0 then min MinLook ((Loop + Pos1 : Nat) : Int) else MinLook)
        (if Pos1 ≠ 0 then max MaxLook ((Loop + Pos1 : Nat) : Int) else MaxLook)
        (fun hp => by have := hfuel hPos; omega) (by omega)
        (fun hp _ => by rw [hname]; exact (hnext hp).2)
    refine ⟨reqs1, mn, mx, heq, ?_, ?_, ?_, ?_, ?_, ?_, ?_⟩
    · by_cases hp : Pos1 = 0
      · simp only [hp, ne_eq, not_true_eq_false, if_false] at hmn; exact hmn
      · simp only [hp, ne_eq, not_false_eq_true, if_true] at hmn
        exact le_trans hmn (min_le_left _ _)
    · by_cases hp : Pos1 = 0
      · simp only [hp, ne_eq, not_true_eq_false, if_false] at hmx; exact hmx
      · simp only [hp, ne_eq, not_false_eq_true, if_true] at hmx
        exact le_trans (le_max_left _ _) hmx
    · intro h1
      apply h1mn
      by_cases hp : Pos1 = 0
      · simp only [hp, ne_eq, not_true_eq_false, if_false]; exact h1
      · simp only [hp, ne_eq, not_false_eq_true, if_true]
        apply le_min h1
        push_cast
        omega
    · intro hN
      apply hNmx
      by_cases hp : Pos1 = 0
      · simp only [hp, ne_eq, not_true_eq_false, if_false]; exact hN
      · simp only [hp, ne_eq, not_false_eq_true, if_true]
        apply max_le hN
        have := (hnext hp).1
        exact_mod_cast this
    · intro _ i h1 h2 hm
      have hp : Pos1 ≠ 0 := by
        intro hp
        have := hgap i h1 h2 (Or.inl hp)
        rw [this] at hm
        exact Bool.noConfusion hm
      have hge : Loop + Pos1 ≤ i := by
        by_contra hlt'
        have := hgap i h1 h2 (Or.inr (by omega))
        rw [this] at hm
        exact Bool.noConfusion hm
      simp only [hp, ne_eq, not_false_eq_true, if_true] at hmn hmx
      by_cases he : i = Loop + Pos1
      · subst he
        exact ⟨le_trans hmn (min_le_right _ _), le_trans (le_max_right _ _) hmx⟩
      · exact hcover hp i (by omega) h2 (by rw [hname]; exact hm)
    · intro i
      obtain ⟨a, b, c, d, e⟩ := hsame i
      obtain ⟨a', b', c', d', e'⟩ := hAsame i
      exact ⟨a.trans a', b.trans b', c.trans c', d.trans d', e.trans e'⟩
    · intro i
      rw [hused i, hAused i, hname, hkey]
      by_cases hiL : i = Loop
      · subst hiL
        by_cases hp : Pos1 = 0
        · simp [hp, hPos, hLN, hmatch]
        · have : ¬ (i + Pos1 ≤ i) := by omega
          simp [this, hPos, hLN, hmatch]
      · by_cases hlt2 : i < Loop
        · have h1 : ¬ Loop ≤ i := by omega
          have h2 : ¬ Loop + Pos1 ≤ i := by omega
          simp [hiL, h1, h2]
        · have hgt : Loop < i := by omega
          by_cases hiN : i ≤ N
          · by_cases hp : Pos1 = 0
            · have := hgap i hgt hiN (Or.inl hp)
              simp [hiL, hp, this]
            · by_cases hge : Loop + Pos1 ≤ i
              · have : Loop ≤ i := by omega
                simp [hiL, hp, hge, this, hPos]
              · have := hgap i hgt hiN (Or.inr (by omega))
                simp [hiL, hge, this]
          · simp [hiL, hiN]
  · rw [if_neg hlt]
    have hLeq : Loop = N := by omega
    obtain ⟨reqs1, mn, mx, heq, hmn, hmx, h1mn, hNmx, _, hsame, hused⟩ :=
      ih reqsA (Loop + 1) 1 MinLook MaxLook
        (fun _ => by have := hfuel hPos; omega) (by omega) (fun _ h => by omega)
    refine ⟨reqs1, mn, mx, heq, hmn, hmx, h1mn, hNmx, ?_, ?_, ?_⟩
    · intro _ i h1 h2 _
      omega
    · intro i
      obtain ⟨a, b, c, d, e⟩ := hsame i
      obtain ⟨a', b', c', d', e'⟩ := hAsame i
      exact ⟨a.trans a', b.trans b', c.trans c', d.trans d', e.trans e'⟩
    · intro i
      rw [hused i, hAused i, hname, hkey]
      by_cases hiL : i = Loop
      · subst hiL
        have : ¬ (i + 1 ≤ i) := by omega
        simp [this, hPos, hLN, hmatch]
      · by_cases h1 : Loop + 1 ≤ i
        · have : ¬ i ≤ N := by omega
          simp [hiL, this]
        · have : ¬ Loop ≤ i := by omega
          simp [hiL, h1, this]

theorem CheckReportVariable_loop_spec (VarName : String) (N : Nat) :
    ∀ (fuel : Nat) (reqs : Nat → ReqReportVariables) (Loop Pos : Nat) (MinLook MaxLook : Int),
    (Pos ≠ 0 → N + 1 ≤ fuel + Loop) → 1 ≤ Loop →
    (Pos ≠ 0 → Loop ≤ N → SameString VarName (reqs Loop).VarName = true) →
    ∃ reqs1 mn mx,
      CheckReportVariable_loop VarName N fuel reqs Loop Pos MinLook MaxLook
        = some (reqs1, mn, mx) ∧
      mn ≤ MinLook ∧ MaxLook ≤ mx ∧ (1 ≤ MinLook → 1 ≤ mn) ∧ (MaxLook ≤ (N : Int) → mx ≤ (N : Int)) ∧
      (Pos ≠ 0 → ∀ i, Loop < i → i ≤ N → SameString VarName (reqs i).VarName = true →
        mn ≤ (i : Int) ∧ (i : Int) ≤ mx) ∧
      sameRequests reqs reqs1 ∧
      (∀ i, (reqs1 i).Used = ((reqs i).Used ||
        (decide (Pos ≠ 0) && decide (Loop ≤ i) && decide (i ≤ N) &&
          SameString VarName (reqs i).VarName && isBlankString (reqs i).Key))) := by
  intro fuel
  induction fuel with
  | zero =>
    intro reqs Loop Pos MinLook MaxLook hfuel hL hnm
    by_cases hc : Loop ≤ N ∧ Pos ≠ 0
    · exfalso
      have := hfuel hc.2
      omega
    · refine ⟨reqs, MinLook, MaxLook, by simp [CheckReportVariable_loop, hc], le_refl _,
        le_refl _, id, id, ?_, fun i => ⟨rfl, rfl, rfl, rfl, rfl⟩, ?_⟩
      · intro hp i h1 h2 _
        exfalso; apply hc; exact ⟨by omega, hp⟩
      · intro i
        by_cases hp : Pos = 0
        · simp [hp]
        · have : ¬ Loop ≤ N := fun h => hc ⟨h, hp⟩
          have h2 : ¬ (Loop ≤ i ∧ i ≤ N) := by omega
          by_cases h3 : Loop ≤ i
          · have : ¬ i ≤ N := fun h => h2 ⟨h3, h⟩
            simp [this]
          · simp [h3]
  | succ fuel ih =>
    intro reqs Loop Pos MinLook MaxLook hfuel hL hnm
    by_cases hc : Loop ≤ N ∧ Pos ≠ 0
    · obtain ⟨hLN, hPos⟩ := hc
      exact CheckReportVariable_loop_step VarName N fuel ih reqs Loop Pos MinLook MaxLook
        hfuel hL hLN hPos (hnm hPos hLN)
    · refine ⟨reqs, MinLook, MaxLook, by simp [CheckReportVariable_loop, hc], le_refl _,
        le_refl _, id, id, ?_, fun i => ⟨rfl, rfl, rfl, rfl, rfl⟩, ?_⟩
      · intro hp i h1 h2 _
        exfalso; apply hc; exact ⟨by omega, hp⟩
      · intro i
        by_cases hp : Pos = 0
        · simp [hp]
        · have : ¬ Loop ≤ N := fun h => hc ⟨h, hp⟩
          have h2 : ¬ (Loop ≤ i ∧ i ≤ N) := by omega
          by_cases h3 : Loop ≤ i
          · have : ¬ i ≤ N := fun h => h2 ⟨h3, h⟩
            simp [this]
          · simp [h3]


theorem SameString_comm (a b : String) : SameString a b = SameString b a := by
  simp only [SameString]
  by_cases h : MakeUPPERCase a = MakeUPPERCase b
  · simp [h]
  · have h' : ¬ MakeUPPERCase b = MakeUPPERCase a := fun e => h e.symm
    simp [h, h']

theorem sameRequests_refl (reqs : Nat → ReqReportVariables) : sameRequests reqs reqs :=
  fun _ => ⟨rfl, rfl, rfl, rfl, rfl⟩

theorem sameRequests_trans {a b c : Nat → ReqReportVariables} (h1 : sameRequests a b)
    (h2 : sameRequests b c) : sameRequests a c := by
  intro i
  obtain ⟨p, q, r, s, t⟩ := h1 i
  obtain ⟨p', q', r', s', t'⟩ := h2 i
  exact ⟨p'.trans p, q'.trans q, r'.trans r, s'.trans s, t'.trans t⟩

theorem sameRequests_markUsed (reqs : Nat → ReqReportVariables) (Loop : Nat) :
    sameRequests reqs (markUsed reqs Loop) := by
  intro i
  obtain ⟨a, b, c, d, e, _⟩ := markUsed_fields reqs Loop i
  exact ⟨a, b, c, d, e⟩

theorem isDuplicate_congr (reqs0 reqs : Nat → ReqReportVariables) (l : List Int) (Loop : Nat)
    (h : sameRequests reqs0 reqs) : isDuplicate reqs l Loop = isDuplicate reqs0 l Loop := by
  unfold isDuplicate
  congr 1
  funext Dup entry
  rw [(h entry.toNat).2.2.1, (h entry.toNat).2.2.2.1, (h Loop).2.2.1, (h Loop).2.2.2.1]

theorem isDuplicate_foldl_true (reqs : Nat → ReqReportVariables) (Loop : Nat) (l : List Int) :
    ∀ acc : Bool,
    l.foldl
      (fun Dup entry =>
        if (reqs entry.toNat).ReportFreq = (reqs Loop).ReportFreq then
          (if (reqs entry.toNat).SchedPtr ≠ (reqs Loop).SchedPtr then false else true)
        else Dup) acc = true →
    acc = true ∨ ∃ e ∈ l, samePair (reqs e.toNat) (reqs Loop) := by
  induction l with
  | nil => intro acc h; exact Or.inl h
  | cons e rest ih =>
    intro acc h
    rw [List.foldl_cons] at h
    rcases ih _ h with h1 | ⟨e', he', hp⟩
    · by_cases hf : (reqs e.toNat).ReportFreq = (reqs Loop).ReportFreq
      · rw [if_pos hf] at h1
        by_cases hs : (reqs e.toNat).SchedPtr = (reqs Loop).SchedPtr
        · exact Or.inr ⟨e, List.mem_cons_self _ _, hf, hs⟩
        · rw [if_pos hs] at h1
          exact Bool.noConfusion h1
      · rw [if_neg hf] at h1
        exact Or.inl h1
    · exact Or.inr ⟨e', List.mem_cons_of_mem _ he', hp⟩

theorem isDuplicate_true (reqs : Nat → ReqReportVariables) (l : List Int) (Loop : Nat)
    (h : isDuplicate reqs l Loop = true) : ∃ e ∈ l, samePair (reqs e.toNat) (reqs Loop) := by
  rcases isDuplicate_foldl_true reqs Loop l false h with h1 | h1
  · exact Bool.noConfusion h1
  · exact h1

theorem LoopEffect_nil (reqs0 : Nat → ReqReportVariables) (sel : ReqReportVariables → Bool)
    (marks : Bool) (st : ReportRequests) (h : sameRequests reqs0 st.ReqRepVars) :
    LoopEffect reqs0 sel marks [] st st := by
  refine ⟨rfl, h, ?_, fun e he => Or.inl he, fun e he => he, ?_⟩
  · intro i; simp
  · intro i hi; simp at hi

theorem LoopEffect_cons (reqs0 : Nat → ReqReportVariables) (sel : ReqReportVariables → Bool)
    (marks : Bool) (j : Nat) (rest : List Nat) (st st1 st2 : ReportRequests)
    (h1 : LoopEffect reqs0 sel marks [j] st st1)
    (h2 : LoopEffect reqs0 sel marks rest st1 st2) :
    LoopEffect reqs0 sel marks (j :: rest) st st2 := by
  obtain ⟨aN, aS, aU, aL, aM, aC⟩ := h1
  obtain ⟨bN, bS, bU, bL, bM, bC⟩ := h2
  refine ⟨bN.trans aN, bS, ?_, ?_, fun e he => bM e (aM e he), ?_⟩
  · intro i
    rw [bU i, aU i]
    simp only [List.mem_singleton, List.mem_cons]
    tauto
  · intro e he
    rcases bL e he with h | ⟨i, hi, hei, hs⟩
    · rcases aL e h with h' | ⟨i, hi, hei, hs⟩
      · exact Or.inl h'
      · rw [List.mem_singleton] at hi
        exact Or.inr ⟨i, by rw [hi]; exact List.mem_cons_self _ _, hei, hs⟩
    · exact Or.inr ⟨i, List.mem_cons_of_mem _ hi, hei, hs⟩
  · intro i hi hs
    rcases List.mem_cons.1 hi with rfl | hi
    · obtain ⟨e, he, hp⟩ := aC i (List.mem_singleton.2 rfl) hs
      exact ⟨e, bM e he, hp⟩
    · exact bC i hi hs

theorem BuildKeyVarList_body_effect (reqs0 : Nat → ReqReportVariables) (K V : String)
    (st : ReportRequests) (Loop : Nat) (h : sameRequests reqs0 st.ReqRepVars) :
    LoopEffect reqs0 (fun r => SameString r.VarName V && SameString r.Key K) true [Loop] st
      (BuildKeyVarList_body K V st Loop) := by
  obtain ⟨hk, hn, _, _, _⟩ := h Loop
  have hsel : (SameString (st.ReqRepVars Loop).VarName V && SameString (st.ReqRepVars Loop).Key K)
      = (SameString (reqs0 Loop).VarName V && SameString (reqs0 Loop).Key K) := by
    rw [hk, hn]
  by_cases hm : (SameString (reqs0 Loop).VarName V && SameString (reqs0 Loop).Key K) = true
  · have hm1 : SameString (st.ReqRepVars Loop).VarName V = true := by
      rw [hn]; simp at hm; exact hm.1
    have hm2 : SameString (st.ReqRepVars Loop).Key K = true := by
      rw [hk]; simp at hm; exact hm.2
    have hmark := sameRequests_trans h (sameRequests_markUsed st.ReqRepVars Loop)
    have hused : ∀ i, ((markUsed st.ReqRepVars Loop) i).Used = true ↔
        ((st.ReqRepVars i).Used = true ∨ (true = true ∧ i ∈ [Loop] ∧
          (fun r => SameString r.VarName V && SameString r.Key K) (reqs0 i) = true)) := by
      intro i
      rw [(markUsed_fields st.ReqRepVars Loop i).2.2.2.2.2]
      by_cases hi : i = Loop
      · subst hi; simp [hm]
      · simp [hi]
    by_cases hd : isDuplicate (markUsed st.ReqRepVars Loop) st.ReportList Loop = true
    · have hbody : BuildKeyVarList_body K V st Loop
          = { st with ReqRepVars := markUsed st.ReqRepVars Loop } := by
        simp [BuildKeyVarList_body, hm1, hm2, hd]
      rw [hbody]
      refine ⟨rfl, hmark, hused, fun e he => Or.inl he, fun e he => he, ?_⟩
      intro i hi _
      rw [List.mem_singleton] at hi
      subst hi
      rw [isDuplicate_congr reqs0 _ _ _ hmark] at hd
      exact isDuplicate_true reqs0 st.ReportList i hd
    · have hd' : isDuplicate (markUsed st.ReqRepVars Loop) st.ReportList Loop = false := by
        simpa using hd
      have hbody : BuildKeyVarList_body K V st Loop
          = { st with ReqRepVars := markUsed st.ReqRepVars Loop,
                      ReportList := st.ReportList ++ [(Loop : Int)] } := by
        simp [BuildKeyVarList_body, hm1, hm2, hd']
      rw [hbody]
      refine ⟨rfl, hmark, hused, ?_, fun e he => List.mem_append_left _ he, ?_⟩
      · intro e he
        rcases List.mem_append.1 he with h' | h'
        · exact Or.inl h'
        · rw [List.mem_singleton] at h'
          exact Or.inr ⟨Loop, List.mem_singleton.2 rfl, h', hm⟩
      · intro i hi _
        rw [List.mem_singleton] at hi
        subst hi
        exact ⟨(i : Int), List.mem_append_right _ (List.mem_singleton.2 rfl),
          by simp [samePair]⟩
  · have hm' : (SameString (st.ReqRepVars Loop).VarName V
        && SameString (st.ReqRepVars Loop).Key K) = false := by
      rw [hsel]; simpa using hm
    have hbody : BuildKeyVarList_body K V st Loop = st := by
      simp only [BuildKeyVarList_body]
      by_cases h1 : SameString (st.ReqRepVars Loop).VarName V = true
      · have h2 : SameString (st.ReqRepVars Loop).Key K = false := by
          simpa [h1] using hm'
        simp [h1, h2]
      · simp [h1]
    rw [hbody]
    refine ⟨rfl, h, ?_, fun e he => Or.inl he, fun e he => he, ?_⟩
    · intro i
      constructor
      · exact fun hu => Or.inl hu
      · rintro (hu | ⟨_, hi, hs⟩)
        · exact hu
        · rw [List.mem_singleton] at hi
          subst hi
          exact absurd hs hm
    · intro i hi hs
      rw [List.mem_singleton] at hi
      subst hi
      exact absurd hs hm

theorem BuildKeyVarList_effect (reqs0 : Nat → ReqReportVariables) (K V : String)
    (idxs : List Nat) : ∀ (st : ReportRequests), sameRequests reqs0 st.ReqRepVars →
    LoopEffect reqs0 (fun r => SameString r.VarName V && SameString r.Key K) true idxs st
      (idxs.foldl (BuildKeyVarList_body K V) st) := by
  induction idxs with
  | nil => intro st h; exact LoopEffect_nil _ _ _ _ h
  | cons j rest ih =>
    intro st h
    have h1 := BuildKeyVarList_body_effect reqs0 K V st j h
    exact LoopEffect_cons _ _ _ _ _ _ _ _ h1 (ih _ h1.2.1)

theorem AddBlankKeys_body_effect (reqs0 : Nat → ReqReportVariables) (V : String)
    (st : ReportRequests) (Loop : Nat) (h : sameRequests reqs0 st.ReqRepVars) :
    LoopEffect reqs0 (fun r => isBlankString r.Key && SameString r.VarName V) false [Loop] st
      (AddBlankKeys_body V st Loop) := by
  obtain ⟨hk, hn, _, _, _⟩ := h Loop
  have hused : ∀ (i : Nat), (st.ReqRepVars i).Used = true ↔
      ((st.ReqRepVars i).Used = true ∨ (false = true ∧ i ∈ [Loop] ∧
        (fun r => isBlankString r.Key && SameString r.VarName V) (reqs0 i) = true)) := by
    intro i; simp
  by_cases hm : (isBlankString (reqs0 Loop).Key && SameString (reqs0 Loop).VarName V) = true
  · have hm1 : isBlankString (st.ReqRepVars Loop).Key = true := by
      rw [hk]; simp at hm; exact hm.1
    have hm2 : SameString (st.ReqRepVars Loop).VarName V = true := by
      rw [hn]; simp at hm; exact hm.2
    by_cases hd : isDuplicate st.ReqRepVars st.ReportList Loop = true
    · have hbody : AddBlankKeys_body V st Loop = st := by
        simp [AddBlankKeys_body, hm1, hm2, hd]
      rw [hbody]
      refine ⟨rfl, h, hused, fun e he => Or.inl he, fun e he => he, ?_⟩
      intro i hi _
      rw [List.mem_singleton] at hi
      subst hi
      rw [isDuplicate_congr reqs0 _ _ _ h] at hd
      exact isDuplicate_true reqs0 st.ReportList i hd
    · have hd' : isDuplicate st.ReqRepVars st.ReportList Loop = false := by simpa using hd
      have hbody : AddBlankKeys_body V st Loop
          = { st with ReportList := st.ReportList ++ [(Loop : Int)] } := by
        simp [AddBlankKeys_body, hm1, hm2, hd']
      rw [hbody]
      refine ⟨rfl, h, hused, ?_, fun e he => List.mem_append_left _ he, ?_⟩
      · intro e he
        rcases List.mem_append.1 he with h' | h'
        · exact Or.inl h'
        · rw [List.mem_singleton] at h'
          exact Or.inr ⟨Loop, List.mem_singleton.2 rfl, h', hm⟩
      · intro i hi _
        rw [List.mem_singleton] at hi
        subst hi
        exact ⟨(i : Int), List.mem_append_right _ (List.mem_singleton.2 rfl),
          by simp [samePair]⟩
  · have hbody : AddBlankKeys_body V st Loop = st := by
      simp only [AddBlankKeys_body]
      by_cases h1 : isBlankString (st.ReqRepVars Loop).Key = true
      · have h2 : SameString (st.ReqRepVars Loop).VarName V = false := by
          rw [hk] at h1
          rw [hn]
          simpa [h1] using hm
        simp [h1, h2]
      · simp [h1]
    rw [hbody]
    refine ⟨rfl, h, hused, fun e he => Or.inl he, fun e he => he, ?_⟩
    intro i hi hsel'
    rw [List.mem_singleton] at hi
    subst hi
    exact absurd hsel' hm

theorem AddBlankKeys_effect (reqs0 : Nat → ReqReportVariables) (V : String)
    (idxs : List Nat) : ∀ (st : ReportRequests), sameRequests reqs0 st.ReqRepVars →
    LoopEffect reqs0 (fun r => isBlankString r.Key && SameString r.VarName V) false idxs st
      (idxs.foldl (AddBlankKeys_body V) st) := by
  induction idxs with
  | nil => intro st h; exact LoopEffect_nil _ _ _ _ h
  | cons j rest ih =>
    intro st h
    have h1 := AddBlankKeys_body_effect reqs0 V st j h
    exact LoopEffect_cons _ _ _ _ _ _ _ _ h1 (ih _ h1.2.1)

theorem mem_forRange (mn mx : Int) (i : Nat) (h : 1 ≤ mn) :
    i ∈ forRange mn mx ↔ mn ≤ (i : Int) ∧ (i : Int) ≤ mx := by
  unfold forRange
  rw [List.mem_range'_1]
  omega

/-- Joint description of the state CheckReportVariable returns when there is at least one
report request. -/
theorem CheckReportVariable_spec (K V : String) (st : ReportRequests)
    (hN : 0 < st.NumOfReqVariables) :
    ∃ st1, CheckReportVariable K V st = some st1 ∧
      st1.NumOfReqVariables = st.NumOfReqVariables ∧
      sameRequests st.ReqRepVars st1.ReqRepVars ∧
      (∀ i, (st1.ReqRepVars i).Used = true ↔
        ((st.ReqRepVars i).Used = true ∨
          (1 ≤ i ∧ i ≤ st.NumOfReqVariables ∧ requestMatches K V (st.ReqRepVars i) = true))) ∧
      (∀ e ∈ st1.ReportList, 1 ≤ e ∧ e ≤ (st.NumOfReqVariables : Int) ∧
        requestMatches K V (st.ReqRepVars e.toNat) = true) ∧
      (∀ i, 1 ≤ i → i ≤ st.NumOfReqVariables → requestMatches K V (st.ReqRepVars i) = true →
        ∃ e ∈ st1.ReportList, samePair (st.ReqRepVars e.toNat) (st.ReqRepVars i)) := by
  have hspec := FindItem_spec V (fun i => (st.ReqRepVars i).VarName) st.NumOfReqVariables
  have hunf : CheckReportVariable K V st =
      (if FindItem V (fun i => (st.ReqRepVars i).VarName) st.NumOfReqVariables ≠ 0 then
        match CheckReportVariable_loop V st.NumOfReqVariables st.NumOfReqVariables
            st.ReqRepVars
            (FindItem V (fun i => (st.ReqRepVars i).VarName) st.NumOfReqVariables)
            (FindItem V (fun i => (st.ReqRepVars i).VarName) st.NumOfReqVariables)
            (min 999999999
              ((FindItem V (fun i => (st.ReqRepVars i).VarName) st.NumOfReqVariables : Nat) : Int))
            (max (-999999999)
              ((FindItem V (fun i => (st.ReqRepVars i).VarName) st.NumOfReqVariables : Nat) : Int))
          with
        | none => none
        | some (reqs, MinLook, MaxLook) =>
          some (AddBlankKeys V MinLook MaxLook
            (BuildKeyVarList K V MinLook MaxLook
              { st with ReportList := [], ReqRepVars := reqs }))
      else some { st with ReportList := [] }) := by
    simp only [CheckReportVariable, hN, gt_iff_lt, if_true]
  rw [hunf]
  generalize FindItem V (fun i => (st.ReqRepVars i).VarName) st.NumOfReqVariables = Item
    at hspec ⊢
  rcases hspec with ⟨h0, hnone⟩ | ⟨h1, h2, h3, h4⟩
  · -- no request names the variable
    have hno : ∀ i, 1 ≤ i → i ≤ st.NumOfReqVariables →
        requestMatches K V (st.ReqRepVars i) = false := by
      intro i a b
      have := hnone i a b
      simp only at this
      rw [SameString_comm] at this
      simp [requestMatches, this]
    refine ⟨{ st with ReportList := [] }, by simp [h0], rfl, sameRequests_refl _, ?_, ?_, ?_⟩
    · intro i
      constructor
      · exact fun h => Or.inl h
      · rintro (h | ⟨a, b, c⟩)
        · exact h
        · rw [hno i a b] at c
          exact Bool.noConfusion c
    · intro e he
      simp at he
    · intro i a b c
      rw [hno i a b] at c
      exact Bool.noConfusion c
  · have hI : Item ≠ 0 := by omega
    rw [if_pos hI]
    obtain ⟨reqs1, mn, mx, heq, hmn, hmx, h1mn, hNmx, hcover, hsame, hused⟩ :=
      CheckReportVariable_loop_spec V st.NumOfReqVariables st.NumOfReqVariables st.ReqRepVars
        Item Item (min 999999999 (Item : Int)) (max (-999999999) (Item : Int))
        (fun _ => by omega) h1 (fun _ _ => h3)
    rw [heq]
    simp only []
    have hmn1 : 1 ≤ mn := h1mn (by omega)
    have hmxN : mx ≤ (st.NumOfReqVariables : Int) := hNmx (by omega)
    have hB := BuildKeyVarList_effect st.ReqRepVars K V (forRange mn mx)
      { st with ReportList := [], ReqRepVars := reqs1 } hsame
    obtain ⟨bN, bS, bU, bL, bM, bC⟩ := hB
    have hA := AddBlankKeys_effect st.ReqRepVars V (forRange mn mx)
      ((forRange mn mx).foldl (BuildKeyVarList_body K V)
        { st with ReportList := [], ReqRepVars := reqs1 }) bS
    obtain ⟨aN, aS, aU, aL, aM, aC⟩ := hA
    have hin : ∀ i, 1 ≤ i → i ≤ st.NumOfReqVariables →
        SameString V (st.ReqRepVars i).VarName = true → i ∈ forRange mn mx := by
      intro i a b c
      rw [mem_forRange mn mx i hmn1]
      by_cases hlt : i < Item
      · have := h4 i a hlt
        simp only at this
        rw [this] at c
        exact Bool.noConfusion c
      · by_cases hie : i = Item
        · subst hie
          constructor
          · exact le_trans hmn (min_le_right _ _)
          · exact le_trans (le_max_right _ _) hmx
        · exact hcover hI i (by omega) b c
    have hrange : ∀ i, i ∈ forRange mn mx → 1 ≤ i ∧ i ≤ st.NumOfReqVariables := by
      intro i hi
      rw [mem_forRange mn mx i hmn1] at hi
      omega
    refine ⟨_, rfl, ?_, aS, ?_, ?_, ?_⟩
    · exact aN.trans bN
    · intro i
      refine (aU i).trans ?_
      rw [bU i]
      simp only [hused i, Bool.or_eq_true, Bool.and_eq_true, decide_eq_true_eq]
      simp only [requestMatches, Bool.and_eq_true, Bool.or_eq_true]
      constructor
      · rintro ((h | h) | h)
        · rcases h with h | ⟨⟨⟨⟨_, hIi⟩, hiN⟩, hnm⟩, hbl⟩
          · exact Or.inl h
          · rw [SameString_comm] at hnm
            exact Or.inr ⟨by omega, hiN, hnm, Or.inl hbl⟩
        · obtain ⟨_, hi, hnm, hk⟩ := h
          obtain ⟨a, b⟩ := hrange i hi
          exact Or.inr ⟨a, b, hnm, Or.inr hk⟩
        · exact absurd h.1 (by decide)
      · rintro (h | ⟨a, b, hnm, hk⟩)
        · exact Or.inl (Or.inl (Or.inl h))
        · have hnm' : SameString V (st.ReqRepVars i).VarName = true := by
            rw [SameString_comm]; exact hnm
          have hi := hin i a b hnm'
          rcases hk with hbl | hk
          · have hIi : Item ≤ i := by
              by_contra hlt
              have := h4 i a (by omega)
              simp only at this
              rw [this] at hnm'
              exact Bool.noConfusion hnm'
            exact Or.inl (Or.inl (Or.inr ⟨⟨⟨⟨hI, hIi⟩, b⟩, hnm'⟩, hbl⟩))
          · exact Or.inl (Or.inr ⟨trivial, hi, hnm, hk⟩)
    · intro e he
      rcases aL e he with h | ⟨i, hi, hei, hsel⟩
      · rcases bL e h with h' | ⟨i, hi, hei, hsel⟩
        · simp at h'
        · obtain ⟨a, b⟩ := hrange i hi
          subst hei
          simp only [Bool.and_eq_true] at hsel
          refine ⟨by omega, by omega, ?_⟩
          simp [requestMatches, hsel.1, hsel.2]
      · obtain ⟨a, b⟩ := hrange i hi
        subst hei
        simp only [Bool.and_eq_true] at hsel
        refine ⟨by omega, by omega, ?_⟩
        simp [requestMatches, hsel.1, hsel.2]
    · intro i a b hmatch
      simp only [requestMatches, Bool.and_eq_true, Bool.or_eq_true] at hmatch
      obtain ⟨hnm, hk⟩ := hmatch
      have hnm' : SameString V (st.ReqRepVars i).VarName = true := by
        rw [SameString_comm]; exact hnm
      have hi := hin i a b hnm'
      rcases hk with hbl | hk
      · exact aC i hi (by simp [hbl, hnm])
      · obtain ⟨e, he, hp⟩ := bC i hi (by simp [hk, hnm])
        exact ⟨e, aM e he, hp⟩

/-- C8 at the failing input: three Hourly requests for the same key and name under schedules
1, 2 and 1 are all listed, although the first and the third ask for the same frequency and
schedule; the same request made twice is listed once, both copies marked Used. -/
theorem CheckReportVariable_lists_duplicate_pair :
    (CheckReportVariable "Zone One" "Zone Mean Air Temperature" threeScheduledRequests).map
        (fun st => st.ReportList) = some [1, 2, 3] ∧
    samePair (threeScheduledRequests.ReqRepVars 1) (threeScheduledRequests.ReqRepVars 3) ∧
    (CheckReportVariable "Zone One" "Zone Mean Air Temperature" twiceHourlyRequest).map
        (fun st => (st.ReportList, (st.ReqRepVars 1).Used, (st.ReqRepVars 2).Used))
      = some ([1], true, true) := by
  refine ⟨by decide, ⟨rfl, rfl⟩, by decide⟩

/-- C9 fails in the code. With no report request at all (NumOfReqVariables = 0)
CheckReportVariable returns without touching NumExtraVars and ReportList, which it clears only
inside `if (NumOfReqVariables > 0)`: the entry -1 that SetupOutputVariable stored after an
earlier call is still the list, and it is not the position of a request. With at least one
request the list is built anew at every call, as the comments of the routine say: every
request that names the variable (ignoring case) with a blank key or the variable's key has its
frequency and schedule carried by some entry of ReportList, and every entry of ReportList is
the position of such a request. -/
theorem CheckReportVariable_keeps_stale_list :
    noRequestsStaleList.NumOfReqVariables = 0 ∧
    noRequestsStaleList.NumExtraVars = 1 ∧
    noRequestsStaleList.ReportList = [-1] ∧
    CheckReportVariable "Zone One" "Zone Mean Air Temperature" noRequestsStaleList
      = some noRequestsStaleList ∧
    ¬ (∃ st1, CheckReportVariable "Zone One" "Zone Mean Air Temperature" noRequestsStaleList
          = some st1 ∧
        ∀ e ∈ st1.ReportList, 1 ≤ e ∧ e ≤ (noRequestsStaleList.NumOfReqVariables : Int) ∧
          requestMatches "Zone One" "Zone Mean Air Temperature"
            (noRequestsStaleList.ReqRepVars e.toNat) = true) ∧
    (∀ (K V : String) (st : ReportRequests), st.NumOfReqVariables = 0 →
      CheckReportVariable K V st = some st) ∧
    (∀ (K V : String) (st : ReportRequests), 0 < st.NumOfReqVariables →
      ∃ st1, CheckReportVariable K V st = some st1 ∧
        (∀ i, 1 ≤ i → i ≤ st.NumOfReqVariables →
          requestMatches K V (st.ReqRepVars i) = true →
          ∃ e ∈ st1.ReportList, samePair (st.ReqRepVars e.toNat) (st.ReqRepVars i)) ∧
        (∀ e ∈ st1.ReportList, 1 ≤ e ∧ e ≤ (st.NumOfReqVariables : Int) ∧
          requestMatches K V (st.ReqRepVars e.toNat) = true)) := by
  have hrun : CheckReportVariable "Zone One" "Zone Mean Air Temperature" noRequestsStaleList
      = some noRequestsStaleList := rfl
  refine ⟨rfl, rfl, rfl, hrun, ?_, ?_, ?_⟩
  · rintro ⟨st1, h, hall⟩
    rw [hrun] at h
    have hst : noRequestsStaleList = st1 := Option.some.inj h
    subst hst
    have := (hall (-1) (by simp [noRequestsStaleList, requestsOfList])).1
    omega
  · intro K V st h
    unfold CheckReportVariable
    rw [if_neg (by omega)]
  · intro K V st hN
    obtain ⟨st1, h, _, _, _, hsound, hcover⟩ := CheckReportVariable_spec K V st hN
    exact ⟨st1, h, hcover, hsound⟩

/-- C10. CheckReportVariable returns, and afterwards every request that names the variable
(ignoring case) with a blank key or the variable's key has Used = true, the Used flag of every
other request is what it was, and no other field of any request has changed. -/
theorem CheckReportVariable_marks_matching_used (K V : String) (st : ReportRequests) :
    ∃ st1, CheckReportVariable K V st = some st1 ∧
      st1.NumOfReqVariables = st.NumOfReqVariables ∧
      sameRequests st.ReqRepVars st1.ReqRepVars ∧
      ∀ i,
        (1 ≤ i ∧ i ≤ st.NumOfReqVariables ∧ requestMatches K V (st.ReqRepVars i) = true →
          (st1.ReqRepVars i).Used = true) ∧
        (¬ (1 ≤ i ∧ i ≤ st.NumOfReqVariables ∧ requestMatches K V (st.ReqRepVars i) = true) →
          (st1.ReqRepVars i).Used = (st.ReqRepVars i).Used) := by
  by_cases hN : 0 < st.NumOfReqVariables
  · obtain ⟨st1, h, hnum, hsame, hused, _, _⟩ := CheckReportVariable_spec K V st hN
    refine ⟨st1, h, hnum, hsame, fun i => ⟨fun hm => (hused i).2 (Or.inr hm), fun hm => ?_⟩⟩
    have hiff := hused i
    cases h1 : (st1.ReqRepVars i).Used <;> cases h0 : (st.ReqRepVars i).Used
    · rfl
    · rw [h1, h0] at hiff
      exact absurd (hiff.2 (Or.inl rfl)) (by simp)
    · rw [h1, h0] at hiff
      rcases hiff.1 rfl with h' | h'
      · exact absurd h' (by simp)
      · exact absurd h' hm
    · rfl
  · have hrun : CheckReportVariable K V st = some st := by
      simp [CheckReportVariable, hN]
    refine ⟨st, hrun, rfl, sameRequests_refl _, fun i => ⟨fun hm => ?_, fun _ => rfl⟩⟩
    omega

/-! ## DetermineFrequency -/

theorem DetermineFrequency_recognised (FreqString : String) (m : Int) (e : String × String × Int)
    (h : FrequencyTable.find? (frequencyKeyMatches FreqString) = some e) :
    DetermineFrequency FreqString m = max e.2.2 m := by
  simp [DetermineFrequency, h]

theorem DetermineFrequency_unrecognised (FreqString : String) (m : Int)
    (h : FrequencyTable.find? (frequencyKeyMatches FreqString) = none) :
    DetermineFrequency FreqString m = ReportHourly := by
  simp [DetermineFrequency, h]

/-- C11 at the failing input: the string "Sometimes" matches no key, so with the minimum
reporting frequency set to Daily the result is the default Hourly, below the minimum. An
unrecognised string gives Hourly whatever the minimum is, while a recognised string gives the
larger of the named frequency and the minimum. -/
theorem DetermineFrequency_default_ignores_minimum :
    DetermineFrequency "Sometimes" ReportDaily = ReportHourly ∧
    ReportHourly < ReportDaily ∧
    (∀ (FreqString : String) (m : Int),
      FrequencyTable.find? (frequencyKeyMatches FreqString) = none →
      DetermineFrequency FreqString m = ReportHourly) ∧
    (∀ (FreqString : String) (m : Int) (e : String × String × Int),
      FrequencyTable.find? (frequencyKeyMatches FreqString) = some e →
      m ≤ DetermineFrequency FreqString m ∧ e.2.2 ≤ DetermineFrequency FreqString m) := by
  refine ⟨by decide, by decide, DetermineFrequency_unrecognised, ?_⟩
  intro FreqString m e h
  rw [DetermineFrequency_recognised FreqString m e h]
  exact ⟨le_max_right _ _, le_max_left _ _⟩

/-! ## AddMeter and ValidateNStandardizeMeterTitles -/

theorem FindItemInListFrom_spec (s : String) (items : Nat → String) :
    ∀ (n i : Nat), 1 ≤ i →
      (FindItemInListFrom s items n i = 0 ∧
        ∀ j, i ≤ j → j < i + n → sameFstring s (items j) = false) ∨
      (i ≤ FindItemInListFrom s items n i ∧ FindItemInListFrom s items n i < i + n ∧
        sameFstring s (items (FindItemInListFrom s items n i)) = true) := by
  intro n
  induction n with
  | zero =>
    intro i _
    left
    exact ⟨rfl, fun j h1 h2 => by omega⟩
  | succ n ih =>
    intro i hi
    by_cases hm : sameFstring s (items i) = true
    · right
      have : FindItemInListFrom s items (n + 1) i = i := by simp [FindItemInListFrom, hm]
      rw [this]
      exact ⟨le_refl _, by omega, hm⟩
    · have hstep : FindItemInListFrom s items (n + 1) i
          = FindItemInListFrom s items n (i + 1) := by simp [FindItemInListFrom, hm]
      rw [hstep]
      rcases ih (i + 1) (by omega) with ⟨h0, h⟩ | ⟨h1, h2, h3⟩
      · left
        refine ⟨h0, fun j hj1 hj2 => ?_⟩
        by_cases hji : j = i
        · subst hji
          simpa using hm
        · exact h j (by omega) (by omega)
      · right
        exact ⟨by omega, by omega, h3⟩

theorem FindItemInList_eq_zero_iff (s : String) (items : Nat → String) (n : Nat) :
    FindItemInList s items n = 0 ↔
      ¬ ∃ i, 1 ≤ i ∧ i ≤ n ∧ sameFstring s (items i) = true := by
  unfold FindItemInList
  rcases FindItemInListFrom_spec s items n 1 (le_refl _) with ⟨h0, h⟩ | ⟨h1, h2, h3⟩
  · refine ⟨fun _ => ?_, fun _ => h0⟩
    rintro ⟨i, hi1, hi2, hi3⟩
    rw [h i hi1 (by omega)] at hi3
    exact Bool.false_ne_true hi3
  · refine ⟨fun h => ?_, fun h => ?_⟩
    · omega
    · exact absurd ⟨_, h1, by omega, h3⟩ h

theorem sameFstring_imp_SameString (a b : String) (h : sameFstring a b = true) :
    SameString a b = true := by
  simp only [sameFstring, beq_iff_eq] at h
  simp [SameString, MakeUPPERCase, h]

theorem hasMeter_iff (reg : MeterRegistry) (Name : String) :
    reg.hasMeter Name = true ↔
      ∃ i, 1 ≤ i ∧ i ≤ reg.NumEnergyMeters ∧ SameString Name (reg.EnergyMeters i).Name = true := by
  unfold MeterRegistry.hasMeter
  rcases FindItem_spec Name reg.Names reg.NumEnergyMeters with ⟨h0, h⟩ | ⟨h1, h2, h3, _⟩
  · rw [h0]
    refine ⟨fun hc => absurd hc (by simp), ?_⟩
    rintro ⟨i, hi1, hi2, hi3⟩
    have := h i hi1 hi2
    simp only [MeterRegistry.Names] at this
    rw [this] at hi3
    exact absurd hi3 (by simp)
  · refine ⟨fun _ => ⟨_, h1, h2, h3⟩, fun _ => ?_⟩
    simp only [bne_iff_ne, ne_eq]
    omega

theorem AddMeter_error_iff (Name MtrUnits ResourceType EndUse EndUseSub Group : String)
    (reg : MeterRegistry) :
    (∃ msg, AddMeter Name MtrUnits ResourceType EndUse EndUseSub Group reg = Except.error msg) ↔
      ∃ i, 1 ≤ i ∧ i ≤ reg.NumEnergyMeters ∧
        sameFstring Name (reg.EnergyMeters i).Name = true := by
  have hfind := FindItemInList_eq_zero_iff Name reg.Names reg.NumEnergyMeters
  by_cases hN : reg.NumEnergyMeters > 0
  · by_cases h0 : FindItemInList Name reg.Names reg.NumEnergyMeters = 0
    · have hno := hfind.1 h0
      constructor
      · rintro ⟨msg, hmsg⟩
        simp [AddMeter, hN, h0] at hmsg
      · intro hex
        exact absurd hex hno
    · constructor
      · intro _
        by_contra hno
        exact h0 (hfind.2 hno)
      · intro _
        refine ⟨"Requested to Add Meter which was already present=" ++ Name, ?_⟩
        simp [AddMeter, hN, h0]
  · constructor
    · rintro ⟨msg, hmsg⟩
      simp [AddMeter, hN] at hmsg
    · rintro ⟨i, hi1, hi2, _⟩
      omega

theorem AddMeter_ok (Name MtrUnits ResourceType EndUse EndUseSub Group : String)
    (reg : MeterRegistry)
    (h : ¬ ∃ i, 1 ≤ i ∧ i ≤ reg.NumEnergyMeters ∧
        sameFstring Name (reg.EnergyMeters i).Name = true) :
    AddMeter Name MtrUnits ResourceType EndUse EndUseSub Group reg
      = Except.ok
          { NumEnergyMeters := reg.NumEnergyMeters + 1
            EnergyMeters := Function.update reg.EnergyMeters (reg.NumEnergyMeters + 1)
              (newMeter Name MtrUnits ResourceType EndUse EndUseSub Group) } := by
  have h0 := (FindItemInList_eq_zero_iff Name reg.Names reg.NumEnergyMeters).2 h
  by_cases hN : reg.NumEnergyMeters > 0
  · simp [AddMeter, hN, h0]
  · simp [AddMeter, hN]

/-- C18. AddMeter ends in its fatal error exactly when a registered meter has the given
name; otherwise it returns the table with one more meter, at position NumEnergyMeters + 1,
whose five running totals are 0 and whose minima and maxima are at the sentinels, and every
other position of the table holds what it held. -/
theorem AddMeter_appends_or_fails (Name MtrUnits ResourceType EndUse EndUseSub Group : String)
    (reg : MeterRegistry) :
    ((∃ msg, AddMeter Name MtrUnits ResourceType EndUse EndUseSub Group reg
        = Except.error msg) ↔
      ∃ i, 1 ≤ i ∧ i ≤ reg.NumEnergyMeters ∧
        sameFstring Name (reg.EnergyMeters i).Name = true) ∧
    ((¬ ∃ i, 1 ≤ i ∧ i ≤ reg.NumEnergyMeters ∧
        sameFstring Name (reg.EnergyMeters i).Name = true) →
      ∃ reg1, AddMeter Name MtrUnits ResourceType EndUse EndUseSub Group reg = Except.ok reg1 ∧
        reg1.NumEnergyMeters = reg.NumEnergyMeters + 1 ∧
        (reg1.EnergyMeters (reg.NumEnergyMeters + 1)).Name = Name ∧
        (reg1.EnergyMeters (reg.NumEnergyMeters + 1)).Units = MtrUnits ∧
        ((reg1.EnergyMeters (reg.NumEnergyMeters + 1)).Meter.TSValue = 0 ∧
         (reg1.EnergyMeters (reg.NumEnergyMeters + 1)).Meter.HRValue = 0 ∧
         (reg1.EnergyMeters (reg.NumEnergyMeters + 1)).Meter.DYValue = 0 ∧
         (reg1.EnergyMeters (reg.NumEnergyMeters + 1)).Meter.MNValue = 0 ∧
         (reg1.EnergyMeters (reg.NumEnergyMeters + 1)).Meter.SMValue = 0) ∧
        ((reg1.EnergyMeters (reg.NumEnergyMeters + 1)).Meter.HRMaxVal = MaxSetValue ∧
         (reg1.EnergyMeters (reg.NumEnergyMeters + 1)).Meter.HRMinVal = MinSetValue ∧
         (reg1.EnergyMeters (reg.NumEnergyMeters + 1)).Meter.DYMaxVal = MaxSetValue ∧
         (reg1.EnergyMeters (reg.NumEnergyMeters + 1)).Meter.DYMinVal = MinSetValue ∧
         (reg1.EnergyMeters (reg.NumEnergyMeters + 1)).Meter.MNMaxVal = MaxSetValue ∧
         (reg1.EnergyMeters (reg.NumEnergyMeters + 1)).Meter.MNMinVal = MinSetValue ∧
         (reg1.EnergyMeters (reg.NumEnergyMeters + 1)).Meter.SMMaxVal = MaxSetValue ∧
         (reg1.EnergyMeters (reg.NumEnergyMeters + 1)).Meter.SMMinVal = MinSetValue) ∧
        ∀ i, i ≠ reg.NumEnergyMeters + 1 → reg1.EnergyMeters i = reg.EnergyMeters i) := by
  refine ⟨AddMeter_error_iff _ _ _ _ _ _ _, fun h => ?_⟩
  refine ⟨_, AddMeter_ok Name MtrUnits ResourceType EndUse EndUseSub Group reg h, rfl, ?_, ?_,
    ?_, ?_, ?_⟩
  · simp [newMeter]
  · simp [newMeter]
  · simp [newMeter, freshMeter]
  · simp [newMeter, freshMeter]
  · intro i hi
    simp [Function.update, hi]

theorem hasMeter_after_AddMeter (Name MtrUnits ResourceType EndUse EndUseSub Group : String)
    (reg : MeterRegistry) (n : String) (h : reg.hasMeter n = true) :
    MeterRegistry.hasMeter
      { NumEnergyMeters := reg.NumEnergyMeters + 1
        EnergyMeters := Function.update reg.EnergyMeters (reg.NumEnergyMeters + 1)
          (newMeter Name MtrUnits ResourceType EndUse EndUseSub Group) } n = true := by
  rw [hasMeter_iff] at h ⊢
  obtain ⟨i, h1, h2, h3⟩ := h
  refine ⟨i, h1, by simp only; omega, ?_⟩
  have hne : i ≠ reg.NumEnergyMeters + 1 := by omega
  simpa [Function.update, hne] using h3

theorem hasMeter_new_AddMeter (Name MtrUnits ResourceType EndUse EndUseSub Group : String)
    (reg : MeterRegistry) :
    MeterRegistry.hasMeter
      { NumEnergyMeters := reg.NumEnergyMeters + 1
        EnergyMeters := Function.update reg.EnergyMeters (reg.NumEnergyMeters + 1)
          (newMeter Name MtrUnits ResourceType EndUse EndUseSub Group) } Name = true := by
  rw [hasMeter_iff]
  refine ⟨reg.NumEnergyMeters + 1, by omega, le_refl _, ?_⟩
  simp [Function.update, newMeter, SameString]

theorem EnsuresMeters_addMeterIfNotFound
    (Name MtrUnits ResourceType EndUse EndUseSub Group : String) :
    EnsuresMeters (addMeterIfNotFound Name MtrUnits ResourceType EndUse EndUseSub Group)
      [Name] := by
  intro reg
  by_cases hf : FindItem Name reg.Names reg.NumEnergyMeters = 0
  · have hno : ¬ reg.hasMeter Name = true := by simp [MeterRegistry.hasMeter, hf]
    have hnone : ¬ ∃ i, 1 ≤ i ∧ i ≤ reg.NumEnergyMeters ∧
        sameFstring Name (reg.EnergyMeters i).Name = true := by
      rintro ⟨i, h1, h2, h3⟩
      exact hno ((hasMeter_iff reg Name).2 ⟨i, h1, h2, sameFstring_imp_SameString _ _ h3⟩)
    refine ⟨{ NumEnergyMeters := reg.NumEnergyMeters + 1
              EnergyMeters := Function.update reg.EnergyMeters (reg.NumEnergyMeters + 1)
                (newMeter Name MtrUnits ResourceType EndUse EndUseSub Group) }, ?_, ?_, ?_, ?_⟩
    · simp only [addMeterIfNotFound, hf, if_true]
      exact AddMeter_ok Name MtrUnits ResourceType EndUse EndUseSub Group reg hnone
    · intro n hn
      rw [List.mem_singleton] at hn
      subst hn
      exact hasMeter_new_AddMeter _ _ _ _ _ _ reg
    · intro n hn
      exact hasMeter_after_AddMeter _ _ _ _ _ _ reg n hn
    · intro hall
      exact absurd (hall Name (List.mem_singleton.2 rfl)) hno
  · refine ⟨reg, by simp [addMeterIfNotFound, hf], ?_, fun _ h => h, fun _ => rfl⟩
    intro n hn
    rw [List.mem_singleton] at hn
    subst hn
    simp [MeterRegistry.hasMeter, hf]

theorem EnsuresMeters_ok : EnsuresMeters Except.ok [] := by
  intro reg
  exact ⟨reg, rfl, fun _ h => absurd h (List.not_mem_nil _), fun _ h => h, fun _ => rfl⟩

theorem EnsuresMeters_seq (f g : MeterRegistry → Except String MeterRegistry)
    (ns ms : List String) (hf : EnsuresMeters f ns) (hg : EnsuresMeters g ms) :
    EnsuresMeters
      (fun reg => match f reg with
        | Except.error e => Except.error e
        | Except.ok reg1 => g reg1) (ns ++ ms) := by
  intro reg
  obtain ⟨reg1, h1, a1, b1, c1⟩ := hf reg
  obtain ⟨reg2, h2, a2, b2, c2⟩ := hg reg1
  refine ⟨reg2, by simp only [h1, h2], ?_, fun n hn => b2 n (b1 n hn), ?_⟩
  · intro n hn
    rcases List.mem_append.1 hn with h | h
    · exact b2 n (a1 n h)
    · exact a2 n h
  · intro hall
    have e1 : reg1 = reg := c1 (fun n hn => hall n (List.mem_append.2 (Or.inl hn)))
    subst e1
    exact c2 (fun n hn => hall n (List.mem_append.2 (Or.inr hn)))

theorem EnsuresMeters_congr (f g : MeterRegistry → Except String MeterRegistry)
    (ns : List String) (h : ∀ reg, f reg = g reg) (hg : EnsuresMeters g ns) :
    EnsuresMeters f ns := by
  intro reg
  rw [h reg]
  exact hg reg

theorem facilityMeter_eq (MtrUnits ResourceType : String) (reg : MeterRegistry) :
    facilityMeter MtrUnits ResourceType reg
      = addMeterIfNotFound (trim ResourceType ++ ":Facility") MtrUnits ResourceType
          " " " " " " reg := by
  by_cases hN : reg.NumEnergyMeters > 0
  · simp [facilityMeter, addMeterIfNotFound, hN]
  · have h0 : reg.NumEnergyMeters = 0 := by omega
    simp [facilityMeter, addMeterIfNotFound, h0, FindItem, FindItemFrom]

/-- The names the group block registers. -/
theorem EnsuresMeters_groupMeters (MtrUnits ResourceType Group ZoneName : String) :
    EnsuresMeters (groupMeters MtrUnits ResourceType Group ZoneName)
      ([trim ResourceType ++ ":" ++ trim Group] ++
        (if sameFstring Group "Building" then [trim ResourceType ++ ":Zone:" ++ trim ZoneName]
         else [])) := by
  by_cases hB : sameFstring Group "Building" = true
  · simp only [hB, if_true]
    refine EnsuresMeters_congr _ _ _ ?_
      (EnsuresMeters_seq _ _ _ _
        (EnsuresMeters_addMeterIfNotFound (trim ResourceType ++ ":" ++ trim Group) MtrUnits
          ResourceType " " " " Group)
        (EnsuresMeters_addMeterIfNotFound (trim ResourceType ++ ":Zone:" ++ trim ZoneName)
          MtrUnits ResourceType " " " " "Zone"))
    intro reg
    simp only [groupMeters, hB, if_true]
  · simp only [hB]
    refine EnsuresMeters_congr _ _ _ ?_
      (EnsuresMeters_seq _ _ _ _
        (EnsuresMeters_addMeterIfNotFound (trim ResourceType ++ ":" ++ trim Group) MtrUnits
          ResourceType " " " " Group)
        EnsuresMeters_ok)
    intro reg
    simp only [groupMeters, hB]
    rfl

/-- The names the end-use block registers. -/
theorem EnsuresMeters_endUseMeters (MtrUnits ResourceType EndUse Group ZoneName : String) :
    EnsuresMeters (endUseMeters MtrUnits ResourceType EndUse Group ZoneName)
      ([trim EndUse ++ ":" ++ trim ResourceType] ++
        (if sameFstring Group "Building" then
          [trim EndUse ++ ":" ++ trim ResourceType ++ ":Zone:" ++ trim ZoneName]
         else [])) := by
  by_cases hB : sameFstring Group "Building" = true
  · simp only [hB, if_true]
    refine EnsuresMeters_congr _ _ _ ?_
      (EnsuresMeters_seq _ _ _ _
        (EnsuresMeters_addMeterIfNotFound (trim EndUse ++ ":" ++ trim ResourceType) MtrUnits
          ResourceType EndUse " " " ")
        (EnsuresMeters_addMeterIfNotFound
          (trim EndUse ++ ":" ++ trim ResourceType ++ ":Zone:" ++ trim ZoneName)
          MtrUnits ResourceType EndUse " " "Zone"))
    intro reg
    simp only [endUseMeters, hB, if_true]
  · simp only [hB]
    refine EnsuresMeters_congr _ _ _ ?_
      (EnsuresMeters_seq _ _ _ _
        (EnsuresMeters_addMeterIfNotFound (trim EndUse ++ ":" ++ trim ResourceType) MtrUnits
          ResourceType EndUse " " " ")
        EnsuresMeters_ok)
    intro reg
    simp only [endUseMeters, hB]
    rfl

theorem EnsuresMeters_cond (c : Bool) (f : MeterRegistry → Except String MeterRegistry)
    (ns : List String) (hf : EnsuresMeters f ns) :
    EnsuresMeters (fun reg => if c then f reg else Except.ok reg) (if c then ns else []) := by
  cases c
  · exact EnsuresMeters_congr _ _ _ (fun reg => by simp) EnsuresMeters_ok
  · exact EnsuresMeters_congr _ _ _ (fun reg => by simp) hf

theorem EnsuresMeters_facilityMeter (MtrUnits ResourceType : String) :
    EnsuresMeters (facilityMeter MtrUnits ResourceType) [trim ResourceType ++ ":Facility"] :=
  EnsuresMeters_congr _ _ _ (facilityMeter_eq MtrUnits ResourceType)
    (EnsuresMeters_addMeterIfNotFound _ _ _ _ _ _)

theorem EnsuresMeters_endUseSubMeter (MtrUnits ResourceType EndUse EndUseSub : String) :
    EnsuresMeters (endUseSubMeter MtrUnits ResourceType EndUse EndUseSub)
      [trim EndUseSub ++ ":" ++ trim EndUse ++ ":" ++ trim ResourceType] :=
  EnsuresMeters_congr _ _ _ (fun _ => rfl) (EnsuresMeters_addMeterIfNotFound _ _ _ _ _ _)

theorem EnsuresMeters_addStandardMeters
    (MtrUnits ResourceType EndUse EndUseSub Group ZoneName : String)
    (Local1 Local2 Local3 : Bool) :
    EnsuresMeters
      (addStandardMeters MtrUnits ResourceType EndUse EndUseSub Group ZoneName
        Local1 Local2 Local3)
      (standardMeterNames ResourceType EndUse EndUseSub Group ZoneName Local1 Local2 Local3) := by
  unfold standardMeterNames
  refine EnsuresMeters_congr _ _ _ ?_
    (EnsuresMeters_seq _ _ _ _
      (EnsuresMeters_cond (!Local1) _ _ (EnsuresMeters_facilityMeter MtrUnits ResourceType))
      (EnsuresMeters_seq _ _ _ _
        (EnsuresMeters_cond (!Local2 && !isBlankString Group) _ _
          (EnsuresMeters_groupMeters MtrUnits ResourceType Group ZoneName))
        (EnsuresMeters_seq _ _ _ _
          (EnsuresMeters_cond (!Local3 && !isBlankString EndUse) _ _
            (EnsuresMeters_endUseMeters MtrUnits ResourceType EndUse Group ZoneName))
          (EnsuresMeters_cond (!Local3 && !isBlankString EndUseSub) _ _
            (EnsuresMeters_endUseSubMeter MtrUnits ResourceType EndUse EndUseSub)))))
  intro reg
  rfl

/-- The result of ValidateNStandardizeMeterTitles for given outcomes of its three SELECT CASE
chains and a given table after the meter blocks. -/
theorem ValidateNStandardizeMeterTitles_eq
    (MtrUnits ResourceType EndUse EndUseSub Group : String) (ErrorsFound : Bool)
    (ZoneName : String) (reg reg4 : MeterRegistry)
    (h : addStandardMeters MtrUnits
        (GetStandardMeterResourceType ResourceType (UPPERCase ResourceType)).1
        (standardEndUse EndUse).1 EndUseSub (standardGroup Group).1 ZoneName
        (GetStandardMeterResourceType ResourceType (UPPERCase ResourceType)).2
        ((GetStandardMeterResourceType ResourceType (UPPERCase ResourceType)).2 ||
          (standardGroup Group).2)
        ((GetStandardMeterResourceType ResourceType (UPPERCase ResourceType)).2 ||
          (standardGroup Group).2 || (standardEndUse EndUse).2) reg = Except.ok reg4) :
    ValidateNStandardizeMeterTitles MtrUnits ResourceType EndUse EndUseSub Group
        ErrorsFound ZoneName reg
      = Except.ok
          { ResourceType :=
              (GetStandardMeterResourceType ResourceType (UPPERCase ResourceType)).1
            EndUse := (standardEndUse EndUse).1
            EndUseSub := EndUseSub
            Group := (standardGroup Group).1
            ErrorsFound := ErrorsFound ||
              ((GetStandardMeterResourceType ResourceType (UPPERCase ResourceType)).2 ||
                (standardGroup Group).2 || (standardEndUse EndUse).2)
            LocalErrorsFound :=
              ((GetStandardMeterResourceType ResourceType (UPPERCase ResourceType)).2 ||
                (standardGroup Group).2 || (standardEndUse EndUse).2)
            reg := reg4 } := by
  unfold ValidateNStandardizeMeterTitles
  simp only [h]

/-- ValidateNStandardizeMeterTitles returns; its strings and flags are those of the three
SELECT CASE chains; every name of standardMeterNames is registered in the table it leaves;
and a further call with the same strings on that table returns the same table. -/
theorem ValidateNStandardizeMeterTitles_run
    (MtrUnits ResourceType EndUse EndUseSub Group : String) (ErrorsFound : Bool)
    (ZoneName : String) (reg : MeterRegistry) :
    ∃ r, ValidateNStandardizeMeterTitles MtrUnits ResourceType EndUse EndUseSub Group
        ErrorsFound ZoneName reg = Except.ok r ∧
      r.ResourceType = (GetStandardMeterResourceType ResourceType (UPPERCase ResourceType)).1 ∧
      r.Group = (standardGroup Group).1 ∧
      r.EndUse = (standardEndUse EndUse).1 ∧
      r.EndUseSub = EndUseSub ∧
      r.LocalErrorsFound =
        ((GetStandardMeterResourceType ResourceType (UPPERCase ResourceType)).2 ||
          (standardGroup Group).2 || (standardEndUse EndUse).2) ∧
      r.ErrorsFound = (ErrorsFound || r.LocalErrorsFound) ∧
      (∀ n ∈ standardMeterNames r.ResourceType r.EndUse EndUseSub r.Group ZoneName
          (GetStandardMeterResourceType ResourceType (UPPERCase ResourceType)).2
          ((GetStandardMeterResourceType ResourceType (UPPERCase ResourceType)).2 ||
            (standardGroup Group).2)
          r.LocalErrorsFound, r.reg.hasMeter n = true) ∧
      ∀ ErrorsFound2, ∃ r2,
        ValidateNStandardizeMeterTitles MtrUnits ResourceType EndUse EndUseSub Group
          ErrorsFound2 ZoneName r.reg = Except.ok r2 ∧ r2.reg = r.reg := by
  have S := EnsuresMeters_addStandardMeters MtrUnits
    (GetStandardMeterResourceType ResourceType (UPPERCase ResourceType)).1
    (standardEndUse EndUse).1 EndUseSub (standardGroup Group).1 ZoneName
    (GetStandardMeterResourceType ResourceType (UPPERCase ResourceType)).2
    ((GetStandardMeterResourceType ResourceType (UPPERCase ResourceType)).2 ||
      (standardGroup Group).2)
    ((GetStandardMeterResourceType ResourceType (UPPERCase ResourceType)).2 ||
      (standardGroup Group).2 || (standardEndUse EndUse).2)
  obtain ⟨reg4, h4, a4, _, _⟩ := S reg
  obtain ⟨q, k, _, _, e⟩ := S reg4
  have hq : q = reg4 := e a4
  subst hq
  refine ⟨_, ValidateNStandardizeMeterTitles_eq MtrUnits ResourceType EndUse EndUseSub Group
    ErrorsFound ZoneName reg q h4, ?_⟩
  refine ⟨Eq.refl _, Eq.refl _, Eq.refl _, Eq.refl _, Eq.refl _, Eq.refl _, a4, ?_⟩
  intro ErrorsFound2
  exact ⟨_, ValidateNStandardizeMeterTitles_eq MtrUnits ResourceType EndUse EndUseSub Group
    ErrorsFound2 ZoneName q q k, Eq.refl _⟩

theorem not_blank_of_Building (Group : String) (h : sameFstring Group "Building" = true) :
    isBlankString Group = false := by
  simp only [sameFstring, beq_iff_eq] at h
  have hB : trimBlanks "Building" ≠ [] := by decide
  simp only [isBlankString, h]
  simpa using hB

/-- C19 at the failing input: the end-use table lists the literal "Water System", so ignoring
case the end use "Water System" is in the table, yet ValidateNStandardizeMeterTitles compares
the upper-cased end use with that mixed-case literal, takes the arm "Illegal EndUse" and
returns ErrorsFound = true (the sibling spelling "WaterSystem" is standardised without error).
In general ErrorsFound is set exactly when one of the three SELECT CASE chains takes its
illegal arm, and is otherwise left as it was. -/
theorem ValidateNStandardizeMeterTitles_rejects_listed_end_use :
    (∃ arm ∈ EndUseTable, ∃ k ∈ arm.1, SameString "Water System" k = true) ∧
    (ValidateNStandardizeMeterTitles "J" "Electricity" "Water System" "" "" false ""
        noMeters).toOption.map StandardMeterTitles.summary
      = some (["Electricity", "Water System", "", ""], true, ["Electricity:Facility"]) ∧
    (ValidateNStandardizeMeterTitles "J" "Electricity" "WaterSystem" "" "" false ""
        noMeters).toOption.map StandardMeterTitles.summary
      = some (["Electricity", "WaterSystems", "", ""], false,
          ["Electricity:Facility", "WaterSystems:Electricity"]) ∧
    (∀ (MtrUnits ResourceType EndUse EndUseSub Group : String) (ErrorsFound : Bool)
        (ZoneName : String) (reg : MeterRegistry),
      ∃ r, ValidateNStandardizeMeterTitles MtrUnits ResourceType EndUse EndUseSub Group
          ErrorsFound ZoneName reg = Except.ok r ∧
        r.ErrorsFound = (ErrorsFound ||
          ((GetStandardMeterResourceType ResourceType (UPPERCase ResourceType)).2 ||
            (standardGroup Group).2 || (standardEndUse EndUse).2))) := by
  refine ⟨⟨(["WATERSYSTEMS", "WATERSYSTEM", "Water System"], "WaterSystems"), by decide,
    "Water System", by decide, by decide⟩, by decide, by decide, ?_⟩
  intro MtrUnits ResourceType EndUse EndUseSub Group ErrorsFound ZoneName reg
  obtain ⟨r, hr, _, _, _, _, hL, hE, _⟩ := ValidateNStandardizeMeterTitles_run MtrUnits
    ResourceType EndUse EndUseSub Group ErrorsFound ZoneName reg
  exact ⟨r, hr, by rw [hE, hL]⟩

/-- C20. ValidateNStandardizeMeterTitles never ends in the fatal error of AddMeter. When it
finds no error, then with R, G, E its standard resource type, group and end use, S the
subcategory and Z the zone name, the table it leaves has the meters R:Facility, R:G when G is
given, R:Zone:Z when G is Building, E:R when E is given, E:R:Zone:Z when E is given and G is
Building, and S:E:R when E and S are given; and a second call with the same arguments on that
table returns the table unchanged. A meter is taken to exist when FindItem, the lookup of the
module, finds its name. -/
theorem ValidateNStandardizeMeterTitles_registers_taxonomy
    (MtrUnits ResourceType EndUse EndUseSub Group : String) (ErrorsFound : Bool)
    (ZoneName : String) (reg : MeterRegistry) :
    ∃ r, ValidateNStandardizeMeterTitles MtrUnits ResourceType EndUse EndUseSub Group
        ErrorsFound ZoneName reg = Except.ok r ∧
      (r.LocalErrorsFound = false →
        r.reg.hasMeter (trim r.ResourceType ++ ":Facility") = true ∧
        (isBlankString r.Group = false →
          r.reg.hasMeter (trim r.ResourceType ++ ":" ++ trim r.Group) = true) ∧
        (sameFstring r.Group "Building" = true →
          r.reg.hasMeter (trim r.ResourceType ++ ":Zone:" ++ trim ZoneName) = true) ∧
        (isBlankString r.EndUse = false →
          r.reg.hasMeter (trim r.EndUse ++ ":" ++ trim r.ResourceType) = true) ∧
        (isBlankString r.EndUse = false → sameFstring r.Group "Building" = true →
          r.reg.hasMeter
            (trim r.EndUse ++ ":" ++ trim r.ResourceType ++ ":Zone:" ++ trim ZoneName)
              = true) ∧
        (isBlankString r.EndUse = false → isBlankString EndUseSub = false →
          r.reg.hasMeter
            (trim EndUseSub ++ ":" ++ trim r.EndUse ++ ":" ++ trim r.ResourceType) = true)) ∧
      (∀ ErrorsFound2, ∃ r2,
        ValidateNStandardizeMeterTitles MtrUnits ResourceType EndUse EndUseSub Group
          ErrorsFound2 ZoneName r.reg = Except.ok r2 ∧
        r2.reg = r.reg ∧ r2.reg.NumEnergyMeters = r.reg.NumEnergyMeters) := by
  obtain ⟨r, hr, _, _, _, _, hL, _, hnames, hsecond⟩ := ValidateNStandardizeMeterTitles_run
    MtrUnits ResourceType EndUse EndUseSub Group ErrorsFound ZoneName reg
  refine ⟨r, hr, ?_, ?_⟩
  · intro hno
    rw [hno] at hnames
    rw [hno] at hL
    have hL' := hL.symm
    simp only [Bool.or_eq_false_iff] at hL'
    obtain ⟨⟨hL1, hL2⟩, _⟩ := hL'
    rw [hL1, hL2] at hnames
    refine ⟨?_, ?_, ?_, ?_, ?_, ?_⟩
    · exact hnames _ (by simp [standardMeterNames])
    · intro hG
      exact hnames _ (by simp [standardMeterNames, hG])
    · intro hB
      exact hnames _ (by simp [standardMeterNames, hB, not_blank_of_Building _ hB])
    · intro hE
      exact hnames _ (by simp [standardMeterNames, hE])
    · intro hE hB
      exact hnames _ (by simp [standardMeterNames, hE, hB])
    · intro hE hS
      exact hnames _ (by simp [standardMeterNames, hS])
  · intro ErrorsFound2
    obtain ⟨r2, h2, e2⟩ := hsecond ErrorsFound2
    exact ⟨r2, h2, e2, by rw [e2]⟩

/-! ## The duplicate check of GetCustomMeterInput -/

theorem removeDuplicatesOf_fold (k : Nat) (V : Nat → Nat) :
    ∀ n i,
      ((List.range' (k + 1) n).foldl
        (fun V iKey1 => if V k ≠ V iKey1 then V else Function.update V iKey1 0) V) i
        = if k < i ∧ i < k + 1 + n ∧ V i = V k then 0 else V i := by
  intro n
  induction n with
  | zero =>
    intro i
    have : ¬ (k < i ∧ i < k + 1 + 0 ∧ V i = V k) := by omega
    simp [this]
  | succ n ih =>
    intro i
    rw [List.range'_1_concat, List.foldl_append]
    simp only [List.foldl_cons, List.foldl_nil]
    have hk := ih k
    have hkk : ¬ (k < k ∧ k < k + 1 + n ∧ V k = V k) := fun h => Nat.lt_irrefl _ h.1
    rw [if_neg hkk] at hk
    have hnew := ih (k + 1 + n)
    have hnn : ¬ (k < k + 1 + n ∧ k + 1 + n < k + 1 + n ∧ V (k + 1 + n) = V k) :=
      fun h => Nat.lt_irrefl _ h.2.1
    rw [if_neg hnn] at hnew
    rw [hk, hnew]
    by_cases hv : V k ≠ V (k + 1 + n)
    · rw [if_pos hv, ih i]
      by_cases hi : i = k + 1 + n
      · subst hi
        have h1 : ¬ (k < k + 1 + n ∧ k + 1 + n < k + 1 + (n + 1) ∧ V (k + 1 + n) = V k) :=
          fun h => hv h.2.2.symm
        rw [if_neg hnn, if_neg h1]
      · by_cases hc : k < i ∧ i < k + 1 + n ∧ V i = V k
        · have hc' : k < i ∧ i < k + 1 + (n + 1) ∧ V i = V k := ⟨hc.1, by clear ih hk hnew; omega, hc.2.2⟩
          rw [if_pos hc, if_pos hc']
        · have hc' : ¬ (k < i ∧ i < k + 1 + (n + 1) ∧ V i = V k) := by
            rintro ⟨a, b, c⟩
            exact hc ⟨a, by clear ih hk hnew; omega, c⟩
          rw [if_neg hc, if_neg hc']
    · rw [if_neg hv]
      have hv' : V k = V (k + 1 + n) := by
        by_contra h
        exact hv h
      by_cases hi : i = k + 1 + n
      · subst hi
        have h1 : k < k + 1 + n ∧ k + 1 + n < k + 1 + (n + 1) ∧ V (k + 1 + n) = V k :=
          ⟨by clear ih hk hnew; omega, by clear ih hk hnew; omega, hv'.symm⟩
        rw [if_pos h1]
        simp [Function.update]
      · rw [Function.update_noteq hi, ih i]
        by_cases hc : k < i ∧ i < k + 1 + n ∧ V i = V k
        · have hc' : k < i ∧ i < k + 1 + (n + 1) ∧ V i = V k := ⟨hc.1, by clear ih hk hnew; omega, hc.2.2⟩
          rw [if_pos hc, if_pos hc']
        · have hc' : ¬ (k < i ∧ i < k + 1 + (n + 1) ∧ V i = V k) := by
            rintro ⟨a, b, c⟩
            exact hc ⟨a, by clear ih hk hnew; omega, c⟩
          rw [if_neg hc, if_neg hc']

theorem removeDuplicatesOf_apply (k NumVars : Nat) (V : Nat → Nat) (i : Nat) :
    removeDuplicatesOf k NumVars V i = if k < i ∧ i ≤ NumVars ∧ V i = V k then 0 else V i := by
  unfold removeDuplicatesOf
  rw [removeDuplicatesOf_fold k V (NumVars - k) i]
  by_cases hc : k < i ∧ i ≤ NumVars ∧ V i = V k
  · have hc' : k < i ∧ i < k + 1 + (NumVars - k) ∧ V i = V k := ⟨hc.1, by omega, hc.2.2⟩
    rw [if_pos hc, if_pos hc']
  · have hc' : ¬ (k < i ∧ i < k + 1 + (NumVars - k) ∧ V i = V k) := by
      rintro ⟨a, b, c⟩
      exact hc ⟨a, by omega, c⟩
    rw [if_neg hc, if_neg hc']

theorem checkForDuplicates_step (NumVars k : Nat) (V W : Nat → Nat)
    (hW : ∀ i, ((i ≤ NumVars ∧ ∃ j, 1 ≤ j ∧ j ≤ k ∧ j < i ∧ V j = V i) → W i = 0) ∧
      (¬ (i ≤ NumVars ∧ ∃ j, 1 ≤ j ∧ j ≤ k ∧ j < i ∧ V j = V i) → W i = V i))
    (i : Nat) :
    ((i ≤ NumVars ∧ ∃ j, 1 ≤ j ∧ j ≤ k + 1 ∧ j < i ∧ V j = V i) →
      (if W (1 + k) = 0 then W else removeDuplicatesOf (1 + k) NumVars W) i = 0) ∧
    (¬ (i ≤ NumVars ∧ ∃ j, 1 ≤ j ∧ j ≤ k + 1 ∧ j < i ∧ V j = V i) →
      (if W (1 + k) = 0 then W else removeDuplicatesOf (1 + k) NumVars W) i = V i) := by
  have hzero_or : ∀ i, W i = 0 ∨ W i = V i := by
    intro i
    by_cases h : i ≤ NumVars ∧ ∃ j, 1 ≤ j ∧ j ≤ k ∧ j < i ∧ V j = V i
    · exact Or.inl ((hW i).1 h)
    · exact Or.inr ((hW i).2 h)
  have hmono : ¬ (i ≤ NumVars ∧ ∃ j, 1 ≤ j ∧ j ≤ k + 1 ∧ j < i ∧ V j = V i) →
      ¬ (i ≤ NumVars ∧ ∃ j, 1 ≤ j ∧ j ≤ k ∧ j < i ∧ V j = V i) := by
    rintro h ⟨hi, j, h1, h2, h3, h4⟩
    exact h ⟨hi, j, h1, by omega, h3, h4⟩
  by_cases h0 : W (1 + k) = 0
  · rw [if_pos h0]
    constructor
    · rintro ⟨hi, j, h1, h2, h3, h4⟩
      by_cases hj : j ≤ k
      · exact (hW i).1 ⟨hi, j, h1, hj, h3, h4⟩
      · have hjk : j = 1 + k := by omega
        subst hjk
        by_cases hd : 1 + k ≤ NumVars ∧ ∃ j, 1 ≤ j ∧ j ≤ k ∧ j < 1 + k ∧ V j = V (1 + k)
        · obtain ⟨_, j', a, b, c, d⟩ := hd
          exact (hW i).1 ⟨hi, j', a, b, by omega, d.trans h4⟩
        · have hv : V (1 + k) = 0 := by rw [← (hW (1 + k)).2 hd]; exact h0
          rcases hzero_or i with hz | hz
          · exact hz
          · rw [hz, ← h4, hv]
    · intro h
      exact (hW i).2 (hmono h)
  · rw [if_neg h0, removeDuplicatesOf_apply]
    have hk1 : W (1 + k) = V (1 + k) := by
      rcases hzero_or (1 + k) with hz | hz
      · exact absurd hz h0
      · exact hz
    constructor
    · rintro ⟨hi, j, h1, h2, h3, h4⟩
      by_cases hc : 1 + k < i ∧ i ≤ NumVars ∧ W i = W (1 + k)
      · rw [if_pos hc]
      · rw [if_neg hc]
        by_cases hj : j ≤ k
        · exact (hW i).1 ⟨hi, j, h1, hj, h3, h4⟩
        · have hjk : j = 1 + k := by omega
          subst hjk
          rcases hzero_or i with hz | hz
          · exact hz
          · exact absurd ⟨h3, hi, by rw [hz, hk1, h4]⟩ hc
    · intro h
      have hWi := (hW i).2 (hmono h)
      by_cases hc : 1 + k < i ∧ i ≤ NumVars ∧ W i = W (1 + k)
      · exfalso
        apply h
        refine ⟨hc.2.1, 1 + k, by omega, by omega, hc.1, ?_⟩
        rw [← hk1, ← hc.2.2, hWi]
      · rw [if_neg hc, hWi]

theorem checkForDuplicates_fold (NumVars : Nat) (V : Nat → Nat) :
    ∀ k i,
      ((i ≤ NumVars ∧ ∃ j, 1 ≤ j ∧ j ≤ k ∧ j < i ∧ V j = V i) →
        ((List.range' 1 k).foldl
          (fun V iKey => if V iKey = 0 then V else removeDuplicatesOf iKey NumVars V) V) i = 0) ∧
      (¬ (i ≤ NumVars ∧ ∃ j, 1 ≤ j ∧ j ≤ k ∧ j < i ∧ V j = V i) →
        ((List.range' 1 k).foldl
          (fun V iKey => if V iKey = 0 then V else removeDuplicatesOf iKey NumVars V) V) i
          = V i) := by
  intro k
  induction k with
  | zero =>
    intro i
    refine ⟨?_, fun _ => rfl⟩
    rintro ⟨_, j, h1, h2, _, _⟩
    omega
  | succ k ih =>
    intro i
    rw [List.range'_1_concat, List.foldl_append]
    simp only [List.foldl_cons, List.foldl_nil]
    generalize (List.range' 1 k).foldl
      (fun V iKey => if V iKey = 0 then V else removeDuplicatesOf iKey NumVars V) V = W at ih ⊢
    exact checkForDuplicates_step NumVars k V W ih i

/-- The duplicate check in closed form: a position in use that repeats the index of an earlier
position holds 0 afterwards, every other position holds what it held. -/
theorem checkForDuplicates_apply (NumVars : Nat) (V : Nat → Nat) (i : Nat) :
    ((i ≤ NumVars ∧ ∃ j, 1 ≤ j ∧ j < i ∧ V j = V i) → checkForDuplicates NumVars V i = 0) ∧
    (¬ (i ≤ NumVars ∧ ∃ j, 1 ≤ j ∧ j < i ∧ V j = V i) →
      checkForDuplicates NumVars V i = V i) := by
  obtain ⟨h1, h2⟩ := checkForDuplicates_fold NumVars V NumVars i
  constructor
  · rintro ⟨hi, j, a, b, c⟩
    exact h1 ⟨hi, j, a, by omega, b, c⟩
  · intro h
    apply h2
    rintro ⟨hi, j, a, _, b, c⟩
    exact h ⟨hi, j, a, b, c⟩

theorem checkForDuplicates_survivor (NumVars : Nat) (V : Nat → Nat) (i : Nat)
    (hi : i ≤ NumVars) (h : checkForDuplicates NumVars V i ≠ 0) :
    checkForDuplicates NumVars V i = V i ∧ ∀ j, 1 ≤ j → j < i → V j ≠ V i := by
  obtain ⟨h1, h2⟩ := checkForDuplicates_apply NumVars V i
  have hnd : ¬ (i ≤ NumVars ∧ ∃ j, 1 ≤ j ∧ j < i ∧ V j = V i) := fun hd => h (h1 hd)
  refine ⟨h2 hnd, fun j a b c => hnd ⟨hi, j, a, b, c⟩⟩

theorem checkForDuplicates_first (NumVars : Nat) (V : Nat → Nat) (i : Nat)
    (h1 : 1 ≤ i) (hi : i ≤ NumVars) :
    ∃ j, 1 ≤ j ∧ j ≤ NumVars ∧ checkForDuplicates NumVars V j = V i := by
  have hex : ∃ j, 1 ≤ j ∧ V j = V i := ⟨i, h1, rfl⟩
  have hspec := Nat.find_spec hex
  have hle : Nat.find hex ≤ i := Nat.find_min' hex ⟨h1, rfl⟩
  refine ⟨Nat.find hex, hspec.1, le_trans hle hi, ?_⟩
  rw [(checkForDuplicates_apply NumVars V (Nat.find hex)).2 ?_, hspec.2]
  rintro ⟨_, j, a, b, c⟩
  exact Nat.find_min hex b ⟨a, c.trans hspec.2⟩

theorem attachVariables_eq_foldl (MeterIndex : Nat) (Vars : Nat → Nat) :
    ∀ (l : List Nat) (s : CustomMeterState),
      l.foldl (fun s iKey =>
          if Vars iKey = 0 then s else AttachCustomMeters (Vars iKey) MeterIndex s) s
        = ((l.map Vars).filter (fun v => v != 0)).foldl
            (fun s v => AttachCustomMeters v MeterIndex s) s := by
  intro l
  induction l with
  | nil => intro s; rfl
  | cons a l ih =>
    intro s
    by_cases h : Vars a = 0
    · simp [h, ih]
    · simp [h, ih]

theorem checkForDuplicates_distinct (NumVars : Nat) (V : Nat → Nat) (i j : Nat)
    (h1 : 1 ≤ i) (hij : i < j) (hj : j ≤ NumVars)
    (hi0 : checkForDuplicates NumVars V i ≠ 0) (hj0 : checkForDuplicates NumVars V j ≠ 0) :
    checkForDuplicates NumVars V i ≠ checkForDuplicates NumVars V j := by
  intro heq
  obtain ⟨ei, _⟩ := checkForDuplicates_survivor NumVars V i (by omega) hi0
  obtain ⟨ej, hfirst⟩ := checkForDuplicates_survivor NumVars V j hj hj0
  exact hfirst i h1 hij (by rw [← ei, ← ej, heq])

theorem attachedVariables_nodup (NumVars : Nat) (V : Nat → Nat) :
    (attachedVariables NumVars (checkForDuplicates NumVars V)).Nodup := by
  unfold attachedVariables
  rw [List.filter_map]
  apply List.Nodup.map_on
  · intro x hx y hy hxy
    simp only [List.mem_filter, List.mem_range'_1, Function.comp_apply, bne_iff_ne,
      ne_eq] at hx hy
    by_contra hne
    rcases Nat.lt_or_gt_of_ne hne with hlt | hgt
    · exact checkForDuplicates_distinct NumVars V x y hx.1.1 hlt (by omega) hx.2 hy.2 hxy
    · exact checkForDuplicates_distinct NumVars V y x hy.1.1 hgt (by omega) hy.2 hx.2 hxy.symm
  · exact (List.nodup_range' 1 NumVars).filter _

theorem mem_attachedVariables (NumVars : Nat) (V : Nat → Nat) (v : Nat) :
    v ∈ attachedVariables NumVars (checkForDuplicates NumVars V) ↔
      v ≠ 0 ∧ ∃ i, 1 ≤ i ∧ i ≤ NumVars ∧ V i = v := by
  unfold attachedVariables
  simp only [List.mem_filter, List.mem_map, List.mem_range'_1, bne_iff_ne, ne_eq]
  constructor
  · rintro ⟨⟨i, ⟨h1, h2⟩, rfl⟩, hv⟩
    refine ⟨hv, i, h1, by omega, ?_⟩
    exact (checkForDuplicates_survivor NumVars V i (by omega) hv).1.symm
  · rintro ⟨hv, i, h1, h2, rfl⟩
    obtain ⟨j, a, b, c⟩ := checkForDuplicates_first NumVars V i h1 h2
    exact ⟨⟨j, ⟨a, by omega⟩, c⟩, hv⟩

/-- C14. After the duplicate check over VarsOnCustomMeter(1..NumVars) the positions that do not
hold 0 hold pairwise distinct indices; every index held before is still held at some position;
and a position that does not hold 0 holds what it held before, which no earlier position held.
Hence the attach loop that follows calls AttachCustomMeters with a list of variable numbers
that has no repetition and consists of exactly the non-zero indices held before. -/
theorem checkForDuplicates_keeps_first_occurrences (NumVars : Nat) (V : Nat → Nat) :
    (∀ i j, 1 ≤ i → i < j → j ≤ NumVars →
      checkForDuplicates NumVars V i ≠ 0 → checkForDuplicates NumVars V j ≠ 0 →
      checkForDuplicates NumVars V i ≠ checkForDuplicates NumVars V j) ∧
    (∀ i, 1 ≤ i → i ≤ NumVars →
      ∃ j, 1 ≤ j ∧ j ≤ NumVars ∧ checkForDuplicates NumVars V j = V i) ∧
    (∀ i, 1 ≤ i → i ≤ NumVars → checkForDuplicates NumVars V i ≠ 0 →
      checkForDuplicates NumVars V i = V i ∧ ∀ j, 1 ≤ j → j < i → V j ≠ V i) ∧
    (attachedVariables NumVars (checkForDuplicates NumVars V)).Nodup ∧
    (∀ v, v ∈ attachedVariables NumVars (checkForDuplicates NumVars V) ↔
      v ≠ 0 ∧ ∃ i, 1 ≤ i ∧ i ≤ NumVars ∧ V i = v) ∧
    (∀ st, attachVariables NumVars (checkForDuplicates NumVars V) st
      = (attachedVariables NumVars (checkForDuplicates NumVars V)).foldl
          (fun s v => AttachCustomMeters v st.reg.NumEnergyMeters s) st) :=
  ⟨fun i j h1 hij hj hi0 hj0 => checkForDuplicates_distinct NumVars V i j h1 hij hj hi0 hj0,
   fun i h1 hi => checkForDuplicates_first NumVars V i h1 hi,
   fun i _ hi h => checkForDuplicates_survivor NumVars V i hi h,
   attachedVariables_nodup NumVars V,
   mem_attachedVariables NumVars V,
   fun st => attachVariables_eq_foldl st.reg.NumEnergyMeters _ _ st⟩

/-! ## The attach loop and the source-meter check -/

theorem eq_ok_of_returns (x : Except String CustomMeterState) (h : returns x = true) :
    x = Except.ok (stateOf x) := by
  cases x with
  | error e => simp [returns] at h
  | ok s => rfl

theorem sourceMeterCheckOf_eq (src : VarList) (v : Nat) (ef : Bool) :
    sourceMeterCheckOf src v ef = (ef || (decide (1 ≤ src.NumVars) && !src.any_eq v)) := by
  unfold sourceMeterCheckOf
  cases hn : src.NumVars with
  | zero => simp
  | succ n =>
    rw [List.range'_succ]
    cases src.any_eq v <;> simp

theorem sourceMeterCheck_fold (src : VarList) (Vars : Nat → Nat) :
    ∀ (l : List Nat) (ef : Bool),
      l.foldl (fun ef iKey => sourceMeterCheckOf src (Vars iKey) ef) ef
        = (ef || (decide (1 ≤ src.NumVars) && l.any (fun i => !src.any_eq (Vars i)))) := by
  intro l
  induction l with
  | nil => intro ef; simp
  | cons a l ih =>
    intro ef
    rw [List.foldl_cons, ih, sourceMeterCheckOf_eq, List.any_cons]
    generalize src.any_eq (Vars a) = b
    generalize (l.any fun i => !src.any_eq (Vars i)) = c
    generalize decide (1 ≤ src.NumVars) = d
    cases ef <;> cases b <;> cases c <;> cases d <;> rfl

theorem sourceMeterCheck_eq (src cust : VarList) (ef : Bool) :
    sourceMeterCheck src cust ef
      = (ef || (decide (1 ≤ src.NumVars) &&
          (List.range' 1 cust.NumVars).any (fun i => !src.any_eq (cust.Vars i)))) :=
  sourceMeterCheck_fold src cust.Vars _ ef

/-- C12 at the failing input: the object emptyCustomMeter registers the meter Empty with no
variable on it; the decrement meter Less Heating then takes the variable Heating Energy
(report variable 2) off Empty, which that variable does not feed. GetCustomMeterInput returns
with ErrorsFound = false and the variable attached to the new meter 2. In general the
source-meter check leaves ErrorsFound alone when VarsOnSourceMeter is empty, and sets it for a
variable missing from VarsOnSourceMeter when there is at least one variable on the source
meter. -/
theorem GetCustomMeterInput_misses_empty_source_meter :
    (GetCustomMeterInput sampleLookup [emptyCustomMeter] [heatingDecrementMeter "Empty"]
        noTables).toOption.map CustomMeterState.summary
      = some (false, [("Empty", "C"), ("Less Heating", "J")], [[], [2], []]) ∧
    (∀ (src cust : VarList) (ef : Bool), src.NumVars = 0 →
      sourceMeterCheck src cust ef = ef) ∧
    (∀ (src cust : VarList) (ef : Bool) (i : Nat), 1 ≤ src.NumVars →
      1 ≤ i → i ≤ cust.NumVars → src.any_eq (cust.Vars i) = false →
      sourceMeterCheck src cust ef = true) := by
  refine ⟨by decide, ?_, ?_⟩
  · intro src cust ef h
    rw [sourceMeterCheck_eq, h]
    simp
  · intro src cust ef i hs h1 hi hv
    rw [sourceMeterCheck_eq]
    have hany : (List.range' 1 cust.NumVars).any (fun i => !src.any_eq (cust.Vars i)) = true := by
      rw [List.any_eq_true]
      exact ⟨i, by rw [List.mem_range'_1]; omega, by simp [hv]⟩
    simp [hs, hany]

theorem AttachCustomMeters_frame (w m : Nat) (st : CustomMeterState) :
    (AttachCustomMeters w m st).reg = st.reg ∧
    (AttachCustomMeters w m st).ErrorsFound = st.ErrorsFound ∧
    (AttachCustomMeters w m st).BigErrorsFound = st.BigErrorsFound ∧
    (AttachCustomMeters w m st).MeterCreated = st.MeterCreated ∧
    (AttachCustomMeters w m st).MeterUnits = st.MeterUnits ∧
    (AttachCustomMeters w m st).VarsOnCustomMeter = st.VarsOnCustomMeter ∧
    (AttachCustomMeters w m st).WhichMeter = st.WhichMeter := by
  unfold AttachCustomMeters
  split <;> exact ⟨rfl, rfl, rfl, rfl, rfl, rfl, rfl⟩

theorem attach_foldl_frame (m : Nat) :
    ∀ (l : List Nat) (st : CustomMeterState),
      (l.foldl (fun s v => AttachCustomMeters v m s) st).reg = st.reg ∧
      (l.foldl (fun s v => AttachCustomMeters v m s) st).ErrorsFound = st.ErrorsFound ∧
      (l.foldl (fun s v => AttachCustomMeters v m s) st).BigErrorsFound = st.BigErrorsFound ∧
      (l.foldl (fun s v => AttachCustomMeters v m s) st).MeterCreated = st.MeterCreated ∧
      (l.foldl (fun s v => AttachCustomMeters v m s) st).MeterUnits = st.MeterUnits ∧
      (l.foldl (fun s v => AttachCustomMeters v m s) st).VarsOnCustomMeter
        = st.VarsOnCustomMeter ∧
      (l.foldl (fun s v => AttachCustomMeters v m s) st).WhichMeter = st.WhichMeter := by
  intro l
  induction l with
  | nil => intro st; exact ⟨rfl, rfl, rfl, rfl, rfl, rfl, rfl⟩
  | cons a l ih =>
    intro st
    obtain ⟨a1, a2, a3, a4, a5, a6, a7⟩ := ih (AttachCustomMeters a m st)
    obtain ⟨b1, b2, b3, b4, b5, b6, b7⟩ := AttachCustomMeters_frame a m st
    exact ⟨a1.trans b1, a2.trans b2, a3.trans b3, a4.trans b4, a5.trans b5, a6.trans b6,
      a7.trans b7⟩

theorem checkForDuplicates_zero (V : Nat → Nat) : checkForDuplicates 0 V = V := rfl

theorem finishCustomMeter_frame (st : CustomMeterState) :
    (finishCustomMeter st).reg = st.reg ∧
    (finishCustomMeter st).ErrorsFound = st.ErrorsFound ∧
    (finishCustomMeter st).BigErrorsFound = st.BigErrorsFound ∧
    (finishCustomMeter st).MeterCreated = st.MeterCreated ∧
    (finishCustomMeter st).MeterUnits = st.MeterUnits ∧
    (finishCustomMeter st).VarsOnCustomMeter.NumVars = st.VarsOnCustomMeter.NumVars ∧
    (finishCustomMeter st).WhichMeter = st.WhichMeter := by
  unfold finishCustomMeter attachVariables
  simp only [attachVariables_eq_foldl]
  obtain ⟨a1, a2, a3, a4, a5, a6, a7⟩ := attach_foldl_frame st.reg.NumEnergyMeters
    (List.filter (fun v => v != 0)
      (List.map (checkForDuplicates st.VarsOnCustomMeter.NumVars st.VarsOnCustomMeter.Vars)
        (List.range' 1 st.VarsOnCustomMeter.NumVars)))
    { st with VarsOnCustomMeter :=
        { st.VarsOnCustomMeter with
          Vars := checkForDuplicates st.VarsOnCustomMeter.NumVars st.VarsOnCustomMeter.Vars } }
  exact ⟨a1, a2, a3, a4, a5, by rw [a6], a7⟩

/-- With no variable on VarsOnCustomMeter the end of an object changes nothing. -/
theorem finishCustomMeter_of_no_variable (st : CustomMeterState)
    (h : st.VarsOnCustomMeter.NumVars = 0) : finishCustomMeter st = st := by
  unfold finishCustomMeter attachVariables
  rw [h]
  rfl

theorem forEachOrFatal_append {α σ : Type} (body : α → σ → Except String σ) :
    ∀ (l1 l2 : List α) (st st1 : σ), forEachOrFatal body l1 st = Except.ok st1 →
      forEachOrFatal body (l1 ++ l2) st = forEachOrFatal body l2 st1 := by
  intro l1
  induction l1 with
  | nil =>
    intro l2 st st1 h
    simp only [forEachOrFatal, Except.ok.injEq] at h
    subst h
    rfl
  | cons a l ih =>
    intro l2 st st1 h
    simp only [List.cons_append, forEachOrFatal] at h ⊢
    cases hb : body a st with
    | error e => rw [hb] at h; simp at h
    | ok s =>
      rw [hb] at h
      simp only at h ⊢
      exact ih l2 s st1 h

theorem set_BigErrorsFound_of_true (st : CustomMeterState) (h : st.BigErrorsFound = true) :
    { st with BigErrorsFound := true } = st := by
  cases st
  simp only at h
  subst h
  rfl

theorem processEntry_blank (env : CustomMeterLookup) (Decrement : Bool)
    (Name ResourceType : String) (e : CustomMeterEntry) (st : CustomMeterState)
    (h : e.VarNameBlank = true) :
    processEntry env Decrement Name ResourceType e st
      = Except.ok { st with BigErrorsFound := true } := by
  simp [processEntry, h]

theorem processEntry_skipped (env : CustomMeterLookup) (Decrement : Bool)
    (Name ResourceType : String) (e : CustomMeterEntry) (st : CustomMeterState)
    (h : st.BigErrorsFound = true) :
    processEntry env Decrement Name ResourceType e st = Except.ok st := by
  by_cases hb : e.VarNameBlank = true
  · rw [processEntry_blank env Decrement Name ResourceType e st hb,
      set_BigErrorsFound_of_true st h]
  · simp [processEntry, hb, h]

theorem fieldLoop_skipped (env : CustomMeterLookup) (Decrement : Bool)
    (Name ResourceType : String) (entries : List CustomMeterEntry) (st : CustomMeterState)
    (h : st.BigErrorsFound = true) :
    fieldLoop env Decrement Name ResourceType entries st = Except.ok st := by
  unfold fieldLoop
  induction entries with
  | nil => rfl
  | cons e rest ih =>
    simp only [forEachOrFatal, processEntry_skipped env Decrement Name ResourceType e st h]
    exact ih

theorem processEntry_not_found (env : CustomMeterLookup) (Decrement : Bool)
    (Name ResourceType : String) (e : CustomMeterEntry) (st : CustomMeterState)
    (hb : e.VarNameBlank = false) (hbig : st.BigErrorsFound = false)
    (h : (env.GetVariableKeyCountandType st (stripUnits e.VarName)).TypeVar = VarType_NotFound) :
    processEntry env Decrement Name ResourceType e st = Except.ok st := by
  simp [processEntry, hb, hbig, h]

theorem createCustomMeter_of_created (Decrement : Bool) (Name ResourceType UnitsVar : String)
    (st : CustomMeterState) (h : st.MeterCreated = true) :
    createCustomMeter Decrement Name ResourceType UnitsVar st = Except.ok st := by
  simp [createCustomMeter, h]

theorem SameMeters_refl (st : CustomMeterState) : SameMeters st st :=
  ⟨rfl, rfl, rfl, rfl, rfl, rfl, rfl⟩

theorem SameMeters_trans {a b c : CustomMeterState} (h1 : SameMeters a b)
    (h2 : SameMeters b c) : SameMeters a c := by
  obtain ⟨a1, a2, a3, a4, a5, a6, a7⟩ := h1
  obtain ⟨b1, b2, b3, b4, b5, b6, b7⟩ := h2
  exact ⟨b1.trans a1, b2.trans a2, b3.trans a3, b4.trans a4, b5.trans a5, b6.trans a6,
    b7.trans a7⟩

/-- The part of a pass of the field loop that follows the creation of the meter. -/
theorem processEntry_after_creation (env : CustomMeterLookup) (Decrement : Bool)
    (Name ResourceType : String) (e : CustomMeterEntry) (st st1 : CustomMeterState)
    (hb : e.VarNameBlank = false) (hbig : st.BigErrorsFound = false)
    (hf : (env.GetVariableKeyCountandType st (stripUnits e.VarName)).TypeVar
      ≠ VarType_NotFound)
    (hc : createCustomMeter Decrement Name ResourceType
      (env.GetVariableKeyCountandType st (stripUnits e.VarName)).UnitsVar st = Except.ok st1) :
    ∃ st2, processEntry env Decrement Name ResourceType e st = Except.ok st2 ∧
      SameMeters st1 st2 ∧
      (sameFstring (env.GetVariableKeyCountandType st (stripUnits e.VarName)).UnitsVar
        st1.MeterUnits = false → st2 = st1) := by
  unfold processEntry
  simp only [hb, hbig, hf, hc, if_false, Bool.false_eq_true]
  by_cases hu : sameFstring (env.GetVariableKeyCountandType st (stripUnits e.VarName)).UnitsVar
      st1.MeterUnits = true
  · simp only [hu, Bool.not_true, if_false, Bool.false_eq_true]
    refine ⟨_, rfl, ?_, fun h => absurd h (by simp)⟩
    split_ifs <;> exact ⟨rfl, rfl, rfl, rfl, rfl, rfl, rfl⟩
  · have hu' : sameFstring (env.GetVariableKeyCountandType st (stripUnits e.VarName)).UnitsVar
        st1.MeterUnits = false := by simpa using hu
    simp only [hu', Bool.not_false, if_true]
    exact ⟨st1, rfl, SameMeters_refl _, fun _ => rfl⟩

/-- Once the meter of the object exists, a pass of the field loop returns and leaves the meter
table, the meter units and the attachment records alone. -/
theorem processEntry_of_created (env : CustomMeterLookup) (Decrement : Bool)
    (Name ResourceType : String) (e : CustomMeterEntry) (st : CustomMeterState)
    (hc : st.MeterCreated = true) :
    ∃ st1, processEntry env Decrement Name ResourceType e st = Except.ok st1 ∧
      st1.reg = st.reg ∧ st1.MeterCreated = true ∧ st1.MeterUnits = st.MeterUnits ∧
      st1.NumVarMeterArrays = st.NumVarMeterArrays ∧
      st1.VarMeterArrays = st.VarMeterArrays ∧ st1.MeterArrayPtr = st.MeterArrayPtr := by
  by_cases hb : e.VarNameBlank = true
  · exact ⟨_, processEntry_blank env Decrement Name ResourceType e st hb, rfl, hc, rfl, rfl,
      rfl, rfl⟩
  · have hb' : e.VarNameBlank = false := by simpa using hb
    by_cases hbig : st.BigErrorsFound = true
    · exact ⟨_, processEntry_skipped env Decrement Name ResourceType e st hbig, rfl, hc, rfl,
        rfl, rfl, rfl⟩
    · have hbig' : st.BigErrorsFound = false := by simpa using hbig
      by_cases hf : (env.GetVariableKeyCountandType st (stripUnits e.VarName)).TypeVar
          = VarType_NotFound
      · exact ⟨_, processEntry_not_found env Decrement Name ResourceType e st hb' hbig' hf,
          rfl, hc, rfl, rfl, rfl, rfl⟩
      · obtain ⟨st2, h2, ⟨a1, a2, a3, a4, a5, a6, _⟩, _⟩ :=
          processEntry_after_creation env Decrement Name ResourceType e st st hb' hbig' hf
            (createCustomMeter_of_created _ _ _ _ st hc)
        exact ⟨st2, h2, a1, a2.trans hc, a3, a4, a5, a6⟩

theorem fieldLoop_of_created (env : CustomMeterLookup) (Decrement : Bool)
    (Name ResourceType : String) (entries : List CustomMeterEntry) :
    ∀ (st : CustomMeterState), st.MeterCreated = true →
      ∃ st1, fieldLoop env Decrement Name ResourceType entries st = Except.ok st1 ∧
        st1.reg = st.reg ∧ st1.MeterCreated = true ∧ st1.MeterUnits = st.MeterUnits ∧
        st1.NumVarMeterArrays = st.NumVarMeterArrays ∧
        st1.VarMeterArrays = st.VarMeterArrays ∧ st1.MeterArrayPtr = st.MeterArrayPtr := by
  unfold fieldLoop
  induction entries with
  | nil => intro st hc; exact ⟨st, rfl, rfl, hc, rfl, rfl, rfl, rfl⟩
  | cons e rest ih =>
    intro st hc
    obtain ⟨s1, h1, a1, a2, a3, a4, a5, a6⟩ :=
      processEntry_of_created env Decrement Name ResourceType e st hc
    obtain ⟨s2, h2, b1, b2, b3, b4, b5, b6⟩ := ih s1 a2
    refine ⟨s2, ?_, b1.trans a1, b2, b3.trans a3, b4.trans a4, b5.trans a5, b6.trans a6⟩
    simp only [forEachOrFatal, h1]
    exact h2

/-- An entry whose units differ from the units of the meter that exists adds nothing. -/
theorem processEntry_units_mismatch (env : CustomMeterLookup) (Decrement : Bool)
    (Name ResourceType : String) (e : CustomMeterEntry) (st : CustomMeterState)
    (hc : st.MeterCreated = true)
    (hu : sameFstring (env.GetVariableKeyCountandType st (stripUnits e.VarName)).UnitsVar
      st.MeterUnits = false) :
    ∃ st1, processEntry env Decrement Name ResourceType e st = Except.ok st1 ∧
      st1.VarsOnCustomMeter = st.VarsOnCustomMeter ∧ st1.reg = st.reg ∧
      st1.MeterCreated = true ∧ st1.MeterUnits = st.MeterUnits := by
  by_cases hb : e.VarNameBlank = true
  · exact ⟨_, processEntry_blank env Decrement Name ResourceType e st hb, rfl, rfl, hc, rfl⟩
  · have hb' : e.VarNameBlank = false := by simpa using hb
    by_cases hbig : st.BigErrorsFound = true
    · exact ⟨_, processEntry_skipped env Decrement Name ResourceType e st hbig, rfl, rfl, hc,
        rfl⟩
    · have hbig' : st.BigErrorsFound = false := by simpa using hbig
      by_cases hf : (env.GetVariableKeyCountandType st (stripUnits e.VarName)).TypeVar
          = VarType_NotFound
      · exact ⟨_, processEntry_not_found env Decrement Name ResourceType e st hb' hbig' hf,
          rfl, rfl, hc, rfl⟩
      · obtain ⟨st2, h2, _, hsame⟩ :=
          processEntry_after_creation env Decrement Name ResourceType e st st hb' hbig' hf
            (createCustomMeter_of_created _ _ _ _ st hc)
        have e2 : st2 = st := hsame hu
        subst e2
        exact ⟨st2, h2, rfl, rfl, hc, rfl⟩

theorem KeepsMeters_of_reg_eq {st st1 : CustomMeterState} (h : st1.reg = st.reg) :
    KeepsMeters st st1 := by
  unfold KeepsMeters
  rw [h]
  exact ⟨le_refl _, fun _ _ _ => rfl⟩

theorem KeepsMeters_trans {a b c : CustomMeterState} (h1 : KeepsMeters a b)
    (h2 : KeepsMeters b c) : KeepsMeters a c :=
  ⟨le_trans h1.1 h2.1, fun i hi1 hi2 =>
    (h2.2 i hi1 (le_trans hi2 h1.1)).trans (h1.2 i hi1 hi2)⟩

theorem AddMeter_of_ok (Name MtrUnits ResourceType EndUse EndUseSub Group : String)
    (reg reg1 : MeterRegistry)
    (h : AddMeter Name MtrUnits ResourceType EndUse EndUseSub Group reg = Except.ok reg1) :
    reg1 = { NumEnergyMeters := reg.NumEnergyMeters + 1
             EnergyMeters := Function.update reg.EnergyMeters (reg.NumEnergyMeters + 1)
               (newMeter Name MtrUnits ResourceType EndUse EndUseSub Group) } := by
  by_cases hex : ∃ i, 1 ≤ i ∧ i ≤ reg.NumEnergyMeters ∧
      sameFstring Name (reg.EnergyMeters i).Name = true
  · obtain ⟨msg, hmsg⟩ :=
      (AddMeter_error_iff Name MtrUnits ResourceType EndUse EndUseSub Group reg).2 hex
    rw [hmsg] at h
    simp at h
  · rw [AddMeter_ok Name MtrUnits ResourceType EndUse EndUseSub Group reg hex] at h
    simpa using h.symm

theorem createCustomMeter_keeps (Decrement : Bool) (Name ResourceType UnitsVar : String)
    (st st1 : CustomMeterState)
    (h : createCustomMeter Decrement Name ResourceType UnitsVar st = Except.ok st1) :
    KeepsMeters st st1 := by
  unfold createCustomMeter at h
  by_cases hc : st.MeterCreated = true
  · simp only [hc, if_true, Except.ok.injEq] at h
    subst h
    exact KeepsMeters_of_reg_eq rfl
  · simp only [hc, if_false, Bool.false_eq_true] at h
    cases hadd : AddMeter Name UnitsVar BlankString BlankString BlankString BlankString
        st.reg with
    | error msg => rw [hadd] at h; simp at h
    | ok reg1 =>
      rw [hadd] at h
      simp only [Except.ok.injEq] at h
      have hreg := AddMeter_of_ok _ _ _ _ _ _ st.reg reg1 hadd
      subst h
      subst hreg
      refine ⟨Nat.le_succ _, fun i _ hi2 => ?_⟩
      have hne : i ≠ st.reg.NumEnergyMeters + 1 := by omega
      simp only [Function.update, hne, dite_false, eq_rec_constant]

theorem processEntry_keeps (env : CustomMeterLookup) (Decrement : Bool)
    (Name ResourceType : String) (e : CustomMeterEntry) (st st1 : CustomMeterState)
    (h : processEntry env Decrement Name ResourceType e st = Except.ok st1) :
    KeepsMeters st st1 := by
  by_cases hb : e.VarNameBlank = true
  · rw [processEntry_blank env Decrement Name ResourceType e st hb] at h
    simp only [Except.ok.injEq] at h
    subst h
    exact KeepsMeters_of_reg_eq rfl
  · have hb' : e.VarNameBlank = false := by simpa using hb
    by_cases hbig : st.BigErrorsFound = true
    · rw [processEntry_skipped env Decrement Name ResourceType e st hbig] at h
      simp only [Except.ok.injEq] at h
      subst h
      exact KeepsMeters_of_reg_eq rfl
    · have hbig' : st.BigErrorsFound = false := by simpa using hbig
      by_cases hf : (env.GetVariableKeyCountandType st (stripUnits e.VarName)).TypeVar
          = VarType_NotFound
      · rw [processEntry_not_found env Decrement Name ResourceType e st hb' hbig' hf] at h
        simp only [Except.ok.injEq] at h
        subst h
        exact KeepsMeters_of_reg_eq rfl
      · cases hc : createCustomMeter Decrement Name ResourceType
            (env.GetVariableKeyCountandType st (stripUnits e.VarName)).UnitsVar st with
        | error msg =>
          unfold processEntry at h
          simp [hb', hbig', hf, hc] at h
        | ok s1 =>
          obtain ⟨s2, h2, ⟨r2, _⟩, _⟩ :=
            processEntry_after_creation env Decrement Name ResourceType e st s1 hb' hbig' hf hc
          rw [h2] at h
          simp only [Except.ok.injEq] at h
          subst h
          exact KeepsMeters_trans (createCustomMeter_keeps _ _ _ _ st s1 hc)
            (KeepsMeters_of_reg_eq r2)

theorem forEachOrFatal_keeps {α : Type} (body : α → CustomMeterState → Except String CustomMeterState)
    (hbody : ∀ a st st1, body a st = Except.ok st1 → KeepsMeters st st1) :
    ∀ (l : List α) (st st1 : CustomMeterState),
      forEachOrFatal body l st = Except.ok st1 → KeepsMeters st st1 := by
  intro l
  induction l with
  | nil =>
    intro st st1 h
    simp only [forEachOrFatal, Except.ok.injEq] at h
    subst h
    exact KeepsMeters_of_reg_eq rfl
  | cons a l ih =>
    intro st st1 h
    simp only [forEachOrFatal] at h
    cases hb : body a st with
    | error e => rw [hb] at h; simp at h
    | ok s =>
      rw [hb] at h
      exact KeepsMeters_trans (hbody a st s hb) (ih s st1 h)

theorem fieldLoop_keeps (env : CustomMeterLookup) (Decrement : Bool)
    (Name ResourceType : String) (entries : List CustomMeterEntry)
    (st st1 : CustomMeterState)
    (h : fieldLoop env Decrement Name ResourceType entries st = Except.ok st1) :
    KeepsMeters st st1 :=
  forEachOrFatal_keeps _ (processEntry_keeps env Decrement Name ResourceType) entries st st1 h

theorem processObject_keeps (env : CustomMeterLookup) (obj : Bool × CustomMeterObject)
    (st st1 : CustomMeterState) (h : processObject env obj st = Except.ok st1) :
    KeepsMeters st st1 := by
  obtain ⟨D, o⟩ := obj
  cases D
  · simp only [processObject, Bool.false_eq_true, if_false] at h
    unfold processCustomMeter at h
    by_cases hv : env.VerifyName (stripUnits o.Name) st.reg = true
    · simp only [hv, if_true, Except.ok.injEq] at h
      subst h
      exact KeepsMeters_of_reg_eq rfl
    · simp only [hv, if_false, Bool.false_eq_true] at h
      cases hl : fieldLoop env false (stripUnits o.Name) o.ResourceType o.entries
          (customStart st) with
      | error msg => rw [hl] at h; simp at h
      | ok s =>
        rw [hl] at h
        simp only [Except.ok.injEq] at h
        subst h
        exact KeepsMeters_trans
          (KeepsMeters_trans (KeepsMeters_of_reg_eq (show (customStart st).reg = st.reg from rfl))
            (fieldLoop_keeps env false _ _ _ _ s hl))
          (KeepsMeters_of_reg_eq (finishCustomMeter_frame s).1)
  · simp only [processObject, if_true] at h
    unfold processCustomDecrementMeter at h
    by_cases hv : env.VerifyName (stripUnits o.Name) st.reg = true
    · simp only [hv, if_true, Except.ok.injEq] at h
      subst h
      exact KeepsMeters_of_reg_eq rfl
    · simp only [hv, if_false, Bool.false_eq_true] at h
      by_cases hw : (decrementStart o st).WhichMeter = 0
      · simp only [hw, if_true, Except.ok.injEq] at h
        subst h
        exact KeepsMeters_of_reg_eq rfl
      · simp only [hw, if_false] at h
        cases hl : fieldLoop env true (decrementMeterName o) o.ResourceType o.entries
            (decrementStart o st) with
        | error msg => rw [hl] at h; simp at h
        | ok s =>
          rw [hl] at h
          simp only [Except.ok.injEq] at h
          subst h
          exact KeepsMeters_trans
            (KeepsMeters_trans (KeepsMeters_of_reg_eq (show (decrementStart o st).reg = st.reg from rfl))
              (fieldLoop_keeps env true _ _ _ _ s hl))
            (KeepsMeters_of_reg_eq (finishCustomMeter_frame s).1)

theorem createCustomMeter_new (Decrement : Bool) (Name ResourceType UnitsVar : String)
    (st : CustomMeterState) (hc : st.MeterCreated = false)
    (hnew : ¬ ∃ i, 1 ≤ i ∧ i ≤ st.reg.NumEnergyMeters ∧
      sameFstring Name (st.reg.EnergyMeters i).Name = true) :
    ∃ st1, createCustomMeter Decrement Name ResourceType UnitsVar st = Except.ok st1 ∧
      st1.reg.NumEnergyMeters = st.reg.NumEnergyMeters + 1 ∧
      (st1.reg.EnergyMeters (st.reg.NumEnergyMeters + 1)).Name = Name ∧
      (st1.reg.EnergyMeters (st.reg.NumEnergyMeters + 1)).Units = UnitsVar ∧
      st1.MeterCreated = true ∧ st1.MeterUnits = UnitsVar := by
  have hadd := AddMeter_ok Name UnitsVar BlankString BlankString BlankString BlankString
    st.reg hnew
  unfold createCustomMeter
  simp only [hc, hadd, Bool.false_eq_true, if_false]
  refine ⟨_, rfl, rfl, ?_, ?_, rfl, rfl⟩
  · simp [Function.update, newMeter]
  · simp [Function.update, newMeter]

theorem fieldLoop_not_found (env : CustomMeterLookup) (Decrement : Bool)
    (Name ResourceType : String) (st : CustomMeterState) (hbig : st.BigErrorsFound = false) :
    ∀ (pre : List CustomMeterEntry),
      (∀ p ∈ pre, p.VarNameBlank = false ∧
        (env.GetVariableKeyCountandType st (stripUnits p.VarName)).TypeVar
          = VarType_NotFound) →
      fieldLoop env Decrement Name ResourceType pre st = Except.ok st := by
  unfold fieldLoop
  intro pre
  induction pre with
  | nil => intro _; rfl
  | cons p rest ih =>
    intro h
    obtain ⟨hb, hf⟩ := h p (List.mem_cons_self _ _)
    simp only [forEachOrFatal,
      processEntry_not_found env Decrement Name ResourceType p st hb hbig hf]
    exact ih (fun q hq => h q (List.mem_cons_of_mem _ hq))

/-- The field loop from its start to its end when the entries before the first one that
resolves are not blank: the meter is registered under the name of the object with the units of
that first entry. -/
theorem fieldLoop_creates_meter (env : CustomMeterLookup) (Decrement : Bool)
    (Name ResourceType : String) (pre : List CustomMeterEntry) (e : CustomMeterEntry)
    (post : List CustomMeterEntry) (st : CustomMeterState)
    (hbig : st.BigErrorsFound = false) (hcreated : st.MeterCreated = false)
    (hpre : ∀ p ∈ pre, p.VarNameBlank = false ∧
      (env.GetVariableKeyCountandType st (stripUnits p.VarName)).TypeVar = VarType_NotFound)
    (he : e.VarNameBlank = false)
    (hf : (env.GetVariableKeyCountandType st (stripUnits e.VarName)).TypeVar
      ≠ VarType_NotFound)
    (hnew : ¬ ∃ i, 1 ≤ i ∧ i ≤ st.reg.NumEnergyMeters ∧
      sameFstring Name (st.reg.EnergyMeters i).Name = true) :
    ∃ st1, fieldLoop env Decrement Name ResourceType (pre ++ e :: post) st = Except.ok st1 ∧
      st1.reg.NumEnergyMeters = st.reg.NumEnergyMeters + 1 ∧
      (st1.reg.EnergyMeters (st.reg.NumEnergyMeters + 1)).Name = Name ∧
      (st1.reg.EnergyMeters (st.reg.NumEnergyMeters + 1)).Units
        = (env.GetVariableKeyCountandType st (stripUnits e.VarName)).UnitsVar := by
  have h1 := fieldLoop_not_found env Decrement Name ResourceType st hbig pre hpre
  obtain ⟨s1, hc1, n1, nm1, u1, c1, _⟩ := createCustomMeter_new Decrement Name ResourceType
    (env.GetVariableKeyCountandType st (stripUnits e.VarName)).UnitsVar st hcreated hnew
  obtain ⟨s2, h2, ⟨r2, m2, _, _, _, _, _⟩, _⟩ :=
    processEntry_after_creation env Decrement Name ResourceType e st s1 he hbig hf hc1
  obtain ⟨s3, h3, r3, _, _, _, _, _⟩ :=
    fieldLoop_of_created env Decrement Name ResourceType post s2 (m2.trans c1)
  refine ⟨s3, ?_, ?_, ?_, ?_⟩
  · unfold fieldLoop at h1 h3 ⊢
    rw [forEachOrFatal_append _ pre (e :: post) st st h1]
    simp only [forEachOrFatal, h2]
    exact h3
  · rw [r3, r2, n1]
  · rw [r3, r2, nm1]
  · rw [r3, r2, u1]

/-- C15. Once the meter of a custom meter object exists, an entry whose resolved units differ
from the meter units adds no variable to VarsOnCustomMeter and changes no meter; the field
loop over this entry and any entries after it returns with the meter table as it was, so the
Units string recorded for the meter when it was created is still there; and the objects
processed after this one, whatever they are, leave that Units string as it is. -/
theorem fieldLoop_drops_entry_with_other_units (env : CustomMeterLookup) (Decrement : Bool)
    (Name ResourceType : String) (e : CustomMeterEntry) (later : List CustomMeterEntry)
    (st : CustomMeterState) (hc : st.MeterCreated = true)
    (hn : 1 ≤ st.reg.NumEnergyMeters)
    (hu : sameFstring (env.GetVariableKeyCountandType st (stripUnits e.VarName)).UnitsVar
      st.MeterUnits = false) :
    (∃ st1, processEntry env Decrement Name ResourceType e st = Except.ok st1 ∧
      st1.VarsOnCustomMeter = st.VarsOnCustomMeter ∧ st1.reg = st.reg) ∧
    (∃ st2, fieldLoop env Decrement Name ResourceType (e :: later) st = Except.ok st2 ∧
      st2.reg = st.reg ∧ st2.MeterUnits = st.MeterUnits ∧
      (st2.reg.EnergyMeters st.reg.NumEnergyMeters).Units
        = (st.reg.EnergyMeters st.reg.NumEnergyMeters).Units ∧
      ∀ (objs : List (Bool × CustomMeterObject)) (st3 : CustomMeterState),
        forEachOrFatal (processObject env) objs (finishCustomMeter st2) = Except.ok st3 →
        (st3.reg.EnergyMeters st.reg.NumEnergyMeters).Units
          = (st.reg.EnergyMeters st.reg.NumEnergyMeters).Units) := by
  obtain ⟨s1, h1, v1, r1, _, _⟩ :=
    processEntry_units_mismatch env Decrement Name ResourceType e st hc hu
  obtain ⟨s2, h2, r2, _, u2, _, _, _⟩ :=
    fieldLoop_of_created env Decrement Name ResourceType (e :: later) st hc
  refine ⟨⟨s1, h1, v1, r1⟩, ⟨s2, h2, r2, u2, by rw [r2], ?_⟩⟩
  intro objs st3 h3
  have hk := forEachOrFatal_keeps _ (processObject_keeps env) objs _ st3 h3
  have hreg : (finishCustomMeter s2).reg = st.reg := (finishCustomMeter_frame s2).1.trans r2
  have := hk.2 st.reg.NumEnergyMeters hn (by rw [hreg])
  rw [this, hreg]

/-- C15 at a sample input: the meter Mixed exists with units C; the entry Heating Energy in J
is dropped, and Lights Energy after it as well; the meter Lights defined afterwards leaves the
units C of Mixed in place. -/
theorem fieldLoop_drops_entry_with_other_units_sample :
    (mixedAfterFirstEntry.reg.EnergyMeters mixedAfterFirstEntry.reg.NumEnergyMeters).Units = "C" ∧
    (∃ st1, processEntry sampleLookup false "Mixed" "Generic" (entryFor "Heating Energy")
        mixedAfterFirstEntry = Except.ok st1 ∧
      st1.VarsOnCustomMeter = mixedAfterFirstEntry.VarsOnCustomMeter ∧
      st1.reg = mixedAfterFirstEntry.reg) ∧
    (∃ st2, fieldLoop sampleLookup false "Mixed" "Generic"
        (entryFor "Heating Energy" :: [entryFor "Lights Energy"]) mixedAfterFirstEntry
          = Except.ok st2 ∧
      st2.reg = mixedAfterFirstEntry.reg ∧
      st2.MeterUnits = mixedAfterFirstEntry.MeterUnits ∧
      (st2.reg.EnergyMeters mixedAfterFirstEntry.reg.NumEnergyMeters).Units
        = (mixedAfterFirstEntry.reg.EnergyMeters
            mixedAfterFirstEntry.reg.NumEnergyMeters).Units ∧
      ∀ (objs : List (Bool × CustomMeterObject)) (st3 : CustomMeterState),
        forEachOrFatal (processObject sampleLookup) objs (finishCustomMeter st2)
          = Except.ok st3 →
        (st3.reg.EnergyMeters mixedAfterFirstEntry.reg.NumEnergyMeters).Units
          = (mixedAfterFirstEntry.reg.EnergyMeters
              mixedAfterFirstEntry.reg.NumEnergyMeters).Units) :=
  ⟨by decide,
   fieldLoop_drops_entry_with_other_units sampleLookup false "Mixed" "Generic"
    (entryFor "Heating Energy") [entryFor "Lights Energy"] mixedAfterFirstEntry
    (by decide) (by decide) (by decide)⟩

/-- C16 (as amended). In a field loop that starts without error flag, when the entries before
the first entry that resolves to a known variable or meter name have a name that is not blank
and the name of the object is not registered yet, the meter is registered with the units of
that first resolved entry, whether or not the entry is then tagged onto the meter. -/
theorem fieldLoop_units_of_first_resolved_entry (env : CustomMeterLookup) (Decrement : Bool)
    (Name ResourceType : String) (pre : List CustomMeterEntry) (e : CustomMeterEntry)
    (post : List CustomMeterEntry) (st : CustomMeterState)
    (hbig : st.BigErrorsFound = false) (hcreated : st.MeterCreated = false)
    (hpre : ∀ p ∈ pre, p.VarNameBlank = false ∧
      (env.GetVariableKeyCountandType st (stripUnits p.VarName)).TypeVar = VarType_NotFound)
    (he : e.VarNameBlank = false)
    (hf : (env.GetVariableKeyCountandType st (stripUnits e.VarName)).TypeVar
      ≠ VarType_NotFound)
    (hnew : ¬ ∃ i, 1 ≤ i ∧ i ≤ st.reg.NumEnergyMeters ∧
      sameFstring Name (st.reg.EnergyMeters i).Name = true) :
    ∃ st1, fieldLoop env Decrement Name ResourceType (pre ++ e :: post) st = Except.ok st1 ∧
      st1.reg.NumEnergyMeters = st.reg.NumEnergyMeters + 1 ∧
      (st1.reg.EnergyMeters (st.reg.NumEnergyMeters + 1)).Name = Name ∧
      (st1.reg.EnergyMeters (st.reg.NumEnergyMeters + 1)).Units
        = (env.GetVariableKeyCountandType st (stripUnits e.VarName)).UnitsVar :=
  fieldLoop_creates_meter env Decrement Name ResourceType pre e post st hbig hcreated hpre he
    hf hnew

/-- C16 (as amended) at a sample input: an unknown name, then the Averaged variable in C, then
the Summed variable in J: the meter has the units C. -/
theorem fieldLoop_units_of_first_resolved_entry_sample :
    ∃ st1, fieldLoop sampleLookup false "Mixed" "Generic"
        ([entryFor "Unknown Name"] ++
          entryFor "Zone Air Temperature" :: [entryFor "Heating Energy"])
        (customStart noTables) = Except.ok st1 ∧
      st1.reg.NumEnergyMeters = (customStart noTables).reg.NumEnergyMeters + 1 ∧
      (st1.reg.EnergyMeters ((customStart noTables).reg.NumEnergyMeters + 1)).Name = "Mixed" ∧
      (st1.reg.EnergyMeters ((customStart noTables).reg.NumEnergyMeters + 1)).Units
        = (sampleLookup.GetVariableKeyCountandType (customStart noTables)
            (stripUnits (entryFor "Zone Air Temperature").VarName)).UnitsVar :=
  fieldLoop_units_of_first_resolved_entry sampleLookup false "Mixed" "Generic"
    [entryFor "Unknown Name"] (entryFor "Zone Air Temperature") [entryFor "Heating Energy"]
    (customStart noTables) rfl rfl (by decide) rfl (by decide)
    (by
      rintro ⟨i, h1, h2, _⟩
      have h0 : (customStart noTables).reg.NumEnergyMeters = 0 := rfl
      omega)

/-- C16 fails as stated: the Averaged variable Zone Air Temperature in front of the Summed
variable Heating Energy is not tagged onto the meter Mixed, yet it determines the units: with
it the meter is registered in C, without it in J, the units of the first entry that can be
tagged. -/
theorem GetCustomMeterInput_untagged_entry_sets_units_counterexample :
    ¬ (((stateOf (GetCustomMeterInput sampleLookup [mixedCustomMeter] [] noTables)).reg.EnergyMeters
          1).Units
        = ((stateOf (GetCustomMeterInput sampleLookup [summedCustomMeter] []
            noTables)).reg.EnergyMeters 1).Units) := by
  decide

/-! ## The deferred error of GetCustomMeterInput -/

theorem forEachOrFatal_append_eq {α σ : Type} (body : α → σ → Except String σ) :
    ∀ (l1 l2 : List α) (st : σ),
      forEachOrFatal body (l1 ++ l2) st
        = (match forEachOrFatal body l1 st with
          | Except.error e => Except.error e
          | Except.ok st1 => forEachOrFatal body l2 st1) := by
  intro l1
  induction l1 with
  | nil => intro l2 st; rfl
  | cons a l ih =>
    intro l2 st
    simp only [List.cons_append, forEachOrFatal]
    cases body a st with
    | error e => rfl
    | ok s => exact ih l2 s

theorem forEachOrFatal_map {α β σ : Type} (f : α → β) (body : β → σ → Except String σ) :
    ∀ (l : List α) (st : σ),
      forEachOrFatal body (l.map f) st = forEachOrFatal (fun a => body (f a)) l st := by
  intro l
  induction l with
  | nil => intro st; rfl
  | cons a l ih =>
    intro st
    simp only [List.map_cons, forEachOrFatal]
    cases body (f a) st with
    | error e => rfl
    | ok s => exact ih s

theorem forEachObject_custom (env : CustomMeterLookup) (l : List CustomMeterObject)
    (st : CustomMeterState) :
    forEachOrFatal (processObject env) (l.map (fun obj => (false, obj))) st
      = forEachOrFatal (processCustomMeter env) l st := by
  rw [forEachOrFatal_map]
  have e1 : (fun a => processObject env (false, a)) = processCustomMeter env := by
    funext a s
    simp [processObject]
  rw [e1]

theorem forEachObject_decrement (env : CustomMeterLookup) (l : List CustomMeterObject)
    (st : CustomMeterState) :
    forEachOrFatal (processObject env) (l.map (fun obj => (true, obj))) st
      = forEachOrFatal (processCustomDecrementMeter env) l st := by
  rw [forEachOrFatal_map]
  have e2 : (fun a => processObject env (true, a)) = processCustomDecrementMeter env := by
    funext a s
    simp [processObject]
  rw [e2]

/-- GetCustomMeterInput as one loop over the objects in order. -/
theorem GetCustomMeterInput_eq (env : CustomMeterLookup)
    (customMeters decrementMeters : List CustomMeterObject) (st : CustomMeterState) :
    GetCustomMeterInput env customMeters decrementMeters st
      = (match forEachOrFatal (processObject env) (objectsInOrder customMeters decrementMeters)
            { st with BigErrorsFound := false } with
        | Except.error msg => Except.error msg
        | Except.ok st2 =>
          Except.ok { st2 with ErrorsFound := st2.ErrorsFound || st2.BigErrorsFound }) := by
  unfold GetCustomMeterInput objectsInOrder
  rw [forEachOrFatal_append_eq, forEachObject_custom]
  cases forEachOrFatal (processCustomMeter env) customMeters
      { st with BigErrorsFound := false } with
  | error e => rfl
  | ok s =>
    simp only [forEachObject_decrement]

/-- What the objects after a blank name field leave alone. -/
theorem processObject_skipped (env : CustomMeterLookup) (obj : Bool × CustomMeterObject)
    (st : CustomMeterState) (h : st.BigErrorsFound = true) :
    ∃ st1, processObject env obj st = Except.ok st1 ∧ st1.BigErrorsFound = true ∧
      st1.reg = st.reg ∧ st1.NumVarMeterArrays = st.NumVarMeterArrays ∧
      st1.VarMeterArrays = st.VarMeterArrays ∧ st1.MeterArrayPtr = st.MeterArrayPtr := by
  obtain ⟨D, o⟩ := obj
  cases D
  · simp only [processObject, Bool.false_eq_true, if_false]
    unfold processCustomMeter
    by_cases hv : env.VerifyName (stripUnits o.Name) st.reg = true
    · simp only [hv, if_true]
      exact ⟨_, rfl, h, rfl, rfl, rfl, rfl⟩
    · simp only [hv, if_false, Bool.false_eq_true]
      rw [fieldLoop_skipped env false _ _ _ (customStart st) h]
      simp only
      rw [finishCustomMeter_of_no_variable (customStart st) rfl]
      exact ⟨_, rfl, h, rfl, rfl, rfl, rfl⟩
  · simp only [processObject, if_true]
    unfold processCustomDecrementMeter
    by_cases hv : env.VerifyName (stripUnits o.Name) st.reg = true
    · simp only [hv, if_true]
      exact ⟨_, rfl, h, rfl, rfl, rfl, rfl⟩
    · simp only [hv, if_false, Bool.false_eq_true]
      by_cases hw : (decrementStart o st).WhichMeter = 0
      · simp only [hw, if_true]
        exact ⟨_, rfl, h, rfl, rfl, rfl, rfl⟩
      · simp only [hw, if_false]
        rw [fieldLoop_skipped env true _ _ _ (decrementStart o st) h]
        simp only
        rw [finishCustomMeter_of_no_variable (decrementStart o st) rfl]
        exact ⟨_, rfl, h, rfl, rfl, rfl, rfl⟩

theorem forEachObject_skipped (env : CustomMeterLookup) :
    ∀ (objs : List (Bool × CustomMeterObject)) (st : CustomMeterState),
      st.BigErrorsFound = true →
      ∃ st1, forEachOrFatal (processObject env) objs st = Except.ok st1 ∧
        st1.BigErrorsFound = true ∧ st1.reg = st.reg ∧
        st1.NumVarMeterArrays = st.NumVarMeterArrays ∧
        st1.VarMeterArrays = st.VarMeterArrays ∧ st1.MeterArrayPtr = st.MeterArrayPtr := by
  intro objs
  induction objs with
  | nil => intro st h; exact ⟨st, rfl, h, rfl, rfl, rfl, rfl⟩
  | cons o rest ih =>
    intro st h
    obtain ⟨s1, h1, a1, a2, a3, a4, a5⟩ := processObject_skipped env o st h
    obtain ⟨s2, h2, b1, b2, b3, b4, b5⟩ := ih s1 a1
    refine ⟨s2, ?_, b1, b2.trans a2, b3.trans a3, b4.trans a4, b5.trans a5⟩
    simp only [forEachOrFatal, h1]
    exact h2

/-- An object whose field loop is entered and returns is processed to its end; the end of the
object registers no meter and keeps BigErrorsFound, and its attachments are those of the
duplicate check and the attach loop. -/
theorem processObject_visited (env : CustomMeterLookup) (obj : Bool × CustomMeterObject)
    (st s : CustomMeterState) (hv : objectVisited env obj st = true)
    (hloop : fieldLoop env obj.1 (objectName obj) obj.2.ResourceType obj.2.entries
      (objectStart obj st) = Except.ok s) :
    ∃ s3, processObject env obj st = Except.ok s3 ∧
      s3.BigErrorsFound = s.BigErrorsFound ∧ s3.reg = s.reg ∧
      s3.NumVarMeterArrays = (finishCustomMeter s).NumVarMeterArrays ∧
      s3.VarMeterArrays = (finishCustomMeter s).VarMeterArrays ∧
      s3.MeterArrayPtr = (finishCustomMeter s).MeterArrayPtr := by
  obtain ⟨D, o⟩ := obj
  obtain ⟨f1, _, f3, _⟩ := finishCustomMeter_frame s
  cases D
  · simp only [objectVisited, Bool.not_false, Bool.true_or, Bool.and_true,
      Bool.not_eq_true'] at hv
    simp only [objectName, objectStart, Bool.false_eq_true, if_false] at hloop
    refine ⟨finishCustomMeter s, ?_, f3, f1, rfl, rfl, rfl⟩
    simp only [processObject, Bool.false_eq_true, if_false]
    unfold processCustomMeter
    simp only [hv, Bool.false_eq_true, if_false, hloop]
  · simp only [objectVisited, Bool.not_true, Bool.false_or, Bool.and_eq_true,
      Bool.not_eq_true', bne_iff_ne, ne_eq] at hv
    simp only [objectName, objectStart, if_true] at hloop
    refine ⟨{ finishCustomMeter s with
        ErrorsFound :=
          sourceMeterCheck
            (sourceMeterVariables (decrementStart o st).WhichMeter (decrementStart o st))
            (finishCustomMeter s).VarsOnCustomMeter (finishCustomMeter s).ErrorsFound },
      ?_, f3, f1, rfl, rfl, rfl⟩
    simp only [processObject, if_true]
    unfold processCustomDecrementMeter
    simp only [hv.1, hv.2, Bool.false_eq_true, if_false, hloop]

/-- The field loop of an object with a blank name field after the entries `epre`: the state it
returns is the state after `epre` with BigErrorsFound set. -/
theorem fieldLoop_blank_entry (env : CustomMeterLookup) (Decrement : Bool)
    (Name ResourceType : String) (epre : List CustomMeterEntry) (e : CustomMeterEntry)
    (epost : List CustomMeterEntry) (st s2 : CustomMeterState) (hb : e.VarNameBlank = true)
    (hpre : fieldLoop env Decrement Name ResourceType epre st = Except.ok s2) :
    fieldLoop env Decrement Name ResourceType (epre ++ e :: epost) st
      = Except.ok { s2 with BigErrorsFound := true } := by
  have h3 := fieldLoop_skipped env Decrement Name ResourceType epost
    { s2 with BigErrorsFound := true } rfl
  unfold fieldLoop at hpre h3 ⊢
  rw [forEachOrFatal_append _ epre (e :: epost) st s2 hpre]
  simp only [forEachOrFatal, processEntry_blank env Decrement Name ResourceType e s2 hb]
  exact h3

/-- The run of GetCustomMeterInput from the object with the blank name field on. -/
theorem GetCustomMeterInput_after_blank (env : CustomMeterLookup)
    (customMeters decrementMeters : List CustomMeterObject) (st : CustomMeterState)
    (pre post : List (Bool × CustomMeterObject)) (obj : Bool × CustomMeterObject)
    (epre epost : List CustomMeterEntry) (e : CustomMeterEntry)
    (hobjs : objectsInOrder customMeters decrementMeters = pre ++ obj :: post)
    (hentries : obj.2.entries = epre ++ e :: epost)
    (hblank : e.VarNameBlank = true)
    (hpre : returns (forEachOrFatal (processObject env) pre
      { st with BigErrorsFound := false }) = true)
    (hvisited : objectVisited env obj (stateOf (forEachOrFatal (processObject env) pre
      { st with BigErrorsFound := false })) = true)
    (hepre : returns (fieldLoop env obj.1 (objectName obj) obj.2.ResourceType epre
      (objectStart obj (stateOf (forEachOrFatal (processObject env) pre
        { st with BigErrorsFound := false })))) = true) :
    fieldLoop env obj.1 (objectName obj) obj.2.ResourceType obj.2.entries
        (objectStart obj (stateOf (forEachOrFatal (processObject env) pre
          { st with BigErrorsFound := false })))
      = Except.ok
          { stateOf (fieldLoop env obj.1 (objectName obj) obj.2.ResourceType epre
              (objectStart obj (stateOf (forEachOrFatal (processObject env) pre
                { st with BigErrorsFound := false })))) with BigErrorsFound := true } ∧
    ∃ st1, GetCustomMeterInput env customMeters decrementMeters st = Except.ok st1 ∧
      st1.ErrorsFound = true ∧
      st1.reg = (stateOf (fieldLoop env obj.1 (objectName obj) obj.2.ResourceType epre
        (objectStart obj (stateOf (forEachOrFatal (processObject env) pre
          { st with BigErrorsFound := false }))))).reg ∧
      st1.NumVarMeterArrays = (finishCustomMeter
        { stateOf (fieldLoop env obj.1 (objectName obj) obj.2.ResourceType epre
            (objectStart obj (stateOf (forEachOrFatal (processObject env) pre
              { st with BigErrorsFound := false })))) with
          BigErrorsFound := true }).NumVarMeterArrays ∧
      st1.VarMeterArrays = (finishCustomMeter
        { stateOf (fieldLoop env obj.1 (objectName obj) obj.2.ResourceType epre
            (objectStart obj (stateOf (forEachOrFatal (processObject env) pre
              { st with BigErrorsFound := false })))) with
          BigErrorsFound := true }).VarMeterArrays ∧
      st1.MeterArrayPtr = (finishCustomMeter
        { stateOf (fieldLoop env obj.1 (objectName obj) obj.2.ResourceType epre
            (objectStart obj (stateOf (forEachOrFatal (processObject env) pre
              { st with BigErrorsFound := false })))) with
          BigErrorsFound := true }).MeterArrayPtr := by
  have h1 := eq_ok_of_returns _ hpre
  generalize stateOf (forEachOrFatal (processObject env) pre
    { st with BigErrorsFound := false }) = s1 at h1 hvisited hepre ⊢
  have h2 := eq_ok_of_returns _ hepre
  generalize stateOf (fieldLoop env obj.1 (objectName obj) obj.2.ResourceType epre
    (objectStart obj s1)) = s2 at h2 ⊢
  have hloop : fieldLoop env obj.1 (objectName obj) obj.2.ResourceType obj.2.entries
      (objectStart obj s1) = Except.ok { s2 with BigErrorsFound := true } := by
    rw [hentries]
    exact fieldLoop_blank_entry env obj.1 _ _ epre e epost _ s2 hblank h2
  refine ⟨hloop, ?_⟩
  obtain ⟨s3, h3, b3, r3, n3, v3, p3⟩ := processObject_visited env obj s1 _ hvisited hloop
  obtain ⟨s4, h4, b4, r4, n4, v4, p4⟩ := forEachObject_skipped env post s3 b3
  have hrun : forEachOrFatal (processObject env) (objectsInOrder customMeters decrementMeters)
      { st with BigErrorsFound := false } = Except.ok s4 := by
    rw [hobjs, forEachOrFatal_append _ pre (obj :: post) _ s1 h1]
    simp only [forEachOrFatal, h3]
    exact h4
  refine ⟨{ s4 with ErrorsFound := s4.ErrorsFound || s4.BigErrorsFound }, ?_, ?_, ?_, ?_, ?_,
    ?_⟩
  · rw [GetCustomMeterInput_eq, hrun]
  · simp [b4]
  · exact r4.trans r3
  · exact n4.trans n3
  · exact v4.trans v3
  · exact p4.trans p3

/-- C17. Let the field loop of a Meter:Custom or Meter:CustomDecrement object reach an entry
whose name field is blank: the objects before it are processed without fatal error, the
object is entered (its name verified, its source meter found) and the entries `epre` before
the blank one are processed. Then the field loop runs over all entries of the object and
returns the state it had after `epre` with BigErrorsFound set, so the blank entry and the
entries after it add nothing; GetCustomMeterInput runs over all remaining objects and returns
with ErrorsFound = true, no further meter registered and no attachment other than those of the
variables collected in `epre`; and UpdateMeterReporting goes through its four request loops
and ReportMeterDetails and then ends in its fatal error. -/
theorem UpdateMeterReporting_fatal_after_blank_name (env : CustomMeterLookup)
    (customMeters decrementMeters : List CustomMeterObject) (requests : MeterRequests)
    (MinReportFrequency : Int) (ErrorsLogged : Bool) (st : CustomMeterState)
    (pre post : List (Bool × CustomMeterObject)) (obj : Bool × CustomMeterObject)
    (epre epost : List CustomMeterEntry) (e : CustomMeterEntry)
    (hobjs : objectsInOrder customMeters decrementMeters = pre ++ obj :: post)
    (hentries : obj.2.entries = epre ++ e :: epost)
    (hblank : e.VarNameBlank = true)
    (hpre : returns (forEachOrFatal (processObject env) pre
      { st with BigErrorsFound := false }) = true)
    (hvisited : objectVisited env obj (stateOf (forEachOrFatal (processObject env) pre
      { st with BigErrorsFound := false })) = true)
    (hepre : returns (fieldLoop env obj.1 (objectName obj) obj.2.ResourceType epre
      (objectStart obj (stateOf (forEachOrFatal (processObject env) pre
        { st with BigErrorsFound := false })))) = true) :
    fieldLoop env obj.1 (objectName obj) obj.2.ResourceType obj.2.entries
        (objectStart obj (stateOf (forEachOrFatal (processObject env) pre
          { st with BigErrorsFound := false })))
      = Except.ok
          { stateOf (fieldLoop env obj.1 (objectName obj) obj.2.ResourceType epre
              (objectStart obj (stateOf (forEachOrFatal (processObject env) pre
                { st with BigErrorsFound := false })))) with BigErrorsFound := true } ∧
    returns (GetCustomMeterInput env customMeters decrementMeters st) = true ∧
    (stateOf (GetCustomMeterInput env customMeters decrementMeters st)).ErrorsFound = true ∧
    (stateOf (GetCustomMeterInput env customMeters decrementMeters st)).reg
      = (stateOf (fieldLoop env obj.1 (objectName obj) obj.2.ResourceType epre
          (objectStart obj (stateOf (forEachOrFatal (processObject env) pre
            { st with BigErrorsFound := false }))))).reg ∧
    (stateOf (GetCustomMeterInput env customMeters decrementMeters st)).VarMeterArrays
      = (finishCustomMeter
          { stateOf (fieldLoop env obj.1 (objectName obj) obj.2.ResourceType epre
              (objectStart obj (stateOf (forEachOrFatal (processObject env) pre
                { st with BigErrorsFound := false })))) with
            BigErrorsFound := true }).VarMeterArrays ∧
    (stateOf (GetCustomMeterInput env customMeters decrementMeters st)).MeterArrayPtr
      = (finishCustomMeter
          { stateOf (fieldLoop env obj.1 (objectName obj) obj.2.ResourceType epre
              (objectStart obj (stateOf (forEachOrFatal (processObject env) pre
                { st with BigErrorsFound := false })))) with
            BigErrorsFound := true }).MeterArrayPtr ∧
    UpdateMeterReporting env customMeters decrementMeters requests MinReportFrequency
        ErrorsLogged st
      = requestEvents MinReportFrequency
          (stateOf (GetCustomMeterInput env customMeters decrementMeters st)).reg requests ++
        [MeterReportingEvent.ReportMeterDetails,
         MeterReportingEvent.ShowFatalError meterSpecificationFatal] := by
  obtain ⟨hloop, st1, hrun, hE, hr, _, hv, hp⟩ := GetCustomMeterInput_after_blank env
    customMeters decrementMeters st pre post obj epre epost e hobjs hentries hblank hpre
    hvisited hepre
  refine ⟨hloop, ?_, ?_, ?_, ?_, ?_, ?_⟩
  · rw [hrun]; rfl
  · rw [hrun]; exact hE
  · rw [hrun]; exact hr
  · rw [hrun]; exact hv
  · rw [hrun]; exact hp
  · unfold UpdateMeterReporting
    rw [hrun]
    simp [stateOf, hE]

set_option maxRecDepth 100000 in
/-- C17 at a sample input: the object brokenCustomMeter, with a blank name field after its
first entry, between the Meter:Custom object Lights and a decrement meter on Lights. The
requests are processed, then ReportMeterDetails, then the fatal error. -/
theorem UpdateMeterReporting_fatal_after_blank_name_sample :
    UpdateMeterReporting sampleLookup [lightsCustomMeter, brokenCustomMeter]
        [heatingDecrementMeter "Lights"] sampleRequests ReportEach false noTables
      = requestEvents ReportEach
          (stateOf (GetCustomMeterInput sampleLookup [lightsCustomMeter, brokenCustomMeter]
            [heatingDecrementMeter "Lights"] noTables)).reg sampleRequests ++
        [MeterReportingEvent.ReportMeterDetails,
         MeterReportingEvent.ShowFatalError meterSpecificationFatal] :=
  (UpdateMeterReporting_fatal_after_blank_name sampleLookup
    [lightsCustomMeter, brokenCustomMeter] [heatingDecrementMeter "Lights"] sampleRequests
    ReportEach false noTables [(false, lightsCustomMeter)]
    [(true, heatingDecrementMeter "Lights")] (false, brokenCustomMeter)
    [entryFor "Heating Energy"] [entryFor "Lights Energy"] blankEntry rfl rfl rfl
    (by decide) (by decide) (by decide)).2.2.2.2.2.2

/-! ## AttachMeters -/

theorem toUpper_ne_blank (c : Char) (h : c ≠ ' ') : c.toUpper ≠ ' ' := by
  unfold Char.toUpper
  simp only
  split
  · rename_i hc
    intro heq
    have h2 := congrArg Char.toNat heq
    have hv : Nat.isValidChar (c.toNat - 32) := by
      left
      omega
    rw [Char.ofNat, dif_pos hv] at h2
    have h3 : (Char.ofNatAux (c.toNat - 32) hv).toNat = c.toNat - 32 := by
      simp [Char.ofNatAux, Char.toNat, UInt32.toNat]
    rw [h3] at h2
    have : (' ' : Char).toNat = 32 := rfl
    omega
  · exact h

theorem dropWhile_head_false {α : Type} (p : α → Bool) :
    ∀ (x : List α) (c : α) (t : List α), x.dropWhile p = c :: t → p c = false := by
  intro x
  induction x with
  | nil => intro c t h; simp at h
  | cons a x ih =>
    intro c t h
    by_cases ha : p a = true
    · rw [List.dropWhile_cons_of_pos ha] at h
      exact ih c t h
    · rw [List.dropWhile_cons_of_neg ha] at h
      have hac : a = c := (List.cons.inj h).1
      rw [← hac]
      simpa using ha

/-- An upper-cased string has no blank padding left. -/
theorem trimBlanks_MakeUPPERCase (s : String) :
    trimBlanks ⟨MakeUPPERCase s⟩ = MakeUPPERCase s := by
  unfold MakeUPPERCase trimBlanks
  simp only [List.reverse_reverse, List.map_reverse]
  congr 1
  cases hd : s.data.reverse.dropWhile (fun c => c == ' ') with
  | nil => rfl
  | cons c t =>
    have hc := dropWhile_head_false _ _ c t hd
    have hc1 : c ≠ ' ' := by simpa using hc
    have hc2 : c.toUpper ≠ ' ' := toUpper_ne_blank c hc1
    simp only [List.map_cons]
    rw [List.dropWhile_cons_of_neg (by simpa using hc2)]

theorem SameString_trans (a b c : String) (h1 : SameString a b = true)
    (h2 : SameString b c = true) : SameString a c = true := by
  simp only [SameString, beq_iff_eq] at h1 h2 ⊢
  rw [h1, h2]

theorem sameFstring_UPPERCase_iff (G : String) (k : String)
    (hk : trimBlanks k = MakeUPPERCase k) :
    sameFstring (UPPERCase G) k = SameString G k := by
  unfold sameFstring UPPERCase SameString
  rw [trimBlanks_MakeUPPERCase, hk]

/-- The group ValidateNStandardizeMeterTitles leaves is Building exactly when the group it
received is Building ignoring case, provided the group is legal. -/
theorem standardGroup_Building (G : String) (h : (standardGroup G).2 = false) :
    SameString (standardGroup G).1 "Building" = SameString G "Building" ∧
    sameFstring (standardGroup G).1 "Building" = SameString G "Building" := by
  have hB : sameFstring (UPPERCase G) "BUILDING" = SameString G "BUILDING" :=
    sameFstring_UPPERCase_iff G "BUILDING" (by decide)
  have hBB : SameString G "BUILDING" = SameString G "Building" := by
    unfold SameString
    have : MakeUPPERCase "BUILDING" = MakeUPPERCase "Building" := by decide
    rw [this]
  unfold standardGroup at h ⊢
  by_cases hb : isBlankString (UPPERCase G) = true
  · simp only [hb, if_true]
    have hne : SameString G "Building" = false := by
      cases hs : SameString G "Building" with
      | false => rfl
      | true =>
        exfalso
        simp only [SameString, beq_iff_eq] at hs
        simp only [isBlankString, UPPERCase, trimBlanks_MakeUPPERCase, hs, beq_iff_eq] at hb
        revert hb
        decide
    have hne2 : sameFstring G "Building" = false := by
      cases hs : sameFstring G "Building" with
      | false => rfl
      | true =>
        have := sameFstring_imp_SameString G "Building" hs
        rw [hne] at this
        exact absurd this (by simp)
    exact ⟨trivial, by rw [hne2, hne]⟩
  · simp only [hb, if_false, Bool.false_eq_true] at h ⊢
    cases h1 : sameFstring (UPPERCase G) "BUILDING" with
    | true =>
      have hsel : selectCase GroupTable (UPPERCase G) = some "Building" := by
        simp [selectCase, GroupTable, caseMatches, h1]
      rw [hsel]
      simp only
      rw [← hBB, ← hB, h1]
      exact ⟨by decide, by decide⟩
    | false =>
      rw [← hBB, ← hB, h1]
      cases h2 : caseMatches (UPPERCase G) ["HVAC", "SYSTEM"] with
      | true =>
        have hsel : selectCase GroupTable (UPPERCase G) = some "HVAC" := by
          simp [selectCase, GroupTable, caseMatches, h1] at h2 ⊢
          simp [List.find?, h1, h2, caseMatches]
        rw [hsel]
        dsimp only
        exact ⟨by decide, by decide⟩
      | false =>
        cases h3 : caseMatches (UPPERCase G) ["PLANT"] with
        | true =>
          have hsel : selectCase GroupTable (UPPERCase G) = some "Plant" := by
            simp [selectCase, GroupTable, List.find?, caseMatches, h1] at h2 h3 ⊢
            simp [h1, h2, h3]
          rw [hsel]
          dsimp only
          exact ⟨by decide, by decide⟩
        | false =>
          have hsel : selectCase GroupTable (UPPERCase G) = none := by
            simp [selectCase, GroupTable, List.find?, caseMatches, h1] at h2 h3 ⊢
            simp [h1, h2, h3]
          rw [hsel] at h
          simp at h

theorem take_set_succ {α : Type} (v : α) :
    ∀ (l : List α) (k : Nat), k < l.length → (l.set k v).take (k + 1) = l.take k ++ [v] := by
  intro l
  induction l with
  | nil => intro k h; simp at h
  | cons a l ih =>
    intro k h
    cases k with
    | zero => simp
    | succ k =>
      simp only [List.set_cons_succ, List.take_succ_cons, List.cons_append, List.cons.injEq,
        true_and]
      exact ih k (by simpa using h)

theorem putOnMeter_of_found (reg : MeterRegistry) (n : String) (a : MeterArrayType)
    (h : reg.hasMeter n = true) :
    putOnMeter reg n a =
      { a with NumOnMeters := a.NumOnMeters + 1
               OnMeters := a.OnMeters.set a.NumOnMeters
                 (FindItem n reg.Names reg.NumEnergyMeters) } := by
  have h0 : FindItem n reg.Names reg.NumEnergyMeters ≠ 0 := by
    simpa [MeterRegistry.hasMeter] using h
  simp [putOnMeter, h0]

theorem putOnMeter_of_not_found (reg : MeterRegistry) (n : String) (a : MeterArrayType)
    (h : reg.hasMeter n = false) : putOnMeter reg n a = a := by
  have h0 : FindItem n reg.Names reg.NumEnergyMeters = 0 := by
    simpa [MeterRegistry.hasMeter] using h
  simp [putOnMeter, h0]

/-- The lookups of AttachMeters for names that are all registered, while the array has room:
the record gets the position of each name, in order. -/
theorem putOnMeter_fold (reg : MeterRegistry) :
    ∀ (names : List String) (a : MeterArrayType),
      (∀ n ∈ names, reg.hasMeter n = true) →
      a.NumOnMeters + names.length ≤ a.OnMeters.length →
      (names.foldl (fun a n => putOnMeter reg n a) a).NumOnMeters
          = a.NumOnMeters + names.length ∧
      (names.foldl (fun a n => putOnMeter reg n a) a).OnMeters.length = a.OnMeters.length ∧
      (names.foldl (fun a n => putOnMeter reg n a) a).OnMeters.take
          (a.NumOnMeters + names.length)
        = a.OnMeters.take a.NumOnMeters ++
            names.map (fun n => FindItem n reg.Names reg.NumEnergyMeters) ∧
      (names.foldl (fun a n => putOnMeter reg n a) a).RepVariable = a.RepVariable ∧
      (names.foldl (fun a n => putOnMeter reg n a) a).NumOnCustomMeters
          = a.NumOnCustomMeters ∧
      (names.foldl (fun a n => putOnMeter reg n a) a).OnCustomMeters = a.OnCustomMeters := by
  intro names
  induction names with
  | nil =>
    intro a _ _
    simp
  | cons n names ih =>
    intro a hall hroom
    have hn := hall n (List.mem_cons_self _ _)
    have hlen : a.NumOnMeters < a.OnMeters.length := by
      simp only [List.length_cons] at hroom
      omega
    simp only [List.foldl_cons, putOnMeter_of_found reg n a hn]
    obtain ⟨i1, i2, i3, i4, i5, i6⟩ := ih
      { a with NumOnMeters := a.NumOnMeters + 1
               OnMeters := a.OnMeters.set a.NumOnMeters
                 (FindItem n reg.Names reg.NumEnergyMeters) }
      (fun m hm => hall m (List.mem_cons_of_mem _ hm))
      (by simp only [List.length_set, List.length_cons] at hroom ⊢; omega)
    simp only [List.length_set] at i2
    simp only [take_set_succ _ a.OnMeters a.NumOnMeters hlen] at i3
    refine ⟨by rw [i1]; simp only [List.length_cons]; omega, i2, ?_, i4, i5, i6⟩
    have e : a.NumOnMeters + (n :: names).length = a.NumOnMeters + 1 + names.length := by
      simp only [List.length_cons]; omega
    rw [e, i3]
    simp

theorem fillOnMeters_eq (reg : MeterRegistry) (R E S G Z : String) (a : MeterArrayType) :
    fillOnMeters reg R E S G Z a =
      (if looksUpZoneSubMeter E S G then
        putOnMeter reg (zoneSubMeterName R E S Z)
          ((onMeterNames R E S G Z).foldl (fun a n => putOnMeter reg n a) a)
       else (onMeterNames R E S G Z).foldl (fun a n => putOnMeter reg n a) a) := by
  unfold fillOnMeters onMeterNames looksUpZoneSubMeter zoneSubMeterName
  cases isBlankString G <;> cases SameString G "Building" <;> cases isBlankString E <;>
    cases isBlankString S <;> rfl

theorem onMeterNames_length (R E S G Z : String) :
    (onMeterNames R E S G Z).length ≤ MaxOnMeters ∧
    (looksUpZoneSubMeter E S G = true → (onMeterNames R E S G Z).length = MaxOnMeters) := by
  unfold onMeterNames looksUpZoneSubMeter MaxOnMeters
  cases hG : isBlankString G <;> cases hB : SameString G "Building" <;>
    cases isBlankString E <;> cases isBlankString S <;> simp
  all_goals
    exfalso
    have hb : isBlankString G = false := by
      cases hs : isBlankString G with
      | false => rfl
      | true =>
        exfalso
        simp only [isBlankString, beq_iff_eq] at hs
        simp only [SameString, MakeUPPERCase, hs, beq_iff_eq] at hB
        revert hB
        decide
    rw [hb] at hG
    exact absurd hG (by simp)

theorem FindItem_found (reg : MeterRegistry) (n : String) (h : reg.hasMeter n = true) :
    1 ≤ FindItem n reg.Names reg.NumEnergyMeters ∧
    FindItem n reg.Names reg.NumEnergyMeters ≤ reg.NumEnergyMeters ∧
    SameString n (reg.EnergyMeters (FindItem n reg.Names reg.NumEnergyMeters)).Name = true := by
  rcases FindItem_spec n reg.Names reg.NumEnergyMeters with ⟨h0, _⟩ | ⟨h1, h2, h3, _⟩
  · simp [MeterRegistry.hasMeter, h0] at h
  · exact ⟨h1, h2, h3⟩

/-- Names that differ ignoring case are found at different positions. -/
theorem FindItem_nodup (reg : MeterRegistry) :
    ∀ (names : List String), (∀ n ∈ names, reg.hasMeter n = true) →
      distinctNames names = true →
      (names.map (fun n => FindItem n reg.Names reg.NumEnergyMeters)).Nodup := by
  intro names
  induction names with
  | nil => intro _ _; exact List.nodup_nil
  | cons n l ih =>
    intro hall hd
    simp only [distinctNames, Bool.and_eq_true, List.all_eq_true, Bool.not_eq_true'] at hd
    simp only [List.map_cons]
    refine List.nodup_cons.2 ⟨fun hmem => ?_, ih (fun m hm => hall m (List.mem_cons_of_mem _ hm))
      hd.2⟩
    obtain ⟨m, hm, hfm⟩ := List.mem_map.1 hmem
    have hn3 := (FindItem_found reg n (hall n (List.mem_cons_self _ _))).2.2
    have hm3 := (FindItem_found reg m (hall m (List.mem_cons_of_mem _ hm))).2.2
    rw [hfm] at hm3
    have hnm : SameString n m = true :=
      SameString_trans _ _ _ hn3 (by rw [SameString_comm]; exact hm3)
    rw [hd.1 m hm] at hnm
    exact absurd hnm (by simp)

theorem recognisedTags_iff (R E G : String) :
    recognisedTags R E G = true ↔
      (GetStandardMeterResourceType R (UPPERCase R)).2 = false ∧
      (standardGroup G).2 = false ∧ (standardEndUse E).2 = false := by
  simp [recognisedTags, and_assoc]

/-- The names AttachMeters looks up on lines 2566-2606 are among those
ValidateNStandardizeMeterTitles registers, when the tags are legal. -/
theorem onMeterNames_subset (R E S G Z Z1 : String) (B : Bool)
    (hB1 : SameString G "Building" = B) (hB2 : sameFstring G "Building" = B)
    (hZ : B = true → Z1 = Z) :
    ∀ n ∈ onMeterNames R E S G Z, n ∈ standardMeterNames R E S G Z1 false false false := by
  intro n
  unfold onMeterNames standardMeterNames
  rw [hB1, hB2]
  cases B with
  | false =>
    cases isBlankString G <;> cases isBlankString E <;> cases isBlankString S <;>
      simp <;> tauto
  | true =>
    rw [hZ rfl]
    cases isBlankString G <;> cases isBlankString E <;> cases isBlankString S <;>
      simp <;> tauto

/-- Joint description of what AttachMeters leaves for legal tags. -/
theorem AttachMeters_spec (MtrUnits R E S G Z : String) (RepVarNum : Nat) (ErrorsFound : Bool)
    (t : MeterTables) (hrec : recognisedTags R E G = true) :
    ∃ r, AttachMeters MtrUnits R E S G Z RepVarNum ErrorsFound t = Except.ok r ∧
      r.MeterArrayPtr = t.NumVarMeterArrays + 1 ∧
      r.tables.NumVarMeterArrays = t.NumVarMeterArrays + 1 ∧
      (∀ i, i ≠ t.NumVarMeterArrays + 1 → r.tables.VarMeterArrays i = t.VarMeterArrays i) ∧
      r.ErrorsFound = ErrorsFound ∧
      (r.tables.VarMeterArrays r.MeterArrayPtr).RepVariable = RepVarNum ∧
      (r.tables.VarMeterArrays r.MeterArrayPtr).NumOnCustomMeters = 0 ∧
      (r.tables.VarMeterArrays r.MeterArrayPtr).listed
        = (onMeterNames r.ResourceType r.EndUse r.EndUseSub r.Group Z).map
            (fun n => FindItem n r.tables.reg.Names r.tables.reg.NumEnergyMeters) ∧
      (r.tables.VarMeterArrays r.MeterArrayPtr).NumOnMeters
        = (onMeterNames r.ResourceType r.EndUse r.EndUseSub r.Group Z).length +
            (if looksUpZoneSubMeter r.EndUse r.EndUseSub r.Group &&
                r.tables.reg.hasMeter
                  (zoneSubMeterName r.ResourceType r.EndUse r.EndUseSub Z) then 1 else 0) ∧
      (∀ n ∈ onMeterNames r.ResourceType r.EndUse r.EndUseSub r.Group Z,
        r.tables.reg.hasMeter n = true) := by
  obtain ⟨hrt, hgr, heu⟩ := (recognisedTags_iff R E G).1 hrec
  obtain ⟨r0, hv, _, hG, _, hS, hL, hEF, hnames, _⟩ :=
    ValidateNStandardizeMeterTitles_run MtrUnits R E S G ErrorsFound
      (if SameString G "Building" then Z else BlankString) t.reg
  rw [hrt, hgr, heu] at hL
  simp only [Bool.or_false] at hL
  rw [hrt, hgr, hL] at hnames
  simp only [Bool.or_false] at hnames
  rw [hL] at hEF
  simp only [Bool.or_false] at hEF
  obtain ⟨hB1, hB2⟩ := standardGroup_Building G hgr
  rw [← hG] at hB1 hB2
  have hreg : ∀ n ∈ onMeterNames r0.ResourceType r0.EndUse r0.EndUseSub r0.Group Z,
      r0.reg.hasMeter n = true := by
    intro n hn
    rw [hS] at hn
    exact hnames n (onMeterNames_subset r0.ResourceType r0.EndUse S r0.Group Z _
      (SameString G "Building") hB1 hB2 (fun hb => by simp [hb]) n hn)
  have hlen := onMeterNames_length r0.ResourceType r0.EndUse r0.EndUseSub r0.Group Z
  obtain ⟨f1, f2, f3, f4, f5, _⟩ := putOnMeter_fold r0.reg
    (onMeterNames r0.ResourceType r0.EndUse r0.EndUseSub r0.Group Z)
    { NumOnMeters := 0, RepVariable := RepVarNum, OnMeters := List.replicate MaxOnMeters 0,
      NumOnCustomMeters := 0, OnCustomMeters := [] }
    hreg (by simp only [List.length_replicate, Nat.zero_add]; exact hlen.1)
  simp only [Nat.zero_add, List.take_zero, List.nil_append, List.length_replicate] at f1 f2 f3
  refine ⟨_, by unfold AttachMeters; rw [hv], rfl, rfl, ?_, hEF, ?_⟩
  · intro i hi
    simp only [Function.update, hi, dite_false]
  · simp only [Function.update_same]
    rw [fillOnMeters_eq]
    by_cases hz : (looksUpZoneSubMeter r0.EndUse r0.EndUseSub r0.Group &&
        r0.reg.hasMeter (zoneSubMeterName r0.ResourceType r0.EndUse r0.EndUseSub Z)) = true
    · obtain ⟨hz1, hz2⟩ := Bool.and_eq_true_iff.1 hz
      have hfull := hlen.2 hz1
      simp only [hz, hz1, if_true, putOnMeter_of_found r0.reg _ _ hz2]
      refine ⟨f4, f5, ?_, by rw [f1]; simp [hz1, hz2], hreg⟩
      simp only [MeterArrayType.listed]
      rw [f1, List.set_eq_of_length_le (by rw [f2, hfull]), ← f3]
      rw [List.take_of_length_le (by rw [f2, hfull]; omega),
        List.take_of_length_le (by rw [f2, hfull])]
    · have hz' : (looksUpZoneSubMeter r0.EndUse r0.EndUseSub r0.Group &&
          r0.reg.hasMeter (zoneSubMeterName r0.ResourceType r0.EndUse r0.EndUseSub Z))
            = false := by simpa using hz
      have hfin : (if looksUpZoneSubMeter r0.EndUse r0.EndUseSub r0.Group = true then
            putOnMeter r0.reg (zoneSubMeterName r0.ResourceType r0.EndUse r0.EndUseSub Z)
              ((onMeterNames r0.ResourceType r0.EndUse r0.EndUseSub r0.Group Z).foldl
                (fun a n => putOnMeter r0.reg n a)
                { NumOnMeters := 0, RepVariable := RepVarNum,
                  OnMeters := List.replicate MaxOnMeters 0,
                  NumOnCustomMeters := 0, OnCustomMeters := [] })
          else (onMeterNames r0.ResourceType r0.EndUse r0.EndUseSub r0.Group Z).foldl
                (fun a n => putOnMeter r0.reg n a)
                { NumOnMeters := 0, RepVariable := RepVarNum,
                  OnMeters := List.replicate MaxOnMeters 0,
                  NumOnCustomMeters := 0, OnCustomMeters := [] })
          = (onMeterNames r0.ResourceType r0.EndUse r0.EndUseSub r0.Group Z).foldl
                (fun a n => putOnMeter r0.reg n a)
                { NumOnMeters := 0, RepVariable := RepVarNum,
                  OnMeters := List.replicate MaxOnMeters 0,
                  NumOnCustomMeters := 0, OnCustomMeters := [] } := by
        cases hl : looksUpZoneSubMeter r0.EndUse r0.EndUseSub r0.Group with
        | false => simp
        | true =>
          rw [hl] at hz'
          simp only [Bool.true_and] at hz'
          simp only [if_true]
          exact putOnMeter_of_not_found _ _ _ hz'
      rw [hfin]
      simp only [hz', Bool.false_eq_true, if_false, Nat.add_zero]
      exact ⟨f4, f5, by simp only [MeterArrayType.listed]; rw [f1, f3], f1, hreg⟩

/-- C21 (as amended). For legal tags AttachMeters returns; the record it adds is the last one
of VarMeterArrays and has RepVariable equal to the number of the variable; its entries
OnMeters(1..) are, in order, the positions FindItem gives for the standard meter names of the
tags supplied (facility, group, zone, end use, end use of the zone, subcategory), each a
position of the meter table whose meter has that name ignoring case; NumOnMeters counts them,
and one more when the subcategory meter of the zone is looked up and found; and no meter is
listed twice provided no two of the names are the same ignoring case. -/
theorem AttachMeters_lists_standard_meters (MtrUnits R E S G Z : String) (RepVarNum : Nat)
    (ErrorsFound : Bool) (t : MeterTables) (hrec : recognisedTags R E G = true) :
    ∃ r, AttachMeters MtrUnits R E S G Z RepVarNum ErrorsFound t = Except.ok r ∧
      r.MeterArrayPtr = t.NumVarMeterArrays + 1 ∧
      r.tables.NumVarMeterArrays = t.NumVarMeterArrays + 1 ∧
      (∀ i, i ≠ t.NumVarMeterArrays + 1 → r.tables.VarMeterArrays i = t.VarMeterArrays i) ∧
      (r.tables.VarMeterArrays r.MeterArrayPtr).RepVariable = RepVarNum ∧
      (r.tables.VarMeterArrays r.MeterArrayPtr).listed
        = (onMeterNames r.ResourceType r.EndUse r.EndUseSub r.Group Z).map
            (fun n => FindItem n r.tables.reg.Names r.tables.reg.NumEnergyMeters) ∧
      (r.tables.VarMeterArrays r.MeterArrayPtr).NumOnMeters
        = (onMeterNames r.ResourceType r.EndUse r.EndUseSub r.Group Z).length +
            (if looksUpZoneSubMeter r.EndUse r.EndUseSub r.Group &&
                r.tables.reg.hasMeter
                  (zoneSubMeterName r.ResourceType r.EndUse r.EndUseSub Z) then 1 else 0) ∧
      (∀ n ∈ onMeterNames r.ResourceType r.EndUse r.EndUseSub r.Group Z,
        1 ≤ FindItem n r.tables.reg.Names r.tables.reg.NumEnergyMeters ∧
        FindItem n r.tables.reg.Names r.tables.reg.NumEnergyMeters
          ≤ r.tables.reg.NumEnergyMeters ∧
        SameString n (r.tables.reg.EnergyMeters
          (FindItem n r.tables.reg.Names r.tables.reg.NumEnergyMeters)).Name = true) ∧
      (distinctNames (onMeterNames r.ResourceType r.EndUse r.EndUseSub r.Group Z) = true →
        (r.tables.VarMeterArrays r.MeterArrayPtr).listed.Nodup) := by
  obtain ⟨r, h, h1, h2, h3, _, h5, _, h7, h8, h9⟩ :=
    AttachMeters_spec MtrUnits R E S G Z RepVarNum ErrorsFound t hrec
  refine ⟨r, h, h1, h2, h3, h5, h7, h8, fun n hn => FindItem_found _ n (h9 n hn), fun hd => ?_⟩
  rw [h7]
  exact FindItem_nodup _ _ h9 hd

/-- C21 (as amended) at a sample input: a cooling variable of the zone Zone One with the
subcategory General, on tables without meters. -/
theorem AttachMeters_lists_standard_meters_sample :
    recognisedTags "elec" "Cooling" "Building" = true ∧
    ∃ r, AttachMeters "J" "elec" "Cooling" "General" "Building" "Zone One" 7 false
        noMeterTables = Except.ok r ∧
      r.MeterArrayPtr = noMeterTables.NumVarMeterArrays + 1 ∧
      r.tables.NumVarMeterArrays = noMeterTables.NumVarMeterArrays + 1 ∧
      (∀ i, i ≠ noMeterTables.NumVarMeterArrays + 1 →
        r.tables.VarMeterArrays i = noMeterTables.VarMeterArrays i) ∧
      (r.tables.VarMeterArrays r.MeterArrayPtr).RepVariable = 7 ∧
      (r.tables.VarMeterArrays r.MeterArrayPtr).listed
        = (onMeterNames r.ResourceType r.EndUse r.EndUseSub r.Group "Zone One").map
            (fun n => FindItem n r.tables.reg.Names r.tables.reg.NumEnergyMeters) ∧
      (r.tables.VarMeterArrays r.MeterArrayPtr).NumOnMeters
        = (onMeterNames r.ResourceType r.EndUse r.EndUseSub r.Group "Zone One").length +
            (if looksUpZoneSubMeter r.EndUse r.EndUseSub r.Group &&
                r.tables.reg.hasMeter
                  (zoneSubMeterName r.ResourceType r.EndUse r.EndUseSub "Zone One")
              then 1 else 0) ∧
      (∀ n ∈ onMeterNames r.ResourceType r.EndUse r.EndUseSub r.Group "Zone One",
        1 ≤ FindItem n r.tables.reg.Names r.tables.reg.NumEnergyMeters ∧
        FindItem n r.tables.reg.Names r.tables.reg.NumEnergyMeters
          ≤ r.tables.reg.NumEnergyMeters ∧
        SameString n (r.tables.reg.EnergyMeters
          (FindItem n r.tables.reg.Names r.tables.reg.NumEnergyMeters)).Name = true) ∧
      (distinctNames (onMeterNames r.ResourceType r.EndUse r.EndUseSub r.Group "Zone One")
          = true →
        (r.tables.VarMeterArrays r.MeterArrayPtr).listed.Nodup) :=
  ⟨by decide, AttachMeters_lists_standard_meters "J" "elec" "Cooling" "General" "Building"
    "Zone One" 7 false noMeterTables (by decide)⟩

/-- C21 fails as stated: with the legal tags Electricity, Cooling, Building, the subcategory
"Electricity:Zone:X" and the zone "X:Cooling:Electricity", the subcategory meter has the name
of the zone meter, and the record lists that meter, number 3, at positions 3 and 6. -/
theorem AttachMeters_lists_meter_twice_counterexample :
    recognisedTags "Electricity" "Cooling" "Building" = true ∧
    (AttachMeters "J" "Electricity" "Cooling" "Electricity:Zone:X" "Building"
        "X:Cooling:Electricity" 7 false noMeterTables).toOption.map AttachedMeters.summary
      = some (1, false,
          { NumOnMeters := 6, RepVariable := 7, OnMeters := [1, 2, 3, 4, 5, 3],
            NumOnCustomMeters := 0, OnCustomMeters := [] },
          ["Electricity:Facility", "Electricity:Building",
            "Electricity:Zone:X:Cooling:Electricity", "Cooling:Electricity",
            "Cooling:Electricity:Zone:X:Cooling:Electricity"]) ∧
    ¬ ([1, 2, 3, 4, 5, 3] : List Nat).Nodup := by
  refine ⟨by decide, by decide, by decide⟩

/-! ## SetupOutputVariable -/

theorem FindItemInList_three (s a b c : String) :
    FindItemInList s (itemsOf [a, b, c]) 3 ≠ 0 ↔
      (sameFstring s a || sameFstring s b || sameFstring s c) = true := by
  unfold FindItemInList
  cases h1 : sameFstring s a <;> cases h2 : sameFstring s b <;> cases h3 : sameFstring s c <;>
    simp [FindItemInListFrom, itemsOf, h1, h2, h3]

theorem FindItemInList_four (s a b c d : String) :
    FindItemInList s (itemsOf [a, b, c, d]) 4 ≠ 0 ↔
      (sameFstring s a || sameFstring s b || sameFstring s c || sameFstring s d) = true := by
  unfold FindItemInList
  cases h1 : sameFstring s a <;> cases h2 : sameFstring s b <;> cases h3 : sameFstring s c <;>
    cases h4 : sameFstring s d <;> simp [FindItemInListFrom, itemsOf, h1, h2, h3, h4]

theorem ValidateIndexType_eq (k : String) :
    ValidateIndexType k =
      (if isToken ZoneIndexTypes k then Except.ok 1
       else if isToken SystemIndexTypes k then Except.ok 2
       else Except.error "Preceding condition causes termination.") := by
  unfold ValidateIndexType
  have hz : (FindItemInList (UPPERCase k) (itemsOf ZoneIndexTypes) 3 ≠ 0)
      ↔ isToken ZoneIndexTypes k = true := by
    unfold ZoneIndexTypes
    rw [FindItemInList_three, sameFstring_UPPERCase_iff k "ZONE" (by decide),
      sameFstring_UPPERCase_iff k "HEATBALANCE" (by decide),
      sameFstring_UPPERCase_iff k "HEAT BALANCE" (by decide)]
    simp [isToken, Bool.or_assoc]
  have hs : (FindItemInList (UPPERCase k) (itemsOf SystemIndexTypes) 3 ≠ 0)
      ↔ isToken SystemIndexTypes k = true := by
    unfold SystemIndexTypes
    rw [FindItemInList_three, sameFstring_UPPERCase_iff k "HVAC" (by decide),
      sameFstring_UPPERCase_iff k "SYSTEM" (by decide),
      sameFstring_UPPERCase_iff k "PLANT" (by decide)]
    simp [isToken, Bool.or_assoc]
  simp only [hz, hs]

theorem ValidateVariableType_eq (k : String) :
    ValidateVariableType k =
      (if isToken StateVariables k then 1
       else if isToken NonStateVariables k then 2
       else 0) := by
  unfold ValidateVariableType
  have hz : (FindItemInList (UPPERCase k) (itemsOf StateVariables) 3 ≠ 0)
      ↔ isToken StateVariables k = true := by
    unfold StateVariables
    rw [FindItemInList_three, sameFstring_UPPERCase_iff k "STATE" (by decide),
      sameFstring_UPPERCase_iff k "AVERAGE" (by decide),
      sameFstring_UPPERCase_iff k "AVERAGED" (by decide)]
    simp [isToken, Bool.or_assoc]
  have hs : (FindItemInList (UPPERCase k) (itemsOf NonStateVariables) 4 ≠ 0)
      ↔ isToken NonStateVariables k = true := by
    unfold NonStateVariables
    rw [FindItemInList_four, sameFstring_UPPERCase_iff k "NON STATE" (by decide),
      sameFstring_UPPERCase_iff k "NONSTATE" (by decide),
      sameFstring_UPPERCase_iff k "SUM" (by decide),
      sameFstring_UPPERCase_iff k "SUMMED" (by decide)]
    simp [isToken, Bool.or_assoc]
  simp only [hz, hs]

theorem sameOutputVariables_refl (st : OutputVariableTables) : sameOutputVariables st st :=
  ⟨rfl, rfl, rfl, rfl, rfl, rfl, rfl, rfl⟩

/-- InitializeOutput, when it runs, touches neither the requests nor the variable tables, the
catalog or the meter tables. -/
theorem sameOutputVariables_initialized (st : OutputVariableTables) :
    sameOutputVariables st (if !st.OutputInitialized then InitializeOutput st else st) := by
  cases h : st.OutputInitialized
  · exact ⟨rfl, rfl, rfl, rfl, rfl, rfl, rfl, rfl⟩
  · exact sameOutputVariables_refl st

/-- A name that fails the first block ends the program before anything else is done. -/
theorem SetupOutputVariable_of_names_error (env : SetupEnvironment)
    (c : SetupOutputVariableCall) (st : OutputVariableTables) (e : String)
    (h : SetupOutputVariable_names env.MaxNameLength c.VariableName = Except.error e) :
    SetupOutputVariable env c st
      = some (Ending.fatal e (if !st.OutputInitialized then InitializeOutput st else st)) ∧
    SetupOutputVariable_Integer env c st
      = some (Ending.fatal e (if !st.OutputInitialized then InitializeOutput st else st)) := by
  unfold SetupOutputVariable SetupOutputVariable_Integer
  simp only [h]
  exact ⟨trivial, trivial⟩

theorem SetupOutputVariable_names_no_bracket (M : Nat) (VariableName : String)
    (h : index VariableName '[' = 0) :
    SetupOutputVariable_names M VariableName = Except.error "Program terminates." := by
  unfold SetupOutputVariable_names
  simp [h]

theorem SetupOutputVariable_names_dimensionless (M : Nat) (VariableName u : String)
    (h : index VariableName '[' ≠ 0)
    (hu : GetVariableUnitsString VariableName = Except.ok u)
    (hd : SameString (adjustl u) "dimensionless" = true) :
    SetupOutputVariable_names M VariableName = Except.error "Program terminates." := by
  unfold SetupOutputVariable_names
  simp only [h, hu, hd, ne_eq, not_false_eq_true, if_true, Bool.or_true]
  split <;> rfl

theorem SetupOutputVariable_names_too_long (M : Nat) (VariableName : String)
    (h : len_trim (adjustl VariableName) > M) :
    ∃ e, SetupOutputVariable_names M VariableName = Except.error e := by
  unfold SetupOutputVariable_names
  by_cases hi : index VariableName '[' = 0
  · exact ⟨"Program terminates.", by simp [hi]⟩
  · cases hu : GetVariableUnitsString VariableName with
    | error e => exact ⟨e, by simp [hi, hu]⟩
    | ok u => exact ⟨"Program terminates.", by simp [hi, hu, h]⟩

/-- A name with "[" passes the first block when nothing stands between its brackets and it is
not too long. -/
theorem SetupOutputVariable_names_blank_units (M : Nat) (VariableName : String)
    (h : index VariableName '[' ≠ 0)
    (hu : GetVariableUnitsString VariableName = Except.ok BlankString)
    (hlen : len_trim (adjustl VariableName) ≤ M) :
    SetupOutputVariable_names M VariableName
      = Except.ok (adjustl (substringTo VariableName (index VariableName '[' - 1)),
          BlankString) := by
  unfold SetupOutputVariable_names
  have h1 : adjustl BlankString = BlankString := by decide
  have h2 : (sameFstring (substring BlankString 1 1) "-" ||
      SameString BlankString "dimensionless") = false := by decide
  have h3 : ¬ len_trim (adjustl VariableName) > M := by omega
  simp only [h, hu, h1, h2, h3, ne_eq, not_false_eq_true, if_true, if_false,
    Bool.false_eq_true]

/-- C22 (as amended). The real and the integer SetupOutputVariable terminate with the fatal
error "Program terminates." for every variable name without "[", with the requests, the
variable tables and the catalog as they were; and a name with "[" and nothing between its
brackets passes the check of the name and the units, with blank units, unless it is too
long. -/
theorem SetupOutputVariable_fatal_without_bracket (env : SetupEnvironment)
    (c : SetupOutputVariableCall) (st : OutputVariableTables)
    (h : index c.VariableName '[' = 0) :
    (∃ st1, SetupOutputVariable env c st = some (Ending.fatal "Program terminates." st1) ∧
      sameOutputVariables st st1) ∧
    (∃ st1, SetupOutputVariable_Integer env c st
        = some (Ending.fatal "Program terminates." st1) ∧
      sameOutputVariables st st1) ∧
    (∀ VariableName : String, index VariableName '[' ≠ 0 →
      GetVariableUnitsString VariableName = Except.ok BlankString →
      len_trim (adjustl VariableName) ≤ env.MaxNameLength →
      SetupOutputVariable_names env.MaxNameLength VariableName
        = Except.ok (adjustl (substringTo VariableName (index VariableName '[' - 1)),
            BlankString)) := by
  have hn := SetupOutputVariable_names_no_bracket env.MaxNameLength c.VariableName h
  obtain ⟨h1, h2⟩ := SetupOutputVariable_of_names_error env c st _ hn
  exact ⟨⟨_, h1, sameOutputVariables_initialized st⟩,
    ⟨_, h2, sameOutputVariables_initialized st⟩,
    fun v hv hu hl => SetupOutputVariable_names_blank_units _ v hv hu hl⟩

/-- C22 (as amended) at a sample input: the name "Zone Thing" without units. -/
theorem SetupOutputVariable_fatal_without_bracket_sample :
    index "Zone Thing" '[' = 0 ∧
    (∃ st1, SetupOutputVariable sampleSetup (plainCall "Zone Thing" "Zone" "Average" "Zone One")
        noOutputVariables = some (Ending.fatal "Program terminates." st1) ∧
      sameOutputVariables noOutputVariables st1) ∧
    (∃ st1, SetupOutputVariable_Integer sampleSetup
        (plainCall "Zone Thing" "Zone" "Average" "Zone One") noOutputVariables
        = some (Ending.fatal "Program terminates." st1) ∧
      sameOutputVariables noOutputVariables st1) ∧
    (∀ VariableName : String, index VariableName '[' ≠ 0 →
      GetVariableUnitsString VariableName = Except.ok BlankString →
      len_trim (adjustl VariableName) ≤ sampleSetup.MaxNameLength →
      SetupOutputVariable_names sampleSetup.MaxNameLength VariableName
        = Except.ok (adjustl (substringTo VariableName (index VariableName '[' - 1)),
            BlankString)) :=
  ⟨by decide, SetupOutputVariable_fatal_without_bracket sampleSetup
    (plainCall "Zone Thing" "Zone" "Average" "Zone One") noOutputVariables (by decide)⟩

/-- C22 fails as stated: for the name "Zone Thing []" the units string is empty, and neither
routine terminates; each returns with the variable in the catalog and in its table, with
blank units. -/
theorem SetupOutputVariable_accepts_empty_brackets_counterexample :
    (GetVariableUnitsString "Zone Thing []").toOption = some "" ∧
    endingOf (SetupOutputVariable sampleSetup
        (plainCall "Zone Thing []" "Zone" "Average" "Zone One") noOutputVariables)
      = some none ∧
    catalogOf (SetupOutputVariable sampleSetup
        (plainCall "Zone Thing []" "Zone" "Average" "Zone One") noOutputVariables)
      = some [("Zone Thing ", "", 1, 1)] ∧
    realVariablesOf (SetupOutputVariable sampleSetup
        (plainCall "Zone Thing []" "Zone" "Average" "Zone One") noOutputVariables)
      = some [("Zone One:Zone Thing", "", 1, 1)] ∧
    endingOf (SetupOutputVariable_Integer sampleSetup
        (plainCall "Zone Thing []" "Zone" "Average" "Zone One") noOutputVariables)
      = some none ∧
    catalogOf (SetupOutputVariable_Integer sampleSetup
        (plainCall "Zone Thing []" "Zone" "Average" "Zone One") noOutputVariables)
      = some [("Zone Thing ", "", 1, 1)] ∧
    integerVariablesOf (SetupOutputVariable_Integer sampleSetup
        (plainCall "Zone Thing []" "Zone" "Average" "Zone One") noOutputVariables)
      = some [("Zone One:Zone Thing", "", 1, 1)] := by
  refine ⟨by decide, by decide, by decide, by decide, by decide, by decide, by decide⟩

/-- C23. The real and the integer SetupOutputVariable terminate with a fatal error whenever
the units they extract from the name are "dimensionless" ignoring case, and whenever the name
without leading and trailing blanks is longer than MaxNameLength; when the program
terminates, the requests with their flags, the tables of the real and the integer variables,
the catalog and the meter tables are what they were before the call. -/
theorem SetupOutputVariable_fatal_before_any_change (env : SetupEnvironment)
    (c : SetupOutputVariableCall) (st : OutputVariableTables)
    (h : (index c.VariableName '[' ≠ 0 ∧
          ∃ u, GetVariableUnitsString c.VariableName = Except.ok u ∧
            SameString (adjustl u) "dimensionless" = true) ∨
        len_trim (adjustl c.VariableName) > env.MaxNameLength) :
    (∃ msg st1, SetupOutputVariable env c st = some (Ending.fatal msg st1) ∧
      sameOutputVariables st st1) ∧
    (∃ msg st1, SetupOutputVariable_Integer env c st = some (Ending.fatal msg st1) ∧
      sameOutputVariables st st1) := by
  have hn : ∃ e, SetupOutputVariable_names env.MaxNameLength c.VariableName
      = Except.error e := by
    rcases h with ⟨hi, u, hu, hd⟩ | hl
    · exact ⟨_, SetupOutputVariable_names_dimensionless _ _ u hi hu hd⟩
    · exact SetupOutputVariable_names_too_long _ _ hl
  obtain ⟨e, he⟩ := hn
  obtain ⟨h1, h2⟩ := SetupOutputVariable_of_names_error env c st e he
  exact ⟨⟨e, _, h1, sameOutputVariables_initialized st⟩,
    ⟨e, _, h2, sameOutputVariables_initialized st⟩⟩

/-- C23 at a sample input: the name "Zone Thing [Dimensionless]". -/
theorem SetupOutputVariable_fatal_before_any_change_sample :
    ((index "Zone Thing [Dimensionless]" '[' ≠ 0 ∧
        ∃ u, GetVariableUnitsString "Zone Thing [Dimensionless]" = Except.ok u ∧
          SameString (adjustl u) "dimensionless" = true) ∨
      len_trim (adjustl "Zone Thing [Dimensionless]") > sampleSetup.MaxNameLength) ∧
    (∃ msg st1, SetupOutputVariable sampleSetup
        (plainCall "Zone Thing [Dimensionless]" "Zone" "Average" "Zone One") noOutputVariables
        = some (Ending.fatal msg st1) ∧
      sameOutputVariables noOutputVariables st1) ∧
    (∃ msg st1, SetupOutputVariable_Integer sampleSetup
        (plainCall "Zone Thing [Dimensionless]" "Zone" "Average" "Zone One")
        noOutputVariables = some (Ending.fatal msg st1) ∧
      sameOutputVariables noOutputVariables st1) :=
  ⟨Or.inl ⟨by decide, "Dimensionless", by rfl, by decide⟩,
   SetupOutputVariable_fatal_before_any_change sampleSetup
    (plainCall "Zone Thing [Dimensionless]" "Zone" "Average" "Zone One") noOutputVariables
    (Or.inl ⟨by decide, "Dimensionless", by rfl, by decide⟩)⟩

theorem CheckReportVariable_returns (K V : String) (st : ReportRequests) :
    ∃ st1, CheckReportVariable K V st = some st1 := by
  by_cases hN : 0 < st.NumOfReqVariables
  · obtain ⟨st1, h, _⟩ := CheckReportVariable_spec K V st hN
    exact ⟨st1, h⟩
  · exact ⟨st, by simp [CheckReportVariable, hN]⟩

/-- The loop of SetupOutputVariable always has a first pass. -/
theorem reportListFor_returns (K V : String) (F : Option String) (st : ReportRequests) :
    ∃ r a l, reportListFor K V F st = some r ∧ r.ReportList = a :: l := by
  obtain ⟨st1, h⟩ := CheckReportVariable_returns K V st
  unfold reportListFor
  rw [h]
  cases F with
  | some f => exact ⟨_, 0, [], rfl, rfl⟩
  | none =>
    cases hl : st1.ReportList with
    | nil =>
      refine ⟨_, -1, [], rfl, ?_⟩
      simp [ReportRequests.NumExtraVars, hl]
    | cons a l =>
      refine ⟨_, a, l, rfl, ?_⟩
      simp [ReportRequests.NumExtraVars, hl]

theorem passesOf_cons (a : Int) (l : List Int) :
    ∃ rest, passesOf (a :: l) = (1, a) :: rest := by
  unfold passesOf
  simp only [List.length_cons]
  rw [List.range'_succ]
  exact ⟨_, rfl⟩

/-- A key that ValidateIndexType rejects ends either routine in the first pass of its loop,
with the catalog and the variable tables as they were. -/
theorem SetupOutputVariable_of_invalid_index (env : SetupEnvironment)
    (c : SetupOutputVariableCall) (st : OutputVariableTables) (VarName UnitsString : String)
    (hn : SetupOutputVariable_names env.MaxNameLength c.VariableName
      = Except.ok (VarName, UnitsString))
    (hk : isToken ZoneIndexTypes c.IndexTypeKey = false)
    (hk2 : isToken SystemIndexTypes c.IndexTypeKey = false) :
    (∃ st1, SetupOutputVariable env c st
        = some (Ending.fatal "Preceding condition causes termination." st1) ∧
      st1.catalog = st.catalog ∧ st1.NumOfRVariable = st.NumOfRVariable ∧
      st1.RVariableTypes = st.RVariableTypes ∧ st1.NumOfIVariable = st.NumOfIVariable ∧
      st1.IVariableTypes = st.IVariableTypes) ∧
    (∃ st1, SetupOutputVariable_Integer env c st
        = some (Ending.fatal "Preceding condition causes termination." st1) ∧
      st1.catalog = st.catalog ∧ st1.NumOfRVariable = st.NumOfRVariable ∧
      st1.RVariableTypes = st.RVariableTypes ∧ st1.NumOfIVariable = st.NumOfIVariable ∧
      st1.IVariableTypes = st.IVariableTypes) := by
  have hv : ValidateIndexType c.IndexTypeKey
      = Except.error "Preceding condition causes termination." := by
    rw [ValidateIndexType_eq]
    simp [hk, hk2]
  obtain ⟨r, a, l, hr, hl⟩ := reportListFor_returns c.KeyedValue VarName c.ReportFreq
    (if !st.OutputInitialized then InitializeOutput st else st).requests
  obtain ⟨rest, hp⟩ := passesOf_cons a l
  have hcat := (sameOutputVariables_initialized st)
  obtain ⟨_, _, s3, s4, s5, s6, s7, _⟩ := hcat
  constructor
  · unfold SetupOutputVariable
    simp only [hn, hr, hl, hp, forEachEnding, SetupOutputVariable_pass, hv]
    exact ⟨_, rfl, s7, s3, s4, s5, s6⟩
  · unfold SetupOutputVariable_Integer
    simp only [hn, hr, hl, hp, forEachEnding, SetupOutputVariable_Integer_pass, hv]
    exact ⟨_, rfl, s7, s3, s4, s5, s6⟩

/-- C24 at the failing input. ValidateIndexType ends in the fatal error for every key that is
none of its tokens, and never returns 0; ValidateVariableType has no fatal error: for every
key that is none of its tokens, such as "Mean", it returns 0, and SetupOutputVariable goes on:
the real and the integer routine return with a catalog entry and a variable whose store type
is 0. -/
theorem ValidateVariableType_returns_zero_without_fatal :
    (∀ k, isToken ZoneIndexTypes k = false → isToken SystemIndexTypes k = false →
      ValidateIndexType k = Except.error "Preceding condition causes termination.") ∧
    (∀ k n, ValidateIndexType k = Except.ok n → n = 1 ∨ n = 2) ∧
    (∀ k, isToken StateVariables k = false → isToken NonStateVariables k = false →
      ValidateVariableType k = 0) ∧
    (∀ (env : SetupEnvironment) (c : SetupOutputVariableCall) (st : OutputVariableTables)
        (VarName UnitsString : String),
      SetupOutputVariable_names env.MaxNameLength c.VariableName
        = Except.ok (VarName, UnitsString) →
      isToken ZoneIndexTypes c.IndexTypeKey = false →
      isToken SystemIndexTypes c.IndexTypeKey = false →
      ∃ st1, SetupOutputVariable env c st
          = some (Ending.fatal "Preceding condition causes termination." st1) ∧
        st1.catalog = st.catalog ∧ st1.NumOfRVariable = st.NumOfRVariable ∧
        st1.RVariableTypes = st.RVariableTypes) ∧
    (isToken StateVariables "Mean" = false ∧ isToken NonStateVariables "Mean" = false) ∧
    endingOf (SetupOutputVariable sampleSetup
        (plainCall "Zone Thing [C]" "Zone" "Mean" "Zone One") noOutputVariables)
      = some none ∧
    catalogOf (SetupOutputVariable sampleSetup
        (plainCall "Zone Thing [C]" "Zone" "Mean" "Zone One") noOutputVariables)
      = some [("Zone Thing ", "C", 1, 0)] ∧
    realVariablesOf (SetupOutputVariable sampleSetup
        (plainCall "Zone Thing [C]" "Zone" "Mean" "Zone One") noOutputVariables)
      = some [("Zone One:Zone Thing", "C", 1, 0)] ∧
    endingOf (SetupOutputVariable_Integer sampleSetup
        (plainCall "Zone Thing [C]" "Zone" "Mean" "Zone One") noOutputVariables)
      = some none ∧
    catalogOf (SetupOutputVariable_Integer sampleSetup
        (plainCall "Zone Thing [C]" "Zone" "Mean" "Zone One") noOutputVariables)
      = some [("Zone Thing ", "C", 1, 0)] ∧
    integerVariablesOf (SetupOutputVariable_Integer sampleSetup
        (plainCall "Zone Thing [C]" "Zone" "Mean" "Zone One") noOutputVariables)
      = some [("Zone One:Zone Thing", "C", 1, 0)] := by
  refine ⟨fun k h1 h2 => ?_, fun k n h => ?_, fun k h1 h2 => ?_,
    fun env c st v u hn h1 h2 => ?_, by decide, by decide,
    by decide, by decide, by decide, by decide, by decide⟩
  · rw [ValidateIndexType_eq]
    simp [h1, h2]
  · rw [ValidateIndexType_eq] at h
    by_cases h1 : isToken ZoneIndexTypes k = true
    · simp only [h1, if_true, Except.ok.injEq] at h
      exact Or.inl h.symm
    · have h1f : isToken ZoneIndexTypes k = false := by simpa using h1
      by_cases h2 : isToken SystemIndexTypes k = true
      · simp only [h1f, h2, if_true, if_false, Bool.false_eq_true, Except.ok.injEq] at h
        exact Or.inr h.symm
      · simp [h1f, h2] at h
  · rw [ValidateVariableType_eq]
    simp [h1, h2]
  · obtain ⟨⟨st1, e, a, b, d, _⟩, _⟩ := SetupOutputVariable_of_invalid_index env c st v u hn h1 h2
    exact ⟨st1, e, a, b, d⟩

/-! ## GetInternalVariableValue -/

/-- C25 (as amended). For an integer and for a real variable GetInternalVariableValue ends in
the fatal error exactly when keyVarIndex lies outside 1..N (N = NumOfIVariable, NumOfRVariable)
and otherwise returns the value of the storage cell of that variable. For a meter an index
below 1 raises no fatal error but gives 0, and an index in 1..NumEnergyMeters gives the
CurTSValue of that meter. -/
theorem GetInternalVariableValue_checks_variables_only (st : InternalVariables)
    (keyVarIndex : Int) :
    ((keyVarIndex < 1 ∨ keyVarIndex > st.NumOfIVariable) →
      GetInternalVariableValue st 1 keyVarIndex
        = Except.error "GetInternalVariableValue: passed index beyond range of array.") ∧
    ((1 ≤ keyVarIndex ∧ keyVarIndex ≤ st.NumOfIVariable) →
      GetInternalVariableValue st 1 keyVarIndex
        = Except.ok ((st.IVarWhich keyVarIndex.toNat : Int) : ℚ)) ∧
    ((keyVarIndex < 1 ∨ keyVarIndex > st.NumOfRVariable) →
      GetInternalVariableValue st 2 keyVarIndex
        = Except.error "GetInternalVariableValue: passed index beyond range of array.") ∧
    ((1 ≤ keyVarIndex ∧ keyVarIndex ≤ st.NumOfRVariable) →
      GetInternalVariableValue st 2 keyVarIndex = Except.ok (st.RVarWhich keyVarIndex.toNat)) ∧
    (keyVarIndex < 1 → GetInternalVariableValue st 3 keyVarIndex = Except.ok 0) ∧
    ((1 ≤ keyVarIndex ∧ keyVarIndex ≤ st.meters.NumEnergyMeters) →
      GetInternalVariableValue st 3 keyVarIndex
        = Except.ok (st.meters.EnergyMeters keyVarIndex.toNat).CurTSValue) := by
  refine ⟨fun h => ?_, fun h => ?_, fun h => ?_, fun h => ?_, fun h => ?_, fun h => ?_⟩
  · unfold GetInternalVariableValue
    by_cases h1 : keyVarIndex > st.NumOfIVariable
    · simp [h1]
    · have h2 : keyVarIndex < 1 := by omega
      simp [h1, h2]
  · unfold GetInternalVariableValue
    have h1 : ¬ keyVarIndex > st.NumOfIVariable := by omega
    have h2 : ¬ keyVarIndex < 1 := by omega
    simp [h1, h2]
  · unfold GetInternalVariableValue
    by_cases h1 : keyVarIndex > st.NumOfRVariable
    · simp [h1]
    · have h2 : keyVarIndex < 1 := by omega
      simp [h1, h2]
  · unfold GetInternalVariableValue
    have h1 : ¬ keyVarIndex > st.NumOfRVariable := by omega
    have h2 : ¬ keyVarIndex < 1 := by omega
    simp [h1, h2]
  · unfold GetInternalVariableValue GetCurrentMeterValue
    have h1 : ¬ keyVarIndex > 0 := by omega
    simp [h1]
  · unfold GetInternalVariableValue GetCurrentMeterValue
    have h1 : keyVarIndex > 0 := by omega
    simp [h1]

/-- C25 fails as stated: with two meters, the meter indices 0 and -1 lie outside 1..2, and
GetInternalVariableValue returns 0 for them instead of raising the fatal error; the integer
and the real variable with index 0 do raise it. -/
theorem GetInternalVariableValue_meter_index_counterexample :
    sampleInternalVariables.meters.NumEnergyMeters = 2 ∧
    GetInternalVariableValue sampleInternalVariables 3 0 = Except.ok 0 ∧
    GetInternalVariableValue sampleInternalVariables 3 (-1) = Except.ok 0 ∧
    GetInternalVariableValue sampleInternalVariables 3 2 = Except.ok 4 ∧
    GetInternalVariableValue sampleInternalVariables 1 0
      = Except.error "GetInternalVariableValue: passed index beyond range of array." ∧
    GetInternalVariableValue sampleInternalVariables 2 0
      = Except.error "GetInternalVariableValue: passed index beyond range of array." := by
  refine ⟨rfl, ?_, ?_, ?_, ?_, ?_⟩ <;>
    simp [GetInternalVariableValue, GetCurrentMeterValue, sampleInternalVariables]

/-! ## GenOutputVariablesAuditReport -/

theorem shownMessages_append (a b : List ErrorFileLine) :
    shownMessages (a ++ b) = shownMessages a ++ shownMessages b := by
  simp [shownMessages, List.filterMap_append]

/-- One pass of the loop: a request that is not Used adds its message and nothing else to the
messages, and only the request of the pass can change. -/
theorem GenOutputVariablesAuditReport_body_spec (D : Bool)
    (acc : AuditReport × List ErrorFileLine) (Loop : Nat) :
    shownMessages (GenOutputVariablesAuditReport_body D acc Loop).2
      = shownMessages acc.2 ++
          (if (acc.1.requests.ReqRepVars Loop).Used then []
           else [unmatchedRequestMessage (acc.1.requests.ReqRepVars Loop)]) ∧
    (∀ j, j ≠ Loop →
      (GenOutputVariablesAuditReport_body D acc Loop).1.requests.ReqRepVars j
        = acc.1.requests.ReqRepVars j) ∧
    (∀ j, ((GenOutputVariablesAuditReport_body D acc Loop).1.requests.ReqRepVars j).Used
        = (acc.1.requests.ReqRepVars j).Used) := by
  unfold GenOutputVariablesAuditReport_body
  cases hU : (acc.1.requests.ReqRepVars Loop).Used with
  | true => simp [hU]
  | false =>
    simp only [hU, Bool.false_eq_true, if_false]
    refine ⟨?_, ?_, ?_⟩
    · rw [shownMessages_append, shownMessages_append, shownMessages_append]
      have hn : ∀ (b : Bool) (x : List ErrorFileLine),
          (∀ l ∈ x, ∀ s, l ≠ ErrorFileLine.ShowMessage s) →
          shownMessages (if b = true then x else []) = [] := by
        intro b x hx
        cases b
        · rfl
        · simp only [if_true, shownMessages, List.filterMap_eq_nil_iff]
          intro l hl
          cases l with
          | ShowMessage s => exact absurd rfl (hx _ hl s)
          | ShowWarningError s => rfl
          | ShowContinueError s => rfl
      rw [hn _ _ (by intro l hl s; simp at hl; rcases hl with h | h | h <;> rw [h] <;> simp),
        hn _ _ (by intro l hl s; simp at hl; rcases hl with h | h <;> rw [h] <;> simp)]
      simp only [List.append_nil, List.append_cancel_left_eq]
      simp only [shownMessages, List.filterMap_cons, List.filterMap_nil, List.cons.injEq,
        and_true]
      unfold auditMessage unmatchedRequestMessage
      cases hb : isBlankString (acc.1.requests.ReqRepVars Loop).Key with
      | true =>
        simp only [if_true, Function.update_same]
        have : trim "*" = "*" := by decide
        rw [this]
      | false => simp only [Bool.false_eq_true, if_false]
    · intro j hj
      cases hb : isBlankString (acc.1.requests.ReqRepVars Loop).Key with
      | true => simp [Function.update, hj]
      | false => simp
    · intro j
      cases hb : isBlankString (acc.1.requests.ReqRepVars Loop).Key with
      | true =>
        simp only [if_true]
        by_cases hj : j = Loop
        · subst hj; simp [hU]
        · simp [Function.update, hj]
      | false => simp

theorem GenOutputVariablesAuditReport_fold (D : Bool) :
    ∀ (l : List Nat) (acc : AuditReport × List ErrorFileLine), l.Nodup →
      shownMessages (l.foldl (GenOutputVariablesAuditReport_body D) acc).2
        = shownMessages acc.2 ++
            (l.filter (fun i => !(acc.1.requests.ReqRepVars i).Used)).map
              (fun i => unmatchedRequestMessage (acc.1.requests.ReqRepVars i)) ∧
      (∀ j, ((l.foldl (GenOutputVariablesAuditReport_body D) acc).1.requests.ReqRepVars j).Used
        = (acc.1.requests.ReqRepVars j).Used) ∧
      (∀ j, j ∉ l → (l.foldl (GenOutputVariablesAuditReport_body D) acc).1.requests.ReqRepVars j
        = acc.1.requests.ReqRepVars j) := by
  intro l
  induction l with
  | nil => intro acc _; simp
  | cons i l ih =>
    intro acc hnd
    obtain ⟨hi, hl⟩ := List.nodup_cons.1 hnd
    obtain ⟨b1, b2, b3⟩ := GenOutputVariablesAuditReport_body_spec D acc i
    obtain ⟨i1, i2, i3⟩ := ih (GenOutputVariablesAuditReport_body D acc i) hl
    simp only [List.foldl_cons]
    refine ⟨?_, fun j => by rw [i2, b3], fun j hj => ?_⟩
    · rw [i1, b1, List.append_assoc]
      congr 1
      have hf : l.filter (fun j =>
            !((GenOutputVariablesAuditReport_body D acc i).1.requests.ReqRepVars j).Used)
          = l.filter (fun j => !(acc.1.requests.ReqRepVars j).Used) := by
        apply List.filter_congr
        intro j _
        rw [b3]
      rw [hf]
      have hm : (l.filter (fun j => !(acc.1.requests.ReqRepVars j).Used)).map
            (fun j => unmatchedRequestMessage
              ((GenOutputVariablesAuditReport_body D acc i).1.requests.ReqRepVars j))
          = (l.filter (fun j => !(acc.1.requests.ReqRepVars j).Used)).map
            (fun j => unmatchedRequestMessage (acc.1.requests.ReqRepVars j)) := by
        apply List.map_congr_left
        intro j hj
        have hjl : j ∈ l := (List.mem_filter.1 hj).1
        have hne : j ≠ i := fun e => hi (e ▸ hjl)
        rw [b2 j hne]
      rw [hm]
      cases hU : (acc.1.requests.ReqRepVars i).Used with
      | true => simp [List.filter_cons, hU]
      | false => simp [List.filter_cons, hU]
    · have hji : j ≠ i := fun e => hj (e ▸ List.mem_cons_self _ _)
      have hjl : j ∉ l := fun e => hj (List.mem_cons_of_mem _ e)
      rw [i3 j hjl, b2 j hji]

/-- C27. The messages GenOutputVariablesAuditReport shows are, in order, one message
"Key=..., VarName=..., Frequency=..." for each request 1..NumOfReqVariables whose Used flag is
false, and none for a request whose Used flag is true; the message of a request with a blank
key has Key=*; and the Used flags are left as they were. -/
theorem GenOutputVariablesAuditReport_one_message_per_unused_request (D : Bool)
    (st : AuditReport) :
    shownMessages (GenOutputVariablesAuditReport D st).2
      = ((List.range' 1 st.requests.NumOfReqVariables).filter
            (fun i => !(st.requests.ReqRepVars i).Used)).map
          (fun i => unmatchedRequestMessage (st.requests.ReqRepVars i)) ∧
    (∀ r : ReqReportVariables, isBlankString r.Key = true →
      unmatchedRequestMessage r
        = "Key=*, VarName=" ++ trim r.VarName ++ ", Frequency=" ++
            trim (ReportFrequency r.ReportFreq)) ∧
    (∀ j, ((GenOutputVariablesAuditReport D st).1.requests.ReqRepVars j).Used
      = (st.requests.ReqRepVars j).Used) := by
  obtain ⟨h1, h2, _⟩ := GenOutputVariablesAuditReport_fold D
    (List.range' 1 st.requests.NumOfReqVariables) (st, []) (List.nodup_range' _ _)
  refine ⟨?_, ?_, h2⟩
  · unfold GenOutputVariablesAuditReport
    rw [h1]
    simp [shownMessages]
  · intro r hr
    unfold unmatchedRequestMessage
    simp only [hr, if_true]
    rfl

/-! ## Integer output variables -/

theorem RecordKeeping_IVar_extremes (env : ReportingCall) (Which : Int)
    (v : IntegerVariables) :
    (RecordKeeping_IVar env Which v).1.MinValue ≤ v.MinValue ∧
    v.MaxValue ≤ (RecordKeeping_IVar env Which v).1.MaxValue ∧
    (RecordKeeping_IVar env Which v).1.StoreType = v.StoreType ∧
    (v.StoreType ≠ AveragedVar →
      (RecordKeeping_IVar env Which v).1.MinValue ≤ Which ∧
      Which ≤ (RecordKeeping_IVar env Which v).1.MaxValue) ∧
    (v.StoreType = AveragedVar →
      (RecordKeeping_IVar env Which v).1.MinValue ≤ nint ((Which : ℚ) * rxTime env) ∧
      nint ((Which : ℚ) * rxTime env) ≤ (RecordKeeping_IVar env Which v).1.MaxValue) := by
  unfold RecordKeeping_IVar
  simp only
  refine ⟨?_, ?_, trivial, fun h => ?_, fun h => ?_⟩
  · split_ifs <;> omega
  · split_ifs <;> omega
  · simp only [h, if_false]
    constructor <;> split_ifs <;> omega
  · simp only [h, if_true]
    constructor <;> split_ifs <;> omega

/-- A Summed integer variable keeps every value it has seen between its minimum and its
maximum, as long as these are not reset. -/
theorem recordKeepingCalls_summed (calls : List (ReportingCall × Int)) :
    ∀ v : IntegerVariables, v.StoreType ≠ AveragedVar →
      (recordKeepingCalls calls v).MinValue ≤ v.MinValue ∧
      v.MaxValue ≤ (recordKeepingCalls calls v).MaxValue ∧
      ∀ c ∈ calls, (recordKeepingCalls calls v).MinValue ≤ c.2 ∧
        c.2 ≤ (recordKeepingCalls calls v).MaxValue := by
  induction calls with
  | nil =>
    intro v _
    exact ⟨le_refl _, le_refl _, fun c hc => absurd hc (List.not_mem_nil _)⟩
  | cons c calls ih =>
    intro v hv
    obtain ⟨e1, e2, e3, e4, _⟩ := RecordKeeping_IVar_extremes c.1 c.2 v
    obtain ⟨i1, i2, i3⟩ := ih (RecordKeeping_IVar c.1 c.2 v).1 (by rw [e3]; exact hv)
    obtain ⟨e5, e6⟩ := e4 hv
    have hrun : recordKeepingCalls (c :: calls) v
        = recordKeepingCalls calls (RecordKeeping_IVar c.1 c.2 v).1 := rfl
    rw [hrun]
    refine ⟨le_trans i1 e1, le_trans e2 i2, fun d hd => ?_⟩
    rcases List.mem_cons.1 hd with h | h
    · rw [h]
      exact ⟨le_trans i1 e5, le_trans e6 i2⟩
    · exact i3 d h

theorem nint_five : nint ((10 : Int) * rxTime (sampleSystemCall (1 / 8) 10).env) = 5 := by
  have hr : rxTime (sampleSystemCall (1 / 8) 10).env = 1 / 2 := by
    simp only [rxTime, sampleSystemCall]
    norm_num
  rw [hr]
  unfold nint
  have h0 : (0 : ℚ) ≤ ((10 : Int) : ℚ) * (1 / 2) := by norm_num
  rw [if_pos h0, Int.floor_eq_iff]
  constructor <;> norm_num

/-- C29 at the failing input. An Averaged integer variable holds 10 at a system timestep of
half a zone timestep (rxTime = 1/2); the update records nint(10 * 1/2) = 5 as its maximum,
which is below the observed value 10. A Summed integer variable does keep every value it has
seen between its minimum and its maximum, and for an Averaged one this holds of nint(Which *
rxTime) instead of Which. -/
theorem RecordKeeping_IVar_averaged_maximum_below_value :
    (RecordKeeping_IVar (sampleSystemCall (1 / 8) 10).env 10
      (reportedIntegerVariable AveragedVar ReportHourly)).1.MaxValue = 5 ∧
    (RecordKeeping_IVar (sampleSystemCall (1 / 8) 10).env 10
      (reportedIntegerVariable AveragedVar ReportHourly)).1.MaxValue < 10 ∧
    (∀ (calls : List (ReportingCall × Int)) (v : IntegerVariables),
      v.StoreType ≠ AveragedVar →
      ∀ c ∈ calls, (recordKeepingCalls calls v).MinValue ≤ c.2 ∧
        c.2 ≤ (recordKeepingCalls calls v).MaxValue) ∧
    (∀ (env : ReportingCall) (Which : Int) (v : IntegerVariables),
      v.StoreType = AveragedVar →
      (RecordKeeping_IVar env Which v).1.MinValue ≤ nint ((Which : ℚ) * rxTime env) ∧
      nint ((Which : ℚ) * rxTime env) ≤ (RecordKeeping_IVar env Which v).1.MaxValue) := by
  have h5 : (RecordKeeping_IVar (sampleSystemCall (1 / 8) 10).env 10
      (reportedIntegerVariable AveragedVar ReportHourly)).1.MaxValue = 5 := by
    have hn := nint_five
    simp only [RecordKeeping_IVar, reportedIntegerVariable, if_true]
    rw [hn]
    decide
  refine ⟨h5, by rw [h5]; decide, fun calls v hv => (recordKeepingCalls_summed calls v hv).2.2,
    fun env w v hv => (RecordKeeping_IVar_extremes env w v).2.2.2.2 hv⟩

/-! ## The minimum and maximum of a meter over a day -/

/-- UpdateMeters calls SetMinMax with the new TSValue of the meter on the minimum and maximum
of every resolution. -/
theorem UpdateMeters_extremes (ts : Int) (st : MeterState) (i : Nat)
    (h1 : 1 ≤ i) (hN : i ≤ st.NumEnergyMeters) :
    hourExtremes ((UpdateMeters ts st).EnergyMeters i)
      = SetMinMax ((UpdateMeters ts st).EnergyMeters i).TSValue ts
          (hourExtremes (st.EnergyMeters i)) ∧
    dayExtremes ((UpdateMeters ts st).EnergyMeters i)
      = SetMinMax ((UpdateMeters ts st).EnergyMeters i).TSValue ts
          (dayExtremes (st.EnergyMeters i)) ∧
    monthExtremes ((UpdateMeters ts st).EnergyMeters i)
      = SetMinMax ((UpdateMeters ts st).EnergyMeters i).TSValue ts
          (monthExtremes (st.EnergyMeters i)) ∧
    runPeriodExtremes ((UpdateMeters ts st).EnergyMeters i)
      = SetMinMax ((UpdateMeters ts st).EnergyMeters i).TSValue ts
          (runPeriodExtremes (st.EnergyMeters i)) := by
  rw [UpdateMeters_at ts st i h1 hN]
  have hpre : UpdateMetersLoop ts st.MeterValue st.EnergyMeters (i - 1) i = st.EnergyMeters i :=
    UpdateMetersLoop_above _ _ _ _ _ (by omega)
  unfold UpdateMeters_Meter
  simp only [hpre]
  split
  · simp only [Function.update_same]
    exact ⟨rfl, rfl, rfl, rfl⟩
  · simp only [Function.update_same]
    exact ⟨rfl, rfl, rfl, rfl⟩

theorem dayExtremes_at_report (e : MeterReportingStep) (st : MeterState) (i : Nat)
    (h1 : 1 ≤ i) (hN : i ≤ st.NumEnergyMeters) :
    dayExtremes ((atReportDYMeters e st).EnergyMeters i)
      = SetMinMax ((atReportTSMeters e st).EnergyMeters i).TSValue e.TimeStamp
          (dayExtremes (st.EnergyMeters i)) ∧
    ((atReportDYMeters e st).EnergyMeters i).RptDY = (st.EnergyMeters i).RptDY ∧
    (closesDay e = false →
      dayExtremes ((UpdateDataandReport_Meters e st).EnergyMeters i)
        = SetMinMax ((atReportTSMeters e st).EnergyMeters i).TSValue e.TimeStamp
            (dayExtremes (st.EnergyMeters i)) ∧
      ((UpdateDataandReport_Meters e st).EnergyMeters i).RptDY = (st.EnergyMeters i).RptDY) := by
  have hN' : i ≤ (applyUpdateMeterValues e.calls st).NumEnergyMeters := hN
  have hx := (UpdateMeters_extremes e.TimeStamp (applyUpdateMeterValues e.calls st) i h1 hN').2.1
  have hE : (applyUpdateMeterValues e.calls st).EnergyMeters i = st.EnergyMeters i := rfl
  rw [hE] at hx
  have hr : ((UpdateMeters e.TimeStamp (applyUpdateMeterValues e.calls st)).EnergyMeters i).RptDY
      = (st.EnergyMeters i).RptDY := by
    have := (UpdateMeters_fields e.TimeStamp (applyUpdateMeterValues e.calls st) i h1 hN')
    rw [UpdateMeters_at _ _ i h1 hN']
    have hpre : UpdateMetersLoop e.TimeStamp (applyUpdateMeterValues e.calls st).MeterValue
        (applyUpdateMeterValues e.calls st).EnergyMeters (i - 1) i = st.EnergyMeters i :=
      UpdateMetersLoop_above _ _ _ _ _ (by omega)
    unfold UpdateMeters_Meter
    simp only [hpre]
    split <;> simp [accumulateMeter]
  have hnum : (UpdateMeters e.TimeStamp (applyUpdateMeterValues e.calls st)).NumEnergyMeters
      = st.NumEnergyMeters := rfl
  have hpos : st.NumEnergyMeters > 0 := by omega
  have hday : ∀ m : MeterType, dayExtremes (ReportHRMeters_Meter m) = dayExtremes m ∧
      (ReportHRMeters_Meter m).RptDY = m.RptDY := by
    intro m
    unfold ReportHRMeters_Meter
    split
    · exact ⟨rfl, rfl⟩
    · split <;> exact ⟨rfl, rfl⟩
  have hA : dayExtremes ((atReportDYMeters e st).EnergyMeters i)
      = dayExtremes ((atReportTSMeters e st).EnergyMeters i) ∧
      ((atReportDYMeters e st).EnergyMeters i).RptDY
        = ((atReportTSMeters e st).EnergyMeters i).RptDY := by
    simp only [atReportDYMeters, atReportHRMeters, atReportTSMeters, ReportHRMeters,
      ReportTSMeters, forEachMeter, h1, hN, hnum, hpos, and_self, if_true]
    exact ⟨(hday _).1, (hday _).2⟩
  have hB : dayExtremes ((atReportHRMeters e st).EnergyMeters i)
      = dayExtremes ((atReportTSMeters e st).EnergyMeters i) := by
    simp only [atReportHRMeters, atReportTSMeters, ReportTSMeters, forEachMeter, h1, hN, hnum,
      hpos, and_self, if_true]
    rfl
  have hB2 : ((atReportHRMeters e st).EnergyMeters i).RptDY
      = ((atReportTSMeters e st).EnergyMeters i).RptDY := by
    simp only [atReportHRMeters, atReportTSMeters, ReportTSMeters, forEachMeter, h1, hN, hnum,
      hpos, and_self, if_true]
  refine ⟨by rw [hA.1]; exact hx, by rw [hA.2]; exact hr, fun hc => ?_⟩
  have hstep : UpdateDataandReport_Meters e st = atReportHRMeters e st ∨
      UpdateDataandReport_Meters e st = atReportDYMeters e st := by
    simp only [closesDay, Bool.and_eq_false_iff] at hc
    unfold UpdateDataandReport_Meters
    rcases hc with hc | hc
    · left
      simp [hc, atReportHRMeters, atReportTSMeters]
    · cases hh : e.EndHourFlag
      · left
        simp [atReportHRMeters, atReportTSMeters]
      · right
        simp [hc, atReportDYMeters, atReportHRMeters, atReportTSMeters]
  rcases hstep with hs | hs
  · rw [hs, hB, hB2]; exact ⟨hx, hr⟩
  · rw [hs, hA.1, hA.2]; exact ⟨hx, hr⟩

/-- Over steps none of which closes the day, the daily minimum and maximum of a meter are what
SetMinMax makes of the timestep totals of the meter, in order. -/
theorem dayExtremes_run (i : Nat) (h1 : 1 ≤ i) :
    ∀ (steps : List MeterReportingStep) (st : MeterState), i ≤ st.NumEnergyMeters →
      (∀ s ∈ steps, closesDay s = false) →
      dayExtremes ((runMeterSteps steps st).EnergyMeters i)
        = SetMinMaxAll (timestepTotals i steps st) (dayExtremes (st.EnergyMeters i)) ∧
      (runMeterSteps steps st).NumEnergyMeters = st.NumEnergyMeters ∧
      ((runMeterSteps steps st).EnergyMeters i).RptDY = (st.EnergyMeters i).RptDY := by
  intro steps
  induction steps with
  | nil => intro st _ _; exact ⟨rfl, rfl, rfl⟩
  | cons e rest ih =>
    intro st hN hall
    have hnum := (UpdateDataandReport_Meters_MeterValue e st i).2
    obtain ⟨_, a2, a3⟩ := dayExtremes_at_report e st i h1 hN
    have hc := hall e (List.mem_cons_self _ _)
    obtain ⟨i1, i2, i3⟩ := ih (UpdateDataandReport_Meters e st) (by rw [hnum]; exact hN)
      (fun s hs => hall s (List.mem_cons_of_mem _ hs))
    have hrun : runMeterSteps (e :: rest) st
        = runMeterSteps rest (UpdateDataandReport_Meters e st) := rfl
    obtain ⟨a4, hrd⟩ := a3 hc
    rw [hrun]
    refine ⟨?_, by rw [i2, hnum], by rw [i3, hrd]⟩
    rw [i1, a4]
    rfl

theorem timestepTotals_append (i : Nat) :
    ∀ (steps : List MeterReportingStep) (e : MeterReportingStep) (st : MeterState),
      timestepTotals i (steps ++ [e]) st
        = timestepTotals i steps st ++
            [(((atReportTSMeters e (runMeterSteps steps st)).EnergyMeters i).TSValue,
              e.TimeStamp)] := by
  intro steps
  induction steps with
  | nil => intro e st; rfl
  | cons s rest ih =>
    intro e st
    change timestepTotals i (s :: (rest ++ [e])) st = _
    simp only [timestepTotals]
    rw [ih]
    rfl

/-- The daily minimum and maximum a step that closes the day hands to ReportDYMeters, in terms
of the timestep totals since the steps began. -/
theorem dayExtremes_at_day_close (st : MeterState) (inner : List MeterReportingStep)
    (e : MeterReportingStep) (i : Nat) (h1 : 1 ≤ i) (hN : i ≤ st.NumEnergyMeters)
    (hinner : ∀ s ∈ inner, closesDay s = false) :
    dayExtremes ((atReportDYMeters e (runMeterSteps inner st)).EnergyMeters i)
      = SetMinMaxAll (timestepTotals i (inner ++ [e]) st) (dayExtremes (st.EnergyMeters i)) ∧
    ((atReportDYMeters e (runMeterSteps inner st)).EnergyMeters i).RptDY
      = (st.EnergyMeters i).RptDY := by
  obtain ⟨r1, r2, r3⟩ := dayExtremes_run i h1 inner st hN hinner
  obtain ⟨a1, a2, _⟩ := dayExtremes_at_report e (runMeterSteps inner st) i h1
    (by rw [r2]; exact hN)
  refine ⟨?_, by rw [a2, r3]⟩
  rw [a1, r1, timestepTotals_append]
  simp [SetMinMaxAll, List.foldl_append]

/-- C30 (as amended). For a meter with the daily report requested and a day whose steps are
`inner` followed by the step `e` that closes the day, ReportDYMeters writes the daily minimum
and maximum the meter has then, and these are what SetMinMax makes of the timestep totals of
the meter over the day (the TSValue of every zone timestep, not the hourly totals), starting
from the minimum and maximum the day began with: every timestep total of the day lies between
them, and each is either the value the day began with or one of the timestep totals. In
general UpdateMeters updates the minimum and maximum of every resolution from the TSValue of
the meter at every zone timestep. -/
theorem ReportDYMeters_extremes_of_timestep_totals (st : MeterState)
    (inner : List MeterReportingStep) (e : MeterReportingStep) (i : Nat)
    (h1 : 1 ≤ i) (hN : i ≤ st.NumEnergyMeters)
    (hinner : ∀ s ∈ inner, closesDay s = false) (hclose : closesDay e = true)
    (hrpt : (st.EnergyMeters i).RptDY = true) :
    (UpdateDataandReport_Meters e (runMeterSteps inner st)
      = (if e.EndEnvrnFlag then ReportSMMeters else id)
          ((if e.EndMonthFlag || e.EndEnvrnFlag then ReportMNMeters else id)
            (ReportDYMeters (atReportDYMeters e (runMeterSteps inner st))))) ∧
    ReportDYMeters_written ((atReportDYMeters e (runMeterSteps inner st)).EnergyMeters i)
      = some (((atReportDYMeters e (runMeterSteps inner st)).EnergyMeters i).DYValue,
          (SetMinMaxAll (timestepTotals i (inner ++ [e]) st)
            (dayExtremes (st.EnergyMeters i))).CurMinValue,
          (SetMinMaxAll (timestepTotals i (inner ++ [e]) st)
            (dayExtremes (st.EnergyMeters i))).CurMinValDate,
          (SetMinMaxAll (timestepTotals i (inner ++ [e]) st)
            (dayExtremes (st.EnergyMeters i))).CurMaxValue,
          (SetMinMaxAll (timestepTotals i (inner ++ [e]) st)
            (dayExtremes (st.EnergyMeters i))).CurMaxValDate) ∧
    (∀ p ∈ timestepTotals i (inner ++ [e]) st,
      ((atReportDYMeters e (runMeterSteps inner st)).EnergyMeters i).DYMinVal ≤ p.1 ∧
      p.1 ≤ ((atReportDYMeters e (runMeterSteps inner st)).EnergyMeters i).DYMaxVal) ∧
    (((atReportDYMeters e (runMeterSteps inner st)).EnergyMeters i).DYMaxVal
        = (st.EnergyMeters i).DYMaxVal ∨
      ∃ p ∈ timestepTotals i (inner ++ [e]) st,
        p.1 = ((atReportDYMeters e (runMeterSteps inner st)).EnergyMeters i).DYMaxVal) ∧
    (((atReportDYMeters e (runMeterSteps inner st)).EnergyMeters i).DYMinVal
        = (st.EnergyMeters i).DYMinVal ∨
      ∃ p ∈ timestepTotals i (inner ++ [e]) st,
        p.1 = ((atReportDYMeters e (runMeterSteps inner st)).EnergyMeters i).DYMinVal) ∧
    (∀ (ts : Int) (s : MeterState) (j : Nat), 1 ≤ j → j ≤ s.NumEnergyMeters →
      hourExtremes ((UpdateMeters ts s).EnergyMeters j)
        = SetMinMax ((UpdateMeters ts s).EnergyMeters j).TSValue ts
            (hourExtremes (s.EnergyMeters j)) ∧
      dayExtremes ((UpdateMeters ts s).EnergyMeters j)
        = SetMinMax ((UpdateMeters ts s).EnergyMeters j).TSValue ts
            (dayExtremes (s.EnergyMeters j)) ∧
      monthExtremes ((UpdateMeters ts s).EnergyMeters j)
        = SetMinMax ((UpdateMeters ts s).EnergyMeters j).TSValue ts
            (monthExtremes (s.EnergyMeters j)) ∧
      runPeriodExtremes ((UpdateMeters ts s).EnergyMeters j)
        = SetMinMax ((UpdateMeters ts s).EnergyMeters j).TSValue ts
            (runPeriodExtremes (s.EnergyMeters j))) := by
  obtain ⟨hd, hr⟩ := dayExtremes_at_day_close st inner e i h1 hN hinner
  obtain ⟨mx1, mx2⟩ := SetMinMaxAll_max (timestepTotals i (inner ++ [e]) st)
    (dayExtremes (st.EnergyMeters i))
  obtain ⟨mn1, mn2⟩ := SetMinMaxAll_min (timestepTotals i (inner ++ [e]) st)
    (dayExtremes (st.EnergyMeters i))
  rw [← hd] at mx1 mx2 mn1 mn2
  simp only [closesDay, Bool.and_eq_true] at hclose
  refine ⟨?_, ?_, fun p hp => ⟨mn1 p hp, mx1 p hp⟩, ?_, ?_,
    fun ts s j hj1 hj2 => UpdateMeters_extremes ts s j hj1 hj2⟩
  · unfold UpdateDataandReport_Meters
    simp only [hclose.1, hclose.2, Bool.not_true, Bool.false_eq_true, if_false,
      atReportDYMeters, atReportHRMeters, atReportTSMeters]
    cases e.EndMonthFlag <;> cases e.EndEnvrnFlag <;> rfl
  · rw [← hd]
    unfold ReportDYMeters_written
    rw [hr, hrpt]
    rfl
  · rcases mx2 with ⟨h, _⟩ | ⟨_, h⟩
    · exact Or.inl h
    · exact Or.inr ⟨_, List.mem_of_find?_eq_some h, rfl⟩
  · rcases mn2 with ⟨h, _⟩ | ⟨_, h⟩
    · exact Or.inl h
    · exact Or.inr ⟨_, List.mem_of_find?_eq_some h, rfl⟩

/-- The meter of dailyMeter after a first step of value 1 with time stamp 1. -/
theorem dailyMeter_first_step :
    (UpdateDataandReport_Meters (meterStep 1 1 false false) dailyMeter).EnergyMeters 1
      = { freshMeter with
          RptHR := true, RptDY := true, CurTSValue := 1, HRValue := 1, DYValue := 1,
          MNValue := 1, SMValue := 1, HRMaxVal := 1, HRMinVal := 1, DYMaxVal := 1, DYMinVal := 1,
          MNMaxVal := 1, MNMinVal := 1, SMMaxVal := 1, SMMinVal := 1, HRMaxValDate := 1,
          HRMinValDate := 1, DYMaxValDate := 1, DYMinValDate := 1, MNMaxValDate := 1,
          MNMinValDate := 1, SMMaxValDate := 1, SMMinValDate := 1 } := by
  simp [UpdateDataandReport_Meters, ReportTSMeters, forEachMeter, meterStep, dailyMeter,
    UpdateMeters, UpdateMetersLoop, UpdateMeters_Meter, applyUpdateMeterValues,
    UpdateMeterValues, addToMeterValue, accumulateMeter, freshMeter, MeterType_Normal,
    MeterType_CustomDec, MeterType_CustomDiff, SetMinMax, MaxSetValue, MinSetValue]
  norm_num

/-- C30 (as amended) at a sample input: a day of two zone timesteps with the totals 1 and 3,
the second closing the hour and the day. -/
theorem ReportDYMeters_extremes_of_timestep_totals_sample :
    (∀ s ∈ [meterStep 1 1 false false], closesDay s = false) ∧
    closesDay (meterStep 3 2 true true) = true ∧
    (∀ p ∈ timestepTotals 1 ([meterStep 1 1 false false] ++ [meterStep 3 2 true true])
        dailyMeter,
      ((atReportDYMeters (meterStep 3 2 true true)
          (runMeterSteps [meterStep 1 1 false false] dailyMeter)).EnergyMeters 1).DYMinVal
        ≤ p.1 ∧
      p.1 ≤ ((atReportDYMeters (meterStep 3 2 true true)
          (runMeterSteps [meterStep 1 1 false false] dailyMeter)).EnergyMeters 1).DYMaxVal) :=
  ⟨by decide, by decide,
   (ReportDYMeters_extremes_of_timestep_totals dailyMeter [meterStep 1 1 false false]
      (meterStep 3 2 true true) 1 (le_refl 1) (le_refl 1) (by decide) (by decide) rfl).2.2.1⟩

/-- C30 fails as stated: in a day of one hour with the timestep totals 1 and 3, the only
hourly total of the day is 4, and ReportDYMeters writes the daily total 4 with the minimum 1
(time stamp 1) and the maximum 3 (time stamp 2), the smallest and the largest timestep
total. -/
theorem ReportDYMeters_extremes_not_hourly_counterexample :
    hourlyTotals 1 [meterStep 1 1 false false, meterStep 3 2 true true] dailyMeter = [4] ∧
    ReportDYMeters_written
        ((atReportDYMeters (meterStep 3 2 true true)
          (runMeterSteps [meterStep 1 1 false false] dailyMeter)).EnergyMeters 1)
      = some (4, 1, 1, 3, 2) := by
  have hrun : runMeterSteps [meterStep 1 1 false false] dailyMeter
      = UpdateDataandReport_Meters (meterStep 1 1 false false) dailyMeter := rfl
  have hmv := UpdateDataandReport_Meters_MeterValue (meterStep 1 1 false false) dailyMeter 1
  have hnum : (UpdateDataandReport_Meters (meterStep 1 1 false false) dailyMeter).NumEnergyMeters
      = 1 := hmv.2
  have hmv1 := hmv.1
  have hm := dailyMeter_first_step
  have hc1 : closesHour (meterStep 1 1 false false) = false := rfl
  have hc2 : closesHour (meterStep 3 2 true true) = true := rfl
  simp only [hourlyTotals, hc1, hc2, hrun, Bool.false_eq_true, if_false, if_true,
    List.nil_append, List.append_nil]
  generalize UpdateDataandReport_Meters (meterStep 1 1 false false) dailyMeter = st1
    at hnum hmv1 hm ⊢
  constructor
  · simp [atReportHRMeters, atReportTSMeters, ReportTSMeters,
      forEachMeter, UpdateMeters, UpdateMetersLoop, UpdateMeters_Meter, applyUpdateMeterValues,
      UpdateMeterValues, addToMeterValue, accumulateMeter, hnum, hmv1, hm, meterStep,
      freshMeter, MeterType_Normal, MeterType_CustomDec, MeterType_CustomDiff]
    norm_num
  · simp [ReportDYMeters_written, atReportDYMeters, ReportHRMeters, ReportHRMeters_Meter,
      atReportHRMeters, atReportTSMeters, ReportTSMeters,
      forEachMeter, UpdateMeters, UpdateMetersLoop, UpdateMeters_Meter, applyUpdateMeterValues,
      UpdateMeterValues, addToMeterValue, accumulateMeter, hnum, hmv1, hm, meterStep,
      freshMeter, MeterType_Normal, MeterType_CustomDec, MeterType_CustomDiff, SetMinMax,
      MaxSetValue, MinSetValue]
    norm_num

/-! ## The fields of a data line and the field count of the dictionary -/

theorem fieldsOf_ne_nil (l : List Char) : fieldsOf l ≠ [] := by
  cases l with
  | nil => simp [fieldsOf]
  | cons c cs =>
    simp only [fieldsOf]
    split_ifs
    · simp
    · split <;> simp

theorem fieldsOf_length (l : List Char) : (fieldsOf l).length = l.count ',' + 1 := by
  induction l with
  | nil => simp [fieldsOf]
  | cons c cs ih =>
    simp only [fieldsOf]
    by_cases hc : c = ','
    · subst hc
      simp [ih]
    · have hc2 : (c == ',') = false := by simpa using hc
      rw [if_neg hc, List.count_cons, hc2]
      cases h : fieldsOf cs with
      | nil => exact absurd h (fieldsOf_ne_nil cs)
      | cons f fs =>
        rw [h] at ih
        simpa using ih

theorem fieldsOf_append_comma (a b : List Char) (h : ',' ∉ a) :
    fieldsOf (a ++ ',' :: b) = a :: fieldsOf b := by
  induction a with
  | nil => simp [fieldsOf]
  | cons c cs ih =>
    have hc : c ≠ ',' := fun e => h (by simp [e])
    have hcs : ',' ∉ cs := fun e => h (by simp [e])
    have e := ih hcs
    simp only [List.cons_append, fieldsOf, if_neg hc]
    change (match fieldsOf (cs ++ ',' :: b) with
      | [] => [[c]]
      | f :: fs => (c :: f) :: fs) = _
    rw [e]

theorem fieldsAfterFirst_eq (line : String) :
    fieldsAfterFirst line = line.data.count ',' := by
  simp [fieldsAfterFirst, fieldsOf_length]

theorem trimBlanks_sublist (s : String) : (trimBlanks s).Sublist s.data := by
  unfold trimBlanks
  have h := (List.dropWhile_suffix (fun c => c == ' ') (l := s.data.reverse)).sublist
  simpa using h.reverse

theorem trimBlanks_count (s : String) : (trimBlanks s).count ',' = s.data.count ',' := by
  have h := List.takeWhile_append_dropWhile (fun c => c == ' ') s.data.reverse
  have h0 : (List.takeWhile (fun c => c == ' ') s.data.reverse).count ',' = 0 := by
    rw [List.count_eq_zero]
    intro hm
    have := List.mem_takeWhile_imp hm
    simp at this
  have h1 : s.data.count ',' = s.data.reverse.count ',' := by simp
  unfold trimBlanks
  rw [h1, List.count_reverse]
  conv_rhs => rw [← h]
  rw [List.count_append, h0, Nat.zero_add]

theorem toFstring_of_le (n : Nat) (s : String) (h : s.data.length ≤ n) :
    toFstring n s = s := by
  unfold toFstring
  rw [List.take_of_length_le h]

theorem toFstring_sublist (n : Nat) (s : String) : (toFstring n s).data.Sublist s.data :=
  List.take_sublist _ _

theorem adjustl_sublist (s : String) : (adjustl s).data.Sublist s.data :=
  (List.dropWhile_suffix _).sublist

theorem formatI2_plain (n : Int) :
    (formatI2 n).data.count ',' = 0 ∧ (formatI2 n).length = 2 := by
  by_cases h : -10 < n ∧ n < 100
  · obtain ⟨h1, h2⟩ := h
    interval_cases n <;> exact ⟨by decide, by decide⟩
  · have e : formatI2 n = "**" := by
      unfold formatI2
      rw [if_neg (by omega), if_neg (by omega), if_neg (by omega)]
    rw [e]
    exact ⟨by decide, by decide⟩

/-- The value string as ProduceMinMaxString uses it has no comma and is no longer than the
string given. -/
theorem tempString_plain (V : String) (hV : ',' ∉ V.data) :
    (trim (toFstring 40 (adjustl V))).data.count ',' = 0 ∧
      (trim (toFstring 40 (adjustl V))).length ≤ V.data.length := by
  have hs : (trim (toFstring 40 (adjustl V))).data.Sublist V.data :=
    ((trimBlanks_sublist _).trans (toFstring_sublist _ _)).trans (adjustl_sublist V)
  exact ⟨List.count_eq_zero.mpr (fun hm => hV (hs.subset hm)), hs.length_le⟩

/-- The number of commas ProduceMinMaxString adds to a value string without a comma and of at
most 28 characters: 2 for Daily, 3 for Monthly, 4 for RunPeriod, none otherwise. -/
theorem ProduceMinMaxString_commas (fmt : OutputFormat) (V : String) (D f : Int)
    (hV : ',' ∉ V.data) (hlen : V.data.length ≤ 28) :
    (trim (toFstring 55 (ProduceMinMaxString fmt V D f))).data.count ',' =
      if f = 2 then 2 else if f = 3 then 3 else if f = 4 then 4 else 0 := by
  obtain ⟨t0, tl⟩ := tempString_plain V hV
  have i := formatI2_plain
  have hc : (",".length : Nat) = 1 := rfl
  have key : ∀ s : String, s.length ≤ 40 →
      (trim (toFstring 55 (toFstring 40 s))).data.count ',' = s.data.count ',' := by
    intro s hs
    have hs2 : s.data.length ≤ 40 := hs
    rw [toFstring_of_le 40 s hs2, toFstring_of_le 55 s (by omega)]
    exact trimBlanks_count s
  unfold ProduceMinMaxString
  dsimp only
  split_ifs
  · rw [key _ (by simp [(i _).2, hc]; omega)]
    simp [String.data_append, List.count_append, t0, (i _).1]
  · rw [key _ (by simp [(i _).2, hc]; omega)]
    simp [String.data_append, List.count_append, t0, (i _).1]
  · rw [key _ (by simp [(i _).2, hc]; omega)]
    simp [String.data_append, List.count_append, t0, (i _).1]
  · simp [BlankString, toFstring, trim, trimBlanks]

theorem numberOut_plain (fmt : OutputFormat) (n : Nat) (x : ℚ)
    (hfmt : plainNumber (fmt.formatReal x)) :
    ',' ∉ (numberOut fmt n x).data ∧ (numberOut fmt n x).data.length ≤ 28 := by
  unfold numberOut
  split_ifs
  · exact ⟨by decide, by decide⟩
  · have hs := toFstring_sublist n (fmt.formatReal x)
    exact ⟨fun hm => hfmt.1 (hs.subset hm), le_trans hs.length_le hfmt.2⟩

theorem trim_count_zero (s : String) (h : ',' ∉ s.data) : (trim s).data.count ',' = 0 :=
  List.count_eq_zero.mpr (fun hm => h ((trimBlanks_sublist s).subset hm))

/-- The number of fields after the report number on the line of WriteReportRealData. -/
theorem WriteReportRealData_line_fields (fmt : OutputFormat) (creportID : String)
    (repValue : ℚ) (storeType : Nat) (numOfItemsStored : ℚ) (f : Int) (minValue : ℚ)
    (minValueDate : Int) (MaxValue : ℚ) (maxValueDate : Int)
    (hid : ',' ∉ creportID.data) (hfmt : ∀ x, plainNumber (fmt.formatReal x))
    (hf : f = -1 ∨ f = 0 ∨ f = 1 ∨ f = 2 ∨ f = 3 ∨ f = 4) :
    ∃ line, WriteReportRealData_line fmt creportID repValue storeType numOfItemsStored f
        minValue minValueDate MaxValue maxValueDate = some line ∧
      fieldsAfterFirst line =
        if f = 2 then 7 else if f = 3 then 9 else if f = 4 then 11 else 1 := by
  have hn := fun n x => numberOut_plain fmt n x (hfmt x)
  have hp := fun V D (h : ',' ∉ V.data ∧ V.data.length ≤ 28) =>
    ProduceMinMaxString_commas fmt V D f h.1 h.2
  have c0 := trim_count_zero creportID hid
  have cn := fun n x => trim_count_zero _ (hn n x).1
  unfold WriteReportRealData_line
  dsimp only
  rcases hf with h | h | h | h | h | h <;> subst h
  · rw [if_pos (by decide)]
    exact ⟨_, rfl, by
      simp [fieldsAfterFirst_eq, String.data_append, List.count_append, c0, cn]⟩
  · rw [if_pos (by decide)]
    exact ⟨_, rfl, by
      simp [fieldsAfterFirst_eq, String.data_append, List.count_append, c0, cn]⟩
  · rw [if_pos (by decide)]
    exact ⟨_, rfl, by
      simp [fieldsAfterFirst_eq, String.data_append, List.count_append, c0, cn]⟩
  · rw [if_neg (by decide), if_pos (by decide)]
    exact ⟨_, rfl, by
      simp [fieldsAfterFirst_eq, String.data_append, List.count_append, c0, cn,
        hp _ _ (hn 55 _)]⟩
  · rw [if_neg (by decide), if_pos (by decide)]
    exact ⟨_, rfl, by
      simp [fieldsAfterFirst_eq, String.data_append, List.count_append, c0, cn,
        hp _ _ (hn 55 _)]⟩
  · rw [if_neg (by decide), if_pos (by decide)]
    exact ⟨_, rfl, by
      simp [fieldsAfterFirst_eq, String.data_append, List.count_append, c0, cn,
        hp _ _ (hn 55 _)]⟩

/-- The field count on the line of WriteReportVariableDictionaryItem. -/
theorem WriteReportVariableDictionaryItem_count (f : Int) (storeType : Nat)
    (reportIDChr keyedValue variableName UnitsString : String) (ScheduleName : Option String)
    (hid : ',' ∉ reportIDChr.data)
    (hf : f = -1 ∨ f = 0 ∨ f = 1 ∨ f = 2 ∨ f = 3 ∨ f = 4) :
    ∃ item, WriteReportVariableDictionaryItem f storeType reportIDChr keyedValue variableName
        UnitsString ScheduleName = some item ∧
      secondField item =
        if f = 2 then "7" else if f = 3 then "9" else if f = 4 then "11" else "1" := by
  have hid2 : ',' ∉ trimBlanks reportIDChr :=
    fun hm => hid ((trimBlanks_sublist reportIDChr).subset hm)
  have e := fun b => fieldsOf_append_comma (trimBlanks reportIDChr) b hid2
  unfold WriteReportVariableDictionaryItem
  dsimp only
  rcases hf with h | h | h | h | h | h <;> subst h
  · rw [if_pos (by decide)]
    exact ⟨_, rfl, by simp [secondField, String.data_append, trim, e, fieldsOf]⟩
  · rw [if_pos (by decide)]
    exact ⟨_, rfl, by simp [secondField, String.data_append, trim, e, fieldsOf]⟩
  · rw [if_neg (by decide), if_pos (by decide)]
    exact ⟨_, rfl, by simp [secondField, String.data_append, trim, e, fieldsOf]⟩
  · rw [if_neg (by decide), if_neg (by decide), if_pos (by decide)]
    exact ⟨_, rfl, by simp [secondField, String.data_append, trim, e, fieldsOf]⟩
  · rw [if_neg (by decide), if_neg (by decide), if_neg (by decide), if_pos (by decide)]
    exact ⟨_, rfl, by simp [secondField, String.data_append, trim, e, fieldsOf]⟩
  · rw [if_neg (by decide), if_neg (by decide), if_neg (by decide), if_neg (by decide),
      if_pos (by decide)]
    exact ⟨_, rfl, by simp [secondField, String.data_append, trim, e, fieldsOf]⟩

/-- C28. For each of the six reporting frequencies, the line WriteReportRealData writes has
after the report number as many comma-separated fields as the count that
WriteReportVariableDictionaryItem writes as second field of the dictionary line: 1 for
EachCall, TimeStep and Hourly, 7 for Daily, 9 for Monthly and 11 for RunPeriod. The report
number has no comma, and a formatted number has no comma and fits, with the date fields, the
40 characters of the strings of ProduceMinMaxString. -/
theorem WriteReportRealData_fields_match_dictionary (fmt : OutputFormat) (reportID : String)
    (repValue : ℚ) (storeType : Nat) (numOfItemsStored : ℚ) (f : Int) (minValue : ℚ)
    (minValueDate : Int) (MaxValue : ℚ) (maxValueDate : Int)
    (keyedValue variableName UnitsString : String) (ScheduleName : Option String)
    (hid : ',' ∉ reportID.data) (hfmt : ∀ x, plainNumber (fmt.formatReal x))
    (hf : f = ReportEach ∨ f = ReportTimeStep ∨ f = ReportHourly ∨ f = ReportDaily ∨
      f = ReportMonthly ∨ f = ReportSim) :
    ∃ line item,
      WriteReportRealData_line fmt reportID repValue storeType numOfItemsStored f minValue
        minValueDate MaxValue maxValueDate = some line ∧
      WriteReportVariableDictionaryItem f storeType reportID keyedValue variableName
        UnitsString ScheduleName = some item ∧
      secondField item = toString (fieldsAfterFirst line) ∧
      fieldsAfterFirst line =
        (if f = ReportDaily then 7 else if f = ReportMonthly then 9
          else if f = ReportSim then 11 else 1) := by
  obtain ⟨line, hl, hn⟩ := WriteReportRealData_line_fields fmt reportID repValue storeType
    numOfItemsStored f minValue minValueDate MaxValue maxValueDate hid hfmt hf
  obtain ⟨item, hi, hc⟩ := WriteReportVariableDictionaryItem_count f storeType reportID
    keyedValue variableName UnitsString ScheduleName hid hf
  refine ⟨line, item, hl, hi, ?_, hn⟩
  rw [hc, hn]
  rcases hf with h | h | h | h | h | h <;> subst h <;> decide

/-- C28 at the sample format: a daily line of report 7 and its dictionary line. -/
theorem WriteReportRealData_fields_match_dictionary_sample :
    (',' ∉ "7".data ∧ (∀ x, plainNumber (sampleFormat.formatReal x)) ∧
      WriteReportRealData_line sampleFormat "7" 3 2 1 2 1 0 5 0 =
        some "7,1.5,1.5,14,30,1.5,14,30" ∧
      WriteReportVariableDictionaryItem 2 2 "7" "ZONE ONE" "Zone Thing" "C" none =
        some "7,7,ZONE ONE,Zone Thing [C] !Daily  [Value,Min,Hour,Minute,Max,Hour,Minute]") ∧
    ∃ line item,
      WriteReportRealData_line sampleFormat "7" 3 2 1 2 1 0 5 0 = some line ∧
      WriteReportVariableDictionaryItem 2 2 "7" "ZONE ONE" "Zone Thing" "C" none =
        some item ∧
      secondField item = toString (fieldsAfterFirst line) ∧
      fieldsAfterFirst line =
        (if (2 : Int) = ReportDaily then 7 else if (2 : Int) = ReportMonthly then 9
          else if (2 : Int) = ReportSim then 11 else 1) :=
  ⟨⟨by decide, fun _ => (show plainNumber "1.5" from ⟨by decide, by decide⟩), by
      simp [WriteReportRealData_line, numberOut, sampleFormat, ProduceMinMaxString, AveragedVar,
        ReportEach, ReportTimeStep, ReportHourly, ReportDaily]
      decide, by decide⟩,
    WriteReportRealData_fields_match_dictionary sampleFormat "7" 3 2 1 2 1 0 5 0 "ZONE ONE"
      "Zone Thing" "C" none (by decide) (fun _ => (show plainNumber "1.5" from ⟨by decide, by decide⟩))
      (Or.inr (Or.inr (Or.inr (Or.inl rfl))))⟩

/-! ## The keys GetVariableKeyCountandType counts -/

theorem isDuplicateKey_iff (st : OutputVariableTables) (vt : Nat) (L : Nat)
    (r : KeyCountandType) :
    isDuplicateKey st vt (keyPlusName st vt L) r = true ↔
      ∃ k, 1 ≤ k ∧ k ≤ r.numKeys ∧ keyOf st vt L = keyOf st vt (r.keyVarIndexes k) := by
  simp only [isDuplicateKey, List.any_eq_true, List.mem_range'_1, sameFstring, keyOf,
    beq_iff_eq]
  constructor
  · rintro ⟨k, ⟨h1, h2⟩, h3⟩
    exact ⟨k, h1, by omega, h3⟩
  · rintro ⟨k, h1, h2, h3⟩
    exact ⟨k, ⟨h1, by omega⟩, h3⟩

theorem KeysFound_start (st : OutputVariableTables) (vt : Nat) (name : String) :
    KeysFound st vt name 0 0 (fun _ => 0) false where
  kept := fun k h1 h2 => by omega
  covered := fun j h1 h2 => by omega
  increasing := fun k k2 h1 h2 h3 => by omega
  found := by
    constructor
    · intro h
      exact absurd h (by decide)
    · rintro ⟨j, h1, h2, _⟩
      omega

/-- One pass of a search loop keeps what holds of the search. -/
theorem searchKeysStep_keeps (st : OutputVariableTables) (vt : Nat) (name : String)
    (dd : VariableTypeForDDOutput) (N : Nat) (r : KeyCountandType)
    (h : KeysFound st vt name N r.numKeys r.keyVarIndexes r.Found) :
    KeysFound st vt name (N + 1) (searchKeysStep st vt name dd r (N + 1)).numKeys
      (searchKeysStep st vt name dd r (N + 1)).keyVarIndexes
      (searchKeysStep st vt name dd r (N + 1)).Found := by
  unfold searchKeysStep
  by_cases ht : carriesName st vt name (N + 1) = true
  · rw [if_pos ht]
    dsimp only
    have hdup := isDuplicateKey_iff st vt (N + 1) { r with Found := true, varType := vt }
    dsimp only at hdup
    by_cases hd : isDuplicateKey st vt (keyPlusName st vt (N + 1))
        { r with Found := true, varType := vt } = true
    · rw [if_pos hd]
      dsimp only
      obtain ⟨k0, hk1, hk2, hk3⟩ := hdup.1 hd
      refine ⟨?_, ?_, h.increasing, ?_⟩
      · intro k h1 h2
        obtain ⟨a, b, c, d⟩ := h.kept k h1 h2
        exact ⟨a, by omega, c, d⟩
      · intro j h1 h2 hc
        by_cases hj : j ≤ N
        · exact h.covered j h1 hj hc
        · have e : j = N + 1 := by omega
          subst e
          exact ⟨k0, hk1, hk2, hk3⟩
      · exact ⟨fun _ => ⟨N + 1, by omega, le_refl _, ht⟩, fun _ => rfl⟩
    · rw [if_neg hd]
      dsimp only
      have hnd : ∀ k, 1 ≤ k → k ≤ r.numKeys →
          keyOf st vt (N + 1) ≠ keyOf st vt (r.keyVarIndexes k) :=
        fun k h1 h2 e => hd (hdup.2 ⟨k, h1, h2, e⟩)
      refine ⟨?_, ?_, ?_, ?_⟩
      · intro k h1 h2
        by_cases hk : k ≤ r.numKeys
        · have hne : k ≠ r.numKeys + 1 := by omega
          simp only [Function.update_noteq hne]
          obtain ⟨a, b, c, d⟩ := h.kept k h1 hk
          exact ⟨a, by omega, c, d⟩
        · have e : k = r.numKeys + 1 := by
            have : k ≤ r.numKeys + 1 := h2
            omega
          subst e
          simp only [Function.update_same]
          refine ⟨by omega, le_refl _, ht, ?_⟩
          intro j hj1 hj2 hjc e
          obtain ⟨k, hk1, hk2, hk3⟩ := h.covered j hj1 (by omega) hjc
          exact hnd k hk1 hk2 (e.symm.trans hk3)
      · intro j h1 h2 hc
        by_cases hj : j ≤ N
        · obtain ⟨k, hk1, hk2, hk3⟩ := h.covered j h1 hj hc
          have hne : k ≠ r.numKeys + 1 := by omega
          exact ⟨k, hk1, by
            show k ≤ r.numKeys + 1
            omega, by simpa only [Function.update_noteq hne] using hk3⟩
        · have e : j = N + 1 := by omega
          subst e
          exact ⟨r.numKeys + 1, by omega, le_refl _, by simp only [Function.update_same]⟩
      · intro k k2 h1 h2 h3
        have h3b : k2 ≤ r.numKeys + 1 := h3
        have hne : k ≠ r.numKeys + 1 := by omega
        simp only [Function.update_noteq hne]
        by_cases hk : k2 ≤ r.numKeys
        · have hne2 : k2 ≠ r.numKeys + 1 := by omega
          simp only [Function.update_noteq hne2]
          exact h.increasing k k2 h1 h2 hk
        · have e : k2 = r.numKeys + 1 := by omega
          subst e
          simp only [Function.update_same]
          have := (h.kept k h1 (by omega)).2.1
          omega
      · exact ⟨fun _ => ⟨N + 1, by omega, le_refl _, ht⟩, fun _ => rfl⟩
  · rw [if_neg ht]
    refine ⟨?_, ?_, h.increasing, ?_⟩
    · intro k h1 h2
      obtain ⟨a, b, c, d⟩ := h.kept k h1 h2
      exact ⟨a, by omega, c, d⟩
    · intro j h1 h2 hc
      by_cases hj : j ≤ N
      · exact h.covered j h1 hj hc
      · have e : j = N + 1 := by omega
        subst e
        exact absurd hc ht
    · rw [h.found]
      constructor
      · rintro ⟨j, h1, h2, h3⟩
        exact ⟨j, h1, by omega, h3⟩
      · rintro ⟨j, h1, h2, h3⟩
        by_cases hj : j ≤ N
        · exact ⟨j, h1, hj, h3⟩
        · have e : j = N + 1 := by omega
          subst e
          exact absurd h3 ht

/-- A search loop over the descriptors 1..N. -/
theorem searchKeys_fold (st : OutputVariableTables) (vt : Nat) (name : String)
    (dd : VariableTypeForDDOutput) (r0 : KeyCountandType)
    (h0 : KeysFound st vt name 0 r0.numKeys r0.keyVarIndexes r0.Found) (N : Nat) :
    KeysFound st vt name N
      ((List.range' 1 N).foldl (searchKeysStep st vt name dd) r0).numKeys
      ((List.range' 1 N).foldl (searchKeysStep st vt name dd) r0).keyVarIndexes
      ((List.range' 1 N).foldl (searchKeysStep st vt name dd) r0).Found := by
  induction N with
  | zero => simpa using h0
  | succ N ih =>
    rw [List.range'_1_concat, List.foldl_append]
    simp only [List.foldl_cons, List.foldl_nil]
    have e : 1 + N = N + 1 := by omega
    rw [e]
    exact searchKeysStep_keeps st vt name dd N _ ih

/-- The search of the descriptors by GetVariableKeyCountandType for a name of the catalog that
is a real or an integer variable. -/
theorem searchDescriptors_found (look : KeyLookups) (st : OutputVariableTables)
    (varName : String) (kind : Nat)
    (hcat : look.FindItemInSortedList varName ≠ 0)
    (hkind : (st.catalog.DDVariableTypes
      (look.ivarNames (look.FindItemInSortedList varName))).VariableType = kind)
    (hk : kind = VarType_Real ∨ kind = VarType_Integer) :
    KeysFound st kind varName (numberOfDescriptors st kind)
      (searchDescriptors look st varName).numKeys
      (searchDescriptors look st varName).keyVarIndexes
      (searchDescriptors look st varName).Found := by
  unfold searchDescriptors
  simp only [hcat, ne_eq, not_false_eq_true, if_true, hkind]
  rcases hk with hk | hk
  · have h1 : ¬ kind = VarType_Integer := by rw [hk]; decide
    rw [if_neg h1, if_pos hk]
    have e : numberOfDescriptors st kind = st.NumOfRVariable := by
      simp [numberOfDescriptors, h1]
    rw [e, hk]
    exact searchKeys_fold st VarType_Real varName _ _ (KeysFound_start st _ varName) _
  · rw [if_pos hk]
    have e : numberOfDescriptors st kind = st.NumOfIVariable := by
      simp [numberOfDescriptors, hk]
    rw [e, hk]
    exact searchKeys_fold st VarType_Integer varName _ _ (KeysFound_start st _ varName) _

theorem mem_carriers (st : OutputVariableTables) (vt : Nat) (name : String) (j : Nat) :
    j ∈ carriers st vt name ↔
      1 ≤ j ∧ j ≤ numberOfDescriptors st vt ∧ carriesName st vt name j = true := by
  simp only [carriers, List.mem_filter, List.mem_range'_1]
  constructor
  · rintro ⟨⟨a, b⟩, c⟩
    exact ⟨a, by omega, c⟩
  · rintro ⟨a, b, c⟩
    exact ⟨⟨a, by omega⟩, c⟩

/-- The count of a finished search is the number of distinct key-plus-name strings. -/
theorem KeysFound_count (st : OutputVariableTables) (vt : Nat) (name : String) (n : Nat)
    (kvi : Nat → Nat) (F : Bool)
    (h : KeysFound st vt name (numberOfDescriptors st vt) n kvi F) :
    n = distinctKeys st vt name := by
  have hinj : ∀ k k2, 1 ≤ k → k < k2 → k2 ≤ n → keyOf st vt (kvi k) ≠ keyOf st vt (kvi k2) := by
    intro k k2 h1 h2 h3
    obtain ⟨a, b, c, _⟩ := h.kept k h1 (by omega)
    exact (h.kept k2 (by omega) h3).2.2.2 (kvi k) a (h.increasing k k2 h1 h2 h3) c
  have hnodup : ((List.range' 1 n).map (fun k => keyOf st vt (kvi k))).Nodup := by
    refine (List.nodup_map_iff_inj_on (List.nodup_range' 1 n)).2 ?_
    intro k hk k2 hk2 e
    rw [List.mem_range'_1] at hk hk2
    by_contra hne
    rcases Nat.lt_or_gt_of_ne hne with hlt | hlt
    · exact hinj k k2 hk.1 hlt (by omega) e
    · exact hinj k2 k hk2.1 hlt (by omega) e.symm
  have hset : ((carriers st vt name).map (keyOf st vt)).toFinset =
      ((List.range' 1 n).map (fun k => keyOf st vt (kvi k))).toFinset := by
    ext x
    simp only [List.mem_toFinset, List.mem_map, mem_carriers, List.mem_range'_1]
    constructor
    · rintro ⟨j, ⟨a, b, c⟩, rfl⟩
      obtain ⟨k, k1, k2, k3⟩ := h.covered j a b c
      exact ⟨k, ⟨k1, by omega⟩, k3.symm⟩
    · rintro ⟨k, ⟨k1, k2⟩, rfl⟩
      obtain ⟨a, b, c, _⟩ := h.kept k k1 (by omega)
      exact ⟨kvi k, ⟨a, b, c⟩, rfl⟩
  unfold distinctKeys
  rw [← List.card_toFinset, hset, List.toFinset_card_of_nodup hnodup]
  simp

theorem GetVariableKeyCountandType_of_found (look : KeyLookups) (st : OutputVariableTables)
    (varName : String) (h : (searchDescriptors look st varName).Found = true) :
    GetVariableKeyCountandType look st varName = searchDescriptors look st varName := by
  simp [GetVariableKeyCountandType, searchMeters, searchSchedules, h]

theorem GetVariableKeyCountandType_of_nothing (look : KeyLookups) (st : OutputVariableTables)
    (varName : String) (h : (searchDescriptors look st varName).Found = false)
    (hm : look.GetMeterIndex varName = 0) (hs : look.GetScheduleIndex varName = 0) :
    (GetVariableKeyCountandType look st varName).numKeys =
      (searchDescriptors look st varName).numKeys := by
  simp [GetVariableKeyCountandType, searchMeters, searchSchedules, h, hm, hs]

theorem GetVariableKeyCountandType_of_meter_or_schedule (look : KeyLookups)
    (st : OutputVariableTables) (varName : String)
    (h : (searchDescriptors look st varName).Found = false)
    (hms : look.GetMeterIndex varName > 0 ∨ look.GetScheduleIndex varName > 0) :
    (GetVariableKeyCountandType look st varName).numKeys = 1 := by
  by_cases hm : look.GetMeterIndex varName > 0
  · simp [GetVariableKeyCountandType, searchMeters, searchSchedules, h, hm]
  · have hs : look.GetScheduleIndex varName > 0 := hms.resolve_left hm
    simp [GetVariableKeyCountandType, searchMeters, searchSchedules, h, hm, hs]

theorem KeysFound_found_iff (st : OutputVariableTables) (vt : Nat) (name : String) (n : Nat)
    (kvi : Nat → Nat) (F : Bool)
    (h : KeysFound st vt name (numberOfDescriptors st vt) n kvi F) :
    F = true ↔ carriers st vt name ≠ [] := by
  rw [h.found]
  constructor
  · rintro ⟨j, a, b, c⟩ hnil
    have hj := (mem_carriers st vt name j).2 ⟨a, b, c⟩
    rw [hnil] at hj
    simp at hj
  · intro hne
    cases hc : carriers st vt name with
    | nil => exact absurd hc hne
    | cons x xs =>
      have hx : x ∈ carriers st vt name := by rw [hc]; simp
      obtain ⟨a, b, c⟩ := (mem_carriers st vt name x).1 hx
      exact ⟨x, a, b, c⟩

/-- The keys of a finished search: each is the first descriptor with its string, and each
descriptor with the name has its string among them. -/
theorem KeysFound_first (st : OutputVariableTables) (vt : Nat) (name : String) (n : Nat)
    (kvi : Nat → Nat) (F : Bool)
    (h : KeysFound st vt name (numberOfDescriptors st vt) n kvi F) :
    (∀ k, 1 ≤ k → k ≤ n →
      kvi k ∈ carriers st vt name ∧
        ∀ j ∈ carriers st vt name, keyOf st vt j = keyOf st vt (kvi k) → kvi k ≤ j) ∧
    (∀ j ∈ carriers st vt name, ∃ k, 1 ≤ k ∧ k ≤ n ∧ keyOf st vt (kvi k) = keyOf st vt j) := by
  constructor
  · intro k h1 h2
    obtain ⟨a, b, c, d⟩ := h.kept k h1 h2
    refine ⟨(mem_carriers st vt name _).2 ⟨a, b, c⟩, ?_⟩
    intro j hj e
    obtain ⟨ja, _, jc⟩ := (mem_carriers st vt name j).1 hj
    by_contra hlt
    exact d j ja (by omega) jc e
  · intro j hj
    obtain ⟨ja, jb, jc⟩ := (mem_carriers st vt name j).1 hj
    obtain ⟨k, k1, k2, k3⟩ := h.covered j ja jb jc
    exact ⟨k, k1, k2, k3.symm⟩

/-- C26 (as amended). For a name the catalog holds as a real or as an integer variable, when a descriptor of
that type carries the name, or no meter and no schedule has the name,
GetVariableKeyCountandType returns as numKeys the number of distinct key-plus-name strings
(VarNameUC) among the descriptors of that type that carry the name; each index it keeps in
keyVarIndexes is the first descriptor with its string, and every descriptor with the name has
its string among those kept. When no descriptor carries the name and a meter or a schedule has
the name, numKeys is 1. -/
theorem GetVariableKeyCountandType_counts_distinct_keys (look : KeyLookups)
    (st : OutputVariableTables) (varName : String) (kind : Nat)
    (hcat : look.FindItemInSortedList varName ≠ 0)
    (hkind : (st.catalog.DDVariableTypes
      (look.ivarNames (look.FindItemInSortedList varName))).VariableType = kind)
    (hk : kind = VarType_Real ∨ kind = VarType_Integer) :
    (carriers st kind varName ≠ [] ∨
        (look.GetMeterIndex varName = 0 ∧ look.GetScheduleIndex varName = 0) →
      (GetVariableKeyCountandType look st varName).numKeys = distinctKeys st kind varName ∧
      (∀ k, 1 ≤ k → k ≤ (GetVariableKeyCountandType look st varName).numKeys →
        (GetVariableKeyCountandType look st varName).keyVarIndexes k ∈
            carriers st kind varName ∧
          ∀ j ∈ carriers st kind varName,
            keyOf st kind j =
                keyOf st kind ((GetVariableKeyCountandType look st varName).keyVarIndexes k) →
              (GetVariableKeyCountandType look st varName).keyVarIndexes k ≤ j) ∧
      (∀ j ∈ carriers st kind varName, ∃ k, 1 ≤ k ∧
        k ≤ (GetVariableKeyCountandType look st varName).numKeys ∧
        keyOf st kind ((GetVariableKeyCountandType look st varName).keyVarIndexes k) =
          keyOf st kind j)) ∧
    (carriers st kind varName = [] →
      look.GetMeterIndex varName > 0 ∨ look.GetScheduleIndex varName > 0 →
      (GetVariableKeyCountandType look st varName).numKeys = 1 ∧
        distinctKeys st kind varName = 0) := by
  have hK := searchDescriptors_found look st varName kind hcat hkind hk
  have hF := KeysFound_found_iff st kind varName _ _ _ hK
  have hcount := KeysFound_count st kind varName _ _ _ hK
  constructor
  · intro hsome
    by_cases hc : carriers st kind varName ≠ []
    · rw [GetVariableKeyCountandType_of_found look st varName (hF.2 hc)]
      exact ⟨hcount, KeysFound_first st kind varName _ _ _ hK⟩
    · have hnil : carriers st kind varName = [] := not_not.1 hc
      have hf : (searchDescriptors look st varName).Found = false := by
        cases hfd : (searchDescriptors look st varName).Found with
        | false => rfl
        | true => exact absurd (hF.1 hfd) hc
      obtain ⟨hm, hs⟩ := hsome.resolve_left hc
      have hn := GetVariableKeyCountandType_of_nothing look st varName hf hm hs
      have h0 : distinctKeys st kind varName = 0 := by simp [distinctKeys, hnil]
      refine ⟨by rw [hn]; exact hcount, ?_, ?_⟩
      · intro k h1 h2
        rw [hn, hcount, h0] at h2
        omega
      · intro j hj
        rw [hnil] at hj
        simp at hj
  · intro hnil hms
    have hf : (searchDescriptors look st varName).Found = false := by
      cases hfd : (searchDescriptors look st varName).Found with
      | false => rfl
      | true => exact absurd hnil (hF.1 hfd)
    exact ⟨GetVariableKeyCountandType_of_meter_or_schedule look st varName hf hms, by
      simp [distinctKeys, hnil]⟩

set_option maxHeartbeats 4000000 in
/-- C26 (as amended) at a sample input: Zone Thing of Zone One is registered at two frequencies and that of Zone
Two at one; the descriptors 1, 2 and 3 carry the name, two keys are counted, and the indexes
kept are 1 and 3. -/
theorem GetVariableKeyCountandType_counts_distinct_keys_sample :
    (sampleLookups (fun _ => 0)).FindItemInSortedList "ZONE THING" ≠ 0 ∧
    (threeDescriptors.catalog.DDVariableTypes
      ((sampleLookups (fun _ => 0)).ivarNames
        ((sampleLookups (fun _ => 0)).FindItemInSortedList "ZONE THING"))).VariableType =
      VarType_Real ∧
    carriers threeDescriptors VarType_Real "ZONE THING" = [1, 2, 3] ∧
    (GetVariableKeyCountandType (sampleLookups (fun _ => 0)) threeDescriptors
      "ZONE THING").keys = [1, 3] ∧
    distinctKeys threeDescriptors VarType_Real "ZONE THING" = 2 ∧
    (GetVariableKeyCountandType (sampleLookups (fun _ => 0)) threeDescriptors
      "ZONE THING").numKeys = distinctKeys threeDescriptors VarType_Real "ZONE THING" :=
  ⟨by decide, by decide, by decide, by decide, by decide,
    ((GetVariableKeyCountandType_counts_distinct_keys (sampleLookups (fun _ => 0))
      threeDescriptors "ZONE THING" VarType_Real (by decide) (by decide) (Or.inl rfl)).1
      (Or.inl (by decide))).1⟩

/-- C26 fails as stated: Zone Thing is in the catalog as a real variable and no descriptor
carries the name, so the number of distinct key-plus-name strings is 0; with a schedule of the
same name GetVariableKeyCountandType returns numKeys 1 and the type Schedule. -/
theorem GetVariableKeyCountandType_schedule_of_same_name_counterexample :
    (sampleLookups scheduleZoneThing).FindItemInSortedList "ZONE THING" = 1 ∧
    (catalogOnly.catalog.DDVariableTypes 1).VariableType = VarType_Real ∧
    catalogOnly.NumOfRVariable = 0 ∧
    carriers catalogOnly VarType_Real "ZONE THING" = [] ∧
    distinctKeys catalogOnly VarType_Real "ZONE THING" = 0 ∧
    (GetVariableKeyCountandType (sampleLookups scheduleZoneThing) catalogOnly
      "ZONE THING").numKeys = 1 ∧
    (GetVariableKeyCountandType (sampleLookups scheduleZoneThing) catalogOnly
      "ZONE THING").varType = VarType_Schedule ∧
    (GetVariableKeyCountandType (sampleLookups scheduleZoneThing) catalogOnly
      "ZONE THING").numKeys ≠ distinctKeys catalogOnly VarType_Real "ZONE THING" := by
  refine ⟨by decide, by decide, by decide, by decide, by decide, by decide, by decide,
    by decide⟩

/-! ## The test of the integer search: the key-plus-name string ends in ":" and the name -/

theorem indexOfBack_of_short (sub : List Char) :
    ∀ s : List Char, s.length < sub.length → indexOfBack sub s = 0
  | [], h => by
    have hne : sub ≠ [] := fun e => by simp [e] at h
    simp [indexOfBack, hne]
  | c :: cs, h => by
    have ih := indexOfBack_of_short sub cs (by simp at h; omega)
    have hp : sub.isPrefixOf (c :: cs) = false := by
      cases hb : sub.isPrefixOf (c :: cs) with
      | false => rfl
      | true =>
        have := (List.isPrefixOf_iff_prefix.1 hb).length_le
        omega
    simp [indexOfBack, ih, hp]

theorem indexOfBack_at_end (sub : List Char) (hne : sub ≠ []) :
    ∀ K : List Char, indexOfBack sub (K ++ sub) = K.length + 1
  | [] => by
    cases sub with
    | nil => exact absurd rfl hne
    | cons c cs =>
      have h0 := indexOfBack_of_short (c :: cs) cs (by simp)
      have hp : (c :: cs).isPrefixOf (c :: cs) = true :=
        List.isPrefixOf_iff_prefix.2 (List.prefix_refl _)
      simp only [List.nil_append, indexOfBack, h0, hp]
      simp
  | k :: K => by
    have ih := indexOfBack_at_end sub hne K
    have ih2 : indexOfBack sub (K.append sub) = K.length + 1 := ih
    simp only [List.cons_append, indexOfBack]
    rw [ih2]
    simp

theorem indexOfBack_prefix (sub : List Char) :
    ∀ s : List Char, 0 < indexOfBack sub s → sub <+: s.drop (indexOfBack sub s - 1)
  | [], h => by
    by_cases e : sub = []
    · simp [e]
    · simp [indexOfBack, e] at h
  | c :: cs, h => by
    by_cases h0 : indexOfBack sub cs ≠ 0
    · have ih := indexOfBack_prefix sub cs (by omega)
      have e : indexOfBack sub (c :: cs) = indexOfBack sub cs + 1 := by
        simp [indexOfBack, h0]
      rw [e]
      have e2 : indexOfBack sub cs + 1 - 1 = (indexOfBack sub cs - 1) + 1 := by omega
      rw [e2, List.drop_succ_cons]
      exact ih
    · by_cases hp : sub.isPrefixOf (c :: cs) = true
      · have e : indexOfBack sub (c :: cs) = 1 := by
          simp only [indexOfBack, if_neg h0, if_pos hp]
        rw [e]
        exact List.isPrefixOf_iff_prefix.1 hp
      · have e : indexOfBack sub (c :: cs) = 0 := by
          simp only [indexOfBack, if_neg h0, if_neg hp]
        omega

theorem trimBlanks_cons (c : Char) (cs : List Char) :
    trimBlanks ⟨c :: cs⟩ =
      if trimBlanks ⟨cs⟩ = [] ∧ c = ' ' then [] else c :: trimBlanks ⟨cs⟩ := by
  unfold trimBlanks
  simp only [List.reverse_cons, List.dropWhile_append]
  by_cases h : (List.dropWhile (fun c => c == ' ') cs.reverse).isEmpty = true
  · have h2 : List.dropWhile (fun c => c == ' ') cs.reverse = [] := List.isEmpty_iff.1 h
    by_cases hc : c = ' '
    · simp [h2, hc]
    · simp [h2, hc]
  · have h2 : List.dropWhile (fun c => c == ' ') cs.reverse ≠ [] :=
      fun e => h (List.isEmpty_iff.2 e)
    simp [h, h2]

theorem trimBlanks_drop : ∀ (s : List Char) (p : Nat),
    trimBlanks ⟨s.drop p⟩ = (trimBlanks ⟨s⟩).drop p
  | s, 0 => by simp
  | [], p + 1 => by simp [trimBlanks]
  | c :: cs, p + 1 => by
    rw [List.drop_succ_cons, trimBlanks_drop cs p, trimBlanks_cons]
    split_ifs with h
    · simp [h.1]
    · simp

/-- The test of the integer search passes exactly when the key-plus-name string, without its
trailing blanks, ends in ":" followed by the name without its trailing blanks. -/
theorem integerKeyMatches_iff (VarKeyPlusName varNameUpper : String) :
    integerKeyMatches VarKeyPlusName varNameUpper = true ↔
      (':' :: trimBlanks varNameUpper) <:+ trimBlanks VarKeyPlusName := by
  have hd := trimBlanks_drop VarKeyPlusName.data
  have hsub : (':' :: trimBlanks varNameUpper) ≠ [] := by simp
  simp only [integerKeyMatches, sameFstring, Bool.and_eq_true, decide_eq_true_eq, beq_iff_eq]
  constructor
  · rintro ⟨hp, he⟩
    have hpre := indexOfBack_prefix _ _ hp
    obtain ⟨rest, hrest⟩ := hpre
    rw [hd] at he
    generalize indexOfBack (':' :: trimBlanks varNameUpper) (trimBlanks VarKeyPlusName) = p
      at hp he hrest
    have e1 : p = (p - 1) + 1 := by omega
    have e2 : (trimBlanks VarKeyPlusName).drop p =
        ((trimBlanks VarKeyPlusName).drop (p - 1)).drop 1 := by
      rw [List.drop_drop]
      exact congrArg (fun n => List.drop n (trimBlanks VarKeyPlusName)) (by omega)
    have he2 : (trimBlanks ⟨VarKeyPlusName.data⟩).drop p = trimBlanks varNameUpper := he
    have e3 : trimBlanks ⟨VarKeyPlusName.data⟩ = trimBlanks VarKeyPlusName := rfl
    rw [e3, e2, ← hrest] at he2
    simp only [List.cons_append, List.drop_succ_cons, List.drop_zero] at he2
    have hnil : rest = [] := by
      have := congrArg List.length he2
      simp at this
      exact this
    rw [hnil, List.append_nil] at hrest
    rw [hrest]
    exact List.drop_suffix _ _
  · rintro ⟨K, hK⟩
    have hpos := indexOfBack_at_end _ hsub K
    rw [hK] at hpos
    refine ⟨by omega, ?_⟩
    rw [hpos]
    have e3 : trimBlanks ⟨VarKeyPlusName.data.drop (K.length + 1)⟩ =
        (trimBlanks VarKeyPlusName).drop (K.length + 1) := hd _
    rw [e3, ← hK]
    simp

/-! ## WriteRealVariableOutput and the frequency of a variable -/

theorem WriteRealVariableOutput_of_other (reportType : Int) (v : RealVariables)
    (h : v.Report = false ∨ v.ReportFreq ≠ reportType ∨ v.Stored = false) :
    WriteRealVariableOutput reportType v = (v, []) := by
  unfold WriteRealVariableOutput
  rcases h with h | h | h <;> simp [h]

theorem WriteRealVariableOutput_of_own (reportType : Int) (v : RealVariables)
    (hR : v.Report = true) (hF : v.ReportFreq = reportType) (hS : v.Stored = true) :
    (WriteRealVariableOutput reportType v).1
      = { v with StoreValue := 0, NumStored := 0, MinValue := MinSetValue,
                 MaxValue := MaxSetValue, Stored := false } := by
  unfold WriteRealVariableOutput
  simp [hR, hF, hS]

/-- The blocks after the Hour block at the end of a day that ends neither the month nor the
environment leave a variable alone whose frequency is not Daily. -/
theorem AfterHourBlock_RVar_of_other_frequency (env : ReportingCall) (vt : Nat)
    (r : RealVariables × List OutputRecord) (hvt : inLoops vt = true)
    (hM : env.EndMonthFlag = false) (hE : env.EndEnvrnFlag = false)
    (hF : r.1.ReportFreq ≠ ReportDaily) :
    (AfterHourBlock_RVar env vt r).1 = (HourBlock_RVar r.1).1 := by
  have hF2 : (HourBlock_RVar r.1).1.ReportFreq ≠ ReportDaily := by
    simpa [HourBlock_RVar] using hF
  have hw := WriteRealVariableOutput_of_other ReportDaily (HourBlock_RVar r.1).1
    (Or.inr (Or.inl hF2))
  unfold AfterHourBlock_RVar
  cases hD : env.EndDayFlag <;> simp [hvt, hD, hM, hE, hw]

/-- C32. WriteRealVariableOutput for the frequency f resets StoreValue and NumStored to 0,
MinValue to MinSetValue, MaxValue to MaxSetValue and Stored to false, and nothing else, for a
variable with Report set, ReportFreq = f and Stored set; for a variable whose Report flag is
unset or whose frequency is not f it changes nothing and writes nothing. So at the end of a
day that ends neither the month nor the environment a Monthly variable leaves
UpdateDataandReport as the Hour block left it: the hourly value is added to StoreValue and
counted in NumStored, and MinValue and MaxValue stay. -/
theorem WriteRealVariableOutput_resets_only_own_frequency (f : Int) (v : RealVariables) :
    (v.Report = true → v.ReportFreq = f → v.Stored = true →
      (WriteRealVariableOutput f v).1
        = { v with StoreValue := 0, NumStored := 0, MinValue := MinSetValue,
                   MaxValue := MaxSetValue, Stored := false }) ∧
    (v.Report = false ∨ v.ReportFreq ≠ f → WriteRealVariableOutput f v = (v, [])) ∧
    (∀ (env : ReportingCall) (vt : Nat) (out : List OutputRecord),
      v.ReportFreq = ReportMonthly → inLoops vt = true → env.EndDayFlag = true →
      env.EndMonthFlag = false → env.EndEnvrnFlag = false →
      (AfterHourBlock_RVar env vt (v, out)).1 = (HourBlock_RVar v).1 ∧
      (AfterHourBlock_RVar env vt (v, out)).1.MinValue = v.MinValue ∧
      (AfterHourBlock_RVar env vt (v, out)).1.MaxValue = v.MaxValue ∧
      (v.tsStored = true →
        (AfterHourBlock_RVar env vt (v, out)).1.StoreValue = v.StoreValue + HourBlock_value v ∧
        (AfterHourBlock_RVar env vt (v, out)).1.NumStored = v.NumStored + 1)) := by
  refine ⟨WriteRealVariableOutput_of_own f v, fun h => ?_, ?_⟩
  · rcases h with h | h
    · exact WriteRealVariableOutput_of_other f v (Or.inl h)
    · exact WriteRealVariableOutput_of_other f v (Or.inr (Or.inl h))
  · intro env vt out hF hvt _ hM hE
    have hne : (v, out).1.ReportFreq ≠ ReportDaily := by
      show v.ReportFreq ≠ ReportDaily
      rw [hF]
      decide
    have h := AfterHourBlock_RVar_of_other_frequency env vt (v, out) hvt hM hE hne
    rw [h]
    refine ⟨rfl, rfl, rfl, fun hts => ?_⟩
    simp [HourBlock_RVar, hts]

/-! ## A scheduled variable while its schedule is zero -/

theorem ReportNow_of_zero_schedule (env : ReportingCall) (v : RealVariables)
    (hS : v.SchedPtr > 0) (hz : env.GetCurrentScheduleValue v.SchedPtr = 0) :
    ReportNow env v = false := by
  unfold ReportNow
  rw [if_pos hS]
  simp [hz]

theorem RecordKeeping_RVar_silent (env : ReportingCall) (w : ℚ) (v : RealVariables)
    (hS : v.SchedPtr > 0) (hz : env.GetCurrentScheduleValue v.SchedPtr = 0) :
    (RecordKeeping_RVar env w v).2 = [] ∧
    (RecordKeeping_RVar env w v).1.Value = v.Value ∧
    (RecordKeeping_RVar env w v).1.thisTSCount = v.thisTSCount ∧
    (RecordKeeping_RVar env w v).1.tsStored = v.tsStored ∧
    (RecordKeeping_RVar env w v).1.thisTSStored = v.thisTSStored ∧
    (RecordKeeping_RVar env w v).1.MaxValue = (if w > v.MaxValue then w else v.MaxValue) ∧
    (RecordKeeping_RVar env w v).1.MinValue = (if w < v.MinValue then w else v.MinValue) ∧
    sameGating v (RecordKeeping_RVar env w v).1 := by
  have hn := ReportNow_of_zero_schedule env v hS hz
  simp [RecordKeeping_RVar, sameGating, hn]

theorem TimeStepBlock_RVar_silent (env : ReportingCall) (v : RealVariables)
    (hS : v.SchedPtr > 0) (hz : env.GetCurrentScheduleValue v.SchedPtr = 0) :
    (TimeStepBlock_RVar env v).2 = [] ∧
    (TimeStepBlock_RVar env v).1.Value = v.Value ∧
    (TimeStepBlock_RVar env v).1.TSValue = 0 ∧
    (TimeStepBlock_RVar env v).1.thisTSCount = v.thisTSCount ∧
    (TimeStepBlock_RVar env v).1.tsStored = v.tsStored ∧
    (TimeStepBlock_RVar env v).1.thisTSStored = v.thisTSStored ∧
    (TimeStepBlock_RVar env v).1.MaxValue = v.MaxValue ∧
    (TimeStepBlock_RVar env v).1.MinValue = v.MinValue ∧
    sameGating v (TimeStepBlock_RVar env v).1 := by
  have hn := ReportNow_of_zero_schedule env v hS hz
  simp [TimeStepBlock_RVar, sameGating, hn]

theorem runCallsOutput_other_domain (cs : List SubStep) (v : RealVariables)
    (hk : ∀ c ∈ cs, c.env.IndexTypeKey = HVACVar) : runCallsOutput ZoneVar cs v = [] := by
  induction cs with
  | nil => rfl
  | cons c rest ih =>
    have hc := hk c (List.mem_cons_self _ _)
    have e : UpdateDataandReport_RVar c.env ZoneVar c.Which v = (v, []) := by
      simp [UpdateDataandReport_RVar, hc, ZoneVar, HVACVar]
    simp only [runCallsOutput, e, List.nil_append]
    exact ih (fun c2 h2 => hk c2 (List.mem_cons_of_mem _ h2))

/-- The system-timestep calls of a zone timestep on a system variable whose schedule is zero:
nothing is written or counted, TSValue grows by the value of every call, and the minimum and
maximum follow the storage cell. -/
theorem runCalls_own_domain_silent (cs : List SubStep) : ∀ (v : RealVariables),
    (∀ c ∈ cs, c.env.IndexTypeKey = HVACVar) → v.SchedPtr > 0 →
    (∀ c ∈ cs, c.env.GetCurrentScheduleValue v.SchedPtr = 0) →
    runCallsOutput HVACVar cs v = [] ∧
    (runCalls HVACVar cs v).TSValue = v.TSValue + (cs.map (curValue v.StoreType)).sum ∧
    (runCalls HVACVar cs v).Value = v.Value ∧
    (runCalls HVACVar cs v).thisTSCount = v.thisTSCount ∧
    (runCalls HVACVar cs v).tsStored = v.tsStored ∧
    (runCalls HVACVar cs v).thisTSStored = v.thisTSStored ∧
    (runCalls HVACVar cs v).MaxValue = maxOver (cs.map (fun c => c.Which)) v.MaxValue ∧
    (runCalls HVACVar cs v).MinValue = minOver (cs.map (fun c => c.Which)) v.MinValue ∧
    sameGating v (runCalls HVACVar cs v) := by
  induction cs with
  | nil =>
    intro v _ _ _
    simp [runCalls, runCallsOutput, sameGating, maxOver, minOver]
  | cons c rest ih =>
    intro v hk hS hz
    have hc := hk c (List.mem_cons_self _ _)
    have hzc := hz c (List.mem_cons_self _ _)
    have hstep : UpdateDataandReport_RVar c.env HVACVar c.Which v
        = RecordKeeping_RVar c.env c.Which v := by
      simp [UpdateDataandReport_RVar, hc]
    obtain ⟨hTS, hTy⟩ := RecordKeeping_RVar_TSValue c.env c.Which v
    obtain ⟨o, a1, a2, a3, a4, a5, a6, g1, g2, g3, g4, g5, g6⟩ :=
      RecordKeeping_RVar_silent c.env c.Which v hS hzc
    obtain ⟨io, iTS, b1, b2, b3, b4, b5, b6, k1, k2, k3, k4, k5, k6⟩ :=
      ih (RecordKeeping_RVar c.env c.Which v).1
        (fun c2 h2 => hk c2 (List.mem_cons_of_mem _ h2)) (by rw [g2]; exact hS)
        (fun c2 h2 => by rw [g2]; exact hz c2 (List.mem_cons_of_mem _ h2))
    rw [runCalls_cons]
    simp only [runCallsOutput, hstep, o, List.nil_append]
    refine ⟨io, ?_, by rw [b1, a1], by rw [b2, a2], by rw [b3, a3], by rw [b4, a4], ?_, ?_,
      ⟨by rw [k1, g1], by rw [k2, g2], by rw [k3, g3], by rw [k4, g4], by rw [k5, g5],
        by rw [k6, g6]⟩⟩
    · rw [iTS, hTS, hTy, List.map_cons, List.sum_cons]
      simp only [curValue]
      ring
    · rw [b5, a5]
      simp [maxOver]
    · rw [b6, a6]
      simp [minOver]

theorem maxOver_ge (l : List ℚ) : ∀ m : ℚ,
    m ≤ maxOver l m ∧ ∀ w ∈ l, w ≤ maxOver l m := by
  induction l with
  | nil => intro m; simp [maxOver]
  | cons a rest ih =>
    intro m
    have e : maxOver (a :: rest) m = maxOver rest (if a > m then a else m) := rfl
    obtain ⟨h1, h2⟩ := ih (if a > m then a else m)
    rw [e]
    refine ⟨le_trans ?_ h1, fun w hw => ?_⟩
    · split_ifs with h
      · exact le_of_lt h
      · exact le_refl _
    · rcases List.mem_cons.1 hw with rfl | hw
      · refine le_trans ?_ h1
        split_ifs with h
        · exact le_refl _
        · exact not_lt.1 h
      · exact h2 w hw

theorem minOver_le (l : List ℚ) : ∀ m : ℚ,
    minOver l m ≤ m ∧ ∀ w ∈ l, minOver l m ≤ w := by
  induction l with
  | nil => intro m; simp [minOver]
  | cons a rest ih =>
    intro m
    have e : minOver (a :: rest) m = minOver rest (if a < m then a else m) := rfl
    obtain ⟨h1, h2⟩ := ih (if a < m then a else m)
    rw [e]
    refine ⟨le_trans h1 ?_, fun w hw => ?_⟩
    · split_ifs with h
      · exact le_of_lt h
      · exact le_refl _
    · rcases List.mem_cons.1 hw with rfl | hw
      · refine le_trans h1 ?_
        split_ifs with h
        · exact le_refl _
        · exact not_lt.1 h
      · exact h2 w hw

theorem TimeStepBlock_RVar_meters_apply (A : Nat → MeterArrayType) (v : RealVariables)
    (mv : Nat → ℚ) (m : Nat) (hp : v.MeterArrayPtr ≠ 0) :
    TimeStepBlock_RVar_meters A v mv m
      = mv m + v.TSValue * (v.ZoneMult : ℚ) * (v.ZoneListMult : ℚ) *
          (((A v.MeterArrayPtr).attached.count m : Nat) : ℚ) := by
  unfold TimeStepBlock_RVar_meters MeterArrayType.attached
  rw [if_pos hp]
  by_cases hc : (A v.MeterArrayPtr).NumOnCustomMeters ≤ 0
  · simp only [hc, if_true, UpdateMeterValues_apply]
    simp
  · simp only [hc, if_false, UpdateMeterValues_apply]
    simp

/-- A zone timestep during which the schedule of a reported variable is zero, up to the Hour
block of the zone call. -/
theorem schedule_zero_timestep (vt : Nat) (M : Int) (t : ZoneTimeStep) (v : RealVariables)
    (hvt : vt = ZoneVar ∨ vt = HVACVar) (hwf : t.wellFormed M)
    (hS : v.SchedPtr > 0) (hz : ∀ c ∈ t.calls, c.env.GetCurrentScheduleValue v.SchedPtr = 0) :
    runCallsOutput vt t.hvac v = [] ∧
    (AtHourBlock_RVar t.zone.env vt t.zone.Which (runCalls vt t.hvac v)).2 = [] ∧
    (hourBlockEntry vt t v).Value = v.Value ∧
    (hourBlockEntry vt t v).thisTSCount = v.thisTSCount ∧
    (hourBlockEntry vt t v).tsStored = v.tsStored ∧
    (hourBlockEntry vt t v).thisTSStored = v.thisTSStored ∧
    (hourBlockEntry vt t v).TSValue = 0 ∧
    (hourBlockEntry vt t v).MaxValue
      = maxOver ((t.subSteps vt).map (fun c => c.Which)) v.MaxValue ∧
    (hourBlockEntry vt t v).MinValue
      = minOver ((t.subSteps vt).map (fun c => c.Which)) v.MinValue ∧
    (timeStepBlockEntry t.zone.env vt t.zone.Which (runCalls vt t.hvac v)).1.TSValue
      = v.TSValue + ((t.subSteps vt).map (curValue v.StoreType)).sum ∧
    sameGating v (timeStepBlockEntry t.zone.env vt t.zone.Which (runCalls vt t.hvac v)).1 := by
  obtain ⟨hh, hzk, _⟩ := hwf
  have hzz : t.zone.env.GetCurrentScheduleValue v.SchedPtr = 0 :=
    hz t.zone (by simp [ZoneTimeStep.calls])
  have hzh : ∀ c ∈ t.hvac, c.env.GetCurrentScheduleValue v.SchedPtr = 0 :=
    fun c hc => hz c (by simp [ZoneTimeStep.calls, hc])
  rcases hvt with rfl | rfl
  · have hpre : runCalls ZoneVar t.hvac v = v :=
      runCalls_other_domain t.hvac v (fun c hc => (hh c hc).1)
    have hsub : t.subSteps ZoneVar = [t.zone] := by
      simp [ZoneTimeStep.subSteps, ZoneVar, HVACVar]
    have hentry : timeStepBlockEntry t.zone.env ZoneVar t.zone.Which v
        = RecordKeeping_RVar t.zone.env t.zone.Which v := by
      simp [timeStepBlockEntry, hzk, ZoneVar, HVACVar]
    have hat : AtHourBlock_RVar t.zone.env ZoneVar t.zone.Which v
        = ((TimeStepBlock_RVar t.zone.env (RecordKeeping_RVar t.zone.env t.zone.Which v).1).1,
            (RecordKeeping_RVar t.zone.env t.zone.Which v).2 ++
              (TimeStepBlock_RVar t.zone.env
                (RecordKeeping_RVar t.zone.env t.zone.Which v).1).2) := by
      simp [AtHourBlock_RVar, hzk, inLoops, ZoneVar, HVACVar]
    obtain ⟨hT, hTy⟩ := RecordKeeping_RVar_TSValue t.zone.env t.zone.Which v
    obtain ⟨o, a1, a2, a3, a4, a5, a6, g⟩ :=
      RecordKeeping_RVar_silent t.zone.env t.zone.Which v hS hzz
    obtain ⟨o2, b1, bT, b2, b3, b4, b5, b6, _⟩ :=
      TimeStepBlock_RVar_silent t.zone.env (RecordKeeping_RVar t.zone.env t.zone.Which v).1
        (by rw [g.2.1]; exact hS) (by rw [g.2.1]; exact hzz)
    rw [hourBlockEntry, hpre, hat, hsub, hentry]
    refine ⟨runCallsOutput_other_domain t.hvac v (fun c hc => (hh c hc).1), by simp [o, o2],
      by rw [b1, a1], by rw [b2, a2], by rw [b3, a3], by rw [b4, a4], bT, ?_, ?_, ?_, g⟩
    · rw [b5, a5]
      simp [maxOver]
    · rw [b6, a6]
      simp [minOver]
    · rw [hT]
      simp [curValue]
  · have hsub : t.subSteps HVACVar = t.hvac := by simp [ZoneTimeStep.subSteps]
    obtain ⟨io, iTS, c1, c2, c3, c4, c5, c6, g⟩ :=
      runCalls_own_domain_silent t.hvac v (fun c hc => (hh c hc).1) hS hzh
    have hentry : timeStepBlockEntry t.zone.env HVACVar t.zone.Which (runCalls HVACVar t.hvac v)
        = (runCalls HVACVar t.hvac v, []) := by
      simp [timeStepBlockEntry, hzk, ZoneVar, HVACVar]
    have hat : AtHourBlock_RVar t.zone.env HVACVar t.zone.Which (runCalls HVACVar t.hvac v)
        = ((TimeStepBlock_RVar t.zone.env (runCalls HVACVar t.hvac v)).1,
            (TimeStepBlock_RVar t.zone.env (runCalls HVACVar t.hvac v)).2) := by
      simp [AtHourBlock_RVar, hzk, inLoops, ZoneVar, HVACVar]
    obtain ⟨o2, b1, bT, b2, b3, b4, b5, b6, _⟩ :=
      TimeStepBlock_RVar_silent t.zone.env (runCalls HVACVar t.hvac v)
        (by rw [g.2.1]; exact hS) (by rw [g.2.1]; exact hzz)
    rw [hourBlockEntry, hat, hsub, hentry]
    exact ⟨io, o2, by rw [b1, c1], by rw [b2, c2], by rw [b3, c3], by rw [b4, c4], bT,
      by rw [b5, c5], by rw [b6, c6], iTS, g⟩

theorem offTimeStep_wellFormed (a b : ℚ) : (offTimeStep a b).wellFormed 15 := by
  refine ⟨fun c hc => ?_, rfl, rfl⟩
  simp only [offTimeStep, List.mem_cons, List.mem_singleton, List.not_mem_nil, or_false] at hc
  rcases hc with rfl | rfl <;> exact ⟨rfl, rfl⟩

theorem offTimeStep_schedule (a b : ℚ) (p : Int) :
    ∀ c ∈ (offTimeStep a b).calls, c.env.GetCurrentScheduleValue p = 0 := by
  intro c hc
  simp only [offTimeStep, ZoneTimeStep.calls, List.cons_append, List.nil_append, List.mem_cons,
    List.mem_singleton, List.not_mem_nil, or_false] at hc
  rcases hc with rfl | rfl | rfl <;> rfl

/-- C31. During a zone timestep in which the schedule of a real variable is zero at every
call, UpdateDataandReport writes no EachCall and no TimeStep record for it, leaves thisTSCount,
tsStored and the hourly Value as they were, still moves MaxValue and MinValue to the values of
the storage cell at the sub-steps of the variable, and still adds the TSValue gathered over the
timestep, times ZoneMult and ZoneListMult, to every meter of its attachment record, once for
each time the meter is listed there. -/
theorem UpdateDataandReport_schedule_zero_still_tracked (vt : Nat) (M : Int) (t : ZoneTimeStep)
    (v : RealVariables) (VarMeterArrays : Nat → MeterArrayType) (MeterValue : Nat → ℚ)
    (hvt : vt = ZoneVar ∨ vt = HVACVar) (hwf : t.wellFormed M) (hR : v.Report = true)
    (hS : v.SchedPtr > 0)
    (hz : ∀ c ∈ t.calls, c.env.GetCurrentScheduleValue v.SchedPtr = 0) :
    runCallsOutput vt t.hvac v = [] ∧
    (AtHourBlock_RVar t.zone.env vt t.zone.Which (runCalls vt t.hvac v)).2 = [] ∧
    (hourBlockEntry vt t v).thisTSCount = v.thisTSCount ∧
    (hourBlockEntry vt t v).tsStored = v.tsStored ∧
    (hourBlockEntry vt t v).Value = v.Value ∧
    (hourBlockEntry vt t v).Report = true ∧
    (hourBlockEntry vt t v).MaxValue
      = maxOver ((t.subSteps vt).map (fun c => c.Which)) v.MaxValue ∧
    (hourBlockEntry vt t v).MinValue
      = minOver ((t.subSteps vt).map (fun c => c.Which)) v.MinValue ∧
    (∀ c ∈ t.subSteps vt, (hourBlockEntry vt t v).MinValue ≤ c.Which ∧
      c.Which ≤ (hourBlockEntry vt t v).MaxValue) ∧
    (v.MeterArrayPtr ≠ 0 → ∀ m,
      AtHourBlock_MeterValue t.zone.env vt t.zone.Which VarMeterArrays (runCalls vt t.hvac v)
          MeterValue m
        = MeterValue m +
            (v.TSValue + ((t.subSteps vt).map (curValue v.StoreType)).sum) *
              (v.ZoneMult : ℚ) * (v.ZoneListMult : ℚ) *
              (((VarMeterArrays v.MeterArrayPtr).attached.count m : Nat) : ℚ)) := by
  obtain ⟨o1, o2, a1, a2, a3, _, _, a6, a7, a8, g⟩ := schedule_zero_timestep vt M t v hvt hwf hS hz
  have hrep : (hourBlockEntry vt t v).Report = true := by
    have hl : inLoops vt = true := by rcases hvt with rfl | rfl <;> rfl
    have e : (hourBlockEntry vt t v).Report
        = (timeStepBlockEntry t.zone.env vt t.zone.Which (runCalls vt t.hvac v)).1.Report := by
      simp [hourBlockEntry, AtHourBlock_RVar, timeStepBlockEntry, hl, TimeStepBlock_RVar]
    rw [e, g.1, hR]
  refine ⟨o1, o2, a2, a3, a1, hrep, a6, a7, fun c hc => ?_, fun hp m => ?_⟩
  · rw [a6, a7]
    exact ⟨(minOver_le _ _).2 c.Which (List.mem_map_of_mem _ hc),
      (maxOver_ge _ _).2 c.Which (List.mem_map_of_mem _ hc)⟩
  · have hl : inLoops vt = true := by rcases hvt with rfl | rfl <;> rfl
    unfold AtHourBlock_MeterValue
    rw [if_pos hl, TimeStepBlock_RVar_meters_apply _ _ _ _ (by rw [g.2.2.2.1]; exact hp),
      a8, g.2.2.2.1, g.2.2.2.2.1, g.2.2.2.2.2]

theorem UpdateDataandReport_schedule_zero_still_tracked_sample :
    runCallsOutput HVACVar (offTimeStep 3 5).hvac scheduledVariable = [] ∧
    (hourBlockEntry HVACVar (offTimeStep 3 5) scheduledVariable).thisTSCount
      = scheduledVariable.thisTSCount ∧
    (hourBlockEntry HVACVar (offTimeStep 3 5) scheduledVariable).MaxValue
      = maxOver (((offTimeStep 3 5).subSteps HVACVar).map (fun c => c.Which))
          scheduledVariable.MaxValue ∧
    AtHourBlock_MeterValue (offTimeStep 3 5).zone.env HVACVar (offTimeStep 3 5).zone.Which
        sampleAttachment (runCalls HVACVar (offTimeStep 3 5).hvac scheduledVariable)
        (fun _ => 0) 5
      = (fun _ => (0 : ℚ)) 5 +
          (scheduledVariable.TSValue +
            (((offTimeStep 3 5).subSteps HVACVar).map
              (curValue scheduledVariable.StoreType)).sum) *
            (scheduledVariable.ZoneMult : ℚ) * (scheduledVariable.ZoneListMult : ℚ) *
            (((sampleAttachment scheduledVariable.MeterArrayPtr).attached.count 5 : Nat) : ℚ) := by
  have h := UpdateDataandReport_schedule_zero_still_tracked HVACVar 15 (offTimeStep 3 5)
    scheduledVariable sampleAttachment (fun _ => 0) (Or.inr rfl) (offTimeStep_wellFormed 3 5) rfl
    (by decide) (offTimeStep_schedule 3 5 _)
  exact ⟨h.1, h.2.2.1, h.2.2.2.2.2.2.1, h.2.2.2.2.2.2.2.2.2 (by decide) 5⟩

/-! ## The divisions of the Hour block and of WriteReportRealData -/

theorem RecordKeeping_RVar_counted (env : ReportingCall) (w : ℚ) (v : RealVariables)
    (h : countedWhenStored v.tsStored v.thisTSStored v.thisTSCount) :
    countedWhenStored (RecordKeeping_RVar env w v).1.tsStored
      (RecordKeeping_RVar env w v).1.thisTSStored (RecordKeeping_RVar env w v).1.thisTSCount := by
  unfold countedWhenStored at *
  simp only [RecordKeeping_RVar]
  cases hc : (v.Report && ReportNow env v) <;> cases ht : v.thisTSStored <;>
    simp_all

theorem TimeStepBlock_RVar_counted (env : ReportingCall) (v : RealVariables)
    (h : countedWhenStored v.tsStored v.thisTSStored v.thisTSCount) :
    countedWhenStored (TimeStepBlock_RVar env v).1.tsStored
      (TimeStepBlock_RVar env v).1.thisTSStored (TimeStepBlock_RVar env v).1.thisTSCount := by
  unfold countedWhenStored at *
  simp only [TimeStepBlock_RVar]
  cases hc : (!ReportNow env v || !v.Report) <;> cases ht : v.thisTSStored <;>
    cases hs : v.tsStored <;> simp_all

theorem AtHourBlock_RVar_counted (env : ReportingCall) (vt : Nat) (w : ℚ) (v : RealVariables)
    (h : countedWhenStored v.tsStored v.thisTSStored v.thisTSCount) :
    countedWhenStored (AtHourBlock_RVar env vt w v).1.tsStored
      (AtHourBlock_RVar env vt w v).1.thisTSStored (AtHourBlock_RVar env vt w v).1.thisTSCount := by
  unfold AtHourBlock_RVar
  by_cases hk : env.IndexTypeKey ≥ ZoneVar ∧ env.IndexTypeKey ≤ HVACVar ∧ vt = env.IndexTypeKey
  · simp only [if_pos hk]
    cases hl : inLoops vt
    · simpa using RecordKeeping_RVar_counted env w v h
    · simpa using TimeStepBlock_RVar_counted env _ (RecordKeeping_RVar_counted env w v h)
  · simp only [if_neg hk]
    cases hl : inLoops vt
    · simpa using h
    · simpa using TimeStepBlock_RVar_counted env v h

theorem WriteRealVariableOutput_flags (f : Int) (v : RealVariables) :
    (WriteRealVariableOutput f v).1.tsStored = v.tsStored ∧
    (WriteRealVariableOutput f v).1.thisTSStored = v.thisTSStored ∧
    (WriteRealVariableOutput f v).1.thisTSCount = v.thisTSCount := by
  unfold WriteRealVariableOutput
  split_ifs <;> simp

theorem AfterHourBlock_RVar_counted (env : ReportingCall) (vt : Nat)
    (r : RealVariables × List OutputRecord)
    (h : countedWhenStored r.1.tsStored r.1.thisTSStored r.1.thisTSCount) :
    countedWhenStored (AfterHourBlock_RVar env vt r).1.tsStored
      (AfterHourBlock_RVar env vt r).1.thisTSStored (AfterHourBlock_RVar env vt r).1.thisTSCount := by
  unfold AfterHourBlock_RVar
  cases hl : inLoops vt
  · simpa using h
  · have hB : (HourBlock_RVar r.1).1.tsStored = false ∧
        (HourBlock_RVar r.1).1.thisTSStored = false := ⟨rfl, rfl⟩
    cases hd : env.EndDayFlag
    · simp only [Bool.not_true, Bool.not_false, if_true, if_false, Bool.false_eq_true]
      intro hx
      rcases hx with hx | hx
      · rw [hB.1] at hx; cases hx
      · rw [hB.2] at hx; cases hx
    · simp only [Bool.not_true, Bool.false_eq_true, if_false]
      intro hx
      exfalso
      have key : ∀ x : RealVariables, x.tsStored = false ∧ x.thisTSStored = false →
          ∀ (b : Bool) (f : Int),
            (if b = true then WriteRealVariableOutput f x else (x, [])).1.tsStored = false ∧
            (if b = true then WriteRealVariableOutput f x else (x, [])).1.thisTSStored = false := by
        intro x hx b f
        cases b
        · simpa using hx
        · obtain ⟨e1, e2, _⟩ := WriteRealVariableOutput_flags f x
          simp only [if_true]
          rw [e1, e2]
          exact hx
      have k4 := key _ hB true ReportDaily
      simp only [if_true] at k4
      have k5 := key _ k4 (env.EndMonthFlag || env.EndEnvrnFlag) ReportMonthly
      have k6 := key _ k5 env.EndEnvrnFlag ReportSim
      rcases hx with hx | hx
      · rw [k6.1] at hx; cases hx
      · rw [k6.2] at hx; cases hx

theorem UpdateDataandReport_RVar_counted (env : ReportingCall) (vt : Nat) (w : ℚ)
    (v : RealVariables) (h : countedWhenStored v.tsStored v.thisTSStored v.thisTSCount) :
    countedWhenStored (UpdateDataandReport_RVar env vt w v).1.tsStored
      (UpdateDataandReport_RVar env vt w v).1.thisTSStored
      (UpdateDataandReport_RVar env vt w v).1.thisTSCount := by
  unfold UpdateDataandReport_RVar
  by_cases hk : env.IndexTypeKey = HVACVar
  · rw [if_pos hk]
    by_cases hv : vt = env.IndexTypeKey
    · rw [if_pos hv]; exact RecordKeeping_RVar_counted env w v h
    · rw [if_neg hv]; exact h
  · rw [if_neg hk]
    cases he : env.EndHourFlag
    · simpa using AtHourBlock_RVar_counted env vt w v h
    · simpa using AfterHourBlock_RVar_counted env vt _ (AtHourBlock_RVar_counted env vt w v h)

theorem runCalls_counted (vt : Nat) (calls : List SubStep) : ∀ (v : RealVariables),
    countedWhenStored v.tsStored v.thisTSStored v.thisTSCount →
    countedWhenStored (runCalls vt calls v).tsStored (runCalls vt calls v).thisTSStored
      (runCalls vt calls v).thisTSCount := by
  induction calls with
  | nil => intro v h; exact h
  | cons c rest ih =>
    intro v h
    rw [runCalls_cons]
    exact ih _ (UpdateDataandReport_RVar_counted c.env vt c.Which v h)

theorem RecordKeeping_IVar_counted (env : ReportingCall) (w : Int) (v : IntegerVariables)
    (h : countedWhenStored v.tsStored v.thisTSStored v.thisTSCount) :
    countedWhenStored (RecordKeeping_IVar env w v).1.tsStored
      (RecordKeeping_IVar env w v).1.thisTSStored (RecordKeeping_IVar env w v).1.thisTSCount := by
  unfold countedWhenStored at *
  simp only [RecordKeeping_IVar]
  cases hc : (v.Report && (if v.SchedPtr > 0 then
      decide (env.GetCurrentScheduleValue v.SchedPtr ≠ 0) else true)) <;>
    cases ht : v.thisTSStored <;> simp_all

theorem TimeStepBlock_IVar_counted (env : ReportingCall) (v : IntegerVariables)
    (h : countedWhenStored v.tsStored v.thisTSStored v.thisTSCount) :
    countedWhenStored (TimeStepBlock_IVar env v).1.tsStored
      (TimeStepBlock_IVar env v).1.thisTSStored (TimeStepBlock_IVar env v).1.thisTSCount := by
  unfold countedWhenStored at *
  simp only [TimeStepBlock_IVar]
  cases hc : (!ReportNow_IVar env v || !v.Report) <;> cases ht : v.thisTSStored <;>
    cases hs : v.tsStored <;> simp_all

theorem AtHourBlock_IVar_counted (env : ReportingCall) (vt : Nat) (w : Int)
    (v : IntegerVariables) (h : countedWhenStored v.tsStored v.thisTSStored v.thisTSCount) :
    countedWhenStored (AtHourBlock_IVar env vt w v).1.tsStored
      (AtHourBlock_IVar env vt w v).1.thisTSStored (AtHourBlock_IVar env vt w v).1.thisTSCount := by
  unfold AtHourBlock_IVar
  by_cases hk : env.IndexTypeKey ≥ ZoneVar ∧ env.IndexTypeKey ≤ HVACVar ∧ vt = env.IndexTypeKey
  · simp only [if_pos hk]
    cases hl : inLoops vt
    · simpa using RecordKeeping_IVar_counted env w v h
    · simpa using TimeStepBlock_IVar_counted env _ (RecordKeeping_IVar_counted env w v h)
  · simp only [if_neg hk]
    cases hl : inLoops vt
    · simpa using h
    · simpa using TimeStepBlock_IVar_counted env v h

theorem WriteIntegerVariableOutput_flags (b : Bool) (f : Int) (v : IntegerVariables) :
    (WriteIntegerVariableOutput b f v).1.tsStored = v.tsStored ∧
    (WriteIntegerVariableOutput b f v).1.thisTSStored = v.thisTSStored ∧
    (WriteIntegerVariableOutput b f v).1.thisTSCount = v.thisTSCount := by
  unfold WriteIntegerVariableOutput
  split_ifs <;> simp

theorem AfterHourBlock_IVar_counted (env : ReportingCall) (wu : Bool) (vt : Nat)
    (r : IntegerVariables × List IntegerOutputRecord)
    (h : countedWhenStored r.1.tsStored r.1.thisTSStored r.1.thisTSCount) :
    countedWhenStored (AfterHourBlock_IVar env wu vt r).1.tsStored
      (AfterHourBlock_IVar env wu vt r).1.thisTSStored
      (AfterHourBlock_IVar env wu vt r).1.thisTSCount := by
  unfold AfterHourBlock_IVar
  cases hl : inLoops vt
  · simpa using h
  · have hB : (HourBlock_IVar r.1).1.tsStored = false ∧
        (HourBlock_IVar r.1).1.thisTSStored = false := ⟨rfl, rfl⟩
    cases hd : env.EndDayFlag
    · simp only [Bool.not_true, Bool.not_false, if_true, if_false, Bool.false_eq_true]
      intro hx
      rcases hx with hx | hx
      · rw [hB.1] at hx; cases hx
      · rw [hB.2] at hx; cases hx
    · simp only [Bool.not_true, Bool.false_eq_true, if_false]
      intro hx
      exfalso
      have key : ∀ x : IntegerVariables, x.tsStored = false ∧ x.thisTSStored = false →
          ∀ (b : Bool) (f : Int),
            (if b = true then WriteIntegerVariableOutput wu f x else (x, [])).1.tsStored = false ∧
            (if b = true then WriteIntegerVariableOutput wu f x else (x, [])).1.thisTSStored
              = false := by
        intro x hx b f
        cases b
        · simpa using hx
        · obtain ⟨e1, e2, _⟩ := WriteIntegerVariableOutput_flags wu f x
          simp only [if_true]
          rw [e1, e2]
          exact hx
      have k4 := key _ hB true ReportDaily
      simp only [if_true] at k4
      have k5 := key _ k4 (env.EndMonthFlag || env.EndEnvrnFlag) ReportMonthly
      have k6 := key _ k5 env.EndEnvrnFlag ReportSim
      rcases hx with hx | hx
      · rw [k6.1] at hx; cases hx
      · rw [k6.2] at hx; cases hx

theorem UpdateDataandReport_IVar_counted (env : ReportingCall) (wu : Bool) (vt : Nat) (w : Int)
    (v : IntegerVariables) (h : countedWhenStored v.tsStored v.thisTSStored v.thisTSCount) :
    countedWhenStored (UpdateDataandReport_IVar env wu vt w v).1.tsStored
      (UpdateDataandReport_IVar env wu vt w v).1.thisTSStored
      (UpdateDataandReport_IVar env wu vt w v).1.thisTSCount := by
  unfold UpdateDataandReport_IVar
  by_cases hk : env.IndexTypeKey = HVACVar
  · rw [if_pos hk]
    by_cases hv : vt = env.IndexTypeKey
    · rw [if_pos hv]; exact RecordKeeping_IVar_counted env w v h
    · rw [if_neg hv]; exact h
  · rw [if_neg hk]
    cases he : env.EndHourFlag
    · simpa using AtHourBlock_IVar_counted env vt w v h
    · simpa using AfterHourBlock_IVar_counted env wu vt _ (AtHourBlock_IVar_counted env vt w v h)

theorem runCalls_IVar_counted (vt : Nat) (calls : List IntegerSubStep) :
    ∀ (v : IntegerVariables), countedWhenStored v.tsStored v.thisTSStored v.thisTSCount →
    countedWhenStored (runCalls_IVar vt calls v).tsStored (runCalls_IVar vt calls v).thisTSStored
      (runCalls_IVar vt calls v).thisTSCount := by
  induction calls with
  | nil => intro v h; exact h
  | cons c rest ih =>
    intro v h
    have e : runCalls_IVar vt (c :: rest) v
        = runCalls_IVar vt rest (UpdateDataandReport_IVar c.env c.warmup vt c.Which v).1 := rfl
    rw [e]
    exact ih _ (UpdateDataandReport_IVar_counted c.env c.warmup vt c.Which v h)

theorem WriteRealVariableOutput_records (f : Int) (v : RealVariables) (r : OutputRecord)
    (hr : r ∈ (WriteRealVariableOutput f v).2) :
    0 < v.NumStored ∧
    r = WriteReportRealData v.ReportID v.StoreValue v.StoreType v.NumStored v.ReportFreq
          v.MinValue v.minValueDate v.MaxValue v.maxValueDate := by
  unfold WriteRealVariableOutput at hr
  split_ifs at hr with h1 h2
  · simp only [List.mem_singleton] at hr
    exact ⟨h2, hr⟩
  · simp at hr
  · simp at hr

/-- C36. From a variable whose flags tsStored and thisTSStored are set only with a positive
thisTSCount (as for a new descriptor, where both are unset), every sequence of calls of
UpdateDataandReport leaves a real and an integer variable with thisTSCount at least 1 whenever
tsStored is set, also at the point where a following zone-timestep call reaches the Hour
block, where the divisor of Value is therefore not zero; and every call of
WriteReportRealData that WriteRealVariableOutput makes passes a positive numOfItemsStored. -/
theorem UpdateDataandReport_divisors_positive (vt : Nat) (v0 : RealVariables)
    (i0 : IntegerVariables)
    (hv : countedWhenStored v0.tsStored v0.thisTSStored v0.thisTSCount)
    (hi : countedWhenStored i0.tsStored i0.thisTSStored i0.thisTSCount) :
    (∀ calls : List SubStep,
      ((runCalls vt calls v0).tsStored = true → 1 ≤ (runCalls vt calls v0).thisTSCount) ∧
      ∀ (env : ReportingCall) (Which : ℚ),
        (AtHourBlock_RVar env vt Which (runCalls vt calls v0)).1.tsStored = true →
        1 ≤ (AtHourBlock_RVar env vt Which (runCalls vt calls v0)).1.thisTSCount ∧
        (((AtHourBlock_RVar env vt Which (runCalls vt calls v0)).1.thisTSCount : Nat) : ℚ) ≠ 0) ∧
    (∀ calls : List IntegerSubStep,
      ((runCalls_IVar vt calls i0).tsStored = true →
        1 ≤ (runCalls_IVar vt calls i0).thisTSCount) ∧
      ∀ (env : ReportingCall) (Which : Int),
        (AtHourBlock_IVar env vt Which (runCalls_IVar vt calls i0)).1.tsStored = true →
        1 ≤ (AtHourBlock_IVar env vt Which (runCalls_IVar vt calls i0)).1.thisTSCount ∧
        (((AtHourBlock_IVar env vt Which (runCalls_IVar vt calls i0)).1.thisTSCount : Nat) : ℚ)
          ≠ 0) ∧
    (∀ (f : Int) (v : RealVariables) (r : OutputRecord), r ∈ (WriteRealVariableOutput f v).2 →
      0 < v.NumStored ∧
      r = WriteReportRealData v.ReportID v.StoreValue v.StoreType v.NumStored v.ReportFreq
            v.MinValue v.minValueDate v.MaxValue v.maxValueDate) := by
  refine ⟨fun calls => ⟨fun h => runCalls_counted vt calls v0 hv (Or.inl h), fun env w h => ?_⟩,
    fun calls => ⟨fun h => runCalls_IVar_counted vt calls i0 hi (Or.inl h), fun env w h => ?_⟩,
    WriteRealVariableOutput_records⟩
  · have k := AtHourBlock_RVar_counted env vt w _ (runCalls_counted vt calls v0 hv) (Or.inl h)
    exact ⟨k, by exact_mod_cast (by omega : (AtHourBlock_RVar env vt w
      (runCalls vt calls v0)).1.thisTSCount ≠ 0)⟩
  · have k := AtHourBlock_IVar_counted env vt w _ (runCalls_IVar_counted vt calls i0 hi)
      (Or.inl h)
    exact ⟨k, by exact_mod_cast (by omega : (AtHourBlock_IVar env vt w
      (runCalls_IVar vt calls i0)).1.thisTSCount ≠ 0)⟩

theorem UpdateDataandReport_divisors_positive_sample :
    countedWhenStored (reportedVariable AveragedVar ReportHourly).tsStored
      (reportedVariable AveragedVar ReportHourly).thisTSStored
      (reportedVariable AveragedVar ReportHourly).thisTSCount ∧
    ((runCalls HVACVar (sampleTimeStep false false 3 5).calls
        (reportedVariable AveragedVar ReportHourly)).tsStored = true →
      1 ≤ (runCalls HVACVar (sampleTimeStep false false 3 5).calls
        (reportedVariable AveragedVar ReportHourly)).thisTSCount) :=
  ⟨fun h => (by rcases h with h | h <;> cases h),
   ((UpdateDataandReport_divisors_positive HVACVar (reportedVariable AveragedVar ReportHourly)
      (reportedIntegerVariable AveragedVar ReportHourly)
      (fun h => by rcases h with h | h <;> cases h)
      (fun h => by rcases h with h | h <;> cases h)).1
      (sampleTimeStep false false 3 5).calls).1⟩

/-! ## The catalog stays unique and linked -/

theorem sameFstring_iff (a b : String) :
    sameFstring a b = true ↔ trimBlanks a = trimBlanks b := by
  simp [sameFstring]

theorem sameFstring_eq_false_iff (a b : String) :
    sameFstring a b = false ↔ trimBlanks a ≠ trimBlanks b := by
  simp [sameFstring]

theorem FindItemInListFrom_first (s : String) (items : Nat → String) :
    ∀ (n i : Nat), 1 ≤ i →
      (FindItemInListFrom s items n i = 0 ∧
        ∀ j, i ≤ j → j < i + n → sameFstring s (items j) = false) ∨
      (i ≤ FindItemInListFrom s items n i ∧ FindItemInListFrom s items n i < i + n ∧
        sameFstring s (items (FindItemInListFrom s items n i)) = true ∧
        ∀ j, i ≤ j → j < FindItemInListFrom s items n i → sameFstring s (items j) = false) := by
  intro n
  induction n with
  | zero =>
    intro i _
    left
    exact ⟨rfl, fun j h1 h2 => by omega⟩
  | succ n ih =>
    intro i hi
    by_cases hm : sameFstring s (items i) = true
    · right
      have : FindItemInListFrom s items (n + 1) i = i := by simp [FindItemInListFrom, hm]
      rw [this]
      exact ⟨le_refl _, by omega, hm, fun j h1 h2 => by omega⟩
    · have hstep : FindItemInListFrom s items (n + 1) i
          = FindItemInListFrom s items n (i + 1) := by simp [FindItemInListFrom, hm]
      rw [hstep]
      rcases ih (i + 1) (by omega) with ⟨h0, h⟩ | ⟨h1, h2, h3, h4⟩
      · left
        refine ⟨h0, fun j hj1 hj2 => ?_⟩
        by_cases hji : j = i
        · subst hji
          simpa using hm
        · exact h j (by omega) (by omega)
      · right
        refine ⟨by omega, by omega, h3, fun j hj1 hj2 => ?_⟩
        by_cases hji : j = i
        · subst hji
          simpa using hm
        · exact h4 j (by omega) hj2

/-- FindItemInList returns the first position of 1..n whose item equals the string, and 0 when
there is none. -/
theorem FindItemInList_char (s : String) (items : Nat → String) (n f : Nat) :
    FindItemInList s items n = f ↔
      (f = 0 ∧ ∀ j, 1 ≤ j → j ≤ n → sameFstring s (items j) = false) ∨
      (1 ≤ f ∧ f ≤ n ∧ sameFstring s (items f) = true ∧
        ∀ j, 1 ≤ j → j < f → sameFstring s (items j) = false) := by
  unfold FindItemInList
  rcases FindItemInListFrom_first s items n 1 (le_refl _) with ⟨h0, h⟩ | ⟨h1, h2, h3, h4⟩
  · rw [h0]
    constructor
    · intro e
      left
      exact ⟨e.symm, fun j a b => h j a (by omega)⟩
    · rintro (⟨e, _⟩ | ⟨a, b, c, _⟩)
      · exact e.symm
      · rw [h f a (by omega)] at c
        cases c
  · constructor
    · intro e
      right
      rw [← e]
      exact ⟨h1, by omega, h3, h4⟩
    · rintro (⟨e, hn⟩ | ⟨a, b, c, d⟩)
      · rw [hn _ h1 (by omega)] at h3
        cases h3
      · rcases Nat.lt_trichotomy (FindItemInListFrom s items n 1) f with hlt | heq | hgt
        · rw [d _ h1 hlt] at h3
          cases h3
        · exact heq
        · rw [h4 f a hgt] at c
          cases c

theorem FindItemInList_congr (s t : String) (items items2 : Nat → String) (n m : Nat)
    (hst : sameFstring s t = true)
    (hf : 1 ≤ FindItemInList s items n)
    (hnm : n ≤ m) (hitems : ∀ j, 1 ≤ j → j ≤ n → items2 j = items j) :
    FindItemInList t items2 m = FindItemInList s items n := by
  have hst2 := (sameFstring_iff s t).1 hst
  have hfun : ∀ x, sameFstring t x = sameFstring s x := fun x => by
    simp [sameFstring, hst2]
  rcases (FindItemInList_char s items n _).1 rfl with ⟨e, _⟩ | ⟨a, b, c, d⟩
  · omega
  · refine (FindItemInList_char t items2 m _).2 (Or.inr ⟨a, by omega, ?_, fun j h1 h2 => ?_⟩)
    · rw [hfun, hitems _ a b]
      exact c
    · rw [hfun, hitems _ h1 (by omega)]
      exact d j h1 h2

theorem reaches_bounds (cat : OutputVariableList) (hn : ∀ i, 1 ≤ i →
      i ≤ cat.NumVariablesForOutput →
      (cat.DDVariableTypes i).Next = 0 ∨
        (i < (cat.DDVariableTypes i).Next ∧
          (cat.DDVariableTypes i).Next ≤ cat.NumVariablesForOutput ∧
          sameFstring (cat.names (cat.DDVariableTypes i).Next) (cat.names i) = true))
    (a b : Nat) (h : cat.reaches a b) (ha2 : a ≤ cat.NumVariablesForOutput) :
    a ≤ b ∧ b ≤ cat.NumVariablesForOutput ∧ sameFstring (cat.names b) (cat.names a) = true := by
  induction h with
  | refl => exact ⟨le_refl _, ha2, (sameFstring_iff _ _).2 rfl⟩
  | tail _ hbc ih =>
    obtain ⟨i1, i2, i3⟩ := ih
    obtain ⟨e1, e2, e3, e4⟩ := hbc
    rcases hn _ e1 e2 with h0 | ⟨k1, k2, k3⟩
    · rw [e3] at h0
      exact absurd h0 e4
    · rw [e3] at k1 k2 k3
      refine ⟨by omega, k2, (sameFstring_iff _ _).2 ?_⟩
      rw [(sameFstring_iff _ _).1 k3, (sameFstring_iff _ _).1 i3]

theorem reaches_head (cat : OutputVariableList) (a k : Nat) (h : cat.reaches a k) :
    k = a ∨ (1 ≤ a ∧ a ≤ cat.NumVariablesForOutput ∧ (cat.DDVariableTypes a).Next ≠ 0 ∧
      cat.reaches (cat.DDVariableTypes a).Next k) := by
  rcases Relation.ReflTransGen.cases_head h with e | ⟨c, hac, hck⟩
  · exact Or.inl e.symm
  · obtain ⟨e1, e2, e3, e4⟩ := hac
    right
    refine ⟨e1, e2, by rw [e3]; exact e4, ?_⟩
    rw [e3]
    exact hck

/-- The while loop of AddToOutputVariableList ends within the fuel it is given, at an entry
reached from the start; when it finds no entry with the units, it ends at the entry whose Next
is 0 and no entry reached after the start has the units. -/
theorem findUnitsInChain_spec (U : String) (cat : OutputVariableList)
    (hn : ∀ i, 1 ≤ i → i ≤ cat.NumVariablesForOutput →
      (cat.DDVariableTypes i).Next = 0 ∨
        (i < (cat.DDVariableTypes i).Next ∧
          (cat.DDVariableTypes i).Next ≤ cat.NumVariablesForOutput ∧
          sameFstring (cat.names (cat.DDVariableTypes i).Next) (cat.names i) = true)) :
    ∀ (fuel a : Nat), 1 ≤ a → a ≤ cat.NumVariablesForOutput →
      cat.NumVariablesForOutput ≤ fuel + a →
      ∃ d d2, findUnitsInChain U cat.DDVariableTypes fuel a = some (d, d2) ∧
        cat.reaches a d ∧
        (d2 = 0 → (cat.DDVariableTypes d).Next = 0 ∧
          ∀ k, cat.reaches a k → k ≠ a → sameFstring U (cat.units k) = false) := by
  intro fuel
  induction fuel with
  | zero =>
    intro a h1 h2 h3
    rcases hn a h1 h2 with h0 | ⟨k1, k2, _⟩
    · refine ⟨a, 0, by simp [findUnitsInChain, h0], Relation.ReflTransGen.refl, fun _ => ⟨h0, ?_⟩⟩
      intro k hk hka
      rcases reaches_head cat a k hk with e | ⟨_, _, e, _⟩
      · exact absurd e hka
      · exact absurd h0 e
    · omega
  | succ fuel ih =>
    intro a h1 h2 h3
    rcases hn a h1 h2 with h0 | ⟨k1, k2, k3⟩
    · refine ⟨a, 0, by simp [findUnitsInChain, h0], Relation.ReflTransGen.refl, fun _ => ⟨h0, ?_⟩⟩
      intro k hk hka
      rcases reaches_head cat a k hk with e | ⟨_, _, e, _⟩
      · exact absurd e hka
      · exact absurd h0 e
    · have hne : (cat.DDVariableTypes a).Next ≠ 0 := by omega
      by_cases hu : sameFstring U (cat.DDVariableTypes (cat.DDVariableTypes a).Next).UnitsString
          = true
      · refine ⟨a, (cat.DDVariableTypes a).Next, by simp [findUnitsInChain, hne, hu],
          Relation.ReflTransGen.refl, fun e => absurd e hne⟩
      · obtain ⟨d, d2, r1, r2, r3⟩ := ih (cat.DDVariableTypes a).Next (by omega) k2 (by omega)
        have hedge : cat.linkedTo a (cat.DDVariableTypes a).Next := ⟨h1, h2, rfl, hne⟩
        refine ⟨d, d2, by simp [findUnitsInChain, hne, hu, r1],
          Relation.ReflTransGen.head hedge r2, fun e => ⟨(r3 e).1, ?_⟩⟩
        intro k hk hka
        rcases reaches_head cat a k hk with e2 | ⟨_, _, _, hr⟩
        · exact absurd e2 hka
        · by_cases hkn : k = (cat.DDVariableTypes a).Next
          · rw [hkn]
            simpa [OutputVariableList.units] using hu
          · exact (r3 e).2 k hr hkn

theorem sameFstring_refl (a : String) : sameFstring a a = true :=
  (sameFstring_iff a a).2 rfl

theorem FindItemInList_pos_of_mem (items : Nat → String) (n j : Nat) (h1 : 1 ≤ j) (h2 : j ≤ n)
    (s : String) (hs : sameFstring s (items j) = true) : 1 ≤ FindItemInList s items n := by
  rcases Nat.eq_zero_or_pos (FindItemInList s items n) with h0 | hp
  · exact absurd ⟨j, h1, h2, hs⟩ ((FindItemInList_eq_zero_iff s items n).1 h0)
  · exact hp

theorem add_NumVariablesForOutput (cat : OutputVariableList) (VarName U : String) (I S V : Nat) :
    (cat.add VarName I S V U).NumVariablesForOutput = cat.NumVariablesForOutput + 1 := rfl

theorem add_old (cat : OutputVariableList) (VarName U : String) (I S V : Nat) (i : Nat)
    (hi : i ≠ cat.NumVariablesForOutput + 1) :
    (cat.add VarName I S V U).DDVariableTypes i = cat.DDVariableTypes i :=
  Function.update_noteq hi _ _

theorem add_new (cat : OutputVariableList) (VarName U : String) (I S V : Nat) :
    (cat.add VarName I S V U).DDVariableTypes (cat.NumVariablesForOutput + 1)
      = { IndexType := I, StoreType := S, VariableType := V, Next := 0, VarNameOnly := VarName,
          UnitsString := U } :=
  Function.update_same _ _ _

/-- Adding a name that is not in the catalog keeps the catalog unique and linked. -/
theorem add_wellLinked (cat : OutputVariableList) (VarName U : String) (I S V : Nat)
    (hw : cat.wellLinked)
    (hnone : ∀ j, 1 ≤ j → j ≤ cat.NumVariablesForOutput →
      sameFstring VarName (cat.names j) = false) :
    (cat.add VarName I S V U).wellLinked := by
  have hold := add_old cat VarName U I S V
  have hnew := add_new cat VarName U I S V
  have hnames : ∀ j, j ≤ cat.NumVariablesForOutput →
      (cat.add VarName I S V U).names j = cat.names j := fun j hj => by
    simp only [OutputVariableList.names]
    rw [hold j (by omega)]
  have hunits : ∀ j, j ≤ cat.NumVariablesForOutput →
      (cat.add VarName I S V U).units j = cat.units j := fun j hj => by
    simp only [OutputVariableList.units]
    rw [hold j (by omega)]
  have hnameN : (cat.add VarName I S V U).names (cat.NumVariablesForOutput + 1) = VarName := by
    simp only [OutputVariableList.names]
    rw [hnew]
  constructor
  · intro i h1 h2
    rw [add_NumVariablesForOutput] at h2 ⊢
    by_cases hi : i = cat.NumVariablesForOutput + 1
    · left
      rw [hi, hnew]
    · rw [hold i hi]
      rcases hw.next i h1 (by omega) with h0 | ⟨k1, k2, k3⟩
      · exact Or.inl h0
      · right
        refine ⟨k1, by omega, ?_⟩
        rw [hnames _ k2, hnames _ (by omega)]
        exact k3
  · intro i j h1 h2 h3
    rw [add_NumVariablesForOutput] at h3
    by_cases hj : j = cat.NumVariablesForOutput + 1
    · rintro ⟨a, _⟩
      rw [hj, hnameN, hnames i (by omega)] at a
      have := hnone i h1 (by omega)
      rw [(sameFstring_eq_false_iff _ _)] at this
      exact this ((sameFstring_iff _ _).1 a).symm
    · rw [hnames i (by omega), hnames j (by omega), hunits i (by omega), hunits j (by omega)]
      exact hw.unique i j h1 h2 (by omega)
  · intro j h1 h2
    rw [add_NumVariablesForOutput] at h2 ⊢
    by_cases hj : j = cat.NumVariablesForOutput + 1
    · have e : FindItemInList ((cat.add VarName I S V U).names j)
          (cat.add VarName I S V U).names (cat.NumVariablesForOutput + 1) = j := by
        refine (FindItemInList_char _ _ _ _).2 (Or.inr ⟨h1, by omega, sameFstring_refl _, ?_⟩)
        intro k k1 k2
        rw [hj, hnameN, hnames k (by omega)]
        exact hnone k k1 (by omega)
      rw [e]
      exact Relation.ReflTransGen.refl
    · have hj2 : j ≤ cat.NumVariablesForOutput := by omega
      have e : FindItemInList ((cat.add VarName I S V U).names j)
          (cat.add VarName I S V U).names (cat.NumVariablesForOutput + 1)
          = FindItemInList (cat.names j) cat.names cat.NumVariablesForOutput :=
        FindItemInList_congr _ _ _ _ _ _ (by rw [hnames j hj2]; exact sameFstring_refl _)
          (FindItemInList_pos_of_mem _ _ j h1 hj2 _ (sameFstring_refl _)) (by omega)
          (fun k _ k2 => hnames k k2)
      rw [e]
      refine Relation.ReflTransGen.mono (fun a b hab => ?_) (hw.chained j h1 hj2)
      obtain ⟨e1, e2, e3, e4⟩ := hab
      exact ⟨e1, by rw [add_NumVariablesForOutput]; omega, by rw [hold a (by omega)]; exact e3, e4⟩

/-- Adding a name with new units at the end of its chain keeps the catalog unique and
linked. -/
theorem addLinked_wellLinked (cat : OutputVariableList) (VarName U : String) (I S V d : Nat)
    (hw : cat.wellLinked)
    (hdup : 1 ≤ FindItemInList VarName cat.names cat.NumVariablesForOutput)
    (hU : sameFstring U
      (cat.units (FindItemInList VarName cat.names cat.NumVariablesForOutput)) = false)
    (hreach : cat.reaches (FindItemInList VarName cat.names cat.NumVariablesForOutput) d)
    (hend : (cat.DDVariableTypes d).Next = 0)
    (hall : ∀ k, cat.reaches (FindItemInList VarName cat.names cat.NumVariablesForOutput) k →
      k ≠ FindItemInList VarName cat.names cat.NumVariablesForOutput →
      sameFstring U (cat.units k) = false) :
    (cat.addLinked d VarName I S V U).wellLinked := by
  rcases (FindItemInList_char VarName cat.names cat.NumVariablesForOutput _).1 rfl with
    ⟨e, _⟩ | ⟨p1, p2, p3, p4⟩
  · omega
  obtain ⟨d1, d2, d3⟩ := reaches_bounds cat hw.next _ d hreach p2
  have hd1 : 1 ≤ d := by omega
  have hN : (cat.addLinked d VarName I S V U).NumVariablesForOutput
      = cat.NumVariablesForOutput + 1 := rfl
  have hDD : ∀ i, (cat.addLinked d VarName I S V U).DDVariableTypes i
      = if i = d then { cat.DDVariableTypes d with Next := cat.NumVariablesForOutput + 1 }
        else if i = cat.NumVariablesForOutput + 1 then
          { IndexType := I, StoreType := S, VariableType := V, Next := 0, VarNameOnly := VarName,
            UnitsString := U }
        else cat.DDVariableTypes i := by
    intro i
    simp only [OutputVariableList.addLinked, add_NumVariablesForOutput]
    by_cases hi : i = d
    · subst hi
      rw [Function.update_same, if_pos rfl, add_old cat VarName U I S V i (by omega)]
    · rw [Function.update_noteq hi, if_neg hi]
      by_cases hi2 : i = cat.NumVariablesForOutput + 1
      · rw [if_pos hi2, hi2, add_new]
      · rw [if_neg hi2, add_old cat VarName U I S V i hi2]
  have hnames : ∀ j, j ≤ cat.NumVariablesForOutput →
      (cat.addLinked d VarName I S V U).names j = cat.names j := fun j hj => by
    simp only [OutputVariableList.names]
    rw [hDD j]
    by_cases hi : j = d
    · rw [if_pos hi, hi]
    · rw [if_neg hi, if_neg (by omega)]
  have hunits : ∀ j, j ≤ cat.NumVariablesForOutput →
      (cat.addLinked d VarName I S V U).units j = cat.units j := fun j hj => by
    simp only [OutputVariableList.units]
    rw [hDD j]
    by_cases hi : j = d
    · rw [if_pos hi, hi]
    · rw [if_neg hi, if_neg (by omega)]
  have hnameN : (cat.addLinked d VarName I S V U).names (cat.NumVariablesForOutput + 1)
      = VarName := by
    simp only [OutputVariableList.names]
    rw [hDD, if_neg (by omega), if_pos rfl]
  have hunitsN : (cat.addLinked d VarName I S V U).units (cat.NumVariablesForOutput + 1)
      = U := by
    simp only [OutputVariableList.units]
    rw [hDD, if_neg (by omega), if_pos rfl]
  have hnextd : ((cat.addLinked d VarName I S V U).DDVariableTypes d).Next
      = cat.NumVariablesForOutput + 1 := by
    rw [hDD, if_pos rfl]
  have hnextN : ((cat.addLinked d VarName I S V U).DDVariableTypes
      (cat.NumVariablesForOutput + 1)).Next = 0 := by
    rw [hDD, if_neg (by omega), if_pos rfl]
  have hnext : ∀ i, i ≤ cat.NumVariablesForOutput → i ≠ d →
      ((cat.addLinked d VarName I S V U).DDVariableTypes i).Next
        = (cat.DDVariableTypes i).Next := fun i h1 h2 => by
    rw [hDD, if_neg h2, if_neg (by omega)]
  have hmono : ∀ a b, cat.reaches a b → (cat.addLinked d VarName I S V U).reaches a b := by
    intro a b hab
    refine Relation.ReflTransGen.mono (fun x y hxy => ?_) hab
    obtain ⟨e1, e2, e3, e4⟩ := hxy
    have hxd : x ≠ d := by
      rintro rfl
      rw [hend] at e3
      exact e4 e3.symm
    exact ⟨e1, by rw [hN]; omega, by rw [hnext x e2 hxd]; exact e3, e4⟩
  have hVd : sameFstring VarName (cat.names d) = true := by
    rw [sameFstring_iff] at p3 d3 ⊢
    rw [d3, p3]
  constructor
  · intro i h1 h2
    rw [hN] at h2 ⊢
    by_cases hid : i = d
    · right
      rw [hid, hnextd, hnameN, hnames d d2]
      exact ⟨by omega, le_refl _, hVd⟩
    · by_cases hi : i = cat.NumVariablesForOutput + 1
      · left
        rw [hi, hnextN]
      · rw [hnext i (by omega) hid]
        rcases hw.next i h1 (by omega) with h0 | ⟨k1, k2, k3⟩
        · exact Or.inl h0
        · right
          refine ⟨k1, by omega, ?_⟩
          rw [hnames _ k2, hnames _ (by omega)]
          exact k3
  · intro i j h1 h2 h3
    rw [hN] at h3
    by_cases hj : j = cat.NumVariablesForOutput + 1
    · rintro ⟨a, b⟩
      rw [hj, hnameN, hnames i (by omega)] at a
      rw [hj, hunitsN, hunits i (by omega)] at b
      have a2 : sameFstring VarName (cat.names i) = true := by
        rw [sameFstring_iff] at a ⊢
        exact a.symm
      have b2 : sameFstring U (cat.units i) = true := by
        rw [sameFstring_iff] at b ⊢
        exact b.symm
      have hfirst : FindItemInList (cat.names i) cat.names cat.NumVariablesForOutput
          = FindItemInList VarName cat.names cat.NumVariablesForOutput :=
        FindItemInList_congr _ _ _ _ _ _ a2 hdup (le_refl _) (fun _ _ _ => rfl)
      have hri := hw.chained i h1 (by omega)
      rw [hfirst] at hri
      by_cases hie : i = FindItemInList VarName cat.names cat.NumVariablesForOutput
      · rw [← hie, b2] at hU
        cases hU
      · rw [hall i hri hie] at b2
        cases b2
    · rw [hnames i (by omega), hnames j (by omega), hunits i (by omega), hunits j (by omega)]
      exact hw.unique i j h1 h2 (by omega)
  · intro j h1 h2
    rw [hN] at h2 ⊢
    by_cases hj : j = cat.NumVariablesForOutput + 1
    · have e : FindItemInList ((cat.addLinked d VarName I S V U).names j)
          (cat.addLinked d VarName I S V U).names (cat.NumVariablesForOutput + 1)
          = FindItemInList VarName cat.names cat.NumVariablesForOutput :=
        FindItemInList_congr _ _ _ _ _ _ (by rw [hj, hnameN]; exact sameFstring_refl _) hdup
          (by omega) (fun k _ k2 => hnames k k2)
      rw [e, hj]
      exact Relation.ReflTransGen.tail (hmono _ _ hreach)
        ⟨hd1, by rw [hN]; omega, hnextd, by omega⟩
    · have hj2 : j ≤ cat.NumVariablesForOutput := by omega
      have e : FindItemInList ((cat.addLinked d VarName I S V U).names j)
          (cat.addLinked d VarName I S V U).names (cat.NumVariablesForOutput + 1)
          = FindItemInList (cat.names j) cat.names cat.NumVariablesForOutput :=
        FindItemInList_congr _ _ _ _ _ _ (by rw [hnames j hj2]; exact sameFstring_refl _)
          (FindItemInList_pos_of_mem _ _ j h1 hj2 _ (sameFstring_refl _)) (by omega)
          (fun k _ k2 => hnames k k2)
      rw [e]
      exact hmono _ _ (hw.chained j h1 hj2)

/-- AddToOutputVariableList on a catalog that is unique and linked returns (the fuel of the
while loop suffices) a catalog that is unique and linked. -/
theorem AddToOutputVariableList_wellLinked (cat : OutputVariableList) (VarName U : String)
    (I S V : Nat) (hw : cat.wellLinked) :
    ∃ cat1, AddToOutputVariableList VarName I S V U cat = some cat1 ∧ cat1.wellLinked := by
  unfold AddToOutputVariableList
  by_cases hN : cat.NumVariablesForOutput > 0
  · simp only [if_pos hN]
    by_cases hdup : FindItemInList VarName (fun i => (cat.DDVariableTypes i).VarNameOnly)
        cat.NumVariablesForOutput = 0
    · rw [if_pos hdup]
      refine ⟨_, rfl, add_wellLinked cat VarName U I S V hw (fun j h1 h2 => ?_)⟩
      have := (FindItemInList_eq_zero_iff _ _ _).1 hdup
      by_contra hc
      exact this ⟨j, h1, h2, by simpa using hc⟩
    · rw [if_neg hdup]
      by_cases hu : sameFstring U (cat.DDVariableTypes (FindItemInList VarName
          (fun i => (cat.DDVariableTypes i).VarNameOnly) cat.NumVariablesForOutput)).UnitsString
          = true
      · simp only [hu, Bool.not_true, Bool.false_eq_true, if_false]
        exact ⟨_, rfl, hw⟩
      · simp only [hu, Bool.not_false, if_true]
        have hpos : 1 ≤ FindItemInList VarName cat.names cat.NumVariablesForOutput :=
          Nat.one_le_iff_ne_zero.2 hdup
        rcases (FindItemInList_char VarName cat.names cat.NumVariablesForOutput _).1 rfl with
          ⟨e, _⟩ | ⟨p1, p2, _, _⟩
        · omega
        obtain ⟨d, d2, r1, r2, r3⟩ := findUnitsInChain_spec U cat hw.next
          cat.NumVariablesForOutput _ p1 p2 (by omega)
        have r1b : findUnitsInChain U cat.DDVariableTypes cat.NumVariablesForOutput
            (FindItemInList VarName (fun i => (cat.DDVariableTypes i).VarNameOnly)
              cat.NumVariablesForOutput) = some (d, d2) := r1
        rw [r1b]
        by_cases hd2 : d2 = 0
        · simp only [hd2, if_true]
          exact ⟨_, rfl, addLinked_wellLinked cat VarName U I S V d hw hpos
            (by simpa [OutputVariableList.units, OutputVariableList.names] using hu) r2
            (r3 hd2).1 (r3 hd2).2⟩
        · simp only [hd2, if_false]
          exact ⟨_, rfl, hw⟩
  · simp only [if_neg hN, if_true]
    exact ⟨_, rfl, add_wellLinked cat VarName U I S V hw (fun j h1 h2 => by omega)⟩

/-- A call whose name and units are those of an entry of a unique and linked catalog returns
the catalog as it is. -/
theorem AddToOutputVariableList_present (cat : OutputVariableList) (VarName U : String)
    (I S V : Nat) (hw : cat.wellLinked) (j : Nat) (h1 : 1 ≤ j)
    (h2 : j ≤ cat.NumVariablesForOutput)
    (hname : sameFstring VarName (cat.names j) = true)
    (hunits : sameFstring U (cat.units j) = true) :
    AddToOutputVariableList VarName I S V U cat = some cat := by
  have hpos : 1 ≤ FindItemInList VarName cat.names cat.NumVariablesForOutput :=
    FindItemInList_pos_of_mem _ _ j h1 h2 _ hname
  have hfirst : FindItemInList (cat.names j) cat.names cat.NumVariablesForOutput
      = FindItemInList VarName cat.names cat.NumVariablesForOutput :=
    FindItemInList_congr _ _ _ _ _ _ hname hpos (le_refl _) (fun _ _ _ => rfl)
  have hrj := hw.chained j h1 h2
  rw [hfirst] at hrj
  unfold AddToOutputVariableList
  have hN : cat.NumVariablesForOutput > 0 := by omega
  have hdup : ¬ FindItemInList VarName (fun i => (cat.DDVariableTypes i).VarNameOnly)
      cat.NumVariablesForOutput = 0 := by
    have : 1 ≤ FindItemInList VarName (fun i => (cat.DDVariableTypes i).VarNameOnly)
      cat.NumVariablesForOutput := hpos
    omega
  simp only [if_pos hN, if_neg hdup]
  by_cases hu : sameFstring U (cat.DDVariableTypes (FindItemInList VarName
      (fun i => (cat.DDVariableTypes i).VarNameOnly) cat.NumVariablesForOutput)).UnitsString
      = true
  · simp only [hu, Bool.not_true, Bool.false_eq_true, if_false]
  · simp only [hu, Bool.not_false, if_true]
    rcases (FindItemInList_char VarName cat.names cat.NumVariablesForOutput _).1 rfl with
      ⟨e, _⟩ | ⟨p1, p2, _, _⟩
    · omega
    obtain ⟨d, d2, r1, r2, r3⟩ := findUnitsInChain_spec U cat hw.next
      cat.NumVariablesForOutput _ p1 p2 (by omega)
    have r1b : findUnitsInChain U cat.DDVariableTypes cat.NumVariablesForOutput
        (FindItemInList VarName (fun i => (cat.DDVariableTypes i).VarNameOnly)
          cat.NumVariablesForOutput) = some (d, d2) := r1
    rw [r1b]
    by_cases hd2 : d2 = 0
    · exfalso
      by_cases hje : j = FindItemInList VarName cat.names cat.NumVariablesForOutput
      · apply hu
        have : sameFstring U (cat.units (FindItemInList VarName cat.names
            cat.NumVariablesForOutput)) = true := by rw [← hje]; exact hunits
        exact this
      · rw [(r3 hd2).2 j hrj hje] at hunits
        cases hunits
    · simp only [hd2, if_false]

theorem wellLinked_of_empty (cat : OutputVariableList) (h : cat.NumVariablesForOutput = 0) :
    cat.wellLinked :=
  ⟨fun i h1 h2 => by omega, fun i j h1 h2 h3 => by omega, fun j h1 h2 => by omega⟩

theorem AddToOutputVariableList_calls_wellLinked (calls : List CatalogCall) :
    ∀ cat : OutputVariableList, cat.wellLinked →
      ∃ cat1, AddToOutputVariableList_calls calls cat = some cat1 ∧ cat1.wellLinked := by
  induction calls with
  | nil => intro cat hw; exact ⟨cat, rfl, hw⟩
  | cons c rest ih =>
    intro cat hw
    obtain ⟨cat1, e1, hw1⟩ := AddToOutputVariableList_wellLinked cat c.VarName c.UnitsString
      c.IndexType c.StateType c.VariableType hw
    obtain ⟨cat2, e2, hw2⟩ := ih cat1 hw1
    exact ⟨cat2, by simp only [AddToOutputVariableList_calls, e1, e2], hw2⟩

/-- C33. Every sequence of AddToOutputVariableList calls on a catalog that starts empty runs
to its end (the while loop never exhausts its fuel) and leaves a catalog in which no two
entries agree in name and units, every entry is reached through Next pointers from the first
entry with its name (the one FindItemInList finds), and on which a further call whose name and
units are those of an entry returns the catalog as it is. -/
theorem AddToOutputVariableList_unique_and_linked (cat0 : OutputVariableList)
    (h0 : cat0.NumVariablesForOutput = 0) (calls : List CatalogCall) :
    ∃ cat, AddToOutputVariableList_calls calls cat0 = some cat ∧
      (∀ i j, 1 ≤ i → i < j → j ≤ cat.NumVariablesForOutput →
        ¬ (sameFstring (cat.names i) (cat.names j) = true ∧
            sameFstring (cat.units i) (cat.units j) = true)) ∧
      (∀ j, 1 ≤ j → j ≤ cat.NumVariablesForOutput →
        cat.reaches (FindItemInList (cat.names j) cat.names cat.NumVariablesForOutput) j) ∧
      (∀ i, 1 ≤ i → i ≤ cat.NumVariablesForOutput → (cat.DDVariableTypes i).Next ≠ 0 →
        i < (cat.DDVariableTypes i).Next ∧
        (cat.DDVariableTypes i).Next ≤ cat.NumVariablesForOutput ∧
        sameFstring (cat.names (cat.DDVariableTypes i).Next) (cat.names i) = true) ∧
      (∀ (VarName UnitsString : String) (IndexType StateType VariableType j : Nat),
        1 ≤ j → j ≤ cat.NumVariablesForOutput →
        sameFstring VarName (cat.names j) = true →
        sameFstring UnitsString (cat.units j) = true →
        AddToOutputVariableList VarName IndexType StateType VariableType UnitsString cat
          = some cat) := by
  obtain ⟨cat, e, hw⟩ := AddToOutputVariableList_calls_wellLinked calls cat0
    (wellLinked_of_empty cat0 h0)
  refine ⟨cat, e, hw.unique, hw.chained, fun i h1 h2 h3 => ?_,
    fun VarName U I S V j h1 h2 hn hu =>
      AddToOutputVariableList_present cat VarName U I S V hw j h1 h2 hn hu⟩
  rcases hw.next i h1 h2 with h | h
  · exact absurd h h3
  · exact h

theorem AddToOutputVariableList_unique_and_linked_sample :
    noOutputVariables.catalog.NumVariablesForOutput = 0 ∧
    ∃ cat, AddToOutputVariableList_calls sampleCatalogCalls noOutputVariables.catalog
        = some cat ∧
      (∀ i j, 1 ≤ i → i < j → j ≤ cat.NumVariablesForOutput →
        ¬ (sameFstring (cat.names i) (cat.names j) = true ∧
            sameFstring (cat.units i) (cat.units j) = true)) :=
  ⟨rfl,
    (AddToOutputVariableList_unique_and_linked noOutputVariables.catalog rfl
      sampleCatalogCalls).imp (fun _ h => ⟨h.1, h.2.1⟩)⟩

/-! ## The Report flag of a call without ReportFreq -/

theorem CheckReportVariable_no_requests (K V : String) (st : ReportRequests)
    (h : st.NumOfReqVariables = 0) : CheckReportVariable K V st = some st := by
  unfold CheckReportVariable
  rw [if_neg (by omega)]

/-- With no request at all, a call without ReportFreq works with the ReportList the previous
call left behind, unless that list is empty. -/
theorem reportListFor_no_requests (K V : String) (st : ReportRequests)
    (h : st.NumOfReqVariables = 0) :
    reportListFor K V none st
      = some (if st.NumExtraVars = 0 then { st with ReportList := [-1] } else st) := by
  unfold reportListFor
  rw [CheckReportVariable_no_requests K V st h]

set_option maxHeartbeats 4000000 in
/-- C34 fails in the code. With no report request at all, CheckReportVariable leaves
ReportList alone, so the entry 0 that a call with ReportFreq stored there is still the list of
the next call: a later call without ReportFreq, for another variable, creates a descriptor
with Report set. The real SetupOutputVariable gives it the frequency its local RepFreq holds
unassigned; the integer SetupOutputVariable, which assigns ReportHourly in that case, gives it
the Hourly frequency. Without the earlier call the same call creates an unreported
descriptor. -/
theorem SetupOutputVariable_reports_from_stale_list (u : Int) :
    (stateAfter (setupWithUnassigned u) [debugCall, laterCall]
      noOutputVariables).requests.NumOfReqVariables = 0 ∧
    laterCall.ReportFreq = none ∧
    (stateAfter (setupWithUnassigned u) [debugCall, laterCall] noOutputVariables).NumOfRVariable
      = 2 ∧
    ((stateAfter (setupWithUnassigned u) [debugCall, laterCall]
      noOutputVariables).RVariableTypes 2).VarName = "ZONE ONE:Other Thing" ∧
    ((stateAfter (setupWithUnassigned u) [debugCall, laterCall]
      noOutputVariables).RVariableTypes 2).VarPtr.Report = true ∧
    ((stateAfter (setupWithUnassigned u) [debugCall, laterCall]
      noOutputVariables).RVariableTypes 2).VarPtr.ReportFreq = u ∧
    ((stateAfter (setupWithUnassigned u) [laterCall]
      noOutputVariables).RVariableTypes 1).VarPtr.Report = false ∧
    (SetupOutputVariable_Integer (setupWithUnassigned u) laterCall
      (stateAfter (setupWithUnassigned u) [debugCall] noOutputVariables)).map
        (fun e => ((e.state.IVariableTypes 1).VarPtr.Report,
          (e.state.IVariableTypes 1).VarPtr.ReportFreq)) = some (true, ReportHourly) :=
  ⟨rfl, rfl, rfl, rfl, rfl, rfl, rfl, rfl⟩
theorem attachOnFirstPass_spec (c : SetupOutputVariableCall) (Loop CV VariableType : Nat)
    (UnitsString : String) (st : OutputVariableTables) (p : Nat) (st1 : OutputVariableTables)
    (h : attachOnFirstPass c Loop CV VariableType UnitsString st = Except.ok (p, st1)) :
    p = (if Loop = 1 ∧ c.OnMeter = true ∧ VariableType ≠ AveragedVar then
          st.meters.NumVarMeterArrays + 1 else 0) ∧
    st1.RVariableTypes = st.RVariableTypes ∧ st1.NumOfRVariable = st.NumOfRVariable ∧
    st.ReportNumberCounter ≤ st1.ReportNumberCounter ∧
    st1.IVariableTypes = st.IVariableTypes ∧ st1.NumOfIVariable = st.NumOfIVariable ∧
    st1.requests = st.requests := by
  unfold attachOnFirstPass at h
  by_cases h1 : Loop = 1 ∧ c.OnMeter = true
  · rw [if_pos h1] at h
    by_cases h2 : VariableType = AveragedVar
    · rw [if_pos h2] at h
      cases h
      refine ⟨?_, rfl, rfl, le_refl _, rfl, rfl, rfl⟩
      rw [if_neg (fun hx => hx.2.2 h2)]
    · rw [if_neg h2] at h
      split at h
      · cases h
      · rename_i r hr
        cases h
        have hp : r.MeterArrayPtr = st.meters.NumVarMeterArrays + 1 := by
          unfold AttachMeters at hr
          split at hr
          · cases hr
          · cases hr
            rfl
        refine ⟨?_, rfl, rfl, Nat.le_add_right _ _, rfl, rfl, rfl⟩
        rw [if_pos ⟨h1.1, h1.2, h2⟩]
        exact hp
  · rw [if_neg h1] at h
    cases h
    refine ⟨?_, rfl, rfl, le_refl _, rfl, rfl, rfl⟩
    rw [if_neg (fun hx => h1 ⟨hx.1, hx.2.1⟩)]

theorem SetupOutputVariable_pass_descriptors (c : SetupOutputVariableCall)
    (VarName UnitsString : String) (RepFreq : Int) (T : Bool) (pass : Nat × Int)
    (st st1 : OutputVariableTables)
    (h : SetupOutputVariable_pass c VarName UnitsString RepFreq T pass st
      = some (Ending.returns st1)) :
    (∀ i, i ≤ st.NumOfRVariable → st1.RVariableTypes i = st.RVariableTypes i) ∧
    st1.IVariableTypes = st.IVariableTypes ∧ st1.NumOfIVariable = st.NumOfIVariable ∧
    st1.requests = st.requests ∧
    st.ReportNumberCounter ≤ st1.ReportNumberCounter ∧
    ((st1.NumOfRVariable = st.NumOfRVariable ∧ st1.ReportNumberCounter = st.ReportNumberCounter ∧
        c.OnMeter = false) ∨
      (st1.NumOfRVariable = st.NumOfRVariable + 1 ∧
        st.ReportNumberCounter + 1 ≤ st1.ReportNumberCounter ∧
        (st1.RVariableTypes (st.NumOfRVariable + 1)).VarPtr.ReportID
          = st.ReportNumberCounter + 1 ∧
        (st1.RVariableTypes (st.NumOfRVariable + 1)).ReportID = st.ReportNumberCounter + 1 ∧
        (st1.RVariableTypes (st.NumOfRVariable + 1)).VarPtr.Report
          = (reportSetting st.requests RepFreq pass.2).1 ∧
        (st1.RVariableTypes (st.NumOfRVariable + 1)).VarPtr.MeterArrayPtr
          = (if pass.1 = 1 ∧ c.OnMeter = true ∧
                ValidateVariableType c.VariableTypeKey ≠ AveragedVar then
              st.meters.NumVarMeterArrays + 1 else 0))) := by
  unfold SetupOutputVariable_pass at h
  simp only at h
  split at h
  · cases h
  · rename_i IndexType hI
    split at h
    · cases h
    · rename_i cat hcat
      split at h
      · simp only [Option.some.injEq, Ending.returns.injEq] at h
        subst h
        rename_i hskip
        refine ⟨fun i _ => ?_, ?_, ?_, ?_, ?_, Or.inl ⟨?_, ?_, ?_⟩⟩
        any_goals (split_ifs <;> rfl)
        cases hm : c.OnMeter
        · rfl
        · simp [hm] at hskip
      · split at h
        · cases h
        · rename_i p st2 hatt
          obtain ⟨hp, a1, a2, a3, a4, a5, a6⟩ := attachOnFirstPass_spec _ _ _ _ _ _ _ _ hatt
          simp only [Option.some.injEq, Ending.returns.injEq] at h
          subst h
          have e1 : st2.RVariableTypes = st.RVariableTypes := by
            rw [a1]; split_ifs <;> rfl
          have e2 : st2.NumOfRVariable = st.NumOfRVariable + 1 := by
            rw [a2]; split_ifs <;> rfl
          have e3 : st.ReportNumberCounter + 1 ≤ st2.ReportNumberCounter := by
            refine le_trans ?_ a3
            split_ifs <;> exact le_refl _
          have e4 : st2.IVariableTypes = st.IVariableTypes := by
            rw [a4]; split_ifs <;> rfl
          have e5 : st2.NumOfIVariable = st.NumOfIVariable := by
            rw [a5]; split_ifs <;> rfl
          have e6 : st2.requests = st.requests := by
            rw [a6]; split_ifs <;> rfl
          have eN : (if pass.1 = 1 then
              { st with NumOfRVariable_Setup := st.NumOfRVariable_Setup + 1 } else st).NumOfRVariable
              = st.NumOfRVariable := by split_ifs <;> rfl
          have eC : (if pass.1 = 1 then
              { st with NumOfRVariable_Setup := st.NumOfRVariable_Setup + 1 }
                else st).ReportNumberCounter
              = st.ReportNumberCounter := by split_ifs <;> rfl
          have eM : (if pass.1 = 1 then
              { st with NumOfRVariable_Setup := st.NumOfRVariable_Setup + 1 } else st).meters
              = st.meters := by split_ifs <;> rfl
          have eR : (if pass.1 = 1 then
              { st with NumOfRVariable_Setup := st.NumOfRVariable_Setup + 1 } else st).requests
              = st.requests := by split_ifs <;> rfl
          dsimp only at hp
          rw [eM] at hp
          dsimp only
          rw [eN, eC]
          refine ⟨fun i hi => ?_, e4, e5, e6, by omega, Or.inr ⟨e2, e3, ?_, ?_, ?_, ?_⟩⟩
          · rw [Function.update_noteq (by omega), e1]
          · rw [Function.update_same]
          · rw [Function.update_same]
          · rw [Function.update_same, e6]
          · rw [Function.update_same]
            exact hp

theorem forEachEnding_cons_returns {α σ : Type} (body : α → σ → Option (Ending σ)) (a : α)
    (l : List α) (st st1 : σ)
    (h : forEachEnding body (a :: l) st = some (Ending.returns st1)) :
    ∃ st2, body a st = some (Ending.returns st2) ∧
      forEachEnding body l st2 = some (Ending.returns st1) := by
  unfold forEachEnding at h
  split at h
  · rename_i st2 hb
    exact ⟨st2, hb, h⟩
  · rename_i hne
    exact absurd h (hne st1)

theorem SetupOutputVariable_passes_descriptors (c : SetupOutputVariableCall)
    (VarName UnitsString : String) (RepFreq : Int) (T : Bool) :
    ∀ (l : List Int) (k : Nat) (st st1 : OutputVariableTables), 1 ≤ k →
      forEachEnding (SetupOutputVariable_pass c VarName UnitsString RepFreq T)
        ((List.range' k l.length).zip l) st = some (Ending.returns st1) →
      st.NumOfRVariable ≤ st1.NumOfRVariable ∧
      (∀ i, i ≤ st.NumOfRVariable → st1.RVariableTypes i = st.RVariableTypes i) ∧
      (∀ i, st.NumOfRVariable + 1 < i → i ≤ st1.NumOfRVariable →
        (st1.RVariableTypes i).VarPtr.MeterArrayPtr = 0) ∧
      (st.NumOfRVariable + 1 ≤ st1.NumOfRVariable →
        (st1.RVariableTypes (st.NumOfRVariable + 1)).VarPtr.MeterArrayPtr
          = (if k = 1 ∧ c.OnMeter = true ∧
                ValidateVariableType c.VariableTypeKey ≠ AveragedVar then
              st.meters.NumVarMeterArrays + 1 else 0)) := by
  intro l
  induction l with
  | nil =>
    intro k st st1 _ h
    simp only [List.length_nil, List.range'_zero, List.zip_nil_left, forEachEnding,
      Option.some.injEq, Ending.returns.injEq] at h
    subst h
    exact ⟨le_refl _, fun _ _ => rfl, fun i h1 h2 => by omega, fun h => by omega⟩
  | cons a l ih =>
    intro k st st1 hk h
    have hz : (List.range' k (a :: l).length).zip (a :: l)
        = (k, a) :: (List.range' (k + 1) l.length).zip l := by
      simp [List.range'_succ]
    rw [hz] at h
    obtain ⟨st2, hb, hrest⟩ := forEachEnding_cons_returns _ _ _ _ _ h
    obtain ⟨p1, _, _, _, _, p6⟩ := SetupOutputVariable_pass_descriptors _ _ _ _ _ _ _ _ hb
    obtain ⟨i1, i2, i3, i4⟩ := ih (k + 1) st2 st1 (by omega) hrest
    rcases p6 with ⟨q1, _, q3⟩ | ⟨q1, _, _, _, _, q6⟩
    · rw [q1] at i1 i2 i3 i4
      refine ⟨i1, fun i hi => by rw [i2 i hi, p1 i hi], i3, fun hN => ?_⟩
      rw [i4 hN, if_neg (fun hx => absurd hx.1 (by omega)),
        if_neg (fun hx => by rw [q3] at hx; exact absurd hx.2.1 (by simp))]
    · rw [q1] at i1 i2 i3 i4
      refine ⟨by omega, fun i hi => by rw [i2 i (by omega), p1 i hi], fun i h1 h2 => ?_,
        fun _ => ?_⟩
      · by_cases hi : i = st.NumOfRVariable + 1 + 1
        · rw [hi, i4 (by omega), if_neg (fun hx => absurd hx.1 (by omega))]
        · exact i3 i (by omega) h2
      · rw [i2 _ (le_refl _)]
        exact q6
theorem SetupOutputVariable_descriptors (env : SetupEnvironment) (c : SetupOutputVariableCall)
    (st st1 : OutputVariableTables)
    (h : SetupOutputVariable env c st = some (Ending.returns st1)) :
    st.NumOfRVariable ≤ st1.NumOfRVariable ∧
    (∀ i, i ≤ st.NumOfRVariable → st1.RVariableTypes i = st.RVariableTypes i) ∧
    (∀ i, st.NumOfRVariable + 1 < i → i ≤ st1.NumOfRVariable →
      (st1.RVariableTypes i).VarPtr.MeterArrayPtr = 0) ∧
    (st.NumOfRVariable + 1 ≤ st1.NumOfRVariable →
      (st1.RVariableTypes (st.NumOfRVariable + 1)).VarPtr.MeterArrayPtr
        = (if c.OnMeter = true ∧ ValidateVariableType c.VariableTypeKey ≠ AveragedVar then
            st.meters.NumVarMeterArrays + 1 else 0)) := by
  unfold SetupOutputVariable at h
  simp only at h
  split at h
  · cases h
  · split at h
    · cases h
    · rename_i requests _
      have hN : ({ (if (!st.OutputInitialized) = true then InitializeOutput st else st) with
          requests := requests } : OutputVariableTables).NumOfRVariable = st.NumOfRVariable := by
        split_ifs <;> rfl
      have hR : ({ (if (!st.OutputInitialized) = true then InitializeOutput st else st) with
          requests := requests } : OutputVariableTables).RVariableTypes = st.RVariableTypes := by
        split_ifs <;> rfl
      have hM : ({ (if (!st.OutputInitialized) = true then InitializeOutput st else st) with
          requests := requests } : OutputVariableTables).meters = st.meters := by
        split_ifs <;> rfl
      obtain ⟨a1, a2, a3, a4⟩ := SetupOutputVariable_passes_descriptors _ _ _ _ _ _ 1 _ _
        (le_refl _) h
      rw [hN] at a1 a2 a3 a4
      rw [hR] at a2
      rw [hM] at a4
      refine ⟨a1, a2, a3, fun hx => ?_⟩
      rw [a4 hx]
      simp
theorem TimeStepBlock_RVar_meters_unattached (A : Nat → MeterArrayType) (v : RealVariables)
    (mv : Nat → ℚ) (h : v.MeterArrayPtr = 0) : TimeStepBlock_RVar_meters A v mv = mv := by
  unfold TimeStepBlock_RVar_meters
  rw [if_neg (by rw [h]; exact fun hx => hx rfl)]

/-- C35 (as amended). Of the descriptors one returning call of the real SetupOutputVariable
creates, every one after the first has MeterArrayPtr = 0, so whatever it has gathered the
TimeStep block adds nothing to any meter for it; the first has the new attachment record
(a MeterArrayPtr different from 0) when the call names a meter key and the variable is not
Averaged, and MeterArrayPtr = 0 otherwise. -/
theorem SetupOutputVariable_attaches_first_descriptor_only (env : SetupEnvironment)
    (c : SetupOutputVariableCall) (st st1 : OutputVariableTables)
    (h : SetupOutputVariable env c st = some (Ending.returns st1)) :
    (∀ i, st.NumOfRVariable + 1 < i → i ≤ st1.NumOfRVariable →
      (st1.RVariableTypes i).VarPtr.MeterArrayPtr = 0 ∧
      ∀ (v : RealVariables) (A : Nat → MeterArrayType) (MeterValue : Nat → ℚ),
        v.MeterArrayPtr = (st1.RVariableTypes i).VarPtr.MeterArrayPtr →
        TimeStepBlock_RVar_meters A v MeterValue = MeterValue) ∧
    (st.NumOfRVariable + 1 ≤ st1.NumOfRVariable →
      (c.OnMeter = true ∧ ValidateVariableType c.VariableTypeKey ≠ AveragedVar →
        (st1.RVariableTypes (st.NumOfRVariable + 1)).VarPtr.MeterArrayPtr
          = st.meters.NumVarMeterArrays + 1 ∧
        (st1.RVariableTypes (st.NumOfRVariable + 1)).VarPtr.MeterArrayPtr ≠ 0) ∧
      (¬ (c.OnMeter = true ∧ ValidateVariableType c.VariableTypeKey ≠ AveragedVar) →
        (st1.RVariableTypes (st.NumOfRVariable + 1)).VarPtr.MeterArrayPtr = 0)) := by
  obtain ⟨_, _, a3, a4⟩ := SetupOutputVariable_descriptors env c st st1 h
  refine ⟨fun i h1 h2 => ⟨a3 i h1 h2, fun v A mv hv => ?_⟩, fun hN => ⟨fun hc => ?_, fun hc => ?_⟩⟩
  · exact TimeStepBlock_RVar_meters_unattached A v mv (by rw [hv]; exact a3 i h1 h2)
  · rw [a4 hN, if_pos hc]
    exact ⟨rfl, Nat.succ_ne_zero _⟩
  · rw [a4 hN, if_neg hc]

theorem SetupOutputVariable_attaches_first_descriptor_only_sample :
    SetupOutputVariable sampleSetup meteredCall requestedTwice
      = some (Ending.returns (stateAfter sampleSetup [meteredCall] requestedTwice)) ∧
    (∀ i, requestedTwice.NumOfRVariable + 1 < i →
      i ≤ (stateAfter sampleSetup [meteredCall] requestedTwice).NumOfRVariable →
      ((stateAfter sampleSetup [meteredCall] requestedTwice).RVariableTypes i).VarPtr.MeterArrayPtr
        = 0 ∧
      ∀ (v : RealVariables) (A : Nat → MeterArrayType) (MeterValue : Nat → ℚ),
        v.MeterArrayPtr = ((stateAfter sampleSetup [meteredCall]
          requestedTwice).RVariableTypes i).VarPtr.MeterArrayPtr →
        TimeStepBlock_RVar_meters A v MeterValue = MeterValue) ∧
    ((stateAfter sampleSetup [meteredCall] requestedTwice).RVariableTypes
        (requestedTwice.NumOfRVariable + 1)).VarPtr.MeterArrayPtr
      = requestedTwice.meters.NumVarMeterArrays + 1 :=
  ⟨rfl,
   (SetupOutputVariable_attaches_first_descriptor_only sampleSetup meteredCall requestedTwice
      (stateAfter sampleSetup [meteredCall] requestedTwice) rfl).1,
   (((SetupOutputVariable_attaches_first_descriptor_only sampleSetup meteredCall requestedTwice
      (stateAfter sampleSetup [meteredCall] requestedTwice) rfl).2 (by decide)).1
        ⟨rfl, by decide⟩).1⟩

/-- C35 fails as stated: a call without meter keys for which two requests match creates two
descriptors, and the first of them has MeterArrayPtr = 0 like the second. -/
theorem SetupOutputVariable_unmetered_first_descriptor_counterexample :
    SetupOutputVariable sampleSetup unmeteredCall requestedTwice
      = some (Ending.returns (stateAfter sampleSetup [unmeteredCall] requestedTwice)) ∧
    requestedTwice.NumOfRVariable = 0 ∧
    (stateAfter sampleSetup [unmeteredCall] requestedTwice).NumOfRVariable = 2 ∧
    ¬ (((stateAfter sampleSetup [unmeteredCall] requestedTwice).RVariableTypes 1).VarPtr.MeterArrayPtr
        ≠ 0) :=
  ⟨rfl, rfl, rfl, fun h => h rfl⟩

/-! ## Report numbers are handed out once -/

theorem searchKeysStep_blankWithoutKeys (st : OutputVariableTables) (varType : Nat)
    (varNameUpper : String) (dd : VariableTypeForDDOutput) (r : KeyCountandType) (Loop : Nat)
    (h : r.blankWithoutKeys) :
    (searchKeysStep st varType varNameUpper dd r Loop).blankWithoutKeys := by
  unfold searchKeysStep
  by_cases hc : carriesName st varType varNameUpper Loop = true
  · rw [if_pos hc]
    dsimp only
    by_cases hd : isDuplicateKey st varType (keyPlusName st varType Loop)
        { r with Found := true, varType := varType } = true
    · rw [if_pos hd]
      intro h0
      exfalso
      have h00 : r.numKeys = 0 := h0
      simp [isDuplicateKey, h00] at hd
    · rw [if_neg hd]
      intro h0
      exact absurd h0 (Nat.succ_ne_zero _)
  · rw [if_neg hc]
    exact h

theorem foldl_searchKeysStep_blankWithoutKeys (st : OutputVariableTables) (varType : Nat)
    (varNameUpper : String) (dd : VariableTypeForDDOutput) (l : List Nat) :
    ∀ r : KeyCountandType, r.blankWithoutKeys →
      (l.foldl (searchKeysStep st varType varNameUpper dd) r).blankWithoutKeys := by
  induction l with
  | nil => intro r h; exact h
  | cons a l ih =>
    intro r h
    exact ih _ (searchKeysStep_blankWithoutKeys st varType varNameUpper dd r a h)

theorem GetVariableKeyCountandType_blankWithoutKeys (look : KeyLookups)
    (st : OutputVariableTables) (varName : String) :
    (GetVariableKeyCountandType look st varName).blankWithoutKeys := by
  have h1 : (searchDescriptors look st varName).blankWithoutKeys := by
    unfold searchDescriptors
    dsimp only
    split_ifs <;>
      first
        | exact foldl_searchKeysStep_blankWithoutKeys _ _ _ _ _ _ (fun _ => ⟨rfl, rfl, rfl, rfl⟩)
        | exact fun _ => ⟨rfl, rfl, rfl, rfl⟩
  have h2 : (searchMeters look st varName (searchDescriptors look st varName)).blankWithoutKeys := by
    unfold searchMeters
    split_ifs
    · intro h0
      cases h0
    · exact h1
    · exact h1
  unfold GetVariableKeyCountandType searchSchedules
  split_ifs
  · intro h0
    cases h0
  · exact h2
  · exact h2

/-- C37 fails in the code. The type of the name is taken from the catalog before the
descriptors are searched (line 7703) and is not set back when the search, the meters and the
schedules give no key: for a name that is in the catalog as a real variable without a
descriptor, GetVariableKeyCountandType returns numKeys = 0 and Found = false with varType =
VarType_Real, not VarType_NotFound. The rest of the claim holds: with numKeys = 0, varAvgSum
and varStepType are 0 and varUnits is blank. -/
theorem GetVariableKeyCountandType_type_without_keys :
    (GetVariableKeyCountandType (sampleLookups (fun _ => 0)) catalogOnly "ZONE THING").numKeys
      = 0 ∧
    (GetVariableKeyCountandType (sampleLookups (fun _ => 0)) catalogOnly "ZONE THING").Found
      = false ∧
    (GetVariableKeyCountandType (sampleLookups (fun _ => 0)) catalogOnly "ZONE THING").varType
      = VarType_Real ∧
    VarType_Real ≠ VarType_NotFound ∧
    catalogOnly.NumOfRVariable = 0 ∧ catalogOnly.catalog.NumVariablesForOutput = 1 ∧
    (∀ (look : KeyLookups) (st : OutputVariableTables) (varName : String),
      (GetVariableKeyCountandType look st varName).numKeys = 0 →
      (GetVariableKeyCountandType look st varName).varAvgSum = 0 ∧
      (GetVariableKeyCountandType look st varName).varStepType = 0 ∧
      (GetVariableKeyCountandType look st varName).varUnits = " ") :=
  ⟨by decide, by decide, by decide, by decide, by decide, by decide, fun look st varName h =>
    ⟨(GetVariableKeyCountandType_blankWithoutKeys look st varName h).1,
      (GetVariableKeyCountandType_blankWithoutKeys look st varName h).2.1,
      (GetVariableKeyCountandType_blankWithoutKeys look st varName h).2.2.1⟩⟩

/-! ## The literals of the end-use table in any letter case -/

theorem UPPERCase_eq_of_SameString (s k : String) (h : SameString s k = true) :
    UPPERCase s = UPPERCase k := by
  simp only [SameString, beq_iff_eq] at h
  simp only [UPPERCase, h]

set_option maxRecDepth 100000 in
set_option maxHeartbeats 4000000 in
theorem EndUseTable_literals :
    ∀ arm ∈ EndUseTable, ∀ k ∈ arm.1, k ≠ "Water System" →
      (isBlankString (UPPERCase k) = false ∧
        selectCase EndUseTable (UPPERCase k) = some arm.2) := by
  decide

theorem standardEndUse_of_literal (arm : List String × String) (ha : arm ∈ EndUseTable)
    (k : String) (hk : k ∈ arm.1) (hw : k ≠ "Water System") (s : String)
    (hs : SameString s k = true) : standardEndUse s = (arm.2, false) := by
  obtain ⟨h1, h2⟩ := EndUseTable_literals arm ha k hk hw
  unfold standardEndUse
  rw [UPPERCase_eq_of_SameString s k hs, h1, h2]
  rfl

theorem standardEndUse_of_Water_System (s : String)
    (hs : SameString s "Water System" = true) : standardEndUse s = (s, true) := by
  have h1 : isBlankString (UPPERCase "Water System") = false := by decide
  have h2 : selectCase EndUseTable (UPPERCase "Water System") = none := by decide
  unfold standardEndUse
  rw [UPPERCase_eq_of_SameString s _ hs, h1, h2]
  rfl

/-- C38 fails in the code for one literal. Every literal of the end-use table other than
"Water System", passed as EndUse in any letter case, takes its arm: EndUse becomes the standard
name of the arm and the arm "Illegal EndUse" is not taken. The literal "Water System" of the
arm WaterSystems (line 2943) is in mixed case while the SELECT CASE compares the upper-cased
end use, so in any letter case it takes the arm "Illegal EndUse": ValidateNStandardizeMeterTitles
leaves EndUse as it was and returns ErrorsFound = true. -/
theorem standardEndUse_literals_in_any_case :
    (∀ arm ∈ EndUseTable, ∀ k ∈ arm.1, k ≠ "Water System" →
      ∀ s : String, SameString s k = true → standardEndUse s = (arm.2, false)) ∧
    (["WATERSYSTEMS", "WATERSYSTEM", "Water System"], "WaterSystems") ∈ EndUseTable ∧
    (∀ s : String, SameString s "Water System" = true → standardEndUse s = (s, true)) ∧
    (∀ (s MtrUnits ResourceType EndUseSub Group : String) (ErrorsFound : Bool)
        (ZoneName : String) (reg : MeterRegistry), SameString s "Water System" = true →
      ∃ r, ValidateNStandardizeMeterTitles MtrUnits ResourceType s EndUseSub Group
          ErrorsFound ZoneName reg = Except.ok r ∧ r.EndUse = s ∧ r.ErrorsFound = true) := by
  refine ⟨standardEndUse_of_literal, by decide, standardEndUse_of_Water_System, ?_⟩
  intro s MtrUnits ResourceType EndUseSub Group ErrorsFound ZoneName reg hs
  obtain ⟨r, hr, _, _, hE, _, hL, hF, _⟩ := ValidateNStandardizeMeterTitles_run MtrUnits
    ResourceType s EndUseSub Group ErrorsFound ZoneName reg
  refine ⟨r, hr, ?_, ?_⟩
  · rw [hE, standardEndUse_of_Water_System s hs]
  · rw [hF, hL, standardEndUse_of_Water_System s hs]
    simp

/-! ## The source meter of a decrement meter precedes it -/

theorem FindItem_char (s : String) (items : Nat → String) (n f : Nat) (h1 : 1 ≤ f) (h2 : f ≤ n)
    (h3 : SameString s (items f) = true)
    (h4 : ∀ j, 1 ≤ j → j < f → SameString s (items j) = false) : FindItem s items n = f := by
  rcases FindItem_spec s items n with ⟨_, hn⟩ | ⟨a, b, c, d⟩
  · rw [hn f h1 h2] at h3
    cases h3
  · rcases Nat.lt_trichotomy (FindItem s items n) f with hlt | heq | hgt
    · rw [h4 _ a hlt] at c
      cases c
    · exact heq
    · rw [d f h1 hgt] at h3
      cases h3

/-- A name FindItem finds is found at the same position in a longer table that keeps the
items. -/
theorem FindItem_extend (s : String) (items items2 : Nat → String) (n m : Nat) (hnm : n ≤ m)
    (hitems : ∀ j, 1 ≤ j → j ≤ n → items2 j = items j) (hf : 1 ≤ FindItem s items n) :
    FindItem s items2 m = FindItem s items n := by
  rcases FindItem_spec s items n with ⟨h0, _⟩ | ⟨a, b, c, d⟩
  · omega
  · refine FindItem_char s items2 m _ a (by omega) ?_ (fun j j1 j2 => ?_)
    · rw [hitems _ a b]
      exact c
    · rw [hitems _ j1 (by omega)]
      exact d j j1 j2

theorem createCustomMeter_fresh (Decrement : Bool) (Name ResourceType UnitsVar : String)
    (st st1 : CustomMeterState) (hc : st.MeterCreated = false)
    (h : createCustomMeter Decrement Name ResourceType UnitsVar st = Except.ok st1) :
    st1.reg.NumEnergyMeters = st.reg.NumEnergyMeters + 1 ∧ st1.MeterCreated = true ∧
    (Decrement = true →
      (st1.reg.EnergyMeters (st.reg.NumEnergyMeters + 1)).Meter.TypeOfMeter
        = MeterType_CustomDec ∧
      (st1.reg.EnergyMeters (st.reg.NumEnergyMeters + 1)).Meter.SourceMeter = st.WhichMeter) ∧
    (Decrement = false →
      (st1.reg.EnergyMeters (st.reg.NumEnergyMeters + 1)).Meter.TypeOfMeter
        = MeterType_Custom) := by
  unfold createCustomMeter at h
  simp only [hc, if_false, Bool.false_eq_true] at h
  cases hadd : AddMeter Name UnitsVar BlankString BlankString BlankString BlankString
      st.reg with
  | error msg => rw [hadd] at h; simp at h
  | ok reg1 =>
    rw [hadd] at h
    simp only [Except.ok.injEq] at h
    have hreg := AddMeter_of_ok _ _ _ _ _ _ st.reg reg1 hadd
    subst hreg
    subst h
    refine ⟨rfl, rfl, fun hD => ?_, fun hD => ?_⟩
    · subst hD
      simp
    · subst hD
      simp

theorem processEntry_FieldLoopState (env : CustomMeterLookup) (Decrement : Bool)
    (Name ResourceType : String) (e : CustomMeterEntry) (s0 st st2 : CustomMeterState)
    (hJ : FieldLoopState Decrement s0 st)
    (h : processEntry env Decrement Name ResourceType e st = Except.ok st2) :
    FieldLoopState Decrement s0 st2 := by
  have same : ∀ s : CustomMeterState, s.reg = st.reg → s.MeterCreated = st.MeterCreated →
      s.WhichMeter = st.WhichMeter → FieldLoopState Decrement s0 s := by
    intro s a b c
    refine ⟨?_, ?_, ?_, ?_⟩
    · exact KeepsMeters_trans hJ.keeps (KeepsMeters_of_reg_eq a)
    · intro hm
      rw [a, c]
      exact hJ.before (by rw [← b]; exact hm)
    · rw [a]; exact hJ.atMostOne
    · rw [a]; exact hJ.created
  by_cases hcr : st.MeterCreated = true
  · obtain ⟨s1, h1, a1, a2, _⟩ := processEntry_of_created env Decrement Name ResourceType e st hcr
    rw [h1] at h
    simp only [Except.ok.injEq] at h
    subst h
    refine ⟨KeepsMeters_trans hJ.keeps (KeepsMeters_of_reg_eq a1), fun hm => ?_, ?_, ?_⟩
    · rw [a2] at hm
      cases hm
    · rw [a1]; exact hJ.atMostOne
    · rw [a1]; exact hJ.created
  · have hcr2 : st.MeterCreated = false := by simpa using hcr
    by_cases hb : e.VarNameBlank = true
    · rw [processEntry_blank env Decrement Name ResourceType e st hb] at h
      simp only [Except.ok.injEq] at h
      subst h
      exact same _ rfl rfl rfl
    · have hb2 : e.VarNameBlank = false := by simpa using hb
      by_cases hbig : st.BigErrorsFound = true
      · rw [processEntry_skipped env Decrement Name ResourceType e st hbig] at h
        simp only [Except.ok.injEq] at h
        subst h
        exact same _ rfl rfl rfl
      · have hbig2 : st.BigErrorsFound = false := by simpa using hbig
        by_cases hf : (env.GetVariableKeyCountandType st (stripUnits e.VarName)).TypeVar
            = VarType_NotFound
        · rw [processEntry_not_found env Decrement Name ResourceType e st hb2 hbig2 hf] at h
          simp only [Except.ok.injEq] at h
          subst h
          exact same _ rfl rfl rfl
        · cases hc : createCustomMeter Decrement Name ResourceType
              (env.GetVariableKeyCountandType st (stripUnits e.VarName)).UnitsVar st with
          | error msg =>
            unfold processEntry at h
            simp only [hb2, hbig2, hf, hc, if_false, Bool.false_eq_true] at h
            cases h
          | ok s1 =>
            obtain ⟨s2, h2, hs, _⟩ := processEntry_after_creation env Decrement Name
              ResourceType e st s1 hb2 hbig2 hf hc
            rw [h2] at h
            simp only [Except.ok.injEq] at h
            subst h
            obtain ⟨f1, f2, f3, f4⟩ := createCustomMeter_fresh Decrement Name ResourceType _ st
              s1 hcr2 hc
            obtain ⟨b1, b2⟩ := hJ.before hcr2
            have hk := createCustomMeter_keeps Decrement Name ResourceType _ st s1 hc
            obtain ⟨r1, r2, _⟩ := hs
            refine ⟨KeepsMeters_trans hJ.keeps (KeepsMeters_trans hk (KeepsMeters_of_reg_eq r1)),
              fun hm => ?_, ?_, fun _ => ⟨fun hD => ?_, fun hD => ?_⟩⟩
            · rw [r2, f2] at hm
              cases hm
            · rw [r1, f1, b1]
            · rw [r1, ← b1, ← b2]
              exact f3 hD
            · rw [r1, ← b1]
              exact f4 hD

theorem fieldLoop_FieldLoopState (env : CustomMeterLookup) (Decrement : Bool)
    (Name ResourceType : String) (s0 : CustomMeterState) (entries : List CustomMeterEntry) :
    ∀ (st st1 : CustomMeterState), FieldLoopState Decrement s0 st →
      fieldLoop env Decrement Name ResourceType entries st = Except.ok st1 →
      FieldLoopState Decrement s0 st1 := by
  unfold fieldLoop
  induction entries with
  | nil =>
    intro st st1 hJ h
    simp only [forEachOrFatal, Except.ok.injEq] at h
    subst h
    exact hJ
  | cons e rest ih =>
    intro st st1 hJ h
    simp only [forEachOrFatal] at h
    cases hb : processEntry env Decrement Name ResourceType e st with
    | error msg => rw [hb] at h; simp at h
    | ok s =>
      rw [hb] at h
      exact ih s st1 (processEntry_FieldLoopState env Decrement Name ResourceType e s0 st s hJ hb) h

theorem FieldLoopState_start (Decrement : Bool) (s0 : CustomMeterState) :
    FieldLoopState Decrement s0 s0 :=
  ⟨KeepsMeters_of_reg_eq rfl, fun _ => ⟨rfl, rfl⟩, Nat.le_succ _, fun h => absurd h (lt_irrefl _)⟩

/-- One object of GetCustomMeterInput keeps the registered meters and adds at most one: a
Meter:Custom object a meter of type Custom, a Meter:CustomDecrement object a meter of type
CustomDec whose SourceMeter is the position FindItem gave for the source meter field. -/
theorem processObject_new_meter (env : CustomMeterLookup) (obj : Bool × CustomMeterObject)
    (st st1 : CustomMeterState) (h : processObject env obj st = Except.ok st1) :
    KeepsMeters st st1 ∧ st1.reg.NumEnergyMeters ≤ st.reg.NumEnergyMeters + 1 ∧
    (st.reg.NumEnergyMeters < st1.reg.NumEnergyMeters →
      (obj.1 = true →
        (st1.reg.EnergyMeters (st.reg.NumEnergyMeters + 1)).Meter.TypeOfMeter
          = MeterType_CustomDec ∧
        (st1.reg.EnergyMeters (st.reg.NumEnergyMeters + 1)).Meter.SourceMeter
          = FindItem obj.2.SourceMeterName st.reg.Names st.reg.NumEnergyMeters ∧
        FindItem obj.2.SourceMeterName st.reg.Names st.reg.NumEnergyMeters ≠ 0) ∧
      (obj.1 = false →
        (st1.reg.EnergyMeters (st.reg.NumEnergyMeters + 1)).Meter.TypeOfMeter
          = MeterType_Custom)) := by
  refine ⟨processObject_keeps env obj st st1 h, ?_⟩
  obtain ⟨D, o⟩ := obj
  cases D
  · simp only [processObject, Bool.false_eq_true, if_false] at h
    unfold processCustomMeter at h
    by_cases hv : env.VerifyName (stripUnits o.Name) st.reg = true
    · simp only [hv, if_true, Except.ok.injEq] at h
      subst h
      exact ⟨Nat.le_succ _, fun hx => absurd hx (lt_irrefl _)⟩
    · simp only [hv, if_false, Bool.false_eq_true] at h
      cases hl : fieldLoop env false (stripUnits o.Name) o.ResourceType o.entries
          (customStart st) with
      | error msg => rw [hl] at h; simp at h
      | ok s =>
        rw [hl] at h
        simp only [Except.ok.injEq] at h
        subst h
        have hJ := fieldLoop_FieldLoopState env false _ _ (customStart st) o.entries _ s
          (FieldLoopState_start false (customStart st)) hl
        have hr := (finishCustomMeter_frame s).1
        rw [hr]
        refine ⟨hJ.atMostOne, fun hx => ⟨fun hD => (by cases hD), fun _ => ?_⟩⟩
        exact (hJ.created hx).2 rfl
  · simp only [processObject, if_true] at h
    unfold processCustomDecrementMeter at h
    by_cases hv : env.VerifyName (stripUnits o.Name) st.reg = true
    · simp only [hv, if_true, Except.ok.injEq] at h
      subst h
      exact ⟨Nat.le_succ _, fun hx => absurd hx (lt_irrefl _)⟩
    · simp only [hv, if_false, Bool.false_eq_true] at h
      by_cases hw : (decrementStart o st).WhichMeter = 0
      · simp only [hw, if_true, Except.ok.injEq] at h
        subst h
        exact ⟨Nat.le_succ _, fun hx => absurd hx (lt_irrefl _)⟩
      · simp only [hw, if_false] at h
        cases hl : fieldLoop env true (decrementMeterName o) o.ResourceType o.entries
            (decrementStart o st) with
        | error msg => rw [hl] at h; simp at h
        | ok s =>
          rw [hl] at h
          simp only [Except.ok.injEq] at h
          subst h
          have hJ := fieldLoop_FieldLoopState env true _ _ (decrementStart o st) o.entries _ s
            (FieldLoopState_start true (decrementStart o st)) hl
          have hr := (finishCustomMeter_frame s).1
          show (finishCustomMeter s).reg.NumEnergyMeters ≤ _ ∧ (_ < (finishCustomMeter s).reg.NumEnergyMeters → _)
          rw [hr]
          refine ⟨hJ.atMostOne, fun hx => ⟨fun _ => ?_, fun hD => (by cases hD)⟩⟩
          obtain ⟨c1, c2⟩ := (hJ.created hx).1 rfl
          exact ⟨c1, c2, hw⟩

theorem processObject_decrementSources (env : CustomMeterLookup) (N0 : Nat)
    (names : List String) (obj : Bool × CustomMeterObject)
    (hname : obj.1 = true → obj.2.SourceMeterName ∈ names) (st st1 : CustomMeterState)
    (hN : N0 ≤ st.reg.NumEnergyMeters) (hP : decrementSources N0 names st)
    (h : processObject env obj st = Except.ok st1) :
    decrementSources N0 names st1 ∧ N0 ≤ st1.reg.NumEnergyMeters := by
  obtain ⟨hk, hle, hnew⟩ := processObject_new_meter env obj st st1 h
  have hnames : ∀ j, 1 ≤ j → j ≤ st.reg.NumEnergyMeters → st1.reg.Names j = st.reg.Names j :=
    fun j j1 j2 => by
      show (st1.reg.EnergyMeters j).Name = (st.reg.EnergyMeters j).Name
      rw [hk.2 j j1 j2]
  refine ⟨fun i h1 h2 hty => ?_, le_trans hN hk.1⟩
  by_cases hi : i ≤ st.reg.NumEnergyMeters
  · rw [hk.2 i (by omega) hi] at hty ⊢
    obtain ⟨a, b, n, hn, e⟩ := hP i h1 hi hty
    refine ⟨a, b, n, hn, ?_⟩
    rw [FindItem_extend n st.reg.Names st1.reg.Names _ _ hk.1 hnames (by rw [← e]; exact a)]
    exact e
  · have hi2 : i = st.reg.NumEnergyMeters + 1 := by omega
    have hlt : st.reg.NumEnergyMeters < st1.reg.NumEnergyMeters := by omega
    subst hi2
    cases hD : obj.1
    · have := (hnew hlt).2 hD
      rw [this] at hty
      exact absurd hty (by decide)
    · obtain ⟨_, c2, c3⟩ := (hnew hlt).1 hD
      rcases FindItem_spec obj.2.SourceMeterName st.reg.Names st.reg.NumEnergyMeters with
        ⟨h0, _⟩ | ⟨f1, f2, _, _⟩
      · exact absurd h0 c3
      · rw [c2]
        refine ⟨f1, by omega, obj.2.SourceMeterName, hname hD, ?_⟩
        exact (FindItem_extend _ st.reg.Names st1.reg.Names _ _ hk.1 hnames f1).symm

theorem forEachObject_decrementSources (env : CustomMeterLookup) (N0 : Nat)
    (names : List String) (objs : List (Bool × CustomMeterObject)) :
    (∀ obj ∈ objs, obj.1 = true → obj.2.SourceMeterName ∈ names) →
    ∀ (st st1 : CustomMeterState), N0 ≤ st.reg.NumEnergyMeters → decrementSources N0 names st →
      forEachOrFatal (processObject env) objs st = Except.ok st1 →
      decrementSources N0 names st1 ∧ N0 ≤ st1.reg.NumEnergyMeters := by
  induction objs with
  | nil =>
    intro _ st st1 hN hP h
    simp only [forEachOrFatal, Except.ok.injEq] at h
    subst h
    exact ⟨hP, hN⟩
  | cons obj rest ih =>
    intro hnames st st1 hN hP h
    simp only [forEachOrFatal] at h
    cases hb : processObject env obj st with
    | error msg => rw [hb] at h; simp at h
    | ok s =>
      rw [hb] at h
      obtain ⟨p1, p2⟩ := processObject_decrementSources env N0 names obj
        (hnames obj (List.mem_cons_self _ _)) st s hN hP hb
      exact ih (fun o ho => hnames o (List.mem_cons_of_mem _ ho)) s st1 p2 p1 h

theorem GetCustomMeterInput_decrementSources (env : CustomMeterLookup)
    (customMeters decrementMeters : List CustomMeterObject) (st st1 : CustomMeterState)
    (h : GetCustomMeterInput env customMeters decrementMeters st = Except.ok st1) :
    decrementSources st.reg.NumEnergyMeters
      (decrementMeters.map (fun obj => obj.SourceMeterName)) st1 := by
  rw [GetCustomMeterInput_eq] at h
  cases hl : forEachOrFatal (processObject env) (objectsInOrder customMeters decrementMeters)
      { st with BigErrorsFound := false } with
  | error msg => rw [hl] at h; simp at h
  | ok s =>
    rw [hl] at h
    simp only [Except.ok.injEq] at h
    subst h
    have hstart : decrementSources st.reg.NumEnergyMeters
        (decrementMeters.map (fun obj => obj.SourceMeterName))
        { st with BigErrorsFound := false } := by
      intro i h1 h2
      have h3 : i ≤ st.reg.NumEnergyMeters := h2
      omega
    refine (forEachObject_decrementSources env st.reg.NumEnergyMeters _ _ ?_
      { st with BigErrorsFound := false } s (le_refl _) hstart hl).1
    intro obj hobj hD
    simp only [objectsInOrder, List.mem_append, List.mem_map] at hobj
    rcases hobj with ⟨o, _, rfl⟩ | ⟨o, ho, rfl⟩
    · cases hD
    · exact List.mem_map_of_mem _ ho

/-! ## The object that defines a decrement meter -/

theorem createCustomMeter_name (Decrement : Bool) (Name ResourceType UnitsVar : String)
    (st st1 : CustomMeterState) (hc : st.MeterCreated = false)
    (h : createCustomMeter Decrement Name ResourceType UnitsVar st = Except.ok st1) :
    (st1.reg.EnergyMeters (st.reg.NumEnergyMeters + 1)).Name = Name := by
  unfold createCustomMeter at h
  simp only [hc, if_false, Bool.false_eq_true] at h
  cases hadd : AddMeter Name UnitsVar BlankString BlankString BlankString BlankString
      st.reg with
  | error msg => rw [hadd] at h; simp at h
  | ok reg1 =>
    rw [hadd] at h
    simp only [Except.ok.injEq] at h
    have hreg := AddMeter_of_ok _ _ _ _ _ _ st.reg reg1 hadd
    subst hreg
    subst h
    simp [newMeter]

/-- The meter an object adds in its field loop, if it adds one, is registered under the name
the field loop is run with. -/
theorem processEntry_meter_name (env : CustomMeterLookup) (Decrement : Bool)
    (Name ResourceType : String) (e : CustomMeterEntry) (s0 st st2 : CustomMeterState)
    (hJ : FieldLoopState Decrement s0 st)
    (hP : s0.reg.NumEnergyMeters < st.reg.NumEnergyMeters →
      (st.reg.EnergyMeters (s0.reg.NumEnergyMeters + 1)).Name = Name)
    (h : processEntry env Decrement Name ResourceType e st = Except.ok st2) :
    s0.reg.NumEnergyMeters < st2.reg.NumEnergyMeters →
      (st2.reg.EnergyMeters (s0.reg.NumEnergyMeters + 1)).Name = Name := by
  have same : ∀ s : CustomMeterState, s.reg = st.reg →
      s0.reg.NumEnergyMeters < s.reg.NumEnergyMeters →
      (s.reg.EnergyMeters (s0.reg.NumEnergyMeters + 1)).Name = Name := by
    intro s a hlt
    rw [a] at hlt ⊢
    exact hP hlt
  by_cases hcr : st.MeterCreated = true
  · obtain ⟨s1, h1, a1, _, _⟩ := processEntry_of_created env Decrement Name ResourceType e st hcr
    rw [h1] at h
    simp only [Except.ok.injEq] at h
    subst h
    exact same _ a1
  · have hcr2 : st.MeterCreated = false := by simpa using hcr
    by_cases hb : e.VarNameBlank = true
    · rw [processEntry_blank env Decrement Name ResourceType e st hb] at h
      simp only [Except.ok.injEq] at h
      subst h
      exact same _ rfl
    · have hb2 : e.VarNameBlank = false := by simpa using hb
      by_cases hbig : st.BigErrorsFound = true
      · rw [processEntry_skipped env Decrement Name ResourceType e st hbig] at h
        simp only [Except.ok.injEq] at h
        subst h
        exact same _ rfl
      · have hbig2 : st.BigErrorsFound = false := by simpa using hbig
        by_cases hf : (env.GetVariableKeyCountandType st (stripUnits e.VarName)).TypeVar
            = VarType_NotFound
        · rw [processEntry_not_found env Decrement Name ResourceType e st hb2 hbig2 hf] at h
          simp only [Except.ok.injEq] at h
          subst h
          exact same _ rfl
        · cases hc : createCustomMeter Decrement Name ResourceType
              (env.GetVariableKeyCountandType st (stripUnits e.VarName)).UnitsVar st with
          | error msg =>
            unfold processEntry at h
            simp only [hb2, hbig2, hf, hc, if_false, Bool.false_eq_true] at h
            cases h
          | ok s1 =>
            obtain ⟨s2, h2, hs, _⟩ := processEntry_after_creation env Decrement Name
              ResourceType e st s1 hb2 hbig2 hf hc
            rw [h2] at h
            simp only [Except.ok.injEq] at h
            subst h
            obtain ⟨b1, _⟩ := hJ.before hcr2
            obtain ⟨r1, _, _⟩ := hs
            intro _
            rw [r1, ← b1]
            exact createCustomMeter_name Decrement Name ResourceType _ st s1 hcr2 hc

theorem fieldLoop_meter_name (env : CustomMeterLookup) (Decrement : Bool)
    (Name ResourceType : String) (s0 : CustomMeterState) (entries : List CustomMeterEntry) :
    ∀ (st st1 : CustomMeterState), FieldLoopState Decrement s0 st →
      (s0.reg.NumEnergyMeters < st.reg.NumEnergyMeters →
        (st.reg.EnergyMeters (s0.reg.NumEnergyMeters + 1)).Name = Name) →
      fieldLoop env Decrement Name ResourceType entries st = Except.ok st1 →
      s0.reg.NumEnergyMeters < st1.reg.NumEnergyMeters →
        (st1.reg.EnergyMeters (s0.reg.NumEnergyMeters + 1)).Name = Name := by
  unfold fieldLoop
  induction entries with
  | nil =>
    intro st st1 _ hP h
    simp only [forEachOrFatal, Except.ok.injEq] at h
    subst h
    exact hP
  | cons e rest ih =>
    intro st st1 hJ hP h
    simp only [forEachOrFatal] at h
    cases hb : processEntry env Decrement Name ResourceType e st with
    | error msg => rw [hb] at h; simp at h
    | ok s =>
      rw [hb] at h
      exact ih s st1 (processEntry_FieldLoopState env Decrement Name ResourceType e s0 st s hJ hb)
        (processEntry_meter_name env Decrement Name ResourceType e s0 st s hJ hP hb) h

/-- The meter a Meter:CustomDecrement object adds is registered under the name the object has
when its field loop starts. -/
theorem processCustomDecrementMeter_meter_name (env : CustomMeterLookup)
    (o : CustomMeterObject) (st st1 : CustomMeterState)
    (h : processCustomDecrementMeter env o st = Except.ok st1)
    (hlt : st.reg.NumEnergyMeters < st1.reg.NumEnergyMeters) :
    (st1.reg.EnergyMeters (st.reg.NumEnergyMeters + 1)).Name = decrementMeterName o := by
  unfold processCustomDecrementMeter at h
  by_cases hv : env.VerifyName (stripUnits o.Name) st.reg = true
  · simp only [hv, if_true, Except.ok.injEq] at h
    subst h
    exact absurd hlt (lt_irrefl _)
  · simp only [hv, if_false, Bool.false_eq_true] at h
    by_cases hw : (decrementStart o st).WhichMeter = 0
    · simp only [hw, if_true, Except.ok.injEq] at h
      subst h
      exact absurd hlt (lt_irrefl _)
    · simp only [hw, if_false] at h
      cases hl : fieldLoop env true (decrementMeterName o) o.ResourceType o.entries
          (decrementStart o st) with
      | error msg => rw [hl] at h; simp at h
      | ok s =>
        rw [hl] at h
        simp only [Except.ok.injEq] at h
        subst h
        have hr := (finishCustomMeter_frame s).1
        have hlt2 : (decrementStart o st).reg.NumEnergyMeters < s.reg.NumEnergyMeters := by
          have : (finishCustomMeter s).reg.NumEnergyMeters = s.reg.NumEnergyMeters := by rw [hr]
          have hlt3 : st.reg.NumEnergyMeters < (finishCustomMeter s).reg.NumEnergyMeters := hlt
          show st.reg.NumEnergyMeters < s.reg.NumEnergyMeters
          omega
        have hn := fieldLoop_meter_name env true (decrementMeterName o) o.ResourceType
          (decrementStart o st) o.entries _ s (FieldLoopState_start true (decrementStart o st))
          (fun hx => absurd hx (lt_irrefl _)) hl hlt2
        show ((finishCustomMeter s).reg.EnergyMeters (st.reg.NumEnergyMeters + 1)).Name = _
        rw [hr]
        exact hn

/-- Every CustomDec meter added while a list of objects is processed was added by one of the
Meter:CustomDecrement objects of the list: the meter has the position after the meters
registered when that object is reached, it has the name of that object, and its SourceMeter
is the position FindItem gave for the source meter field of that object at that moment. -/
theorem forEachObject_defining_object (env : CustomMeterLookup)
    (objs : List (Bool × CustomMeterObject)) :
    ∀ (st st1 : CustomMeterState),
      forEachOrFatal (processObject env) objs st = Except.ok st1 →
      ∀ i, st.reg.NumEnergyMeters < i → i ≤ st1.reg.NumEnergyMeters →
        (st1.reg.EnergyMeters i).Meter.TypeOfMeter = MeterType_CustomDec →
        ∃ (pre post : List (Bool × CustomMeterObject)) (o : CustomMeterObject)
            (s s2 : CustomMeterState),
          objs = pre ++ (true, o) :: post ∧
          forEachOrFatal (processObject env) pre st = Except.ok s ∧
          processCustomDecrementMeter env o s = Except.ok s2 ∧
          s.reg.NumEnergyMeters + 1 = i ∧ s2.reg.NumEnergyMeters = i ∧
          (st1.reg.EnergyMeters i).Name = decrementMeterName o ∧
          (st1.reg.EnergyMeters i).Meter.SourceMeter
            = FindItem o.SourceMeterName s.reg.Names s.reg.NumEnergyMeters ∧
          KeepsMeters s st1 := by
  induction objs with
  | nil =>
    intro st st1 h i h1 h2 _
    simp only [forEachOrFatal, Except.ok.injEq] at h
    subst h
    omega
  | cons obj rest ih =>
    intro st st1 h i h1 h2 hty
    simp only [forEachOrFatal] at h
    cases hb : processObject env obj st with
    | error msg => rw [hb] at h; simp at h
    | ok sa =>
      rw [hb] at h
      have hrest := forEachOrFatal_keeps (processObject env) (processObject_keeps env) rest sa st1 h
      obtain ⟨hk, hle, hnew⟩ := processObject_new_meter env obj st sa hb
      by_cases hi : sa.reg.NumEnergyMeters < i
      · obtain ⟨pre, post, o, s, s2, e1, e2, e3, e4, e5, e6, e7, e8⟩ := ih sa st1 h i hi h2 hty
        refine ⟨obj :: pre, post, o, s, s2, by rw [e1]; rfl, ?_, e3, e4, e5, e6, e7, e8⟩
        simp only [forEachOrFatal, hb]
        exact e2
      · have hi2 : i = st.reg.NumEnergyMeters + 1 := by omega
        have hlt : st.reg.NumEnergyMeters < sa.reg.NumEnergyMeters := by omega
        have hsa : sa.reg.NumEnergyMeters = i := by omega
        have hmeter : st1.reg.EnergyMeters i = sa.reg.EnergyMeters i :=
          hrest.2 i (by omega) (by omega)
        obtain ⟨D, o⟩ := obj
        cases D
        · have := (hnew hlt).2 rfl
          rw [hmeter, hi2, this] at hty
          exact absurd hty (by decide)
        · obtain ⟨_, c2, _⟩ := (hnew hlt).1 rfl
          have hb2 : processCustomDecrementMeter env o st = Except.ok sa := by
            simpa [processObject] using hb
          refine ⟨[], rest, o, st, sa, rfl, rfl, hb2, hi2.symm, hsa, ?_, ?_,
            KeepsMeters_trans hk hrest⟩
          · rw [hmeter, hi2]
            exact processCustomDecrementMeter_meter_name env o st sa hb2 hlt
          · rw [hmeter, hi2]
            exact c2

/-- A Meter:CustomDecrement object among the objects in order stands among the
Meter:CustomDecrement objects, after all Meter:Custom objects. -/
theorem objectsInOrder_split (customMeters : List CustomMeterObject) (o : CustomMeterObject)
    (post : List (Bool × CustomMeterObject)) :
    ∀ (decrementMeters : List CustomMeterObject) (pre : List (Bool × CustomMeterObject)),
      objectsInOrder customMeters decrementMeters = pre ++ (true, o) :: post →
      ∃ (before after : List CustomMeterObject),
        decrementMeters = before ++ o :: after ∧
        pre = objectsInOrder customMeters before := by
  unfold objectsInOrder
  induction customMeters with
  | nil =>
    intro decrementMeters
    induction decrementMeters with
    | nil =>
      intro pre h
      simp at h
    | cons d ds ih =>
      intro pre h
      cases pre with
      | nil =>
        simp only [List.map_nil, List.nil_append, List.map_cons, List.cons.injEq,
          Prod.mk.injEq, true_and] at h
        exact ⟨[], ds, by rw [h.1]; rfl, rfl⟩
      | cons p pre2 =>
        simp only [List.map_nil, List.nil_append, List.map_cons, List.cons_append,
          List.cons.injEq] at h
        obtain ⟨before, after, e1, e2⟩ := ih pre2 (by simpa using h.2)
        refine ⟨d :: before, after, by rw [e1]; rfl, ?_⟩
        rw [e2, ← h.1]
        rfl
  | cons c cs ih =>
    intro decrementMeters pre h
    cases pre with
    | nil =>
      simp at h
    | cons p pre2 =>
      simp only [List.map_cons, List.cons_append, List.cons.injEq] at h
      obtain ⟨before, after, e1, e2⟩ := ih decrementMeters pre2 h.2
      refine ⟨before, after, e1, ?_⟩
      rw [e2, ← h.1]
      rfl

/-- The CustomDec meters GetCustomMeterInput adds, each with the object that defines it. -/
theorem GetCustomMeterInput_defining_object (env : CustomMeterLookup)
    (customMeters decrementMeters : List CustomMeterObject) (st st1 : CustomMeterState)
    (h : GetCustomMeterInput env customMeters decrementMeters st = Except.ok st1) (i : Nat)
    (hnew : st.reg.NumEnergyMeters < i) (hi : i ≤ st1.reg.NumEnergyMeters)
    (hty : (st1.reg.EnergyMeters i).Meter.TypeOfMeter = MeterType_CustomDec) :
    ∃ (before after : List CustomMeterObject) (obj : CustomMeterObject)
        (s0 s s2 : CustomMeterState),
      decrementMeters = before ++ obj :: after ∧
      forEachOrFatal (processCustomMeter env) customMeters { st with BigErrorsFound := false }
        = Except.ok s0 ∧
      forEachOrFatal (processCustomDecrementMeter env) before s0 = Except.ok s ∧
      processCustomDecrementMeter env obj s = Except.ok s2 ∧
      s.reg.NumEnergyMeters + 1 = i ∧ s2.reg.NumEnergyMeters = i ∧
      (st1.reg.EnergyMeters i).Name = decrementMeterName obj ∧
      (st1.reg.EnergyMeters i).Meter.SourceMeter
        = FindItem obj.SourceMeterName s.reg.Names s.reg.NumEnergyMeters ∧
      KeepsMeters s st1 := by
  rw [GetCustomMeterInput_eq] at h
  cases hl : forEachOrFatal (processObject env) (objectsInOrder customMeters decrementMeters)
      { st with BigErrorsFound := false } with
  | error msg => rw [hl] at h; simp at h
  | ok sf =>
    rw [hl] at h
    simp only [Except.ok.injEq] at h
    subst h
    obtain ⟨pre, post, o, s, s2, e1, e2, e3, e4, e5, e6, e7, e8⟩ :=
      forEachObject_defining_object env _ { st with BigErrorsFound := false } sf hl i hnew hi hty
    obtain ⟨before, after, d1, d2⟩ := objectsInOrder_split customMeters o post decrementMeters
      pre e1
    subst d2
    unfold objectsInOrder at e2
    rw [forEachOrFatal_append_eq, forEachObject_custom] at e2
    cases hc : forEachOrFatal (processCustomMeter env) customMeters
        { st with BigErrorsFound := false } with
    | error msg => rw [hc] at e2; simp at e2
    | ok s0 =>
      rw [hc] at e2
      simp only [forEachObject_decrement] at e2
      exact ⟨before, after, o, s0, s, s2, d1, rfl, e2, e3, e4, e5, e6, e7, e8⟩

/-- C40. After GetCustomMeterInput has returned, every meter of type CustomDec that it added
was added by one of the Meter:CustomDecrement objects: when the loops reached that object the
meter's position was the next free one, the object registered the meter under its name, and
the meter's SourceMeter is the position at which FindItem found the Source Meter Name field of
that object in the meter table, then and in the final table, where the meter at that position
has that name. The position is at least 1 and smaller than the meter's own; so UpdateMeters,
which goes through the meters in order, gives the decrement meter as TSValue the TSValue it
has just given the source meter, less the MeterValue of the decrement meter. -/
theorem GetCustomMeterInput_decrement_source_precedes (env : CustomMeterLookup)
    (customMeters decrementMeters : List CustomMeterObject) (st st1 : CustomMeterState)
    (h : GetCustomMeterInput env customMeters decrementMeters st = Except.ok st1) (i : Nat)
    (hnew : st.reg.NumEnergyMeters < i) (hi : i ≤ st1.reg.NumEnergyMeters)
    (hty : (st1.reg.EnergyMeters i).Meter.TypeOfMeter = MeterType_CustomDec) :
    1 ≤ (st1.reg.EnergyMeters i).Meter.SourceMeter ∧
    (st1.reg.EnergyMeters i).Meter.SourceMeter < i ∧
    (∃ (before after : List CustomMeterObject) (obj : CustomMeterObject)
        (s0 s s2 : CustomMeterState),
      decrementMeters = before ++ obj :: after ∧
      forEachOrFatal (processCustomMeter env) customMeters { st with BigErrorsFound := false }
        = Except.ok s0 ∧
      forEachOrFatal (processCustomDecrementMeter env) before s0 = Except.ok s ∧
      processCustomDecrementMeter env obj s = Except.ok s2 ∧
      s.reg.NumEnergyMeters + 1 = i ∧ s2.reg.NumEnergyMeters = i ∧
      (st1.reg.EnergyMeters i).Name = decrementMeterName obj ∧
      (st1.reg.EnergyMeters i).Meter.SourceMeter
        = FindItem obj.SourceMeterName s.reg.Names s.reg.NumEnergyMeters ∧
      (st1.reg.EnergyMeters i).Meter.SourceMeter
        = FindItem obj.SourceMeterName st1.reg.Names st1.reg.NumEnergyMeters ∧
      SameString obj.SourceMeterName
        (st1.reg.EnergyMeters (st1.reg.EnergyMeters i).Meter.SourceMeter).Name = true) ∧
    (∀ (TimeStamp : Int) (MeterValue : Nat → ℚ),
      ((UpdateMeters TimeStamp (st1.reg.toMeterState MeterValue)).EnergyMeters i).TSValue
        = ((UpdateMeters TimeStamp (st1.reg.toMeterState MeterValue)).EnergyMeters
            (st1.reg.EnergyMeters i).Meter.SourceMeter).TSValue - MeterValue i) := by
  obtain ⟨a, b, _⟩ := GetCustomMeterInput_decrementSources env customMeters
    decrementMeters st st1 h i hnew hi hty
  obtain ⟨before, after, obj, s0, s, s2, d1, d2, d3, d4, d5, d6, d7, d8, hk⟩ :=
    GetCustomMeterInput_defining_object env customMeters decrementMeters st st1 h i hnew hi hty
  have hnames : ∀ j, 1 ≤ j → j ≤ s.reg.NumEnergyMeters → st1.reg.Names j = s.reg.Names j :=
    fun j j1 j2 => by
      show (st1.reg.EnergyMeters j).Name = (s.reg.EnergyMeters j).Name
      rw [hk.2 j j1 j2]
  have hfind : FindItem obj.SourceMeterName st1.reg.Names st1.reg.NumEnergyMeters
      = FindItem obj.SourceMeterName s.reg.Names s.reg.NumEnergyMeters :=
    FindItem_extend _ s.reg.Names st1.reg.Names _ _ hk.1 hnames (by rw [← d8]; exact a)
  refine ⟨a, b, ⟨before, after, obj, s0, s, s2, d1, d2, d3, d4, d5, d6, d7, d8,
    d8.trans hfind.symm, ?_⟩, fun ts mv => ?_⟩
  · rcases FindItem_spec obj.SourceMeterName st1.reg.Names st1.reg.NumEnergyMeters with
      ⟨h0, _⟩ | ⟨_, _, f3, _⟩
    · rw [hfind, ← d8] at h0
      omega
    · rw [d8.trans hfind.symm]
      exact f3
  · exact UpdateMeters_decrement_TSValue ts (st1.reg.toMeterState mv) i (by omega) hi hty b

/-- C40 at a sample input: the custom meter Lights, then the decrement meter Less Heating
with the source meter field "lights": meter 2 is of type CustomDec and its SourceMeter is 1. -/
theorem GetCustomMeterInput_decrement_source_precedes_sample :
    GetCustomMeterInput sampleLookup [lightsCustomMeter] [heatingDecrementMeter "lights"]
        noTables
      = Except.ok (stateOf (GetCustomMeterInput sampleLookup [lightsCustomMeter]
          [heatingDecrementMeter "lights"] noTables)) ∧
    ((stateOf (GetCustomMeterInput sampleLookup [lightsCustomMeter]
      [heatingDecrementMeter "lights"] noTables)).reg.EnergyMeters 2).Meter.TypeOfMeter
        = MeterType_CustomDec ∧
    ((stateOf (GetCustomMeterInput sampleLookup [lightsCustomMeter]
      [heatingDecrementMeter "lights"] noTables)).reg.EnergyMeters 2).Meter.SourceMeter < 2 ∧
    ((stateOf (GetCustomMeterInput sampleLookup [lightsCustomMeter]
      [heatingDecrementMeter "lights"] noTables)).reg.EnergyMeters 2).Meter.SourceMeter = 1 ∧
    ((stateOf (GetCustomMeterInput sampleLookup [lightsCustomMeter]
      [heatingDecrementMeter "lights"] noTables)).reg.EnergyMeters 2).Name
        = decrementMeterName (heatingDecrementMeter "lights") :=
  ⟨rfl, rfl,
    (GetCustomMeterInput_decrement_source_precedes sampleLookup [lightsCustomMeter]
      [heatingDecrementMeter "lights"] noTables _ rfl 2 (by decide) (by decide) rfl).2.1, rfl,
    by decide⟩

/-! ## The meter a decrement object attaches its variables to -/

end OutputProcessor
